import Mathlib

/-! # d3dgl: the command path between the device, its resources and the Context Thread

A shallow embedding of `src/src/device.cpp` and `src/src/vertexshader.cpp`.

* Program state is one `World`: the device (with its `mQueue`), the heap cells
  that commands point into, and a chronological `trace` of every call that
  leaves the embedded code (driver calls, queue calls, collaborator calls),
  each recorded with its result.
* Everything the embedded code cannot decide itself is a parameter:
  `Sizes` (what `sizeof` yields for each command class) and `Platform`
  (what the driver, the window system, the shader parser and the collaborator
  classes answer).  An answer may depend on the whole trace so far.
* A function returns `none` where the C++ has no defined result: a read through
  a dead pointer, or a wait that never ends.
* Logging (`TRACE`, `WARN`, `FIXME`, `ERR`) has no effect on the state and is
  left out.  Reference counting is left out as well.
-/

namespace D3DGL

/-! ## Machine types and the constants of the platform headers -/

abbrev DWORD := Nat
abbrev UINT := Nat
abbrev ULONG := Nat
abbrev HRESULT := Nat
abbrev GLenum := Nat
abbrev GLuint := Nat
abbrev GLint := Int
abbrev HWND := Nat
abbrev HDC := Nat
abbrev HGLRC := Nat
abbrev D3DFORMAT := Nat

/-- An IEEE single is held as its bit pattern: the code only ever copies one. -/
abbrev FLOAT := Nat

def D3D_OK : HRESULT := 0
def D3DERR_INVALIDCALL : HRESULT := 0x8876086C
def E_NOTIMPL : HRESULT := 0x80004001

def D3DRS_DITHERENABLE : DWORD := 26

def D3DFMT_X8R8G8B8 : D3DFORMAT := 22
def D3DFMT_D24S8 : D3DFORMAT := 75
def D3DPRESENTFLAG_LOCKABLE_BACKBUFFER : DWORD := 1
def D3DRTYPE_SURFACE : DWORD := 1
def D3DUSAGE_DEPTHSTENCIL : DWORD := 2
def D3DPOOL_DEFAULT : DWORD := 0
def D3DOK_NOAUTOGEN : HRESULT := 0x0876086F
def D3DRTYPE_TEXTURE : DWORD := 3
def D3DUSAGE_AUTOGENMIPMAP : DWORD := 0x400
def D3DMULTISAMPLE_NONE : DWORD := 0

def GL_TRUE : Int := 1
def WGL_DRAW_TO_WINDOW_ARB : Int := 0x2001
def WGL_SUPPORT_OPENGL_ARB : Int := 0x2010
def WGL_DOUBLE_BUFFER_ARB : Int := 0x2011
def WGL_PIXEL_TYPE_ARB : Int := 0x2013
def WGL_COLOR_BITS_ARB : Int := 0x2014
def WGL_RED_BITS_ARB : Int := 0x2015
def WGL_GREEN_BITS_ARB : Int := 0x2017
def WGL_BLUE_BITS_ARB : Int := 0x2019
def WGL_DEPTH_BITS_ARB : Int := 0x2022
def WGL_STENCIL_BITS_ARB : Int := 0x2023
def WGL_TYPE_RGBA_ARB : Int := 0x202B

def GL_FALSE : GLint := 0
def GL_DITHER : GLenum := 0x0BD0
def GL_FRONT_AND_BACK : GLenum := 0x0408
def GL_AMBIENT : GLenum := 0x1200
def GL_DIFFUSE : GLenum := 0x1201
def GL_SPECULAR : GLenum := 0x1202
def GL_EMISSION : GLenum := 0x1600
def GL_SHININESS : GLenum := 0x1601
def GL_VERTEX_SHADER : GLenum := 0x8B31
def GL_LINK_STATUS : GLenum := 0x8B82
def GL_INFO_LOG_LENGTH : GLenum := 0x8B84
def GL_INVALID_INDEX : GLuint := 0xFFFFFFFF

/-! ## Data carried by the API -/

structure D3DCOLORVALUE where
  r : FLOAT
  g : FLOAT
  b : FLOAT
  a : FLOAT
deriving DecidableEq, Repr

structure D3DMATERIAL9 where
  Diffuse : D3DCOLORVALUE
  Ambient : D3DCOLORVALUE
  Specular : D3DCOLORVALUE
  Emissive : D3DCOLORVALUE
  Power : FLOAT
deriving DecidableEq, Repr

/-- A `float[4]` member. -/
structure Float4 where
  v0 : FLOAT
  v1 : FLOAT
  v2 : FLOAT
  v3 : FLOAT
deriving DecidableEq, Repr

structure MOJOSHADER_attribute where
  usage : Nat
  index : Nat
  name : String
deriving DecidableEq, Repr

structure MOJOSHADER_sampler where
  index : Nat
  name : String
deriving DecidableEq, Repr

/-- The parser's result, as far as the embedded code reads it.  The arrays are
lists, so `attribute_count` and `sampler_count` are their lengths. -/
structure MOJOSHADER_parseData where
  error_count : Int
  output : String
  token_count : Nat
  attributes : List MOJOSHADER_attribute
  samplers : List MOJOSHADER_sampler
deriving DecidableEq, Repr

structure D3DPRESENT_PARAMETERS where
  BackBufferWidth : UINT
  BackBufferHeight : UINT
  BackBufferFormat : D3DFORMAT
  BackBufferCount : UINT
  MultiSampleType : DWORD
  MultiSampleQuality : DWORD
  SwapEffect : DWORD
  hDeviceWindow : HWND
  Windowed : Bool
  EnableAutoDepthStencil : Bool
  AutoDepthStencilFormat : D3DFORMAT
  Flags : DWORD
  FullScreen_RefreshRateInHz : UINT
  PresentationInterval : UINT
deriving DecidableEq, Repr

structure D3DSURFACE_DESC where
  Format : D3DFORMAT
  Type_ : DWORD
  Usage : DWORD
  Pool : DWORD
  MultiSampleType : DWORD
  MultiSampleQuality : DWORD
  Width : UINT
  Height : UINT
deriving DecidableEq, Repr

/-- The adapter, as far as the device reads it: `getLimits().pointsize_max` and
`getUsage(type, format)`. -/
structure D3DAdapter where
  pointsize_max : FLOAT
  getUsage : DWORD → D3DFORMAT → DWORD

/-! ## Commands -/

/-- The classes derived from `Command`.  The members are the payload.
`mTarget` and `mShader` of `CompileVShaderCmd` are pointers: addresses of a
shader cell and of a parse-data cell of the `World`.  `External` stands for a
command class of a collaborator whose source is not part of `src/`. -/
inductive Command where
  | StateEnable (mState : GLenum) (mEnable : Bool)
  | MaterialSet (mShininess : FLOAT) (mDiffuse mAmbient mSpecular mEmission : Float4)
  | CompileVShaderCmd (mTarget : Nat) (mShader : Nat)
  | DeinitVShaderCmd (mProgram : GLuint)
  | External (tag : Nat)
deriving DecidableEq, Repr

/-- The constructor `StateEnable(GLenum state, bool enable)`. -/
def StateEnable.new (state : GLenum) (enable : Bool) : Command :=
  .StateEnable state enable

/-- The constructor `MaterialSet(const D3DMATERIAL9 &material)`. -/
def MaterialSet.new (material : D3DMATERIAL9) : Command :=
  .MaterialSet material.Power
    ⟨material.Diffuse.r, material.Diffuse.g, material.Diffuse.b, material.Diffuse.a⟩
    ⟨material.Ambient.r, material.Ambient.g, material.Ambient.b, material.Ambient.a⟩
    ⟨material.Specular.r, material.Specular.g, material.Specular.b, material.Specular.a⟩
    ⟨material.Emissive.r, material.Emissive.g, material.Emissive.b, material.Emissive.a⟩

/-- The constructor `CompileVShaderCmd(D3DGLVertexShader *target, const MOJOSHADER_parseData *shader)`. -/
def CompileVShaderCmd.new (target shader : Nat) : Command :=
  .CompileVShaderCmd target shader

/-- The constructor `DeinitVShaderCmd(GLuint program)`. -/
def DeinitVShaderCmd.new (program : GLuint) : Command :=
  .DeinitVShaderCmd program

/-- A method of `D3DGLSwapChain` the device forwards to, with the arguments that are
not pointers. -/
inductive SwapChainMethod where
  | GetDisplayMode
  | GetBackBuffer (backbuffer : UINT) (type : DWORD)
  | GetRasterStatus
  | Present (dstWindowOverride : HWND) (flags : DWORD)
deriving DecidableEq, Repr

/-! ## The trace -/

/-- A driver call, with its arguments and, where it has one, its result `ret`. -/
inductive GLCall where
  | glEnable (cap : GLenum)
  | glDisable (cap : GLenum)
  | glMaterialf (face pname : GLenum) (param : FLOAT)
  | glMaterialfv (face pname : GLenum) (params : Float4)
  | glCreateShaderProgramv (type : GLenum) (source : String) (ret : GLuint)
  | glGetProgramiv (program : GLuint) (pname : GLenum) (ret : GLint)
  | glGetProgramInfoLog (program : GLuint) (bufSize : Int)
  | glDeleteProgram (program : GLuint)
  | glGetUniformBlockIndex (program : GLuint) (name : String) (ret : GLuint)
  | glUniformBlockBinding (program index binding : GLuint)
  | glGetAttribLocation (program : GLuint) (name : String) (ret : GLint)
  | glGetUniformLocation (program : GLuint) (name : String) (ret : GLint)
  | glProgramUniform1i (program : GLuint) (location : GLint) (v0 : GLint)
  | wglDeleteContext (ctx : HGLRC)
  | external (tag : Nat)
deriving DecidableEq, Repr

/-- One entry of the trace. -/
inductive Event where
  | gl (c : GLCall)
  | checkGLError
  | lock
  | unlock
  | send (c : Command)
  | execute (c : Command)
  | queueInit (window : HWND) (ctx : HGLRC) (ret : Bool)
  | queueDeinit
  | parse (addr : Nat)
  | freeParseData (addr : Nat)
  | GetDC (window : HWND) (ret : HDC)
  | ReleaseDC (window : HWND) (hdc : HDC)
  | wglChoosePixelFormatARB (hdc : HDC) (attrs : List (Int × Int)) (ret : Bool)
  | SetPixelFormat (hdc : HDC) (format : Int) (ret : Bool)
  | wglCreateContextAttribsARB (hdc : HDC) (ret : HGLRC)
  | newSwapChain (id : Nat)
  | swapChainInit (id : Nat) (window : HWND) (isauto : Bool) (ret : Bool)
  | deleteSwapChain (id : Nat)
  | newRenderTarget (id : Nat)
  | renderTargetInit (id : Nat) (isauto : Bool) (ret : Bool)
  | deleteRenderTarget (id : Nat)
  | newTexture (id : Nat)
  | textureInit (id : Nat) (desc : D3DSURFACE_DESC) (levels : UINT) (ret : Bool)
  | deleteTexture (id : Nat)
  | swapChainCall (id : Nat) (method : SwapChainMethod) (ret : HRESULT)
deriving DecidableEq, Repr

/-! ## Parameters -/

/-- What `sizeof(*this)` is in each `execute()`: a constant of the class, fixed
by the compiler. -/
structure Sizes where
  sizeof_StateEnable : ULONG
  sizeof_MaterialSet : ULONG
  sizeof_CompileVShaderCmd : ULONG
  sizeof_DeinitVShaderCmd : ULONG
  sizeof_External : Nat → ULONG

/-- Everything the embedded code asks of code that is not part of `src/`: the
driver, the window system, the shader parser, the collaborator classes and the
constants of the headers that are not part of `src/`.  The first argument of
an answer is the trace so far. -/
structure Platform where
  glCreateShaderProgramv : List Event → GLenum → String → GLuint
  /-- The value left in `status` by `glGetProgramiv(program, GL_LINK_STATUS, &status)`. -/
  linkStatus : List Event → GLuint → GLint
  /-- The value left in `logLen` by `glGetProgramiv(program, GL_INFO_LOG_LENGTH, &logLen)`:
  a length, so never negative. -/
  infoLogLength : List Event → GLuint → Nat
  glGetUniformBlockIndex : List Event → GLuint → String → GLuint
  glGetAttribLocation : List Event → GLuint → String → GLint
  glGetUniformLocation : List Event → GLuint → String → GLint
  VSF_BINDING_IDX : GLuint
  VTXSTATE_BINDING_IDX : GLuint
  POSFIXUP_BINDING_IDX : GLuint
  MAX_FRAGMENT_SAMPLERS : Nat
  MOJOSHADER_parse : List Event → List DWORD → MOJOSHADER_parseData
  GetDC : List Event → HWND → HDC
  /-- The result, and the `pixelFormat` and `numFormats` written. -/
  wglChoosePixelFormatARB : List Event → HDC → List (Int × Int) → Bool × Int × UINT
  /-- Whether `SetPixelFormat` returned non-zero. -/
  SetPixelFormat : List Event → HDC → Int → Bool
  wglCreateContextAttribsARB : List Event → HDC → HGLRC
  /-- Whether the Context Thread can be created and bound to the context. -/
  contextThreadStarts : List Event → HWND → HGLRC → Bool
  /-- The result of `D3DGLSwapChain::init`. -/
  swapChainInit : List Event → Nat → D3DPRESENT_PARAMETERS → HWND → Bool → Bool
  /-- The result of `D3DGLRenderTarget::init`. -/
  renderTargetInit : List Event → Nat → D3DSURFACE_DESC → Bool → Bool
  /-- The result of `D3DGLTexture::init`. -/
  textureInit : List Event → Nat → D3DSURFACE_DESC → UINT → Bool
  /-- The result of a method of `D3DGLSwapChain`. -/
  swapChainMethod : List Event → Nat → SwapChainMethod → HRESULT
  /-- The commands the destructor of a swap chain submits. -/
  swapChainTeardown : Nat → List Nat
  /-- The commands the destructor of a render target submits. -/
  renderTargetTeardown : Nat → List Nat
  /-- The indeterminate content of the local array `ret` of `GenerateDefaultRSValues`. -/
  uninitializedRS : Nat → DWORD
  /-- The indeterminate content of `mMaterial`, which no constructor initialises. -/
  uninitializedMaterial : D3DMATERIAL9

/-! ## State -/

/-- The members of `D3DGLVertexShader` the embedded code uses.  `mUsageMap` is
a map from `(usage<<8) | index` to a location. -/
structure D3DGLVertexShader where
  mProgram : GLuint
  mCode : List DWORD
  mUsageMap : List (Nat × GLint)
deriving DecidableEq, Repr

inductive QueueState where
  | Uninitialized
  | Running
  | Stopped
deriving DecidableEq, Repr

/-- Modelled from the spec: `CommandQueue` (`commandqueue.hpp` is not part of
`src/`).  `state` follows the queue state machine, `Draining` being the inside
of `deinit()`; the Context Thread exists exactly while `state` is `Running`.
`locked` is the Queue Lock.  `pending` holds the commands submitted and not
yet executed, oldest first.  The capacity of the Ring Transport is not
modelled: a producer that finds it full waits for the consumer. -/
structure CommandQueue where
  state : QueueState
  locked : Bool
  pending : List Command
deriving DecidableEq, Repr

/-- The members of `D3DGLDevice` the embedded code uses.  A pointer to an object
of a collaborator class is the identity of the object, `none` being `nullptr`;
a handle is a number, `0` being the null handle. -/
structure D3DGLDevice where
  mRefCount : ULONG
  mAdapter : D3DAdapter
  mGLContext : HGLRC
  mQueue : CommandQueue
  mWindow : HWND
  mFlags : DWORD
  mAutoDepthStencil : Option Nat
  mSwapchains : List Nat
  mDepthStencil : Option Nat
  mRenderState : Nat → DWORD
  mMaterial : D3DMATERIAL9
  mInScene : Bool

/-- The program state.  `shaders` and `parseData` are the heap cells commands
can point to (`none`: no live object at that address); `nextId` is the next
unused address. -/
structure World where
  trace : List Event
  device : D3DGLDevice
  shaders : Nat → Option D3DGLVertexShader
  parseData : Nat → Option MOJOSHADER_parseData
  nextId : Nat

def World.emit (w : World) (e : Event) : World :=
  { w with trace := w.trace ++ [e] }

def World.setQueue (w : World) (q : CommandQueue) : World :=
  { w with device := { w.device with mQueue := q } }

/-- The commands submitted so far, oldest first. -/
def submitted : List Event → List Command
  | [] => []
  | .send c :: es => c :: submitted es
  | _ :: es => submitted es

/-- The commands whose execution has begun, oldest first. -/
def executed : List Event → List Command
  | [] => []
  | .execute c :: es => c :: executed es
  | _ :: es => executed es

/-- The driver calls made so far, oldest first. -/
def driverCalls : List Event → List GLCall
  | [] => []
  | .gl c :: es => c :: driverCalls es
  | _ :: es => driverCalls es

/-! ## `vertexshader.cpp` -/

/-- The statement `map[key] = value` of a `std::map`. -/
def mapAssign (m : List (Nat × GLint)) (key : Nat) (value : GLint) : List (Nat × GLint) :=
  (key, value) :: m.filter (fun kv => kv.1 ≠ key)

/-- One `glGetUniformBlockIndex`, followed by `glUniformBlockBinding` unless the
index is `GL_INVALID_INDEX`. -/
def bindUniformBlock (P : Platform) (mProgram : GLuint) (name : String) (binding : GLuint)
    (tr : List Event) : List Event :=
  let idx := P.glGetUniformBlockIndex tr mProgram name
  let tr := tr ++ [.gl (.glGetUniformBlockIndex mProgram name idx)]
  if idx ≠ GL_INVALID_INDEX then
    tr ++ [.gl (.glUniformBlockBinding mProgram idx binding)]
  else tr

/-- The loop over `shader->attributes` in `compileShaderGL`. -/
def attributeLoop (P : Platform) (mProgram : GLuint) :
    List MOJOSHADER_attribute → List (Nat × GLint) → List Event → List (Nat × GLint) × List Event
  | [], mUsageMap, tr => (mUsageMap, tr)
  | a :: rest, mUsageMap, tr =>
      let loc := P.glGetAttribLocation tr mProgram a.name
      attributeLoop P mProgram rest
        (mapAssign mUsageMap ((a.usage <<< 8) ||| a.index) loc)
        (tr ++ [.gl (.glGetAttribLocation mProgram a.name loc)])

/-- The loop over `shader->samplers` in `compileShaderGL`. -/
def samplerLoop (P : Platform) (mProgram : GLuint) :
    List MOJOSHADER_sampler → List Event → List Event
  | [], tr => tr
  | s :: rest, tr =>
      let loc := P.glGetUniformLocation tr mProgram s.name
      samplerLoop P mProgram rest
        (tr ++ [.gl (.glGetUniformLocation mProgram s.name loc),
                .gl (.glProgramUniform1i mProgram loc (s.index + P.MAX_FRAGMENT_SAMPLERS : Nat))])

/-- The method `D3DGLVertexShader::compileShaderGL`, on the shader object `this` and
the parse data `*shader`; it returns the shader object and the trace. -/
def D3DGLVertexShader.compileShaderGL (P : Platform) (this : D3DGLVertexShader)
    (shader : MOJOSHADER_parseData) (tr : List Event) : D3DGLVertexShader × List Event :=
  let created := P.glCreateShaderProgramv tr GL_VERTEX_SHADER shader.output
  let this := { this with mProgram := created }
  let tr := tr ++ [.gl (.glCreateShaderProgramv GL_VERTEX_SHADER shader.output created)]
  let tr := tr ++ [.checkGLError]
  if this.mProgram = 0 then
    (this, tr)
  else
    let status := P.linkStatus tr this.mProgram
    let tr := tr ++ [.gl (.glGetProgramiv this.mProgram GL_LINK_STATUS status)]
    if status = GL_FALSE then
      let logLen := P.infoLogLength tr this.mProgram
      let tr := tr ++ [.gl (.glGetProgramiv this.mProgram GL_INFO_LOG_LENGTH logLen)]
      let tr := tr ++ [.gl (.glGetProgramInfoLog this.mProgram logLen)]
      let tr := tr ++ [.gl (.glDeleteProgram this.mProgram)]
      let this := { this with mProgram := 0 }
      let tr := tr ++ [.checkGLError]
      (this, tr)
    else
      let logLen := P.infoLogLength tr this.mProgram
      let tr := tr ++ [.gl (.glGetProgramiv this.mProgram GL_INFO_LOG_LENGTH logLen)]
      let tr := if logLen > 4 then tr ++ [.gl (.glGetProgramInfoLog this.mProgram logLen)] else tr
      let tr := bindUniformBlock P this.mProgram "vs_vec4" P.VSF_BINDING_IDX tr
      let tr := bindUniformBlock P this.mProgram "vertex_state" P.VTXSTATE_BINDING_IDX tr
      let tr := bindUniformBlock P this.mProgram "pos_fixup" P.POSFIXUP_BINDING_IDX tr
      let r := attributeLoop P this.mProgram shader.attributes this.mUsageMap tr
      let this := { this with mUsageMap := r.1 }
      let tr := samplerLoop P this.mProgram shader.samplers r.2
      let tr := tr ++ [.checkGLError]
      (this, tr)

/-! ## The commands' `execute()` -/

/-- The method `execute()` of each command class: the world after it and the value
returned.  `CompileVShaderCmd::execute` reads through both of its pointers. -/
def Command.execute (S : Sizes) (P : Platform) : Command → World → Option (World × ULONG)
  | .StateEnable mState mEnable, w =>
      if mEnable then
        some (w.emit (.gl (.glEnable mState)), S.sizeof_StateEnable)
      else
        some (w.emit (.gl (.glDisable mState)), S.sizeof_StateEnable)
  | .MaterialSet mShininess mDiffuse mAmbient mSpecular mEmission, w =>
      let w := w.emit (.gl (.glMaterialf GL_FRONT_AND_BACK GL_SHININESS mShininess))
      let w := w.emit (.gl (.glMaterialfv GL_FRONT_AND_BACK GL_DIFFUSE mDiffuse))
      let w := w.emit (.gl (.glMaterialfv GL_FRONT_AND_BACK GL_AMBIENT mAmbient))
      let w := w.emit (.gl (.glMaterialfv GL_FRONT_AND_BACK GL_SPECULAR mSpecular))
      let w := w.emit (.gl (.glMaterialfv GL_FRONT_AND_BACK GL_EMISSION mEmission))
      some (w, S.sizeof_MaterialSet)
  | .CompileVShaderCmd mTarget mShader, w =>
      match w.shaders mTarget, w.parseData mShader with
      | some this, some shader =>
          let r := D3DGLVertexShader.compileShaderGL P this shader w.trace
          some ({ w with trace := r.2, shaders := Function.update w.shaders mTarget (some r.1) },
                S.sizeof_CompileVShaderCmd)
      | _, _ => none
  | .DeinitVShaderCmd mProgram, w =>
      some (w.emit (.gl (.glDeleteProgram mProgram)), S.sizeof_DeinitVShaderCmd)
  | .External tag, w =>
      some (w.emit (.gl (.external tag)), S.sizeof_External tag)


/-! ## The command queue -/

/-- Modelled from the spec: `CommandQueue::lock()`, `lock()` of the Queue Lock,
"a single, non-reentrant mutual-exclusion token".  In a sequential run a
`lock()` on a held lock never returns. -/
def CommandQueue.lock (w : World) : Option World :=
  if w.device.mQueue.locked then none
  else some ((w.setQueue { w.device.mQueue with locked := true }).emit .lock)

/-- Modelled from the spec: `CommandQueue::unlock()`, the release of a Queue Lock
that is held. -/
def CommandQueue.unlock (w : World) : Option World :=
  if w.device.mQueue.locked then
    some ((w.setQueue { w.device.mQueue with locked := false }).emit .unlock)
  else none

/-- Modelled from the spec: `CommandQueue::send<Cmd>(args...)`, which "constructs
`Cmd(args...)` directly into the Ring Transport and returns immediately; does
not wait for execution; does not require the Queue Lock". -/
def CommandQueue.send (c : Command) (w : World) : World :=
  (w.setQueue { w.device.mQueue with pending := w.device.mQueue.pending ++ [c] }).emit (.send c)

/-- Modelled from the spec: `CommandQueue::sendAndUnlock<Cmd>(args...)`,
"equivalent to `send` followed by releasing a Queue Lock previously acquired
by this thread". -/
def CommandQueue.sendAndUnlock (c : Command) (w : World) : Option World :=
  CommandQueue.unlock (CommandQueue.send c w)

/-- Modelled from the spec: the consume loop of the Context Thread on a list of
commands, oldest first: each is executed once, in order. -/
def CommandQueue.runAll (S : Sizes) (P : Platform) : List Command → World → Option World
  | [], w => some w
  | c :: rest, w =>
      match c.execute S P (w.emit (.execute c)) with
      | some r => CommandQueue.runAll S P rest r.1
      | none => none

/-- Modelled from the spec: the Context Thread working through everything that is
pending. -/
def CommandQueue.drain (S : Sizes) (P : Platform) (w : World) : Option World :=
  CommandQueue.runAll S P w.device.mQueue.pending
    (w.setQueue { w.device.mQueue with pending := [] })

/-- Modelled from the spec: `CommandQueue::sendSync<Cmd>(args...)`, which "submits
`Cmd` and blocks the calling thread until the Context Thread has executed that
exact instance"; "all commands submitted earlier by any producer are guaranteed
to execute first".  Without a Context Thread the wait never ends. -/
def CommandQueue.sendSync (S : Sizes) (P : Platform) (c : Command) (w : World) : Option World :=
  if w.device.mQueue.state = .Running then
    CommandQueue.drain S P (CommandQueue.send c w)
  else none

/-- Modelled from the spec: `CommandQueue::init(surface, context)`, which "binds the
context to a newly spawned Context Thread" and "fails (returns false) if thread
creation or context binding fails"; on success `Uninitialized → Running`. -/
def CommandQueue.init (P : Platform) (window : HWND) (ctx : HGLRC) (w : World) : World × Bool :=
  if w.device.mQueue.state = .Uninitialized ∧ P.contextThreadStarts w.trace window ctx = true then
    (((w.setQueue { w.device.mQueue with state := .Running }).emit (.queueInit window ctx true)), true)
  else
    (w.emit (.queueInit window ctx false), false)

/-- Modelled from the spec: `CommandQueue::deinit()`, which "waits for it to fully
drain all previously submitted commands (no command is ever dropped), then
releases the context and joins the thread.  Idempotent: calling on an
already-deinitialized or never-initialized queue is a no-op." -/
def CommandQueue.deinit (S : Sizes) (P : Platform) (w : World) : Option World :=
  let w := w.emit .queueDeinit
  if w.device.mQueue.state = .Running then
    match CommandQueue.drain S P w with
    | some w => some (w.setQueue { w.device.mQueue with state := .Stopped })
    | none => none
  else some w

/-! ## `vertexshader.cpp`: `init` -/

/-- The call `MOJOSHADER_freeParseData(shader)`. -/
def MOJOSHADER_freeParseData (shader : Nat) (w : World) : World :=
  { w with parseData := Function.update w.parseData shader none }.emit (.freeParseData shader)

/-- The method `D3DGLVertexShader::init` of the shader at address `self`; `data` is
the memory readable from the pointer `data`, one `DWORD` (below `2^32`) per
element. -/
def D3DGLVertexShader.init (S : Sizes) (P : Platform) (self : Nat) (data : List DWORD)
    (w : World) : Option (World × Bool) :=
  match w.shaders self, data with
  | some this, first :: _ =>
      if first >>> 16 ≠ 0xfffe then
        some (w, false)
      else
        let parsed := P.MOJOSHADER_parse w.trace data
        let shader := w.nextId
        let w := { w with parseData := Function.update w.parseData shader (some parsed),
                          nextId := w.nextId + 1 }.emit (.parse shader)
        if parsed.error_count > 0 then
          some (MOJOSHADER_freeParseData shader w, false)
        else if parsed.token_count > data.length then
          none
        else
          let this := { this with mCode := this.mCode ++ data.take parsed.token_count }
          let w := { w with shaders := Function.update w.shaders self (some this) }
          match CommandQueue.sendSync S P (CompileVShaderCmd.new self shader) w with
          | some w =>
              let w := MOJOSHADER_freeParseData shader w
              match w.shaders self with
              | some this => some (w, this.mProgram != 0)
              | none => none
          | none => none
  | _, _ => none

/-! ## `vertexshader.cpp`: `GetFunction` -/

/-- The method `D3DGLVertexShader::GetFunction` of the shader at address `self`; the flag
`data` tells whether the pointer `data` is not null.  The result is the world, what
`memcpy` writes to the buffer (`none`: nothing is written), what is written to `*size`
(the count of bytes, `sizeof(DWORD)` being 4, as a `UINT`), and the value returned. -/
def D3DGLVertexShader.GetFunction (self : Nat) (data : Bool) (w : World) :
    Option (World × Option (List DWORD) × UINT × HRESULT) :=
  match w.shaders self with
  | some this =>
      some (w, if data then some this.mCode else none, (this.mCode.length * 4) % 2 ^ 32, D3D_OK)
  | none => none

/-! ## `device.cpp`: the device calls on the shadow state -/

/-- The method `D3DGLDevice::SetMaterial`; `material` is `*material`. -/
def D3DGLDevice.SetMaterial (material : D3DMATERIAL9) (w : World) : Option (World × HRESULT) :=
  match CommandQueue.lock w with
  | some w =>
      let w := { w with device := { w.device with mMaterial := material } }
      match CommandQueue.sendAndUnlock (MaterialSet.new w.device.mMaterial) w with
      | some w => some (w, D3D_OK)
      | none => none
  | none => none

/-- The method `D3DGLDevice::GetMaterial`; the second component is what it writes
to `*material`. -/
def D3DGLDevice.GetMaterial (w : World) : Option (World × D3DMATERIAL9 × HRESULT) :=
  match CommandQueue.lock w with
  | some w =>
      let material := w.device.mMaterial
      match CommandQueue.unlock w with
      | some w => some (w, material, E_NOTIMPL)
      | none => none
  | none => none

/-- The method `D3DGLDevice::SetRenderState`. -/
def D3DGLDevice.SetRenderState (state : DWORD) (value : DWORD) (w : World) :
    Option (World × HRESULT) :=
  if state = D3DRS_DITHERENABLE then
    match CommandQueue.lock w with
    | some w =>
        let w := { w with device :=
          { w.device with mRenderState := Function.update w.device.mRenderState state value } }
        match CommandQueue.sendAndUnlock (StateEnable.new GL_DITHER (value != 0)) w with
        | some w => some (w, D3D_OK)
        | none => none
    | none => none
  else
    some (w, E_NOTIMPL)

/-- The method `D3DGLDevice::GetRenderState`; the first component is what it writes
to `*value`, `none` when it writes nothing. -/
def D3DGLDevice.GetRenderState (state : DWORD) (w : World) : Option DWORD × HRESULT :=
  if state ≥ 210 then
    (none, D3DERR_INVALIDCALL)
  else
    (some (w.device.mRenderState state), D3D_OK)

/-- The method `D3DGLDevice::BeginScene`. -/
def D3DGLDevice.BeginScene (w : World) : World × HRESULT :=
  let was := w.device.mInScene
  let w := { w with device := { w.device with mInScene := true } }
  if was then (w, D3DERR_INVALIDCALL) else (w, D3D_OK)

/-- The method `D3DGLDevice::EndScene`. -/
def D3DGLDevice.EndScene (w : World) : World × HRESULT :=
  let was := w.device.mInScene
  let w := { w with device := { w.device with mInScene := false } }
  if !was then (w, D3DERR_INVALIDCALL) else (w, D3D_OK)


/-! ## `device.cpp`: the default render states -/

def D3DRS_ZENABLE : DWORD := 7
def D3DRS_FILLMODE : DWORD := 8
def D3DRS_SHADEMODE : DWORD := 9
def D3DRS_ZWRITEENABLE : DWORD := 14
def D3DRS_ALPHATESTENABLE : DWORD := 15
def D3DRS_LASTPIXEL : DWORD := 16
def D3DRS_SRCBLEND : DWORD := 19
def D3DRS_DESTBLEND : DWORD := 20
def D3DRS_CULLMODE : DWORD := 22
def D3DRS_ZFUNC : DWORD := 23
def D3DRS_ALPHAREF : DWORD := 24
def D3DRS_ALPHAFUNC : DWORD := 25
def D3DRS_ALPHABLENDENABLE : DWORD := 27
def D3DRS_FOGENABLE : DWORD := 28
def D3DRS_SPECULARENABLE : DWORD := 29
def D3DRS_FOGCOLOR : DWORD := 34
def D3DRS_FOGTABLEMODE : DWORD := 35
def D3DRS_FOGSTART : DWORD := 36
def D3DRS_FOGEND : DWORD := 37
def D3DRS_FOGDENSITY : DWORD := 38
def D3DRS_RANGEFOGENABLE : DWORD := 48
def D3DRS_STENCILENABLE : DWORD := 52
def D3DRS_STENCILFAIL : DWORD := 53
def D3DRS_STENCILZFAIL : DWORD := 54
def D3DRS_STENCILPASS : DWORD := 55
def D3DRS_STENCILFUNC : DWORD := 56
def D3DRS_STENCILREF : DWORD := 57
def D3DRS_STENCILMASK : DWORD := 58
def D3DRS_STENCILWRITEMASK : DWORD := 59
def D3DRS_TEXTUREFACTOR : DWORD := 60
def D3DRS_WRAP0 : DWORD := 128
def D3DRS_WRAP1 : DWORD := 129
def D3DRS_WRAP2 : DWORD := 130
def D3DRS_WRAP3 : DWORD := 131
def D3DRS_WRAP4 : DWORD := 132
def D3DRS_WRAP5 : DWORD := 133
def D3DRS_WRAP6 : DWORD := 134
def D3DRS_WRAP7 : DWORD := 135
def D3DRS_CLIPPING : DWORD := 136
def D3DRS_LIGHTING : DWORD := 137
def D3DRS_AMBIENT : DWORD := 139
def D3DRS_FOGVERTEXMODE : DWORD := 140
def D3DRS_COLORVERTEX : DWORD := 141
def D3DRS_LOCALVIEWER : DWORD := 142
def D3DRS_NORMALIZENORMALS : DWORD := 143
def D3DRS_DIFFUSEMATERIALSOURCE : DWORD := 145
def D3DRS_SPECULARMATERIALSOURCE : DWORD := 146
def D3DRS_AMBIENTMATERIALSOURCE : DWORD := 147
def D3DRS_EMISSIVEMATERIALSOURCE : DWORD := 148
def D3DRS_VERTEXBLEND : DWORD := 151
def D3DRS_CLIPPLANEENABLE : DWORD := 152
def D3DRS_POINTSIZE : DWORD := 154
def D3DRS_POINTSIZE_MIN : DWORD := 155
def D3DRS_POINTSPRITEENABLE : DWORD := 156
def D3DRS_POINTSCALEENABLE : DWORD := 157
def D3DRS_POINTSCALE_A : DWORD := 158
def D3DRS_POINTSCALE_B : DWORD := 159
def D3DRS_POINTSCALE_C : DWORD := 160
def D3DRS_MULTISAMPLEANTIALIAS : DWORD := 161
def D3DRS_MULTISAMPLEMASK : DWORD := 162
def D3DRS_PATCHEDGESTYLE : DWORD := 163
def D3DRS_DEBUGMONITORTOKEN : DWORD := 165
def D3DRS_POINTSIZE_MAX : DWORD := 166
def D3DRS_INDEXEDVERTEXBLENDENABLE : DWORD := 167
def D3DRS_COLORWRITEENABLE : DWORD := 168
def D3DRS_TWEENFACTOR : DWORD := 170
def D3DRS_BLENDOP : DWORD := 171
def D3DRS_POSITIONDEGREE : DWORD := 172
def D3DRS_NORMALDEGREE : DWORD := 173
def D3DRS_SCISSORTESTENABLE : DWORD := 174
def D3DRS_SLOPESCALEDEPTHBIAS : DWORD := 175
def D3DRS_ANTIALIASEDLINEENABLE : DWORD := 176
def D3DRS_MINTESSELLATIONLEVEL : DWORD := 178
def D3DRS_MAXTESSELLATIONLEVEL : DWORD := 179
def D3DRS_ADAPTIVETESS_X : DWORD := 180
def D3DRS_ADAPTIVETESS_Y : DWORD := 181
def D3DRS_ADAPTIVETESS_Z : DWORD := 182
def D3DRS_ADAPTIVETESS_W : DWORD := 183
def D3DRS_ENABLEADAPTIVETESSELLATION : DWORD := 184
def D3DRS_TWOSIDEDSTENCILMODE : DWORD := 185
def D3DRS_CCW_STENCILFAIL : DWORD := 186
def D3DRS_CCW_STENCILZFAIL : DWORD := 187
def D3DRS_CCW_STENCILPASS : DWORD := 188
def D3DRS_CCW_STENCILFUNC : DWORD := 189
def D3DRS_COLORWRITEENABLE1 : DWORD := 190
def D3DRS_COLORWRITEENABLE2 : DWORD := 191
def D3DRS_COLORWRITEENABLE3 : DWORD := 192
def D3DRS_BLENDFACTOR : DWORD := 193
def D3DRS_SRGBWRITEENABLE : DWORD := 194
def D3DRS_DEPTHBIAS : DWORD := 195
def D3DRS_WRAP8 : DWORD := 198
def D3DRS_WRAP9 : DWORD := 199
def D3DRS_WRAP10 : DWORD := 200
def D3DRS_WRAP11 : DWORD := 201
def D3DRS_WRAP12 : DWORD := 202
def D3DRS_WRAP13 : DWORD := 203
def D3DRS_WRAP14 : DWORD := 204
def D3DRS_WRAP15 : DWORD := 205
def D3DRS_SEPARATEALPHABLENDENABLE : DWORD := 206
def D3DRS_SRCBLENDALPHA : DWORD := 207
def D3DRS_DESTBLENDALPHA : DWORD := 208
def D3DRS_BLENDOPALPHA : DWORD := 209

def D3DZB_TRUE : DWORD := 1
def D3DFILL_SOLID : DWORD := 3
def D3DSHADE_GOURAUD : DWORD := 2
def WIN_TRUE : DWORD := 1
def WIN_FALSE : DWORD := 0
def D3DBLEND_ONE : DWORD := 2
def D3DBLEND_ZERO : DWORD := 1
def D3DCULL_CCW : DWORD := 3
def D3DCMP_LESSEQUAL : DWORD := 4
def D3DCMP_ALWAYS : DWORD := 8
def D3DFOG_NONE : DWORD := 0
def D3DSTENCILOP_KEEP : DWORD := 1
def D3DMCS_COLOR1 : DWORD := 1
def D3DMCS_COLOR2 : DWORD := 2
def D3DMCS_MATERIAL : DWORD := 0
def D3DVBF_DISABLE : DWORD := 0
def D3DPATCHEDGE_DISCRETE : DWORD := 0
def D3DBLENDOP_ADD : DWORD := 1
def D3DDEGREE_CUBIC : DWORD := 3
def D3DDEGREE_LINEAR : DWORD := 1

/-- The bit pattern of `0.0f`. -/
def FLOAT_ZERO : FLOAT := 0

/-- The bit pattern of `1.0f`. -/
def FLOAT_ONE : FLOAT := 0x3f800000

/-- The function `float_to_dword`: the bits of the float, unchanged. -/
def float_to_dword (f : FLOAT) : DWORD := f

/-- The assignments `ret[state] = value` of `GenerateDefaultRSValues`, in the order of the source. -/
def defaultRSAssignments : List (DWORD × DWORD) :=
  [(D3DRS_ZENABLE, D3DZB_TRUE),
   (D3DRS_FILLMODE, D3DFILL_SOLID),
   (D3DRS_SHADEMODE, D3DSHADE_GOURAUD),
   (D3DRS_ZWRITEENABLE, WIN_TRUE),
   (D3DRS_ALPHATESTENABLE, WIN_FALSE),
   (D3DRS_LASTPIXEL, WIN_TRUE),
   (D3DRS_SRCBLEND, D3DBLEND_ONE),
   (D3DRS_DESTBLEND, D3DBLEND_ZERO),
   (D3DRS_CULLMODE, D3DCULL_CCW),
   (D3DRS_ZFUNC, D3DCMP_LESSEQUAL),
   (D3DRS_ALPHAFUNC, D3DCMP_ALWAYS),
   (D3DRS_ALPHAREF, 0),
   (D3DRS_DITHERENABLE, WIN_FALSE),
   (D3DRS_ALPHABLENDENABLE, WIN_FALSE),
   (D3DRS_FOGENABLE, WIN_FALSE),
   (D3DRS_SPECULARENABLE, WIN_FALSE),
   (D3DRS_FOGCOLOR, 0),
   (D3DRS_FOGTABLEMODE, D3DFOG_NONE),
   (D3DRS_FOGSTART, float_to_dword FLOAT_ZERO),
   (D3DRS_FOGEND, float_to_dword FLOAT_ONE),
   (D3DRS_FOGDENSITY, float_to_dword FLOAT_ONE),
   (D3DRS_RANGEFOGENABLE, WIN_FALSE),
   (D3DRS_STENCILENABLE, WIN_FALSE),
   (D3DRS_STENCILFAIL, D3DSTENCILOP_KEEP),
   (D3DRS_STENCILZFAIL, D3DSTENCILOP_KEEP),
   (D3DRS_STENCILPASS, D3DSTENCILOP_KEEP),
   (D3DRS_STENCILREF, 0),
   (D3DRS_STENCILMASK, 0xffffffff),
   (D3DRS_STENCILFUNC, D3DCMP_ALWAYS),
   (D3DRS_STENCILWRITEMASK, 0xffffffff),
   (D3DRS_TEXTUREFACTOR, 0xffffffff),
   (D3DRS_WRAP0, 0),
   (D3DRS_WRAP1, 0),
   (D3DRS_WRAP2, 0),
   (D3DRS_WRAP3, 0),
   (D3DRS_WRAP4, 0),
   (D3DRS_WRAP5, 0),
   (D3DRS_WRAP6, 0),
   (D3DRS_WRAP7, 0),
   (D3DRS_CLIPPING, WIN_TRUE),
   (D3DRS_LIGHTING, WIN_TRUE),
   (D3DRS_AMBIENT, 0),
   (D3DRS_FOGVERTEXMODE, D3DFOG_NONE),
   (D3DRS_COLORVERTEX, WIN_TRUE),
   (D3DRS_LOCALVIEWER, WIN_TRUE),
   (D3DRS_NORMALIZENORMALS, WIN_FALSE),
   (D3DRS_DIFFUSEMATERIALSOURCE, D3DMCS_COLOR1),
   (D3DRS_SPECULARMATERIALSOURCE, D3DMCS_COLOR2),
   (D3DRS_AMBIENTMATERIALSOURCE, D3DMCS_MATERIAL),
   (D3DRS_EMISSIVEMATERIALSOURCE, D3DMCS_MATERIAL),
   (D3DRS_VERTEXBLEND, D3DVBF_DISABLE),
   (D3DRS_CLIPPLANEENABLE, 0),
   (D3DRS_POINTSIZE, float_to_dword FLOAT_ONE),
   (D3DRS_POINTSIZE_MIN, float_to_dword FLOAT_ONE),
   (D3DRS_POINTSPRITEENABLE, WIN_FALSE),
   (D3DRS_POINTSCALEENABLE, WIN_FALSE),
   (D3DRS_POINTSCALE_A, float_to_dword FLOAT_ONE),
   (D3DRS_POINTSCALE_B, float_to_dword FLOAT_ZERO),
   (D3DRS_POINTSCALE_C, float_to_dword FLOAT_ZERO),
   (D3DRS_MULTISAMPLEANTIALIAS, WIN_TRUE),
   (D3DRS_MULTISAMPLEMASK, 0xffffffff),
   (D3DRS_PATCHEDGESTYLE, D3DPATCHEDGE_DISCRETE),
   (D3DRS_DEBUGMONITORTOKEN, 0xbaadcafe),
   (D3DRS_POINTSIZE_MAX, float_to_dword FLOAT_ONE),
   (D3DRS_INDEXEDVERTEXBLENDENABLE, WIN_FALSE),
   (D3DRS_COLORWRITEENABLE, 0x0000000f),
   (D3DRS_TWEENFACTOR, float_to_dword FLOAT_ZERO),
   (D3DRS_BLENDOP, D3DBLENDOP_ADD),
   (D3DRS_POSITIONDEGREE, D3DDEGREE_CUBIC),
   (D3DRS_NORMALDEGREE, D3DDEGREE_LINEAR),
   (D3DRS_SCISSORTESTENABLE, WIN_FALSE),
   (D3DRS_SLOPESCALEDEPTHBIAS, 0),
   (D3DRS_MINTESSELLATIONLEVEL, float_to_dword FLOAT_ONE),
   (D3DRS_MAXTESSELLATIONLEVEL, float_to_dword FLOAT_ONE),
   (D3DRS_ANTIALIASEDLINEENABLE, WIN_FALSE),
   (D3DRS_ADAPTIVETESS_X, float_to_dword FLOAT_ZERO),
   (D3DRS_ADAPTIVETESS_Y, float_to_dword FLOAT_ZERO),
   (D3DRS_ADAPTIVETESS_Z, float_to_dword FLOAT_ONE),
   (D3DRS_ADAPTIVETESS_W, float_to_dword FLOAT_ZERO),
   (D3DRS_ENABLEADAPTIVETESSELLATION, WIN_FALSE),
   (D3DRS_TWOSIDEDSTENCILMODE, WIN_FALSE),
   (D3DRS_CCW_STENCILFAIL, D3DSTENCILOP_KEEP),
   (D3DRS_CCW_STENCILZFAIL, D3DSTENCILOP_KEEP),
   (D3DRS_CCW_STENCILPASS, D3DSTENCILOP_KEEP),
   (D3DRS_CCW_STENCILFUNC, D3DCMP_ALWAYS),
   (D3DRS_COLORWRITEENABLE1, 0x0000000f),
   (D3DRS_COLORWRITEENABLE2, 0x0000000f),
   (D3DRS_COLORWRITEENABLE3, 0x0000000f),
   (D3DRS_BLENDFACTOR, 0xffffffff),
   (D3DRS_SRGBWRITEENABLE, 0),
   (D3DRS_DEPTHBIAS, 0),
   (D3DRS_WRAP8, 0),
   (D3DRS_WRAP9, 0),
   (D3DRS_WRAP10, 0),
   (D3DRS_WRAP11, 0),
   (D3DRS_WRAP12, 0),
   (D3DRS_WRAP13, 0),
   (D3DRS_WRAP14, 0),
   (D3DRS_WRAP15, 0),
   (D3DRS_SEPARATEALPHABLENDENABLE, WIN_FALSE),
   (D3DRS_SRCBLENDALPHA, D3DBLEND_ONE),
   (D3DRS_DESTBLENDALPHA, D3DBLEND_ZERO),
   (D3DRS_BLENDOPALPHA, D3DBLENDOP_ADD)]

/-- The function `GenerateDefaultRSValues`: the array it returns, as a function of
the index.  An entry the source does not assign keeps `uninit`. -/
def GenerateDefaultRSValues (uninit : Nat → DWORD) : Nat → DWORD :=
  defaultRSAssignments.foldl (fun ret kv => Function.update ret kv.1 kv.2) uninit

/-- The constant `DefaultRSValues`. -/
def DefaultRSValues (P : Platform) : Nat → DWORD :=
  GenerateDefaultRSValues P.uninitializedRS

/-! ## `device.cpp`: construction, `init`, destruction -/

/-- Modelled from the spec: the queue a device is constructed with, in the state
`Uninitialized`, with the Queue Lock free and nothing submitted. -/
def CommandQueue.new : CommandQueue :=
  { state := .Uninitialized, locked := false, pending := [] }

/-- The constructor `D3DGLDevice::D3DGLDevice`. -/
def D3DGLDevice.constructor (P : Platform) (adapter : D3DAdapter) (window : HWND)
    (flags : DWORD) : D3DGLDevice :=
  { mRefCount := 0
    mAdapter := adapter
    mGLContext := 0
    mQueue := CommandQueue.new
    mWindow := window
    mFlags := flags
    mAutoDepthStencil := none
    mSwapchains := []
    mDepthStencil := none
    mRenderState := Function.update (DefaultRSValues P) D3DRS_POINTSIZE_MAX
      (float_to_dword adapter.pointsize_max)
    mMaterial := P.uninitializedMaterial
    mInScene := false }

/-- The function `fmt_to_glattrs`: its result and the list after the insertions. -/
def fmt_to_glattrs (fmt : D3DFORMAT) (glattrs : List (Int × Int)) : Bool × List (Int × Int) :=
  if fmt = D3DFMT_X8R8G8B8 then
    (true, glattrs ++ [(WGL_RED_BITS_ARB, 8), (WGL_GREEN_BITS_ARB, 8), (WGL_BLUE_BITS_ARB, 8),
                       (WGL_COLOR_BITS_ARB, 32)])
  else if fmt = D3DFMT_D24S8 then
    (true, glattrs ++ [(WGL_DEPTH_BITS_ARB, 24), (WGL_STENCIL_BITS_ARB, 8)])
  else
    (false, glattrs)

/-- The statement `delete schain` for a swap chain: its destructor is not part of
`src/`; the commands it submits are the platform's answer. -/
def deleteSwapChain (P : Platform) (schain : Nat) (w : World) : World :=
  ((P.swapChainTeardown schain).map Command.External).foldl
    (fun w c => CommandQueue.send c w) (w.emit (.deleteSwapChain schain))

/-- The statement `delete` for a render target, as `deleteSwapChain`. -/
def deleteRenderTarget (P : Platform) (rt : Nat) (w : World) : World :=
  ((P.renderTargetTeardown rt).map Command.External).foldl
    (fun w c => CommandQueue.send c w) (w.emit (.deleteRenderTarget rt))

/-- The tail of `D3DGLDevice::init` after `mQueue.init` has succeeded. -/
def D3DGLDevice.initResources (P : Platform) (params : D3DPRESENT_PARAMETERS) (win : HWND)
    (w : World) : World × Bool :=
  let schain := w.nextId
  let w := { w with nextId := w.nextId + 1 }.emit (.newSwapChain schain)
  let ok := P.swapChainInit w.trace schain params win true
  let w := w.emit (.swapChainInit schain win true ok)
  if !ok then
    (deleteSwapChain P schain w, false)
  else
    let w := { w with device := { w.device with mSwapchains := w.device.mSwapchains ++ [schain] } }
    if params.EnableAutoDepthStencil then
      let desc : D3DSURFACE_DESC :=
        { Format := params.AutoDepthStencilFormat
          Type_ := D3DRTYPE_SURFACE
          Usage := D3DUSAGE_DEPTHSTENCIL
          Pool := D3DPOOL_DEFAULT
          MultiSampleType := params.MultiSampleType
          MultiSampleQuality := params.MultiSampleQuality
          Width := params.BackBufferWidth
          Height := params.BackBufferHeight }
      let rt := w.nextId
      let w := { w with nextId := w.nextId + 1,
                        device := { w.device with mAutoDepthStencil := some rt } }.emit
                 (.newRenderTarget rt)
      let ok := P.renderTargetInit w.trace rt desc true
      let w := w.emit (.renderTargetInit rt true ok)
      if !ok then
        (w, false)
      else
        ({ w with device := { w.device with mDepthStencil := w.device.mAutoDepthStencil } }, true)
    else
      (w, true)

/-- The middle of `D3DGLDevice::init`, from the choice of the window to the last
`ReleaseDC` before `mQueue.init`: the world, and the window `win` when the
context was created (`none` where the source returns `false`). -/
def D3DGLDevice.initContext (P : Platform) (params : D3DPRESENT_PARAMETERS)
    (glattrs : List (Int × Int)) (w : World) : World × Option HWND :=
  let win := if params.Windowed ∧ params.hDeviceWindow = 0 then w.device.mWindow
             else params.hDeviceWindow
  let hdc := P.GetDC w.trace win
  let w := w.emit (.GetDC win hdc)
  let chosen := P.wglChoosePixelFormatARB w.trace hdc glattrs
  let w := w.emit (.wglChoosePixelFormatARB hdc glattrs chosen.1)
  if !chosen.1 then
    (w.emit (.ReleaseDC win hdc), none)
  else if chosen.2.2 < 1 then
    (w.emit (.ReleaseDC win hdc), none)
  else
    let set := P.SetPixelFormat w.trace hdc chosen.2.1
    let w := w.emit (.SetPixelFormat hdc chosen.2.1 set)
    if !set then
      (w.emit (.ReleaseDC win hdc), none)
    else
      let ctx := P.wglCreateContextAttribsARB w.trace hdc
      let w := { w with device := { w.device with mGLContext := ctx } }.emit
                 (.wglCreateContextAttribsARB hdc ctx)
      if w.device.mGLContext = 0 then
        (w.emit (.ReleaseDC win hdc), none)
      else
        (w.emit (.ReleaseDC win hdc), some win)

/-- The method `D3DGLDevice::init`: the world, `*params` and the result. -/
def D3DGLDevice.init (P : Platform) (params : D3DPRESENT_PARAMETERS) (w : World) :
    World × D3DPRESENT_PARAMETERS × Bool :=
  if params.BackBufferCount > 1 then
    (w, { params with BackBufferCount := 1 }, false)
  else if params.Flags &&& D3DPRESENTFLAG_LOCKABLE_BACKBUFFER ≠ 0 then
    (w, params, false)
  else
    let glattrs : List (Int × Int) :=
      [(WGL_DRAW_TO_WINDOW_ARB, GL_TRUE), (WGL_SUPPORT_OPENGL_ARB, GL_TRUE),
       (WGL_DOUBLE_BUFFER_ARB, GL_TRUE), (WGL_PIXEL_TYPE_ARB, WGL_TYPE_RGBA_ARB)]
    let back := fmt_to_glattrs params.BackBufferFormat glattrs
    if !back.1 then
      (w, params, false)
    else
      let depth :=
        if params.EnableAutoDepthStencil then fmt_to_glattrs params.AutoDepthStencilFormat back.2
        else (true, back.2)
      if !depth.1 then
        (w, params, false)
      else
        let glattrs := depth.2 ++ [(0, 0)]
        match D3DGLDevice.initContext P params glattrs w with
        | (w, none) => (w, params, false)
        | (w, some win) =>
            let queue := CommandQueue.init P win w.device.mGLContext w
            if !queue.2 then
              (queue.1, params, false)
            else
              let r := D3DGLDevice.initResources P params win queue.1
              (r.1, params, r.2)

/-- The first statements of `D3DGLDevice::~D3DGLDevice`, up to `mAutoDepthStencil = nullptr`:
the swap chains and the auto depth-stencil are deleted. -/
def D3DGLDevice.destroyResources (P : Platform) (w : World) : World :=
  let w := w.device.mSwapchains.foldl (fun w schain => deleteSwapChain P schain w) w
  let w := { w with device := { w.device with mSwapchains := [] } }
  let w := match w.device.mAutoDepthStencil with
    | some rt => deleteRenderTarget P rt w
    | none => w
  { w with device := { w.device with mAutoDepthStencil := none } }

/-- The destructor `D3DGLDevice::~D3DGLDevice`. -/
def D3DGLDevice.destructor (S : Sizes) (P : Platform) (w : World) : Option World :=
  let w := D3DGLDevice.destroyResources P w
  match CommandQueue.deinit S P w with
  | some w =>
      let w := if w.device.mGLContext ≠ 0 then w.emit (.gl (.wglDeleteContext w.device.mGLContext))
               else w
      some { w with device := { w.device with mGLContext := 0 } }
  | none => none

/-! ## `device.cpp`: the reference count -/

/-- The method `D3DGLDevice::AddRef`: `++mRefCount` on a `ULONG`; the value returned
is the new count. -/
def D3DGLDevice.AddRef (w : World) : World × ULONG :=
  let ret := (w.device.mRefCount + 1) % 2 ^ 32
  ({ w with device := { w.device with mRefCount := ret } }, ret)

/-- The method `D3DGLDevice::Release`: `--mRefCount` on a `ULONG` (from 0 it wraps to
`2^32 - 1`), and `delete this`, which runs the destructor of the device, when the new
count is 0. -/
def D3DGLDevice.Release (S : Sizes) (P : Platform) (w : World) : Option (World × ULONG) :=
  let ret := if w.device.mRefCount = 0 then 2 ^ 32 - 1 else w.device.mRefCount - 1
  let w := { w with device := { w.device with mRefCount := ret } }
  if ret = 0 then
    match D3DGLDevice.destructor S P w with
    | some w => some (w, ret)
    | none => none
  else
    some (w, ret)

/-! ## `device.cpp`: `CreateTexture` -/

/-- The two tests of `usage` against `realusage` in `D3DGLDevice::CreateTexture`:
the usage the texture is created with and the value of `hr`, or `none` where
the source returns `D3DERR_INVALIDCALL`.  On a `DWORD`, `~x` is `x ^^^ 0xFFFFFFFF`. -/
def D3DGLDevice.checkTextureUsage (usage realusage : DWORD) : Option (DWORD × HRESULT) :=
  let hr := D3D_OK
  if usage &&& realusage ≠ usage then
    let usage := usage &&& (D3DUSAGE_AUTOGENMIPMAP ^^^ 0xFFFFFFFF)
    if usage &&& realusage ≠ usage then
      none
    else
      some (usage, D3DOK_NOAUTOGEN)
  else
    some (usage, hr)

/-- The method `D3DGLDevice::CreateTexture`.  `texture` and `handle` are the two
pointers, `none` being null; the second component of the result is the texture
written to `*texture`, `none` when nothing is written.  `D3DGLTexture` is not
part of `src/`: the result of its `init` is the platform's answer. -/
def D3DGLDevice.CreateTexture (P : Platform) (width height levels : UINT) (usage : DWORD)
    (format : D3DFORMAT) (pool : DWORD) (texture handle : Option Nat) (w : World) :
    World × Option Nat × HRESULT :=
  if handle.isSome then
    (w, none, D3DERR_INVALIDCALL)
  else if texture.isNone then
    (w, none, D3DERR_INVALIDCALL)
  else
    let realusage := w.device.mAdapter.getUsage D3DRTYPE_TEXTURE format
    match D3DGLDevice.checkTextureUsage usage realusage with
    | none => (w, none, D3DERR_INVALIDCALL)
    | some (usage, hr) =>
        let desc : D3DSURFACE_DESC :=
          { Format := format
            Type_ := D3DRTYPE_TEXTURE
            Usage := usage
            Pool := pool
            MultiSampleType := D3DMULTISAMPLE_NONE
            MultiSampleQuality := 0
            Width := width
            Height := height }
        let tex := w.nextId
        let w := { w with nextId := w.nextId + 1 }.emit (.newTexture tex)
        let ok := P.textureInit w.trace tex desc levels
        let w := w.emit (.textureInit tex desc levels ok)
        if !ok then
          (w.emit (.deleteTexture tex), none, D3DERR_INVALIDCALL)
        else
          (w, some tex, hr)

/-! ## `device.cpp`: the methods that index the list of swap chains -/

/-- The method `D3DGLDevice::GetNumberOfSwapChains`. -/
def D3DGLDevice.GetNumberOfSwapChains (w : World) : UINT :=
  w.device.mSwapchains.length

/-- A call `schain->method(...)` of a method of `D3DGLSwapChain`, which is not part of
`src/`: the value it returns is the platform's answer. -/
def callSwapChain (P : Platform) (schain : Nat) (method : SwapChainMethod) (w : World) :
    World × HRESULT :=
  (w.emit (.swapChainCall schain method (P.swapChainMethod w.trace schain method)),
    P.swapChainMethod w.trace schain method)

/-- The method `D3DGLDevice::GetSwapChain`: what it writes to `*schain` (`none`: nothing)
and the value it returns.  The result is `none` when `mSwapchains` is read out of
range. -/
def D3DGLDevice.GetSwapChain (swapchain : UINT) (w : World) : Option (Option Nat × HRESULT) :=
  if swapchain ≥ w.device.mSwapchains.length then
    some (none, D3DERR_INVALIDCALL)
  else
    match w.device.mSwapchains[swapchain]? with
    | some schain => some (some schain, D3D_OK)
    | none => none

/-- The method `D3DGLDevice::GetDisplayMode`; `none` when `mSwapchains` is read out of
range. -/
def D3DGLDevice.GetDisplayMode (P : Platform) (swapchain : UINT) (w : World) :
    Option (World × HRESULT) :=
  if swapchain ≥ w.device.mSwapchains.length then
    some (w, D3DERR_INVALIDCALL)
  else
    match w.device.mSwapchains[swapchain]? with
    | some schain => some (callSwapChain P schain .GetDisplayMode w)
    | none => none

/-- The method `D3DGLDevice::GetBackBuffer`; `none` when `mSwapchains` is read out of
range. -/
def D3DGLDevice.GetBackBuffer (P : Platform) (swapchain backbuffer : UINT) (type : DWORD)
    (w : World) : Option (World × HRESULT) :=
  if swapchain ≥ w.device.mSwapchains.length then
    some (w, D3DERR_INVALIDCALL)
  else
    match w.device.mSwapchains[swapchain]? with
    | some schain => some (callSwapChain P schain (.GetBackBuffer backbuffer type) w)
    | none => none

/-- The method `D3DGLDevice::GetRasterStatus`; `none` when `mSwapchains` is read out of
range. -/
def D3DGLDevice.GetRasterStatus (P : Platform) (swapchain : UINT) (w : World) :
    Option (World × HRESULT) :=
  if swapchain ≥ w.device.mSwapchains.length then
    some (w, D3DERR_INVALIDCALL)
  else
    match w.device.mSwapchains[swapchain]? with
    | some schain => some (callSwapChain P schain .GetRasterStatus w)
    | none => none

/-- The method `D3DGLDevice::Present`, which reads `mSwapchains[0]` without a test;
`none` when that is out of range. -/
def D3DGLDevice.Present (P : Platform) (dstWindowOverride : HWND) (w : World) :
    Option (World × HRESULT) :=
  match w.device.mSwapchains[0]? with
  | some schain => some (callSwapChain P schain (.Present dstWindowOverride 0) w)
  | none => none

/-! ## Two producers -/

/-- A device call of the shape `lock(); S = v; sendAndUnlock(cmd(v))`:
`SetRenderState(D3DRS_DITHERENABLE, value)` or `SetMaterial(&material)`. -/
inductive BundledCall where
  | SetRenderState (value : DWORD)
  | SetMaterial (material : D3DMATERIAL9)
deriving DecidableEq, Repr

/-- The call as one piece, run by a single thread. -/
def BundledCall.call : BundledCall → World → Option (World × HRESULT)
  | .SetRenderState value, w => D3DGLDevice.SetRenderState D3DRS_DITHERENABLE value w
  | .SetMaterial material, w => D3DGLDevice.SetMaterial material w

/-- The statement `S = v` of the call. -/
def BundledCall.write : BundledCall → World → World
  | .SetRenderState value, w =>
      { w with device := { w.device with
          mRenderState := Function.update w.device.mRenderState D3DRS_DITHERENABLE value } }
  | .SetMaterial material, w =>
      { w with device := { w.device with mMaterial := material } }

/-- The command `cmd(v)` the call constructs when it reaches `sendAndUnlock`. -/
def BundledCall.cmd : BundledCall → World → Command
  | .SetRenderState value, _ => StateEnable.new GL_DITHER (value != 0)
  | .SetMaterial _, w => MaterialSet.new w.device.mMaterial

/-- One step of a thread that is inside the call, by its program counter:
`0` `lock()`, `1` the write, `2` the `send` of `sendAndUnlock`, `3` its unlock,
`4` returned.  `none`: the thread cannot move (it waits for the Queue Lock, or
it has returned). -/
def BundledCall.step (call : BundledCall) (pc : Nat) (w : World) : Option (World × Nat) :=
  match pc with
  | 0 => (CommandQueue.lock w).map (fun w => (w, 1))
  | 1 => some (call.write w, 2)
  | 2 => some (CommandQueue.send (call.cmd w) w, 3)
  | 3 => (CommandQueue.unlock w).map (fun w => (w, 4))
  | _ => none

/-- Two threads, `A` and `B`, each inside one call. -/
structure TwoThreads where
  world : World
  pcA : Nat
  pcB : Nat

/-- The scheduler lets one thread try a step: `false` is thread `A`, `true` is `B`. -/
def TwoThreads.step (a b : BundledCall) (st : TwoThreads) (t : Bool) : TwoThreads :=
  if t then
    match b.step st.pcB st.world with
    | some r => { st with world := r.1, pcB := r.2 }
    | none => st
  else
    match a.step st.pcA st.world with
    | some r => { st with world := r.1, pcA := r.2 }
    | none => st

/-- The state two threads reach from `w` under a schedule. -/
def interleave (a b : BundledCall) (schedule : List Bool) (w : World) : TwoThreads :=
  schedule.foldl (TwoThreads.step a b) { world := w, pcA := 0, pcB := 0 }



/-- The value-carrying command of the call: `cmd(v)`. -/
def BundledCall.command : BundledCall → Command
  | .SetRenderState value => StateEnable.new GL_DITHER (value != 0)
  | .SetMaterial material => MaterialSet.new material

/-- The shadow field `S` of the call holds the call's value `v`. -/
def BundledCall.shadowHolds : BundledCall → World → Prop
  | .SetRenderState value, w => w.device.mRenderState D3DRS_DITHERENABLE = value
  | .SetMaterial material, w => w.device.mMaterial = material

/-- The world after the first `k` steps of the call, begun in `w` with the Queue
Lock free. -/
def BundledCall.after (call : BundledCall) (k : Nat) (w : World) : World :=
  let w1 := (w.setQueue { w.device.mQueue with locked := true }).emit .lock
  let w2 := call.write w1
  let w3 := CommandQueue.send (call.cmd w2) w2
  match k with
  | 0 => w
  | 1 => w1
  | 2 => w2
  | 3 => w3
  | _ => (w3.setQueue { w3.device.mQueue with locked := false }).emit .unlock

/-- The program counters alone, under one scheduling decision: a thread at `0`
moves only if the other is not between `1` and `3`. -/
def pcStep (pcs : Nat × Nat) (t : Bool) : Nat × Nat :=
  if t then
    if pcs.2 = 0 then (if 1 ≤ pcs.1 ∧ pcs.1 ≤ 3 then pcs else (pcs.1, 1))
    else if pcs.2 < 4 then (pcs.1, pcs.2 + 1) else pcs
  else
    if pcs.1 = 0 then (if 1 ≤ pcs.2 ∧ pcs.2 ≤ 3 then pcs else (1, pcs.2))
    else if pcs.1 < 4 then (pcs.1 + 1, pcs.2) else pcs

/-- The state of the two threads is a state of one of the two sequential orders:
one call has not begun or has returned while the other is at some step. -/
def Linearized (a b : BundledCall) (w : World) (st : TwoThreads) : Prop :=
  (st.pcB = 0 ∧ st.pcA ≤ 4 ∧ st.world = a.after st.pcA w) ∨
  (st.pcA = 0 ∧ st.pcB ≤ 4 ∧ st.world = b.after st.pcB w) ∨
  (st.pcA = 4 ∧ st.pcB ≤ 4 ∧ st.world = b.after st.pcB (a.after 4 w)) ∨
  (st.pcB = 4 ∧ st.pcA ≤ 4 ∧ st.world = a.after st.pcA (b.after 4 w))

/-! ## Predicates used in the statements -/

/-- The pointers the command holds point to live objects. -/
def Command.live (w : World) : Command → Prop
  | .CompileVShaderCmd mTarget mShader =>
      (w.shaders mTarget).isSome = true ∧ (w.parseData mShader).isSome = true
  | _ => True

/-- The event is the work of the Context Thread on a command: the start of an
`execute()`, or a call it makes to the driver (`wglDeleteContext` is not one). -/
def Event.isContextWork : Event → Bool
  | .gl (.wglDeleteContext _) => false
  | .gl _ => true
  | .checkGLError => true
  | .execute _ => true
  | _ => false

/-- The trace `tr'` extends `tr` by work of the Context Thread alone: driver calls,
and no `execute()` begun. -/
def DriverOnly (tr tr' : List Event) : Prop :=
  ∃ new, tr' = tr ++ new ∧ executed new = [] ∧ ∀ e ∈ new, e.isContextWork = true

/-- What `execute()` does (the trace it leaves and the value it returns) does not
depend on what the memory of the producers holds when it runs. -/
def Command.selfContained (S : Sizes) (P : Platform) (c : Command) : Prop :=
  ∀ (w : World) (shaders : Nat → Option D3DGLVertexShader)
    (parseData : Nat → Option MOJOSHADER_parseData),
    (c.execute S P { w with shaders := shaders, parseData := parseData }).map
        (fun r => (r.1.trace, r.2))
      = (c.execute S P w).map (fun r => (r.1.trace, r.2))

/-- The event is a call to the window system made by `D3DGLDevice::init` before it
initialises the queue. -/
def Event.isWindowSetup : Event → Bool
  | .GetDC _ _ => true
  | .ReleaseDC _ _ => true
  | .wglChoosePixelFormatARB _ _ _ => true
  | .SetPixelFormat _ _ _ => true
  | .wglCreateContextAttribsARB _ _ => true
  | _ => false

/-- The event belongs to the creation, initialisation or deletion of a swap chain
or a render target, a submission included. -/
def Event.isResourceWork : Event → Bool
  | .newSwapChain _ => true
  | .swapChainInit _ _ _ _ => true
  | .deleteSwapChain _ => true
  | .newRenderTarget _ => true
  | .renderTargetInit _ _ _ => true
  | .deleteRenderTarget _ => true
  | .send _ => true
  | _ => false

/-- The trace `tr'` extends `tr` by events of the kind `Q` alone. -/
def Extends (Q : Event → Bool) (tr tr' : List Event) : Prop :=
  ∃ new, tr' = tr ++ new ∧ ∀ e ∈ new, Q e = true

/-- The commands the destructors of the device's resources submit: those of the
swap chains, in the order of the list, then those of the auto depth-stencil. -/
def teardownCommands (P : Platform) (schains : List Nat) (depth : Option Nat) : List Command :=
  (schains.map (fun sc => (P.swapChainTeardown sc).map Command.External)).flatten ++
  (match depth with
    | some rt => (P.renderTargetTeardown rt).map Command.External
    | none => [])

/-- The events of the destruction of the device's resources: each deletion, followed
by the submissions of its destructor. -/
def teardownEvents (P : Platform) (schains : List Nat) (depth : Option Nat) : List Event :=
  (schains.map (fun sc => Event.deleteSwapChain sc ::
      ((P.swapChainTeardown sc).map Command.External).map Event.send)).flatten ++
  (match depth with
    | some rt => Event.deleteRenderTarget rt ::
        ((P.renderTargetTeardown rt).map Command.External).map Event.send
    | none => [])

/-! ## Sequences of device calls -/

/-- Modelled from the spec: one turn of the consume loop: the Context Thread
executes the oldest pending command, if there is one. -/
def CommandQueue.runOne (S : Sizes) (P : Platform) (w : World) : Option World :=
  match w.device.mQueue.pending with
  | [] => some w
  | c :: rest =>
      (c.execute S P ((w.setQueue { w.device.mQueue with pending := rest }).emit (.execute c))).map
        Prod.fst

/-- A call of one of the device methods embedded above, or a turn of the Context Thread
between two calls. -/
inductive DeviceCall where
  | SetRenderState (state value : DWORD)
  | GetRenderState (state : DWORD)
  | SetMaterial (material : D3DMATERIAL9)
  | GetMaterial
  | BeginScene
  | EndScene
  | contextThread
deriving DecidableEq, Repr

/-- The world after the call. -/
def DeviceCall.apply (S : Sizes) (P : Platform) : DeviceCall → World → Option World
  | .SetRenderState state value, w => (D3DGLDevice.SetRenderState state value w).map Prod.fst
  | .GetRenderState _, w => some w
  | .SetMaterial material, w => (D3DGLDevice.SetMaterial material w).map Prod.fst
  | .GetMaterial, w => (D3DGLDevice.GetMaterial w).map Prod.fst
  | .BeginScene, w => some (D3DGLDevice.BeginScene w).1
  | .EndScene, w => some (D3DGLDevice.EndScene w).1
  | .contextThread, w => CommandQueue.runOne S P w

/-- The world after a sequence of calls, executed one after another. -/
def runCalls (S : Sizes) (P : Platform) : List DeviceCall → World → Option World
  | [], w => some w
  | c :: rest, w =>
      match c.apply S P w with
      | some w => runCalls S P rest w
      | none => none

/-- The payload of the most recent `StateEnable` among the commands, oldest first. -/
def lastStateEnable (cs : List Command) : Option (GLenum × Bool) :=
  cs.foldl (fun acc c => match c with
    | .StateEnable mState mEnable => some (mState, mEnable)
    | _ => acc) none

/-- The most recent `MaterialSet` among the commands, oldest first. -/
def lastMaterialSet (cs : List Command) : Option Command :=
  cs.foldl (fun acc c => match c with
    | .MaterialSet a b c d e => some (.MaterialSet a b c d e)
    | _ => acc) none

/-- The command is a `StateEnable` or a `MaterialSet`. -/
def Command.isShadowCmd : Command → Bool
  | .StateEnable _ _ => true
  | .MaterialSet _ _ _ _ _ => true
  | _ => false

/-- The shadow state agrees with the commands submitted so far: the Queue Lock
is free, only `StateEnable` and `MaterialSet` commands are pending, and the
last submitted `StateEnable` and `MaterialSet`, if any, carry what the shadow
fields hold. -/
def ShadowInv (w : World) : Prop :=
  w.device.mQueue.locked = false ∧
  (∀ c ∈ w.device.mQueue.pending, c.isShadowCmd = true) ∧
  (∀ p, lastStateEnable (submitted w.trace) = some p →
    p = (GL_DITHER, w.device.mRenderState D3DRS_DITHERENABLE != 0)) ∧
  (∀ c, lastMaterialSet (submitted w.trace) = some c → c = MaterialSet.new w.device.mMaterial)

/-! ## The scene calls in a sequence of device calls -/

/-- The value the call returns when it is `BeginScene` or `EndScene`. -/
def DeviceCall.sceneResult : DeviceCall → World → Option HRESULT
  | .BeginScene, w => some (D3DGLDevice.BeginScene w).2
  | .EndScene, w => some (D3DGLDevice.EndScene w).2
  | _, _ => none

/-- The calls of `BeginScene` and `EndScene` that return `D3D_OK` in a sequence of
device calls executed one after another, in order. -/
def sceneSuccesses (S : Sizes) (P : Platform) : List DeviceCall → World → List DeviceCall
  | [], _ => []
  | c :: rest, w =>
      (if c.sceneResult w = some D3D_OK then [c] else []) ++
      (match c.apply S P w with
        | some w' => sceneSuccesses S P rest w'
        | none => [])

/-- The scene calls alternate: the first argument says whether the device is in a
scene; out of a scene the next is `BeginScene`, in a scene it is `EndScene`. -/
def Alternates : Bool → List DeviceCall → Prop
  | _, [] => True
  | false, .BeginScene :: rest => Alternates true rest
  | true, .EndScene :: rest => Alternates false rest
  | _, _ :: _ => False

/-! ## `vertexshader.cpp`: construction and destruction -/

/-- The constructor `D3DGLVertexShader::D3DGLVertexShader`, for an object placed at
the address `self`: `mProgram(0)`, the other members empty, and in its body
`mParent->AddRef()`. -/
def D3DGLVertexShader.constructor (self : Nat) (w : World) : World :=
  let w := { w with shaders :=
      Function.update w.shaders self (some { mProgram := 0, mCode := [], mUsageMap := [] }) }
  (D3DGLDevice.AddRef w).1

/-- The three statements of the destructor `D3DGLVertexShader::~D3DGLVertexShader`, on the
object at the address `self`: the submission of `DeinitVShaderCmd` when `mProgram` is
not 0, `mProgram = 0`, and `mParent->Release()`, which destroys the device when the
shader held the last reference to it.  The storage of the shader is not yet released. -/
def D3DGLVertexShader.destructorBody (S : Sizes) (P : Platform) (self : Nat) (w : World) :
    Option World :=
  match w.shaders self with
  | some this =>
      let w := if this.mProgram ≠ 0 then CommandQueue.send (DeinitVShaderCmd.new this.mProgram) w
               else w
      let w := { w with shaders := Function.update w.shaders self (some { this with mProgram := 0 }) }
      (D3DGLDevice.Release S P w).map Prod.fst
  | none => none

/-- The destruction of the shader at the address `self` (`delete this` in
`D3DGLVertexShader::Release`): the destructor runs, and with it the life of the object
ends. -/
def D3DGLVertexShader.destructor (S : Sizes) (P : Platform) (self : Nat) (w : World) :
    Option World :=
  match D3DGLVertexShader.destructorBody S P self w with
  | some w => some { w with shaders := Function.update w.shaders self none }
  | none => none

/-- The program handles returned by the calls of `glCreateShaderProgramv` among the
events, oldest first. -/
def createdPrograms : List Event → List GLuint
  | [] => []
  | .gl (.glCreateShaderProgramv _ _ ret) :: es => ret :: createdPrograms es
  | _ :: es => createdPrograms es

/-- The program handles passed to `glDeleteProgram` among the events, oldest first. -/
def deletedPrograms : List Event → List GLuint
  | [] => []
  | .gl (.glDeleteProgram program) :: es => program :: deletedPrograms es
  | _ :: es => deletedPrograms es

/-- Only `DeinitVShaderCmd::execute` calls `glDeleteProgram`: an `execute()` during
which the driver is asked to delete a program is that of a `DeinitVShaderCmd`. -/
def OnlyDeinitDeletes (S : Sizes) (P : Platform) : Prop :=
  ∀ (c : Command) (w : World) (r : World × ULONG), c.execute S P w = some r →
    deletedPrograms r.1.trace ≠ deletedPrograms w.trace → ∃ p, c = .DeinitVShaderCmd p

/-- The life of one vertex shader at the address `self`: it is constructed, `init` is
called on it at most once (`data` is `none` when it is not called), it is
destroyed, and then the Context Thread executes everything that is pending. -/
def shaderLifetime (S : Sizes) (P : Platform) (self : Nat) (data : Option (List DWORD))
    (w : World) : Option World :=
  let w := D3DGLVertexShader.constructor self w
  let initialised := match data with
    | some d => (D3DGLVertexShader.init S P self d w).map Prod.fst
    | none => some w
  match initialised with
  | some w =>
      match D3DGLVertexShader.destructor S P self w with
      | some w => CommandQueue.drain S P w
      | none => none
  | none => none

/-! ## Sequences of queue operations -/

/-- A call of an operation of the queue by some producer, or a turn of the Context
Thread between two calls. -/
inductive QueueOp where
  | lock
  | unlock
  | send (c : Command)
  | sendAndUnlock (c : Command)
  | sendSync (c : Command)
  | contextThread
deriving DecidableEq, Repr

/-- The world after the operation. -/
def QueueOp.apply (S : Sizes) (P : Platform) : QueueOp → World → Option World
  | .lock, w => CommandQueue.lock w
  | .unlock, w => CommandQueue.unlock w
  | .send c, w => some (CommandQueue.send c w)
  | .sendAndUnlock c, w => CommandQueue.sendAndUnlock c w
  | .sendSync c, w => CommandQueue.sendSync S P c w
  | .contextThread, w => CommandQueue.runOne S P w

/-- The world after a sequence of operations, in the order in which the queue
serves them. -/
def runOps (S : Sizes) (P : Platform) : List QueueOp → World → Option World
  | [], w => some w
  | op :: rest, w =>
      match op.apply S P w with
      | some w => runOps S P rest w
      | none => none

/-- The commands the operations submit, in the order of the calls. -/
def QueueOp.commands : List QueueOp → List Command
  | [] => []
  | .send c :: rest => c :: QueueOp.commands rest
  | .sendAndUnlock c :: rest => c :: QueueOp.commands rest
  | .sendSync c :: rest => c :: QueueOp.commands rest
  | _ :: rest => QueueOp.commands rest

/-- The operations use the Queue Lock as producers may: `lock()` is served when the
lock is free, `unlock()` and `sendAndUnlock` are called by the holder.  The
first argument says whether the lock is held. -/
def QueueOp.lockOk : Bool → List QueueOp → Bool
  | _, [] => true
  | held, .lock :: rest => !held && QueueOp.lockOk true rest
  | held, .unlock :: rest => held && QueueOp.lockOk false rest
  | held, .sendAndUnlock _ :: rest => held && QueueOp.lockOk false rest
  | held, _ :: rest => QueueOp.lockOk held rest

/-- The queue is in order, seen from the trace: what was submitted is what was
executed followed by what is pending.  The queue is running, and the objects
the pending commands point to are those of `w0`. -/
def FifoInv (w0 w : World) : Prop :=
  submitted w.trace = executed w.trace ++ w.device.mQueue.pending ∧
  w.device.mQueue.state = .Running ∧
  (∀ a, (w.shaders a).map (fun s => s.mCode) = (w0.shaders a).map (fun s => s.mCode)) ∧
  w.parseData = w0.parseData ∧
  (∀ c ∈ w.device.mQueue.pending, c.live w0)

/-- The material of the most recent `SetMaterial` among the calls, oldest first;
`none` when there is no `SetMaterial` among them. -/
def lastSetMaterial : List DeviceCall → Option D3DMATERIAL9
  | [] => none
  | c :: rest =>
      match lastSetMaterial rest with
      | some material => some material
      | none =>
          match c with
          | .SetMaterial material => some material
          | _ => none

/-- The event is a call of `mQueue.init`. -/
def Event.isQueueInit : Event → Bool
  | .queueInit _ _ _ => true
  | _ => false

/-- The target window of the device in the words of the specification:
`params->hDeviceWindow` when it is not null, and otherwise the focus window given
when the device was constructed. -/
def specTargetWindow (params : D3DPRESENT_PARAMETERS) (w : World) : HWND :=
  if params.hDeviceWindow ≠ 0 then params.hDeviceWindow else w.device.mWindow

/-- Every `mQueue.init` that `D3DGLDevice::init` calls is given a context that is not
null and the target window of the specification. -/
def QueueInitWithTargetWindow (P : Platform) (params : D3DPRESENT_PARAMETERS) (w : World) :
    Prop :=
  ∀ win ctx ret, Event.queueInit win ctx ret ∈ (D3DGLDevice.init P params w).1.trace →
    ctx ≠ 0 ∧ win = specTargetWindow params w

/-- None of the methods that index `mSwapchains` reads it out of range, whatever the
arguments. -/
def SwapChainAccessInRange (P : Platform) (w : World) : Prop :=
  (∀ swapchain : UINT,
    (D3DGLDevice.GetSwapChain swapchain w).isSome = true ∧
    (D3DGLDevice.GetDisplayMode P swapchain w).isSome = true ∧
    (∀ backbuffer type, (D3DGLDevice.GetBackBuffer P swapchain backbuffer type w).isSome = true) ∧
    (D3DGLDevice.GetRasterStatus P swapchain w).isSome = true) ∧
  (∀ dstWindowOverride, (D3DGLDevice.Present P dstWindowOverride w).isSome = true)

/-- The states of a device on which an application can call a method.  `init` has
returned `true` on the newly constructed device (a device whose `init` returns `false`
is not handed out: that failure is fatal to its construction); device calls, turns of
the Context Thread, creations of textures and calls of the methods that index the swap
chains may have followed. -/
inductive Reachable (S : Sizes) (P : Platform) : World → Prop where
  | init (adapter : D3DAdapter) (window : HWND) (flags : DWORD)
      (params : D3DPRESENT_PARAMETERS) (w : World) :
      w.device = D3DGLDevice.constructor P adapter window flags →
      (D3DGLDevice.init P params w).2.2 = true →
      Reachable S P (D3DGLDevice.init P params w).1
  | call (c : DeviceCall) (w w' : World) :
      Reachable S P w → c.apply S P w = some w' → Reachable S P w'
  | CreateTexture (width height levels : UINT) (usage : DWORD) (format : D3DFORMAT)
      (pool : DWORD) (texture handle : Option Nat) (w : World) :
      Reachable S P w →
      Reachable S P
        (D3DGLDevice.CreateTexture P width height levels usage format pool texture handle w).1
  | GetDisplayMode (swapchain : UINT) (w : World) (r : World × HRESULT) :
      Reachable S P w → D3DGLDevice.GetDisplayMode P swapchain w = some r → Reachable S P r.1
  | GetBackBuffer (swapchain backbuffer : UINT) (type : DWORD) (w : World)
      (r : World × HRESULT) :
      Reachable S P w → D3DGLDevice.GetBackBuffer P swapchain backbuffer type w = some r →
      Reachable S P r.1
  | GetRasterStatus (swapchain : UINT) (w : World) (r : World × HRESULT) :
      Reachable S P w → D3DGLDevice.GetRasterStatus P swapchain w = some r → Reachable S P r.1
  | Present (dstWindowOverride : HWND) (w : World) (r : World × HRESULT) :
      Reachable S P w → D3DGLDevice.Present P dstWindowOverride w = some r → Reachable S P r.1

/-- The caller of `D3DGLDevice::Release` holds the last reference to the device: the
count is 1, so that `--mRefCount` leaves 0. -/
def LastReference (w : World) : Prop :=
  w.device.mRefCount = 1

/-- What C22 says of the destruction of the live shader at `self`: the destructor makes
no driver call, submits `DeinitVShaderCmd(p)` when the handle `p` is not 0 and nothing
when it is 0, and leaves the handle at 0. -/
def ReleaseIsSubmitted (S : Sizes) (P : Platform) (self : Nat) (w : World) : Prop :=
  ∀ this, w.shaders self = some this →
    (D3DGLVertexShader.destructorBody S P self w).map
        (fun w' => (driverCalls w'.trace, submitted w'.trace,
          (w'.shaders self).map (fun sh => sh.mProgram))) =
      some (driverCalls w.trace,
        submitted w.trace ++
          (if this.mProgram ≠ 0 then [Command.DeinitVShaderCmd this.mProgram] else []),
        some 0)

/-- What C29 says of the size: once `init(data)` has returned on the shader at `self`,
`GetFunction` reports `4 * n` bytes, `n` being the count of tokens of the parse, with or
without a buffer. -/
def ReportsFourTimesTokens (S : Sizes) (P : Platform) (self : Nat) (data : List DWORD)
    (w : World) : Prop :=
  ∀ w' ok, D3DGLVertexShader.init S P self data w = some (w', ok) →
    ∀ buffer : Bool,
      (D3DGLVertexShader.GetFunction self buffer w').map (fun r => r.2.2.1) =
        some (4 * (P.MOJOSHADER_parse w.trace data).token_count)

/-! ## Concrete parameters, for the closed statements -/

def sampleSizes : Sizes :=
  { sizeof_StateEnable := 16
    sizeof_MaterialSet := 80
    sizeof_CompileVShaderCmd := 24
    sizeof_DeinitVShaderCmd := 16
    sizeof_External := fun _ => 8 }

def sampleMaterial : D3DMATERIAL9 :=
  { Diffuse := ⟨1, 2, 3, 4⟩, Ambient := ⟨5, 6, 7, 8⟩, Specular := ⟨9, 10, 11, 12⟩,
    Emissive := ⟨13, 14, 15, 16⟩, Power := 17 }

def sampleParseData : MOJOSHADER_parseData :=
  { error_count := 0, output := "void main() {}", token_count := 2, attributes := [],
    samplers := [] }

/-- A platform on which every call succeeds: the driver creates program `7` and
links it. -/
def samplePlatform : Platform :=
  { glCreateShaderProgramv := fun _ _ _ => 7
    linkStatus := fun _ _ => 1
    infoLogLength := fun _ _ => 0
    glGetUniformBlockIndex := fun _ _ _ => GL_INVALID_INDEX
    glGetAttribLocation := fun _ _ _ => 0
    glGetUniformLocation := fun _ _ _ => 0
    VSF_BINDING_IDX := 0
    VTXSTATE_BINDING_IDX := 1
    POSFIXUP_BINDING_IDX := 2
    MAX_FRAGMENT_SAMPLERS := 16
    MOJOSHADER_parse := fun _ _ => sampleParseData
    GetDC := fun _ _ => 1
    wglChoosePixelFormatARB := fun _ _ _ => (true, 1, 1)
    SetPixelFormat := fun _ _ _ => true
    wglCreateContextAttribsARB := fun _ _ => 5
    contextThreadStarts := fun _ _ _ => true
    swapChainInit := fun _ _ _ _ _ => true
    renderTargetInit := fun _ _ _ _ => true
    textureInit := fun _ _ _ _ => true
    swapChainMethod := fun _ _ _ => D3D_OK
    swapChainTeardown := fun _ => [1]
    renderTargetTeardown := fun _ => [2]
    uninitializedRS := fun _ => 0
    uninitializedMaterial := sampleMaterial }

/-- As `samplePlatform`, with a driver that cannot create the shader program. -/
def noProgramPlatform : Platform :=
  { samplePlatform with glCreateShaderProgramv := fun _ _ _ => 0 }

/-- As `samplePlatform`, with a driver that creates the program and fails to link it. -/
def noLinkPlatform : Platform :=
  { samplePlatform with linkStatus := fun _ _ => GL_FALSE }

/-- As `samplePlatform`, with a Context Thread that cannot be started. -/
def noThreadPlatform : Platform :=
  { samplePlatform with contextThreadStarts := fun _ _ _ => false }

def sampleAdapter : D3DAdapter :=
  { pointsize_max := FLOAT_ONE, getUsage := fun _ _ => 0 }

/-- A world with a newly constructed device and nothing else. -/
def sampleWorld : World :=
  { trace := []
    device := D3DGLDevice.constructor samplePlatform sampleAdapter 3 0
    shaders := fun _ => none
    parseData := fun _ => none
    nextId := 0 }

/-- As `sampleWorld`, with the queue running and one shader object at address `0`. -/
def shaderWorld : World :=
  { sampleWorld with
    device := { sampleWorld.device with
      mQueue := { state := .Running, locked := false, pending := [] } }
    shaders := fun a => if a = 0 then some { mProgram := 0, mCode := [], mUsageMap := [] } else none
    nextId := 1 }

/-- As `shaderWorld`, the shader at `0` holding program `7`, and the device, with context
`5` and swap chain `4`, counting two references: that of the shader and another. -/
def heldWorld : World :=
  { shaderWorld with
    device := { shaderWorld.device with mRefCount := 2, mGLContext := 5, mSwapchains := [4] }
    shaders := fun a => if a = 0 then some { mProgram := 7, mCode := [], mUsageMap := [] } else none }

/-- As `heldWorld`, the reference of the shader being the only one left. -/
def lastWorld : World :=
  { heldWorld with device := { heldWorld.device with mRefCount := 1 } }

/-- As `heldWorld`, the second reference being that of a new shader at `1`. -/
def twoShaderWorld : World :=
  { heldWorld with
    shaders := fun a =>
      if a = 0 then some { mProgram := 7, mCode := [], mUsageMap := [] }
      else if a = 1 then some { mProgram := 0, mCode := [], mUsageMap := [] }
      else none
    nextId := 2 }

def sampleParams : D3DPRESENT_PARAMETERS :=
  { BackBufferWidth := 640, BackBufferHeight := 480, BackBufferFormat := D3DFMT_X8R8G8B8,
    BackBufferCount := 1, MultiSampleType := 0, MultiSampleQuality := 0, SwapEffect := 1,
    hDeviceWindow := 0, Windowed := true, EnableAutoDepthStencil := true,
    AutoDepthStencilFormat := D3DFMT_D24S8, Flags := 0, FullScreen_RefreshRateInHz := 0,
    PresentationInterval := 0 }

/-- A device whose `init` has succeeded on `samplePlatform`: one swap chain, an auto
depth-stencil, a context and a running queue; one command is pending. -/
def busyWorld : World :=
  CommandQueue.send (.StateEnable GL_DITHER true)
    (D3DGLDevice.init samplePlatform sampleParams sampleWorld).1

/-- As `samplePlatform`, with a parser that finds `2^30` tokens. -/
def hugePlatform : Platform :=
  { samplePlatform with
    MOJOSHADER_parse := fun _ _ => { sampleParseData with token_count := 2 ^ 30 } }

/-- A vertex shader of `2^30` tokens. -/
def hugeData : List DWORD := 0xfffe0300 :: List.replicate (2 ^ 30 - 1) 0

/-! # Theorems -/

/-! ## Bookkeeping -/

@[simp] theorem emit_trace (w : World) (e : Event) : (w.emit e).trace = w.trace ++ [e] := rfl
@[simp] theorem emit_device (w : World) (e : Event) : (w.emit e).device = w.device := rfl
@[simp] theorem emit_shaders (w : World) (e : Event) : (w.emit e).shaders = w.shaders := rfl
@[simp] theorem emit_parseData (w : World) (e : Event) : (w.emit e).parseData = w.parseData := rfl
@[simp] theorem emit_nextId (w : World) (e : Event) : (w.emit e).nextId = w.nextId := rfl
@[simp] theorem setQueue_trace (w : World) (q : CommandQueue) : (w.setQueue q).trace = w.trace := rfl
@[simp] theorem setQueue_queue (w : World) (q : CommandQueue) : (w.setQueue q).device.mQueue = q := rfl
@[simp] theorem setQueue_shaders (w : World) (q : CommandQueue) : (w.setQueue q).shaders = w.shaders := rfl
@[simp] theorem setQueue_parseData (w : World) (q : CommandQueue) :
    (w.setQueue q).parseData = w.parseData := rfl
@[simp] theorem setQueue_nextId (w : World) (q : CommandQueue) : (w.setQueue q).nextId = w.nextId := rfl

/-- The program handle `compileShaderGL` leaves: the driver's, when it created a
program and linked it, and `0` otherwise. -/
theorem compileShaderGL_mProgram (P : Platform) (this : D3DGLVertexShader)
    (shader : MOJOSHADER_parseData) (tr : List Event) :
    (D3DGLVertexShader.compileShaderGL P this shader tr).1.mProgram =
      if P.glCreateShaderProgramv tr GL_VERTEX_SHADER shader.output ≠ 0 ∧
         P.linkStatus
           (tr ++ [.gl (.glCreateShaderProgramv GL_VERTEX_SHADER shader.output
                    (P.glCreateShaderProgramv tr GL_VERTEX_SHADER shader.output)),
                   .checkGLError])
           (P.glCreateShaderProgramv tr GL_VERTEX_SHADER shader.output) ≠ GL_FALSE
      then P.glCreateShaderProgramv tr GL_VERTEX_SHADER shader.output
      else 0 := by
  unfold D3DGLVertexShader.compileShaderGL
  by_cases hc : P.glCreateShaderProgramv tr GL_VERTEX_SHADER shader.output = 0
  · simp [hc]
  · by_cases hl : P.linkStatus
        (tr ++ [.gl (.glCreateShaderProgramv GL_VERTEX_SHADER shader.output
                    (P.glCreateShaderProgramv tr GL_VERTEX_SHADER shader.output)),
                   .checkGLError])
        (P.glCreateShaderProgramv tr GL_VERTEX_SHADER shader.output) = GL_FALSE
    · simp [hc, hl]
    · simp [hc, hl]

/-! ## C1 -/

/-- C1: for each of the four command classes of the source and every payload,
`execute()` returns, and returns the `sizeof` of its class, whatever the payload
and whatever the driver answers (for `CompileVShaderCmd`: whether or not the
compile succeeds).  The two pointers of a `CompileVShaderCmd` point to live
objects. -/
theorem C1_execute_returns_sizeof (S : Sizes) (P : Platform) (w : World) :
    (∀ mState mEnable, ∃ w',
      (Command.StateEnable mState mEnable).execute S P w = some (w', S.sizeof_StateEnable)) ∧
    (∀ mShininess mDiffuse mAmbient mSpecular mEmission, ∃ w',
      (Command.MaterialSet mShininess mDiffuse mAmbient mSpecular mEmission).execute S P w
        = some (w', S.sizeof_MaterialSet)) ∧
    (∀ mTarget mShader this shader,
      w.shaders mTarget = some this → w.parseData mShader = some shader →
      ∃ w', (Command.CompileVShaderCmd mTarget mShader).execute S P w
        = some (w', S.sizeof_CompileVShaderCmd)) ∧
    (∀ mProgram, ∃ w',
      (Command.DeinitVShaderCmd mProgram).execute S P w = some (w', S.sizeof_DeinitVShaderCmd)) := by
  refine ⟨?_, ?_, ?_, ?_⟩
  · intro mState mEnable
    cases mEnable <;> simp [Command.execute]
  · intro a b c d e
    simp [Command.execute]
  · intro t s this shader ht hs
    simp [Command.execute, ht, hs]
  · intro p
    simp [Command.execute]

/-- C1, at a concrete input: a `CompileVShaderCmd` whose compile fails (the driver
creates no program) and one whose compile succeeds both return `24`, the size
of the class. -/
theorem C1_execute_returns_sizeof_witness :
    ((Command.CompileVShaderCmd 0 0).execute sampleSizes noProgramPlatform
        { shaderWorld with parseData := fun _ => some sampleParseData }).map Prod.snd = some 24 ∧
    ((Command.CompileVShaderCmd 0 0).execute sampleSizes samplePlatform
        { shaderWorld with parseData := fun _ => some sampleParseData }).map Prod.snd = some 24 := by
  constructor
  · obtain ⟨w', h⟩ := (C1_execute_returns_sizeof sampleSizes noProgramPlatform
      { shaderWorld with parseData := fun _ => some sampleParseData }).2.2.1 0 0
      { mProgram := 0, mCode := [], mUsageMap := [] } sampleParseData rfl rfl
    rw [h]; rfl
  · obtain ⟨w', h⟩ := (C1_execute_returns_sizeof sampleSizes samplePlatform
      { shaderWorld with parseData := fun _ => some sampleParseData }).2.2.1 0 0
      { mProgram := 0, mCode := [], mUsageMap := [] } sampleParseData rfl rfl
    rw [h]; rfl



/-! ## C2 -/

theorem submitted_append (a b : List Event) : submitted (a ++ b) = submitted a ++ submitted b := by
  induction a with
  | nil => rfl
  | cons e es ih => cases e <;> simp [submitted, ih]

/-- What `SetRenderState(D3DRS_DITHERENABLE, value)` does when the Queue Lock is free. -/
theorem SetRenderState_dither (value : DWORD) (w : World) (h : w.device.mQueue.locked = false) :
    D3DGLDevice.SetRenderState D3DRS_DITHERENABLE value w =
      some ({ w with
              trace := w.trace ++ [.lock, .send (.StateEnable GL_DITHER (value != 0)), .unlock]
              device := { w.device with
                mRenderState := Function.update w.device.mRenderState D3DRS_DITHERENABLE value
                mQueue := { w.device.mQueue with
                  locked := false
                  pending := w.device.mQueue.pending ++ [.StateEnable GL_DITHER (value != 0)] } } },
            D3D_OK) := by
  simp [D3DGLDevice.SetRenderState, CommandQueue.lock, CommandQueue.sendAndUnlock,
    CommandQueue.unlock, CommandQueue.send, World.emit, World.setQueue, StateEnable.new, h]

/-- What `SetMaterial(&material)` does when the Queue Lock is free. -/
theorem SetMaterial_eq (material : D3DMATERIAL9) (w : World) (h : w.device.mQueue.locked = false) :
    D3DGLDevice.SetMaterial material w =
      some ({ w with
              trace := w.trace ++ [.lock, .send (MaterialSet.new material), .unlock]
              device := { w.device with
                mMaterial := material
                mQueue := { w.device.mQueue with
                  locked := false
                  pending := w.device.mQueue.pending ++ [MaterialSet.new material] } } },
            D3D_OK) := by
  simp [D3DGLDevice.SetMaterial, CommandQueue.lock, CommandQueue.sendAndUnlock,
    CommandQueue.unlock, CommandQueue.send, World.emit, World.setQueue, h]

/-- What `GetMaterial` does when the Queue Lock is free. -/
theorem GetMaterial_eq (w : World) (h : w.device.mQueue.locked = false) :
    D3DGLDevice.GetMaterial w =
      some ({ w with
              trace := w.trace ++ [.lock, .unlock]
              device := { w.device with mQueue := { w.device.mQueue with locked := false } } },
            w.device.mMaterial, E_NOTIMPL) := by
  simp [D3DGLDevice.GetMaterial, CommandQueue.lock, CommandQueue.unlock, World.emit,
    World.setQueue, h]

/-- C2: for every value `v`, `SetRenderState(D3DRS_DITHERENABLE, v)`, called while
no producer holds the Queue Lock, returns `D3D_OK`; the shadow render state then
holds `v`, so that `GetRenderState(D3DRS_DITHERENABLE)` returns `D3D_OK` and
writes `v`; and exactly one command was submitted, `StateEnable(GL_DITHER, v != 0)`. -/
theorem C2_SetRenderState_dither (v : DWORD) (w : World)
    (hfree : w.device.mQueue.locked = false) :
    ∃ w', D3DGLDevice.SetRenderState D3DRS_DITHERENABLE v w = some (w', D3D_OK) ∧
      w'.device.mRenderState D3DRS_DITHERENABLE = v ∧
      D3DGLDevice.GetRenderState D3DRS_DITHERENABLE w' = (some v, D3D_OK) ∧
      submitted w'.trace = submitted w.trace ++ [Command.StateEnable GL_DITHER (v != 0)] ∧
      w'.device.mQueue.pending = w.device.mQueue.pending ++ [Command.StateEnable GL_DITHER (v != 0)] := by
  refine ⟨_, SetRenderState_dither v w hfree, ?_, ?_, ?_, ?_⟩
  · simp
  · simp [D3DGLDevice.GetRenderState, D3DRS_DITHERENABLE]
  · simp [submitted_append, submitted]
  · simp

/-- C2, at a concrete input: on a newly constructed device, `SetRenderState(D3DRS_DITHERENABLE, 1)`
returns `D3D_OK` and submits `StateEnable(GL_DITHER, true)`. -/
theorem C2_SetRenderState_dither_witness :
    sampleWorld.device.mQueue.locked = false ∧
    ∃ w', D3DGLDevice.SetRenderState D3DRS_DITHERENABLE 1 sampleWorld = some (w', D3D_OK) ∧
      w'.device.mRenderState D3DRS_DITHERENABLE = 1 ∧
      D3DGLDevice.GetRenderState D3DRS_DITHERENABLE w' = (some 1, D3D_OK) ∧
      submitted w'.trace = submitted sampleWorld.trace ++ [Command.StateEnable GL_DITHER true] ∧
      w'.device.mQueue.pending =
        sampleWorld.device.mQueue.pending ++ [Command.StateEnable GL_DITHER true] :=
  ⟨rfl, C2_SetRenderState_dither 1 sampleWorld rfl⟩


/-! ## C3 -/

theorem lastStateEnable_append (xs ys : List Command) :
    lastStateEnable (xs ++ ys) = ys.foldl (fun acc c => match c with
      | .StateEnable mState mEnable => some (mState, mEnable)
      | _ => acc) (lastStateEnable xs) := by
  simp [lastStateEnable, List.foldl_append]

theorem lastMaterialSet_append (xs ys : List Command) :
    lastMaterialSet (xs ++ ys) = ys.foldl (fun acc c => match c with
      | .MaterialSet a b c d e => some (.MaterialSet a b c d e)
      | _ => acc) (lastMaterialSet xs) := by
  simp [lastMaterialSet, List.foldl_append]

theorem lastStateEnable_mono (xs ys : List Command) (h : lastStateEnable xs ≠ none) :
    lastStateEnable (xs ++ ys) ≠ none := by
  rw [lastStateEnable_append]
  generalize lastStateEnable xs = acc at h
  induction ys generalizing acc with
  | nil => simpa using h
  | cons y ys ih =>
      simp only [List.foldl_cons]
      apply ih
      cases y <;> simp [h]

theorem lastMaterialSet_mono (xs ys : List Command) (h : lastMaterialSet xs ≠ none) :
    lastMaterialSet (xs ++ ys) ≠ none := by
  rw [lastMaterialSet_append]
  generalize lastMaterialSet xs = acc at h
  induction ys generalizing acc with
  | nil => simpa using h
  | cons y ys ih =>
      simp only [List.foldl_cons]
      apply ih
      cases y <;> simp [h]

/-- A `StateEnable` or `MaterialSet` executes, whatever the world, and submits nothing. -/
theorem execute_shadowCmd (S : Sizes) (P : Platform) (c : Command) (w : World)
    (h : c.isShadowCmd = true) :
    ∃ r new, c.execute S P w = some r ∧ r.1.trace = w.trace ++ new ∧ submitted new = [] ∧
      r.1.device = w.device := by
  cases c with
  | StateEnable s e =>
      cases e
      · exact ⟨(w.emit (.gl (.glDisable s)), S.sizeof_StateEnable), [.gl (.glDisable s)],
          by simp [Command.execute], rfl, rfl, rfl⟩
      · exact ⟨(w.emit (.gl (.glEnable s)), S.sizeof_StateEnable), [.gl (.glEnable s)],
          by simp [Command.execute], rfl, rfl, rfl⟩
  | MaterialSet a b c d e =>
      refine ⟨(((((w.emit (.gl (.glMaterialf GL_FRONT_AND_BACK GL_SHININESS a))).emit
          (.gl (.glMaterialfv GL_FRONT_AND_BACK GL_DIFFUSE b))).emit
          (.gl (.glMaterialfv GL_FRONT_AND_BACK GL_AMBIENT c))).emit
          (.gl (.glMaterialfv GL_FRONT_AND_BACK GL_SPECULAR d))).emit
          (.gl (.glMaterialfv GL_FRONT_AND_BACK GL_EMISSION e)), S.sizeof_MaterialSet),
        [.gl (.glMaterialf GL_FRONT_AND_BACK GL_SHININESS a),
        .gl (.glMaterialfv GL_FRONT_AND_BACK GL_DIFFUSE b),
        .gl (.glMaterialfv GL_FRONT_AND_BACK GL_AMBIENT c),
        .gl (.glMaterialfv GL_FRONT_AND_BACK GL_SPECULAR d),
        .gl (.glMaterialfv GL_FRONT_AND_BACK GL_EMISSION e)], by simp [Command.execute], ?_, rfl, rfl⟩
      simp
  | CompileVShaderCmd t s => simp [Command.isShadowCmd] at h
  | DeinitVShaderCmd p => simp [Command.isShadowCmd] at h
  | External t => simp [Command.isShadowCmd] at h

theorem BeginScene_fst (w : World) :
    (D3DGLDevice.BeginScene w).1 = { w with device := { w.device with mInScene := true } } := by
  unfold D3DGLDevice.BeginScene
  by_cases h : w.device.mInScene = true <;> simp [h]

theorem EndScene_fst (w : World) :
    (D3DGLDevice.EndScene w).1 = { w with device := { w.device with mInScene := false } } := by
  unfold D3DGLDevice.EndScene
  by_cases h : w.device.mInScene = true <;> simp [h]

/-- One call keeps `ShadowInv`, only extends the trace, and a call that sets a
shadow field leaves a command for it among the submitted ones. -/
theorem apply_ShadowInv (S : Sizes) (P : Platform) (call : DeviceCall) (w : World)
    (h : ShadowInv w) :
    ∃ w' new, call.apply S P w = some w' ∧ w'.trace = w.trace ++ new ∧ ShadowInv w' ∧
      (∀ v, call = .SetRenderState D3DRS_DITHERENABLE v →
        lastStateEnable (submitted w'.trace) ≠ none) ∧
      (∀ m, call = .SetMaterial m → lastMaterialSet (submitted w'.trace) ≠ none) := by
  obtain ⟨hfree, hpend, hse, hms⟩ := h
  cases call with
  | SetRenderState state value =>
      by_cases hs : state = D3DRS_DITHERENABLE
      · subst hs
        refine ⟨_, [.lock, .send (.StateEnable GL_DITHER (value != 0)), .unlock],
          congrArg (Option.map Prod.fst) (SetRenderState_dither value w hfree), ?_, ?_, ?_, ?_⟩
        · rfl
        · refine ⟨rfl, ?_, ?_, ?_⟩
          · intro c hc
            simp only [List.mem_append, List.mem_singleton] at hc
            rcases hc with hc | hc
            · exact hpend c hc
            · subst hc; rfl
          · intro p hp
            simp [submitted_append, submitted, lastStateEnable_append] at hp
            simp [← hp]
          · intro c hc
            simp [submitted_append, submitted, lastMaterialSet_append] at hc
            exact hms c hc
        · intro v _
          simp [submitted_append, submitted, lastStateEnable_append]
        · intro m hm
          cases hm
      · refine ⟨w, [], ?_, by simp, ⟨hfree, hpend, hse, hms⟩, ?_, ?_⟩
        · simp [DeviceCall.apply, D3DGLDevice.SetRenderState, hs]
        · intro v hv
          injection hv with h1 h2
          exact absurd h1 hs
        · intro m hm
          cases hm
  | GetRenderState state =>
      refine ⟨w, [], rfl, by simp, ⟨hfree, hpend, hse, hms⟩, ?_, ?_⟩
      · intro v hv
        cases hv
      · intro m hm
        cases hm
  | SetMaterial material =>
      refine ⟨_, [.lock, .send (MaterialSet.new material), .unlock],
        congrArg (Option.map Prod.fst) (SetMaterial_eq material w hfree), ?_, ?_, ?_, ?_⟩
      · rfl
      · refine ⟨rfl, ?_, ?_, ?_⟩
        · intro c hc
          simp only [List.mem_append, List.mem_singleton] at hc
          rcases hc with hc | hc
          · exact hpend c hc
          · subst hc; rfl
        · intro p hp
          simp [submitted_append, submitted, lastStateEnable_append, MaterialSet.new] at hp
          exact hse p hp
        · intro c hc
          simp [submitted_append, submitted, lastMaterialSet_append, MaterialSet.new] at hc
          simp [← hc, MaterialSet.new]
      · intro v hv
        cases hv
      · intro m _
        simp [submitted_append, submitted, lastMaterialSet_append, MaterialSet.new]
  | GetMaterial =>
      refine ⟨_, [.lock, .unlock],
        congrArg (Option.map Prod.fst) (GetMaterial_eq w hfree), ?_, ?_, ?_, ?_⟩
      · rfl
      · refine ⟨rfl, hpend, ?_, ?_⟩
        · intro p hp
          simp [submitted_append, submitted] at hp
          exact hse p hp
        · intro c hc
          simp [submitted_append, submitted] at hc
          exact hms c hc
      · intro v hv
        cases hv
      · intro m hm
        cases hm
  | BeginScene =>
      refine ⟨(D3DGLDevice.BeginScene w).1, [], rfl, ?_, ?_, ?_, ?_⟩
      · rw [BeginScene_fst]; simp
      · rw [BeginScene_fst]
        exact ⟨hfree, hpend, hse, hms⟩
      · intro v hv
        cases hv
      · intro m hm
        cases hm
  | EndScene =>
      refine ⟨(D3DGLDevice.EndScene w).1, [], rfl, ?_, ?_, ?_, ?_⟩
      · rw [EndScene_fst]; simp
      · rw [EndScene_fst]
        exact ⟨hfree, hpend, hse, hms⟩
      · intro v hv
        cases hv
      · intro m hm
        cases hm
  | contextThread =>
      cases hp : w.device.mQueue.pending with
      | nil =>
          refine ⟨w, [], ?_, by simp, ⟨hfree, hpend, hse, hms⟩, ?_, ?_⟩
          · simp [DeviceCall.apply, CommandQueue.runOne, hp]
          · intro v hv
            cases hv
          · intro m hm
            cases hm
      | cons c rest =>
          have hc : c.isShadowCmd = true := hpend c (by simp [hp])
          obtain ⟨r, new, hr, htr, hsub, hdev⟩ := execute_shadowCmd S P c
            ((w.setQueue { w.device.mQueue with pending := rest }).emit (.execute c)) hc
          refine ⟨r.1, .execute c :: new, ?_, ?_, ?_, ?_, ?_⟩
          · simp [DeviceCall.apply, CommandQueue.runOne, hp, hr]
          · simp [htr]
          · refine ⟨?_, ?_, ?_, ?_⟩
            · rw [hdev]; exact hfree
            · intro c' hc'
              rw [hdev] at hc'
              exact hpend c' (by rw [hp]; exact List.mem_cons_of_mem _ hc')
            · intro p hp'
              rw [htr] at hp'
              simp [submitted_append, submitted, hsub] at hp'
              rw [hdev]
              exact hse p hp'
            · intro c' hc'
              rw [htr] at hc'
              simp [submitted_append, submitted, hsub] at hc'
              rw [hdev]
              exact hms c' hc'
          · intro v hv
            cases hv
          · intro m hm
            cases hm

/-- Any sequence of calls keeps `ShadowInv`; the commands a call of the sequence
submitted are still among the submitted ones at the end. -/
theorem runCalls_ShadowInv (S : Sizes) (P : Platform) (calls : List DeviceCall) :
    ∀ w, ShadowInv w →
    ∃ w', runCalls S P calls w = some w' ∧ ShadowInv w' ∧
      ((lastStateEnable (submitted w.trace) ≠ none ∨
          ∃ v, DeviceCall.SetRenderState D3DRS_DITHERENABLE v ∈ calls) →
        lastStateEnable (submitted w'.trace) ≠ none) ∧
      ((lastMaterialSet (submitted w.trace) ≠ none ∨ ∃ m, DeviceCall.SetMaterial m ∈ calls) →
        lastMaterialSet (submitted w'.trace) ≠ none) := by
  induction calls with
  | nil =>
      intro w h
      refine ⟨w, rfl, h, ?_, ?_⟩
      · rintro (h | ⟨v, hv⟩)
        · exact h
        · cases hv
      · rintro (h | ⟨v, hv⟩)
        · exact h
        · cases hv
  | cons call rest ih =>
      intro w h
      obtain ⟨w1, new, h1, htr, hinv, hrs, hmat⟩ := apply_ShadowInv S P call w h
      obtain ⟨w2, h2, hinv2, hrs2, hmat2⟩ := ih w1 hinv
      refine ⟨w2, by simp [runCalls, h1, h2], hinv2, ?_, ?_⟩
      · rintro (hprev | ⟨v, hv⟩)
        · apply hrs2; left
          rw [htr, submitted_append]
          exact lastStateEnable_mono _ _ hprev
        · rcases List.mem_cons.mp hv with hv | hv
          · apply hrs2; left
            exact hrs v hv.symm
          · exact hrs2 (Or.inr ⟨v, hv⟩)
      · rintro (hprev | ⟨m, hm⟩)
        · apply hmat2; left
          rw [htr, submitted_append]
          exact lastMaterialSet_mono _ _ hprev
        · rcases List.mem_cons.mp hm with hm | hm
          · apply hmat2; left
            exact hmat m hm.symm
          · exact hmat2 (Or.inr ⟨m, hm⟩)


theorem MaterialSet_new_injective (m n : D3DMATERIAL9) (h : MaterialSet.new m = MaterialSet.new n) :
    m = n := by
  obtain ⟨⟨d0, d1, d2, d3⟩, ⟨a0, a1, a2, a3⟩, ⟨s0, s1, s2, s3⟩, ⟨e0, e1, e2, e3⟩, p⟩ := m
  obtain ⟨⟨d0', d1', d2', d3'⟩, ⟨a0', a1', a2', a3'⟩, ⟨s0', s1', s2', s3'⟩, ⟨e0', e1', e2', e3'⟩, p'⟩ := n
  simp only [MaterialSet.new, Command.MaterialSet.injEq, Float4.mk.injEq] at h
  obtain ⟨hp, ⟨h1, h2, h3, h4⟩, ⟨h5, h6, h7, h8⟩, ⟨h9, h10, h11, h12⟩, ⟨h13, h14, h15, h16⟩⟩ := h
  subst_vars
  rfl

/-- C3: on a device on which nothing has been submitted yet, any finite sequence
of device calls (with turns of the Context Thread in between) runs to its end,
and then: if the sequence has a `SetRenderState(D3DRS_DITHERENABLE, .)`, the
most recently submitted `StateEnable` command is for `GL_DITHER` and its enable
flag equals `mRenderState[D3DRS_DITHERENABLE] != 0`; if it has a `SetMaterial`,
the most recently submitted `MaterialSet` command is the one constructed from
the shadow `mMaterial`, and no other material gives that command. -/
theorem C3_shadow_matches_last_command (S : Sizes) (P : Platform) (calls : List DeviceCall)
    (w : World) (hfree : w.device.mQueue.locked = false) (hpend : w.device.mQueue.pending = [])
    (hsub : submitted w.trace = []) :
    ∃ w', runCalls S P calls w = some w' ∧
      ((∃ v, DeviceCall.SetRenderState D3DRS_DITHERENABLE v ∈ calls) →
        ∃ e, lastStateEnable (submitted w'.trace) = some (GL_DITHER, e) ∧
          (w'.device.mRenderState D3DRS_DITHERENABLE != 0) = e) ∧
      ((∃ m, DeviceCall.SetMaterial m ∈ calls) →
        lastMaterialSet (submitted w'.trace) = some (MaterialSet.new w'.device.mMaterial) ∧
        ∀ m, lastMaterialSet (submitted w'.trace) = some (MaterialSet.new m) →
          m = w'.device.mMaterial) := by
  have hinv : ShadowInv w := by
    refine ⟨hfree, ?_, ?_, ?_⟩
    · intro c hc
      rw [hpend] at hc
      cases hc
    · intro p hp
      rw [hsub] at hp
      cases hp
    · intro c hc
      rw [hsub] at hc
      cases hc
  obtain ⟨w', hrun, ⟨-, -, hse, hms⟩, hrs, hmat⟩ := runCalls_ShadowInv S P calls w hinv
  refine ⟨w', hrun, ?_, ?_⟩
  · intro hex
    have hne := hrs (Or.inr hex)
    cases hl : lastStateEnable (submitted w'.trace) with
    | none => exact absurd hl hne
    | some p =>
        have := hse p hl
        subst this
        exact ⟨_, rfl, rfl⟩
  · intro hex
    have hne := hmat (Or.inr hex)
    cases hl : lastMaterialSet (submitted w'.trace) with
    | none => exact absurd hl hne
    | some c =>
        have hc := hms c hl
        subst hc
        refine ⟨rfl, ?_⟩
        intro m hm
        exact MaterialSet_new_injective _ _ (Option.some.inj hm).symm

/-- C3, at a concrete input: a newly constructed device, then `SetRenderState(D3DRS_DITHERENABLE, 1)`,
`SetMaterial`, a turn of the Context Thread and `SetRenderState(D3DRS_DITHERENABLE, 0)`. -/
theorem C3_shadow_matches_last_command_witness :
    ∃ w', runCalls sampleSizes samplePlatform
        [.SetRenderState D3DRS_DITHERENABLE 1, .SetMaterial sampleMaterial, .contextThread,
         .SetRenderState D3DRS_DITHERENABLE 0] sampleWorld = some w' ∧
      ((∃ v, DeviceCall.SetRenderState D3DRS_DITHERENABLE v ∈
          [DeviceCall.SetRenderState D3DRS_DITHERENABLE 1, .SetMaterial sampleMaterial,
           .contextThread, .SetRenderState D3DRS_DITHERENABLE 0]) →
        ∃ e, lastStateEnable (submitted w'.trace) = some (GL_DITHER, e) ∧
          (w'.device.mRenderState D3DRS_DITHERENABLE != 0) = e) ∧
      ((∃ m, DeviceCall.SetMaterial m ∈
          [DeviceCall.SetRenderState D3DRS_DITHERENABLE 1, .SetMaterial sampleMaterial,
           .contextThread, .SetRenderState D3DRS_DITHERENABLE 0]) →
        lastMaterialSet (submitted w'.trace) = some (MaterialSet.new w'.device.mMaterial) ∧
        ∀ m, lastMaterialSet (submitted w'.trace) = some (MaterialSet.new m) →
          m = w'.device.mMaterial) :=
  C3_shadow_matches_last_command sampleSizes samplePlatform _ sampleWorld rfl rfl rfl


/-! ## C4 -/

theorem after_locked (call : BundledCall) (k : Nat) (w : World)
    (hfree : w.device.mQueue.locked = false) (hk : k ≤ 4) :
    (call.after k w).device.mQueue.locked = decide (1 ≤ k ∧ k ≤ 3) := by
  interval_cases k <;> cases call <;>
    simp [BundledCall.after, BundledCall.write, CommandQueue.send, World.emit, World.setQueue, hfree]

/-- A thread inside its call moves from step `k` to step `k + 1` until it has returned. -/
theorem step_after (call : BundledCall) (k : Nat) (w : World)
    (hfree : w.device.mQueue.locked = false) (hk : k ≤ 4) :
    call.step k (call.after k w) = if k < 4 then some (call.after (k + 1) w, k + 1) else none := by
  interval_cases k <;> cases call <;>
    simp [BundledCall.step, BundledCall.after, BundledCall.write, BundledCall.cmd,
      CommandQueue.lock, CommandQueue.unlock, CommandQueue.send, World.emit, World.setQueue, hfree]

/-- A thread that has not begun moves only when the Queue Lock is free. -/
theorem step_zero (call : BundledCall) (x : World) :
    call.step 0 x = if x.device.mQueue.locked = true then none else some (call.after 1 x, 1) := by
  by_cases h : x.device.mQueue.locked = true <;>
    simp [BundledCall.step, BundledCall.after, CommandQueue.lock, h]

/-- The four steps together are the call itself. -/
theorem call_eq_after (call : BundledCall) (w : World) (hfree : w.device.mQueue.locked = false) :
    call.call w = some (call.after 4 w, D3D_OK) := by
  cases call with
  | SetRenderState value =>
      rw [BundledCall.call, SetRenderState_dither value w hfree]
      simp [BundledCall.after, BundledCall.write, BundledCall.cmd, CommandQueue.send, World.emit,
        World.setQueue, StateEnable.new]
  | SetMaterial material =>
      rw [BundledCall.call, SetMaterial_eq material w hfree]
      simp [BundledCall.after, BundledCall.write, BundledCall.cmd, CommandQueue.send, World.emit,
        World.setQueue]

theorem after_four_submitted (call : BundledCall) (w : World) :
    submitted (call.after 4 w).trace = submitted w.trace ++ [call.command] := by
  cases call <;>
    simp [BundledCall.after, BundledCall.write, BundledCall.cmd, BundledCall.command,
      CommandQueue.send, World.emit, World.setQueue, submitted_append, submitted]

theorem after_four_shadowHolds (call : BundledCall) (w : World) :
    call.shadowHolds (call.after 4 w) := by
  cases call <;>
    simp [BundledCall.after, BundledCall.write, BundledCall.shadowHolds,
      CommandQueue.send, World.emit, World.setQueue]


theorem after_zero (call : BundledCall) (w : World) : call.after 0 w = w := rfl

theorem after_four_free (call : BundledCall) (w : World)
    (hfree : w.device.mQueue.locked = false) :
    (call.after 4 w).device.mQueue.locked = false := by
  rw [after_locked call 4 w hfree (le_refl 4)]
  decide

theorem step_four (call : BundledCall) (x : World) : call.step 4 x = none := rfl

/-- One scheduling decision keeps the state linearized, and moves the program
counters as `pcStep` says. -/
theorem step_Linearized (a b : BundledCall) (w : World)
    (hfree : w.device.mQueue.locked = false) (st : TwoThreads) (t : Bool)
    (h : Linearized a b w st) :
    Linearized a b w (TwoThreads.step a b st t) ∧
      ((TwoThreads.step a b st t).pcA, (TwoThreads.step a b st t).pcB)
        = pcStep (st.pcA, st.pcB) t := by
  obtain ⟨world, pcA, pcB⟩ := st
  have hfa := after_four_free a w hfree
  have hfb := after_four_free b w hfree
  rcases h with ⟨hB, hA, hw⟩ | ⟨hA, hB, hw⟩ | ⟨hA, hB, hw⟩ | ⟨hB, hA, hw⟩
  · simp only at hB hA hw
    subst hB hw
    cases t
    · simp only [TwoThreads.step, step_after a pcA w hfree hA, Bool.false_eq_true, if_false]
      interval_cases pcA <;> simp [Linearized, pcStep, after_zero]
    · simp only [TwoThreads.step, step_zero, after_locked a pcA w hfree hA, if_true]
      interval_cases pcA <;> simp [Linearized, pcStep, after_zero]
  · simp only at hB hA hw
    subst hA hw
    cases t
    · simp only [TwoThreads.step, step_zero, after_locked b pcB w hfree hB, Bool.false_eq_true,
        if_false]
      interval_cases pcB <;> simp [Linearized, pcStep, after_zero]
    · simp only [TwoThreads.step, step_after b pcB w hfree hB, if_true]
      interval_cases pcB <;> simp [Linearized, pcStep, after_zero]
  · simp only at hB hA hw
    subst hA hw
    cases t
    · simp only [TwoThreads.step, step_four, Bool.false_eq_true, if_false]
      interval_cases pcB <;> simp [Linearized, pcStep, after_zero]
    · simp only [TwoThreads.step, step_after b pcB _ hfa hB, if_true]
      interval_cases pcB <;> simp [Linearized, pcStep, after_zero]
  · simp only at hB hA hw
    subst hB hw
    cases t
    · simp only [TwoThreads.step, step_after a pcA _ hfb hA, Bool.false_eq_true, if_false]
      interval_cases pcA <;> simp [Linearized, pcStep, after_zero]
    · simp only [TwoThreads.step, step_four, if_true]
      interval_cases pcA <;> simp [Linearized, pcStep, after_zero]

/-- Every schedule keeps the state linearized; the program counters follow `pcStep`. -/
theorem foldl_Linearized (a b : BundledCall) (w : World)
    (hfree : w.device.mQueue.locked = false) (schedule : List Bool) :
    ∀ st, Linearized a b w st →
      Linearized a b w (schedule.foldl (TwoThreads.step a b) st) ∧
      ((schedule.foldl (TwoThreads.step a b) st).pcA,
        (schedule.foldl (TwoThreads.step a b) st).pcB)
        = schedule.foldl pcStep (st.pcA, st.pcB) := by
  induction schedule with
  | nil => intro st h; exact ⟨h, rfl⟩
  | cons t rest ih =>
      intro st h
      obtain ⟨h1, h2⟩ := step_Linearized a b w hfree st t h
      obtain ⟨h3, h4⟩ := ih _ h1
      simp only [List.foldl_cons]
      exact ⟨h3, by rw [h4, h2]⟩

/-- From any program counters, four turns for `A`, four for `B` and four for `A`
bring both threads to their return. -/
theorem pcStep_finishes :
    ∀ pa < 5, ∀ pb < 5,
      [false, false, false, false, true, true, true, true, false, false, false, false].foldl
        pcStep (pa, pb) = (4, 4) := by
  decide


theorem Linearized_bounds (a b : BundledCall) (w : World) (st : TwoThreads)
    (h : Linearized a b w st) : st.pcA < 5 ∧ st.pcB < 5 := by
  rcases h with ⟨h1, h2, -⟩ | ⟨h1, h2, -⟩ | ⟨h1, h2, -⟩ | ⟨h1, h2, -⟩ <;> omega

/-- C4: two threads, each inside one call of the shape
`lock(); S = v; sendAndUnlock(cmd(v))` (`SetRenderState(D3DRS_DITHERENABLE, v)` or
`SetMaterial(&m)`), begun with the Queue Lock free, under any schedule of their
steps.  (1) Whenever the Queue Lock is free, either nothing has happened yet or
the most recently submitted command is the `cmd(v)` of one of the two calls and
its shadow field `S` holds that `v`: there is no mismatched pair.  (2) When both
have returned, the world is the one that running the two calls one after the
other, in one of the two orders, gives; the commands were submitted in that
order and `S` holds the `v` of the command submitted last.  (3) Every schedule
can be continued so that both threads return. -/
theorem C4_atomic_bundling (a b : BundledCall) (w : World)
    (hfree : w.device.mQueue.locked = false) (schedule : List Bool) :
    ((interleave a b schedule w).world.device.mQueue.locked = false →
      (interleave a b schedule w).world = w ∨
      ∃ c earlier, (c = a ∨ c = b) ∧
        submitted (interleave a b schedule w).world.trace
          = submitted w.trace ++ earlier ++ [c.command] ∧
        c.shadowHolds (interleave a b schedule w).world) ∧
    ((interleave a b schedule w).pcA = 4 ∧ (interleave a b schedule w).pcB = 4 →
      ∃ first second w1, ((first = a ∧ second = b) ∨ (first = b ∧ second = a)) ∧
        first.call w = some (w1, D3D_OK) ∧
        second.call w1 = some ((interleave a b schedule w).world, D3D_OK) ∧
        submitted (interleave a b schedule w).world.trace
          = submitted w.trace ++ [first.command, second.command] ∧
        second.shadowHolds (interleave a b schedule w).world) ∧
    (∃ ext, (interleave a b (schedule ++ ext) w).pcA = 4 ∧
      (interleave a b (schedule ++ ext) w).pcB = 4) := by
  have h0 : Linearized a b w { world := w, pcA := 0, pcB := 0 } :=
    Or.inl ⟨rfl, Nat.zero_le 4, rfl⟩
  obtain ⟨hlin, -⟩ := foldl_Linearized a b w hfree schedule _ h0
  have hfa := after_four_free a w hfree
  have hfb := after_four_free b w hfree
  change Linearized a b w (interleave a b schedule w) at hlin
  refine ⟨?_, ?_, ?_⟩
  · intro hl
    generalize interleave a b schedule w = st at hlin hl
    obtain ⟨world, pcA, pcB⟩ := st
    rcases hlin with ⟨hB, hA, hw⟩ | ⟨hA, hB, hw⟩ | ⟨hA, hB, hw⟩ | ⟨hB, hA, hw⟩
    · simp only at hB hA hw hl ⊢
      subst hw
      rw [after_locked a pcA w hfree hA] at hl
      interval_cases pcA <;> simp at hl
      · exact Or.inl rfl
      · exact Or.inr ⟨a, [], Or.inl rfl, by simp [after_four_submitted],
          after_four_shadowHolds a w⟩
    · simp only at hB hA hw hl ⊢
      subst hw
      rw [after_locked b pcB w hfree hB] at hl
      interval_cases pcB <;> simp at hl
      · exact Or.inl rfl
      · exact Or.inr ⟨b, [], Or.inr rfl, by simp [after_four_submitted],
          after_four_shadowHolds b w⟩
    · simp only at hB hA hw hl ⊢
      subst hw
      rw [after_locked b pcB _ hfa hB] at hl
      interval_cases pcB <;> simp at hl
      · exact Or.inr ⟨a, [], Or.inl rfl, by simp [after_zero, after_four_submitted],
          after_four_shadowHolds a w⟩
      · exact Or.inr ⟨b, [a.command], Or.inr rfl, by simp [after_four_submitted],
          after_four_shadowHolds b _⟩
    · simp only at hB hA hw hl ⊢
      subst hw
      rw [after_locked a pcA _ hfb hA] at hl
      interval_cases pcA <;> simp at hl
      · exact Or.inr ⟨b, [], Or.inr rfl, by simp [after_zero, after_four_submitted],
          after_four_shadowHolds b w⟩
      · exact Or.inr ⟨a, [b.command], Or.inl rfl, by simp [after_four_submitted],
          after_four_shadowHolds a _⟩
  · rintro ⟨h4a, h4b⟩
    generalize interleave a b schedule w = st at hlin h4a h4b
    obtain ⟨world, pcA, pcB⟩ := st
    simp only at h4a h4b
    subst h4a h4b
    rcases hlin with ⟨hB, -, -⟩ | ⟨hA, -, -⟩ | ⟨-, -, hw⟩ | ⟨-, -, hw⟩
    · simp at hB
    · simp at hA
    · simp only at hw ⊢
      subst hw
      exact ⟨a, b, a.after 4 w, Or.inl ⟨rfl, rfl⟩, call_eq_after a w hfree,
        call_eq_after b _ hfa, by simp [after_four_submitted], after_four_shadowHolds b _⟩
    · simp only at hw ⊢
      subst hw
      exact ⟨b, a, b.after 4 w, Or.inr ⟨rfl, rfl⟩, call_eq_after b w hfree,
        call_eq_after a _ hfb, by simp [after_four_submitted], after_four_shadowHolds a _⟩
  · refine ⟨[false, false, false, false, true, true, true, true, false, false, false, false], ?_⟩
    obtain ⟨hb1, hb2⟩ := Linearized_bounds a b w _ hlin
    have hfin := (foldl_Linearized a b w hfree
      [false, false, false, false, true, true, true, true, false, false, false, false]
      (interleave a b schedule w) hlin).2
    rw [pcStep_finishes _ hb1 _ hb2] at hfin
    have e : interleave a b (schedule ++
        [false, false, false, false, true, true, true, true, false, false, false, false]) w =
        List.foldl (TwoThreads.step a b) (interleave a b schedule w)
        [false, false, false, false, true, true, true, true, false, false, false, false] := by
      simp [interleave, List.foldl_append]
    rw [e]
    exact Prod.mk.inj hfin

/-- C4, at a concrete input: thread `A` in `SetRenderState(D3DRS_DITHERENABLE, 1)`,
thread `B` in `SetRenderState(D3DRS_DITHERENABLE, 0)`, `B` trying to enter while
`A` holds the Queue Lock.  Both return, and the outcome is that of one of the
two sequential orders. -/
theorem C4_atomic_bundling_witness :
    sampleWorld.device.mQueue.locked = false ∧
    (interleave (.SetRenderState 1) (.SetRenderState 0)
      [false, true, false, false, true, false, true, true, true, true] sampleWorld).pcA = 4 ∧
    (interleave (.SetRenderState 1) (.SetRenderState 0)
      [false, true, false, false, true, false, true, true, true, true] sampleWorld).pcB = 4 ∧
    ∃ first second w1,
      ((first = BundledCall.SetRenderState 1 ∧ second = BundledCall.SetRenderState 0) ∨
        (first = BundledCall.SetRenderState 0 ∧ second = BundledCall.SetRenderState 1)) ∧
      first.call sampleWorld = some (w1, D3D_OK) ∧
      second.call w1 = some ((interleave (.SetRenderState 1) (.SetRenderState 0)
        [false, true, false, false, true, false, true, true, true, true] sampleWorld).world,
        D3D_OK) ∧
      submitted (interleave (.SetRenderState 1) (.SetRenderState 0)
        [false, true, false, false, true, false, true, true, true, true] sampleWorld).world.trace
        = submitted sampleWorld.trace ++ [first.command, second.command] ∧
      second.shadowHolds (interleave (.SetRenderState 1) (.SetRenderState 0)
        [false, true, false, false, true, false, true, true, true, true] sampleWorld).world :=
  ⟨rfl, by decide, by decide,
    (C4_atomic_bundling (.SetRenderState 1) (.SetRenderState 0) sampleWorld rfl
      [false, true, false, false, true, false, true, true, true, true]).2.1
      ⟨by decide, by decide⟩⟩


/-! ## The Context Thread at work -/

theorem executed_append (a b : List Event) : executed (a ++ b) = executed a ++ executed b := by
  induction a with
  | nil => rfl
  | cons e es ih => cases e <;> simp [executed, ih]

theorem contextWork_submitted (new : List Event) (h : ∀ e ∈ new, e.isContextWork = true) :
    submitted new = [] := by
  induction new with
  | nil => rfl
  | cons e es ih =>
      have he := h e (List.mem_cons_self _ _)
      have hes := ih (fun x hx => h x (List.mem_cons_of_mem _ hx))
      cases e <;> simp_all [submitted, Event.isContextWork]

theorem driverOnly_refl (tr : List Event) : DriverOnly tr tr :=
  ⟨[], by simp, rfl, by simp⟩

theorem driverOnly_append (tr x l : List Event) (h : DriverOnly tr x)
    (h1 : executed l = []) (h2 : ∀ e ∈ l, e.isContextWork = true) : DriverOnly tr (x ++ l) := by
  obtain ⟨new, rfl, h3, h4⟩ := h
  refine ⟨new ++ l, by simp, by simp [executed_append, h1, h3], ?_⟩
  intro e he
  rcases List.mem_append.mp he with he | he
  · exact h4 e he
  · exact h2 e he

theorem driverOnly_ite (tr x y : List Event) (c : Prop) [Decidable c]
    (h1 : DriverOnly tr x) (h2 : DriverOnly tr y) : DriverOnly tr (if c then x else y) := by
  split
  · exact h1
  · exact h2

theorem bindUniformBlock_driverOnly (P : Platform) (mProgram : GLuint) (name : String)
    (binding : GLuint) (tr x : List Event) (h : DriverOnly tr x) :
    DriverOnly tr (bindUniformBlock P mProgram name binding x) := by
  unfold bindUniformBlock
  apply driverOnly_ite
  · exact driverOnly_append _ _ _ (driverOnly_append _ _ _ h rfl (by simp [Event.isContextWork]))
      rfl (by simp [Event.isContextWork])
  · exact driverOnly_append _ _ _ h rfl (by simp [Event.isContextWork])

theorem attributeLoop_driverOnly (P : Platform) (mProgram : GLuint)
    (attrs : List MOJOSHADER_attribute) (tr : List Event) :
    ∀ (m : List (Nat × GLint)) (x : List Event), DriverOnly tr x →
      DriverOnly tr (attributeLoop P mProgram attrs m x).2 := by
  induction attrs with
  | nil => intro m x h; exact h
  | cons a rest ih =>
      intro m x h
      unfold attributeLoop
      exact ih _ _ (driverOnly_append _ _ _ h rfl (by simp [Event.isContextWork]))

theorem samplerLoop_driverOnly (P : Platform) (mProgram : GLuint)
    (samplers : List MOJOSHADER_sampler) (tr : List Event) :
    ∀ (x : List Event), DriverOnly tr x → DriverOnly tr (samplerLoop P mProgram samplers x) := by
  induction samplers with
  | nil => intro x h; exact h
  | cons s rest ih =>
      intro x h
      unfold samplerLoop
      exact ih _ (driverOnly_append _ _ _ h rfl (by simp [Event.isContextWork]))

/-- The method `compileShaderGL` only extends the trace, by driver calls, and leaves `mCode`. -/
theorem compileShaderGL_trace (P : Platform) (this : D3DGLVertexShader)
    (shader : MOJOSHADER_parseData) (tr : List Event) :
    DriverOnly tr (D3DGLVertexShader.compileShaderGL P this shader tr).2 ∧
    (D3DGLVertexShader.compileShaderGL P this shader tr).1.mCode = this.mCode := by
  unfold D3DGLVertexShader.compileShaderGL
  have h2 : DriverOnly tr (tr ++ [.gl (.glCreateShaderProgramv GL_VERTEX_SHADER shader.output
      (P.glCreateShaderProgramv tr GL_VERTEX_SHADER shader.output))] ++ [.checkGLError]) :=
    driverOnly_append _ _ _ (driverOnly_append _ _ _ (driverOnly_refl tr) rfl
      (by simp [Event.isContextWork])) rfl (by simp [Event.isContextWork])
  constructor
  · by_cases hc : P.glCreateShaderProgramv tr GL_VERTEX_SHADER shader.output = 0
    · simp only [hc, if_true]
      rw [hc] at h2
      exact h2
    · simp only [hc, if_false]
      split
      · repeat (first
          | exact h2
          | refine driverOnly_append _ _ _ ?_ rfl (by simp [Event.isContextWork]))
      · repeat (first
          | exact h2
          | refine driverOnly_append _ _ _ ?_ rfl (by simp [Event.isContextWork])
          | refine samplerLoop_driverOnly _ _ _ _ _ ?_
          | refine attributeLoop_driverOnly _ _ _ _ _ _ ?_
          | refine bindUniformBlock_driverOnly _ _ _ _ _ _ ?_
          | refine driverOnly_ite _ _ _ _ ?_ ?_)
  · by_cases hc : P.glCreateShaderProgramv tr GL_VERTEX_SHADER shader.output = 0
    · simp [hc]
    · simp only [hc, if_false]
      split <;> rfl

theorem driverOnly_trans (a b c : List Event) (h1 : DriverOnly a b) (h2 : DriverOnly b c) :
    DriverOnly a c := by
  obtain ⟨n1, rfl, e1, w1⟩ := h1
  obtain ⟨n2, rfl, e2, w2⟩ := h2
  exact driverOnly_append _ _ _ ⟨n1, rfl, e1, w1⟩ e2 w2

theorem live_of_eq (c : Command) (w w' : World)
    (h1 : ∀ a, (w'.shaders a).map (fun s => s.mCode) = (w.shaders a).map (fun s => s.mCode))
    (h2 : w'.parseData = w.parseData) (h : c.live w) : c.live w' := by
  cases c with
  | CompileVShaderCmd t s =>
      obtain ⟨ht, hs⟩ := h
      refine ⟨?_, by rw [h2]; exact hs⟩
      have := congrArg Option.isSome (h1 t)
      simpa [ht] using this
  | StateEnable _ _ => trivial
  | MaterialSet _ _ _ _ _ => trivial
  | DeinitVShaderCmd _ => trivial
  | External _ => trivial

/-- A command whose pointers are live executes; it only extends the trace, by
driver calls, and it changes no more of the world than the program handle and
the usage map of the shader it points to. -/
theorem execute_live (S : Sizes) (P : Platform) (c : Command) (w : World) (h : c.live w) :
    ∃ r, c.execute S P w = some r ∧ DriverOnly w.trace r.1.trace ∧ r.1.device = w.device ∧
      r.1.parseData = w.parseData ∧ r.1.nextId = w.nextId ∧
      ∀ a, (r.1.shaders a).map (fun s => s.mCode) = (w.shaders a).map (fun s => s.mCode) := by
  cases c with
  | StateEnable s e =>
      cases e
      · exact ⟨_, rfl, driverOnly_append _ _ _ (driverOnly_refl _) rfl
          (by simp [Event.isContextWork]), rfl, rfl, rfl, fun _ => rfl⟩
      · exact ⟨_, rfl, driverOnly_append _ _ _ (driverOnly_refl _) rfl
          (by simp [Event.isContextWork]), rfl, rfl, rfl, fun _ => rfl⟩
  | MaterialSet a b c d e =>
      refine ⟨_, rfl, ?_, rfl, rfl, rfl, fun _ => rfl⟩
      repeat (first
        | exact driverOnly_refl _
        | refine driverOnly_append _ _ _ ?_ rfl (by simp [Event.isContextWork]))
  | CompileVShaderCmd t s =>
      obtain ⟨ht, hs⟩ := h
      obtain ⟨this, ht⟩ := Option.isSome_iff_exists.mp ht
      obtain ⟨shader, hs⟩ := Option.isSome_iff_exists.mp hs
      simp only [Command.execute, ht, hs]
      refine ⟨_, rfl, (compileShaderGL_trace P this shader w.trace).1, rfl, rfl, rfl, ?_⟩
      intro a
      by_cases ha : a = t
      · subst ha
        simp [ht, (compileShaderGL_trace P this shader w.trace).2]
      · simp [Function.update_noteq ha]
  | DeinitVShaderCmd p =>
      exact ⟨_, rfl, driverOnly_append _ _ _ (driverOnly_refl _) rfl
        (by simp [Event.isContextWork]), rfl, rfl, rfl, fun _ => rfl⟩
  | External t =>
      exact ⟨_, rfl, driverOnly_append _ _ _ (driverOnly_refl _) rfl
        (by simp [Event.isContextWork]), rfl, rfl, rfl, fun _ => rfl⟩

theorem runAll_append (S : Sizes) (P : Platform) (xs ys : List Command) :
    ∀ w, CommandQueue.runAll S P (xs ++ ys) w
      = (CommandQueue.runAll S P xs w).bind (CommandQueue.runAll S P ys) := by
  induction xs with
  | nil => intro w; rfl
  | cons c rest ih =>
      intro w
      simp only [List.cons_append, CommandQueue.runAll]
      cases c.execute S P (w.emit (.execute c)) with
      | none => rfl
      | some r => exact ih r.1

/-- The Context Thread works through a list of commands whose pointers are live:
every command is executed, in the order of the list. -/
theorem runAll_live (S : Sizes) (P : Platform) (cs : List Command) :
    ∀ w, (∀ c ∈ cs, c.live w) →
    ∃ w' new, CommandQueue.runAll S P cs w = some w' ∧ w'.trace = w.trace ++ new ∧
      executed new = cs ∧ (∀ e ∈ new, e.isContextWork = true) ∧ w'.device = w.device ∧
      w'.parseData = w.parseData ∧ w'.nextId = w.nextId ∧
      ∀ a, (w'.shaders a).map (fun s => s.mCode) = (w.shaders a).map (fun s => s.mCode) := by
  induction cs with
  | nil =>
      intro w _
      exact ⟨w, [], rfl, by simp, rfl, by simp, rfl, rfl, rfl, fun _ => rfl⟩
  | cons c rest ih =>
      intro w h
      have hc : c.live (w.emit (.execute c)) :=
        live_of_eq c w _ (fun _ => rfl) rfl (h c (List.mem_cons_self _ _))
      obtain ⟨r, hr, ⟨n1, htr, he1, hw1⟩, hdev, hpd, hid, hsh⟩ :=
        execute_live S P c (w.emit (.execute c)) hc
      have hrest : ∀ c' ∈ rest, c'.live r.1 := fun c' hc' =>
        live_of_eq c' w r.1 hsh hpd (h c' (List.mem_cons_of_mem _ hc'))
      obtain ⟨w', n2, hrun, htr2, he2, hw2, hdev2, hpd2, hid2, hsh2⟩ := ih r.1 hrest
      refine ⟨w', .execute c :: (n1 ++ n2), ?_, ?_, ?_, ?_, ?_, ?_, ?_, ?_⟩
      · simp [CommandQueue.runAll, hr, hrun]
      · rw [htr2, htr]; simp
      · simp [executed, executed_append, he1, he2]
      · intro e he
        rcases List.mem_cons.mp he with he | he
        · subst he; rfl
        · rcases List.mem_append.mp he with he | he
          · exact hw1 e he
          · exact hw2 e he
      · rw [hdev2, hdev]; rfl
      · rw [hpd2, hpd]; rfl
      · rw [hid2, hid]; rfl
      · intro a
        rw [hsh2 a, hsh a]; rfl


theorem live_mono (c : Command) (w w' : World)
    (h1 : ∀ a, (w.shaders a).isSome = true → (w'.shaders a).isSome = true)
    (h2 : ∀ a, (w.parseData a).isSome = true → (w'.parseData a).isSome = true)
    (h : c.live w) : c.live w' := by
  cases c with
  | CompileVShaderCmd t s => exact ⟨h1 t h.1, h2 s h.2⟩
  | StateEnable _ _ => trivial
  | MaterialSet _ _ _ _ _ => trivial
  | DeinitVShaderCmd _ => trivial
  | External _ => trivial

/-- What `sendSync<CompileVShaderCmd>(target, shader)` does on a running queue
whose backlog has live pointers: the backlog is executed first, in order, then
the command itself; when the call returns nothing is pending. -/
theorem sendSync_compile (S : Sizes) (P : Platform) (t s : Nat) (w : World)
    (sh : D3DGLVertexShader) (pd : MOJOSHADER_parseData)
    (hrun : w.device.mQueue.state = .Running)
    (hlive : ∀ c ∈ w.device.mQueue.pending, c.live w)
    (ht : w.shaders t = some sh) (hs : w.parseData s = some pd) :
    ∃ w' backlog before,
      CommandQueue.sendSync S P (.CompileVShaderCmd t s) w = some w' ∧
      executed backlog = w.device.mQueue.pending ∧
      (∀ e ∈ backlog, e.isContextWork = true) ∧
      before.mCode = sh.mCode ∧
      w'.trace = (D3DGLVertexShader.compileShaderGL P before pd
        (w.trace ++ [.send (.CompileVShaderCmd t s)] ++ backlog ++
          [.execute (.CompileVShaderCmd t s)])).2 ∧
      w'.shaders t = some (D3DGLVertexShader.compileShaderGL P before pd
        (w.trace ++ [.send (.CompileVShaderCmd t s)] ++ backlog ++
          [.execute (.CompileVShaderCmd t s)])).1 ∧
      (∀ a, a ≠ t →
        (w'.shaders a).map (fun x => x.mCode) = (w.shaders a).map (fun x => x.mCode)) ∧
      w'.parseData = w.parseData ∧ w'.nextId = w.nextId ∧
      w'.device = { w.device with mQueue := { w.device.mQueue with pending := [] } } := by
  have hl : ∀ c ∈ w.device.mQueue.pending,
      c.live (((CommandQueue.send (.CompileVShaderCmd t s) w).setQueue
        { (CommandQueue.send (.CompileVShaderCmd t s) w).device.mQueue with pending := [] })) :=
    fun c hc => live_of_eq c w _ (fun _ => rfl) rfl (hlive c hc)
  obtain ⟨wb, backlog, hrunb, htr, hex, hwork, hdev, hpd, hid, hsh⟩ :=
    runAll_live S P w.device.mQueue.pending _ hl
  have hb : ∃ before, wb.shaders t = some before ∧ before.mCode = sh.mCode := by
    have := hsh t
    simp only [CommandQueue.send, setQueue_shaders, emit_shaders, ht, Option.map_some'] at this
    cases hwb : wb.shaders t with
    | none => rw [hwb] at this; cases this
    | some before =>
        rw [hwb] at this
        exact ⟨before, rfl, Option.some.inj this⟩
  obtain ⟨before, hbefore, hcode⟩ := hb
  have hpdb : wb.parseData s = some pd := by rw [hpd]; exact hs
  have hsend : CommandQueue.sendSync S P (.CompileVShaderCmd t s) w =
      some { wb.emit (.execute (.CompileVShaderCmd t s)) with
        trace := (D3DGLVertexShader.compileShaderGL P before pd
          (wb.emit (.execute (.CompileVShaderCmd t s))).trace).2
        shaders := Function.update (wb.emit (.execute (.CompileVShaderCmd t s))).shaders t
          (some (D3DGLVertexShader.compileShaderGL P before pd
            (wb.emit (.execute (.CompileVShaderCmd t s))).trace).1) } := by
    unfold CommandQueue.sendSync
    rw [if_pos hrun]
    unfold CommandQueue.drain
    have hp : (CommandQueue.send (.CompileVShaderCmd t s) w).device.mQueue.pending
        = w.device.mQueue.pending ++ [.CompileVShaderCmd t s] := rfl
    rw [hp, runAll_append, hrunb]
    simp only [Option.bind, CommandQueue.runAll, Command.execute, emit_shaders, emit_parseData,
      hbefore, hpdb]
  refine ⟨_, backlog, before, hsend, hex, hwork, hcode, ?_, ?_, ?_, ?_, ?_, ?_⟩
  · simp only [htr, CommandQueue.send, setQueue_trace, emit_trace]
  · simp only [htr, CommandQueue.send, setQueue_trace, emit_trace, Function.update_same]
  · intro a ha
    simp only [Function.update_noteq ha, emit_shaders]
    exact hsh a
  · exact hpd
  · exact hid
  · simp only [emit_device, hdev]
    rfl

/-! ## C5 -/

/-- C5: `init` on a live shader object, with a first token whose upper 16 bits are
`0xfffe`, a parse without errors, a running queue and a backlog whose pointers
are live.  `init` returns; the program handle it leaves in the shader is the one
the executed `CompileVShaderCmd` wrote (`before` is the shader as the command
found it, `tr` the trace when its `execute()` began, after the backlog); `init`
returns `true` exactly when that handle is non-zero; and when the driver cannot
compile or link (`glCreateShaderProgramv` returns `0`, or the link status is
`GL_FALSE`) the handle is `0` and `init` returns `false`. -/
theorem C5_init_reports_compile_failure (S : Sizes) (P : Platform) (self : Nat)
    (data : List DWORD) (w : World) (this : D3DGLVertexShader) (first : DWORD)
    (rest : List DWORD) (parsed : MOJOSHADER_parseData)
    (hthis : w.shaders self = some this)
    (hdata : data = first :: rest)
    (hversion : first >>> 16 = 0xfffe)
    (hparsed : parsed = P.MOJOSHADER_parse w.trace data)
    (hparse : parsed.error_count ≤ 0)
    (htokens : parsed.token_count ≤ data.length)
    (hrun : w.device.mQueue.state = .Running)
    (hlive : ∀ c ∈ w.device.mQueue.pending, c.live w) :
    ∃ w' b before tr backlog,
      D3DGLVertexShader.init S P self data w = some (w', b) ∧
      tr = w.trace ++ [.parse w.nextId, .send (.CompileVShaderCmd self w.nextId)] ++ backlog ++
        [.execute (.CompileVShaderCmd self w.nextId)] ∧
      executed backlog = w.device.mQueue.pending ∧
      w'.shaders self = some (D3DGLVertexShader.compileShaderGL P before parsed tr).1 ∧
      w'.trace = (D3DGLVertexShader.compileShaderGL P before parsed tr).2 ++
        [.freeParseData w.nextId] ∧
      (b = true ↔ (D3DGLVertexShader.compileShaderGL P before parsed tr).1.mProgram ≠ 0) ∧
      ((P.glCreateShaderProgramv tr GL_VERTEX_SHADER parsed.output = 0 ∨
        P.linkStatus
          (tr ++ [.gl (.glCreateShaderProgramv GL_VERTEX_SHADER parsed.output
                   (P.glCreateShaderProgramv tr GL_VERTEX_SHADER parsed.output)),
                  .checkGLError])
          (P.glCreateShaderProgramv tr GL_VERTEX_SHADER parsed.output) = GL_FALSE) →
        (D3DGLVertexShader.compileShaderGL P before parsed tr).1.mProgram = 0 ∧ b = false) := by
  subst hdata
  -- the world in which `sendSync` is called
  have hw2 : ∃ w2 : World, w2 =
      { ({ w with parseData := Function.update w.parseData w.nextId (some parsed),
                  nextId := w.nextId + 1 } : World).emit (.parse w.nextId) with
        shaders := Function.update w.shaders self
          (some { this with mCode := this.mCode ++ (first :: rest).take parsed.token_count }) } :=
    ⟨_, rfl⟩
  obtain ⟨w2, hw2⟩ := hw2
  have hrun2 : w2.device.mQueue.state = .Running := by rw [hw2]; exact hrun
  have hlive2 : ∀ c ∈ w2.device.mQueue.pending, c.live w2 := by
    intro c hc
    have hc' : c ∈ w.device.mQueue.pending := by rw [hw2] at hc; exact hc
    refine live_mono c w w2 ?_ ?_ (hlive c hc')
    · intro a ha
      rw [hw2]
      by_cases h : a = self
      · subst h; simp
      · simpa [Function.update_noteq h] using ha
    · intro a ha
      rw [hw2]
      by_cases h : a = w.nextId
      · subst h; simp
      · simpa [Function.update_noteq h] using ha
  have hs2 : w2.shaders self
      = some { this with mCode := this.mCode ++ (first :: rest).take parsed.token_count } := by
    rw [hw2]; simp
  have hp2 : w2.parseData w.nextId = some parsed := by
    rw [hw2]; simp
  obtain ⟨w3, backlog, before, hsend, hex, -, -, htr3, hsh3, -, -, -, -⟩ :=
    sendSync_compile S P self w.nextId w2 _ parsed hrun2 hlive2 hs2 hp2
  have htr2 : w2.trace = w.trace ++ [.parse w.nextId] := by rw [hw2]; rfl
  have hpend2 : w2.device.mQueue.pending = w.device.mQueue.pending := by rw [hw2]; rfl
  have hmain : D3DGLVertexShader.init S P self (first :: rest) w =
      some (MOJOSHADER_freeParseData w.nextId w3,
        (D3DGLVertexShader.compileShaderGL P before parsed
          (w2.trace ++ [.send (.CompileVShaderCmd self w.nextId)] ++ backlog ++
            [.execute (.CompileVShaderCmd self w.nextId)])).1.mProgram != 0) := by
    unfold D3DGLVertexShader.init
    simp only [hthis, hversion, ne_eq, not_true_eq_false, if_false, ← hparsed,
      not_lt.mpr hparse, not_lt.mpr htokens, gt_iff_lt, CompileVShaderCmd.new]
    have key : ∀ x : World, x = w2 →
        (match CommandQueue.sendSync S P (.CompileVShaderCmd self w.nextId) x with
          | some w_1 =>
            match (MOJOSHADER_freeParseData w.nextId w_1).shaders self with
            | some this => some (MOJOSHADER_freeParseData w.nextId w_1, this.mProgram != 0)
            | none => none
          | none => none) =
        some (MOJOSHADER_freeParseData w.nextId w3,
          (D3DGLVertexShader.compileShaderGL P before parsed
            (w2.trace ++ [.send (.CompileVShaderCmd self w.nextId)] ++ backlog ++
              [.execute (.CompileVShaderCmd self w.nextId)])).1.mProgram != 0) := by
      intro x hx
      rw [hx, hsend]
      simp only [MOJOSHADER_freeParseData, emit_shaders, hsh3]
    exact key _ (by rw [hw2]; rfl)
  refine ⟨_, _, before, w2.trace ++ [.send (.CompileVShaderCmd self w.nextId)] ++ backlog ++
    [.execute (.CompileVShaderCmd self w.nextId)], backlog, hmain, ?_, ?_, ?_, ?_, ?_, ?_⟩
  · rw [htr2]; simp
  · rw [hex, hpend2]
  · simp only [MOJOSHADER_freeParseData, emit_shaders, hsh3]
  · simp only [MOJOSHADER_freeParseData, emit_trace, htr3]
  · simp
  · intro hfail
    have h0 : (D3DGLVertexShader.compileShaderGL P before parsed
        (w2.trace ++ [.send (.CompileVShaderCmd self w.nextId)] ++ backlog ++
          [.execute (.CompileVShaderCmd self w.nextId)])).1.mProgram = 0 := by
      rw [compileShaderGL_mProgram]
      apply if_neg
      rintro ⟨h1, h2⟩
      rcases hfail with h | h
      · exact h1 h
      · exact h2 h
    exact ⟨h0, by rw [h0]; rfl⟩


/-- C5, at a concrete input: a vertex shader (`vs_3_0` version token), a running
queue, and a driver that cannot create the program: `init` returns `false` and
the program handle is `0`. -/
theorem C5_init_reports_compile_failure_witness :
    ∃ w', D3DGLVertexShader.init sampleSizes noProgramPlatform 0 [0xfffe0300, 0x0000ffff]
        shaderWorld = some (w', false) ∧
      (w'.shaders 0).map (fun s => s.mProgram) = some 0 := by
  obtain ⟨w', b, before, tr, backlog, hinit, -, -, hsh, -, -, hfail⟩ :=
    C5_init_reports_compile_failure sampleSizes noProgramPlatform 0 [0xfffe0300, 0x0000ffff]
      shaderWorld { mProgram := 0, mCode := [], mUsageMap := [] } 0xfffe0300 [0x0000ffff]
      sampleParseData rfl rfl (by decide) rfl (by decide) (by decide) rfl
      (fun c hc => absurd hc (List.not_mem_nil c))
  obtain ⟨h0, hb⟩ := hfail (Or.inl rfl)
  refine ⟨w', ?_, ?_⟩
  · rw [hinit, hb]
  · rw [hsh]
    exact congrArg some h0


/-! ## C6 -/

/-- C6: after `compileShaderGL`, `mProgram` is non-zero exactly when the driver
returned a non-zero program from `glCreateShaderProgramv` and the link status it
reported is not `GL_FALSE`; when either fails `mProgram` is `0`.  Nothing else
reports the failure: `CompileVShaderCmd::execute` returns the size of its class
as it does on success, and leaves the device and its queue as they were. -/
theorem C6_compile_failure_only_in_handle (S : Sizes) (P : Platform)
    (this : D3DGLVertexShader) (shader : MOJOSHADER_parseData) (tr : List Event) :
    ((D3DGLVertexShader.compileShaderGL P this shader tr).1.mProgram ≠ 0 ↔
      (P.glCreateShaderProgramv tr GL_VERTEX_SHADER shader.output ≠ 0 ∧
       P.linkStatus
         (tr ++ [.gl (.glCreateShaderProgramv GL_VERTEX_SHADER shader.output
                  (P.glCreateShaderProgramv tr GL_VERTEX_SHADER shader.output)),
                 .checkGLError])
         (P.glCreateShaderProgramv tr GL_VERTEX_SHADER shader.output) ≠ GL_FALSE)) ∧
    ((P.glCreateShaderProgramv tr GL_VERTEX_SHADER shader.output = 0 ∨
       P.linkStatus
         (tr ++ [.gl (.glCreateShaderProgramv GL_VERTEX_SHADER shader.output
                  (P.glCreateShaderProgramv tr GL_VERTEX_SHADER shader.output)),
                 .checkGLError])
         (P.glCreateShaderProgramv tr GL_VERTEX_SHADER shader.output) = GL_FALSE) →
      (D3DGLVertexShader.compileShaderGL P this shader tr).1.mProgram = 0) ∧
    (∀ (w : World) (mTarget mShader : Nat),
      w.shaders mTarget = some this → w.parseData mShader = some shader → w.trace = tr →
      ∃ w', (Command.CompileVShaderCmd mTarget mShader).execute S P w
              = some (w', S.sizeof_CompileVShaderCmd) ∧
            w'.device = w.device ∧
            w'.shaders mTarget = some (D3DGLVertexShader.compileShaderGL P this shader tr).1) := by
  refine ⟨?_, ?_, ?_⟩
  · rw [compileShaderGL_mProgram]
    constructor
    · intro h
      by_contra hn
      rw [if_neg hn] at h
      exact h rfl
    · intro h
      rw [if_pos h]
      exact h.1
  · intro h
    rw [compileShaderGL_mProgram]
    apply if_neg
    rintro ⟨h1, h2⟩
    rcases h with h | h
    · exact h1 h
    · exact h2 h
  · intro w t s ht hs htr
    subst htr
    simp [Command.execute, ht, hs]

/-- C6, at a concrete input: with a driver that creates program `7` and reports
the link status `GL_FALSE`, the command leaves the handle `0` and returns the
size of its class. -/
theorem C6_compile_failure_only_in_handle_witness :
    (D3DGLVertexShader.compileShaderGL noLinkPlatform
      { mProgram := 0, mCode := [], mUsageMap := [] } sampleParseData []).1.mProgram = 0 ∧
    ((Command.CompileVShaderCmd 0 0).execute sampleSizes noLinkPlatform
        { shaderWorld with parseData := fun _ => some sampleParseData }).map Prod.snd = some 24 := by
  have h := C6_compile_failure_only_in_handle sampleSizes noLinkPlatform
    { mProgram := 0, mCode := [], mUsageMap := [] } sampleParseData []
  refine ⟨h.2.1 (Or.inr rfl), ?_⟩
  obtain ⟨w', hw, -⟩ := h.2.2 { shaderWorld with parseData := fun _ => some sampleParseData } 0 0
    rfl rfl rfl
  rw [hw]; rfl



/-! ## `D3DGLDevice::init`, case by case -/

theorem extends_refl (Q : Event → Bool) (tr : List Event) : Extends Q tr tr :=
  ⟨[], by simp, by simp⟩

theorem extends_snoc (Q : Event → Bool) (tr x : List Event) (e : Event) (h : Extends Q tr x)
    (he : Q e = true) : Extends Q tr (x ++ [e]) := by
  obtain ⟨new, rfl, hn⟩ := h
  refine ⟨new ++ [e], by simp, ?_⟩
  intro e' he'
  rcases List.mem_append.mp he' with h' | h'
  · exact hn e' h'
  · rw [List.mem_singleton.mp h']; exact he

theorem extends_trans (Q : Event → Bool) (a b c : List Event) (h1 : Extends Q a b)
    (h2 : Extends Q b c) : Extends Q a c := by
  obtain ⟨n1, rfl, hn1⟩ := h1
  obtain ⟨n2, rfl, hn2⟩ := h2
  refine ⟨n1 ++ n2, by simp, ?_⟩
  intro e he
  rcases List.mem_append.mp he with h' | h'
  · exact hn1 e h'
  · exact hn2 e h'

/-- Submitting a list of commands extends the trace by submissions, appends the
commands to the pending ones and changes nothing else. -/
theorem sendAll_spec (cs : List Command) :
    ∀ w : World,
      (cs.foldl (fun w c => CommandQueue.send c w) w).trace = w.trace ++ cs.map Event.send ∧
      (cs.foldl (fun w c => CommandQueue.send c w) w).device =
        { w.device with mQueue := { w.device.mQueue with
            pending := w.device.mQueue.pending ++ cs } } ∧
      (cs.foldl (fun w c => CommandQueue.send c w) w).shaders = w.shaders ∧
      (cs.foldl (fun w c => CommandQueue.send c w) w).parseData = w.parseData ∧
      (cs.foldl (fun w c => CommandQueue.send c w) w).nextId = w.nextId := by
  induction cs with
  | nil => intro w; simp
  | cons c rest ih =>
      intro w
      obtain ⟨h1, h2, h3, h4, h5⟩ := ih (CommandQueue.send c w)
      simp only [List.foldl_cons]
      refine ⟨?_, ?_, ?_, ?_, ?_⟩
      · rw [h1]; simp [CommandQueue.send]
      · rw [h2]; simp [CommandQueue.send, World.emit, World.setQueue]
      · rw [h3]; rfl
      · rw [h4]; rfl
      · rw [h5]; rfl

theorem deleteSwapChain_spec (P : Platform) (schain : Nat) (w : World) :
    (deleteSwapChain P schain w).trace = w.trace ++ .deleteSwapChain schain ::
        ((P.swapChainTeardown schain).map Command.External).map Event.send ∧
    (deleteSwapChain P schain w).device =
        { w.device with mQueue := { w.device.mQueue with
            pending := w.device.mQueue.pending ++
              (P.swapChainTeardown schain).map Command.External } } ∧
    (deleteSwapChain P schain w).shaders = w.shaders ∧
    (deleteSwapChain P schain w).parseData = w.parseData ∧
    (deleteSwapChain P schain w).nextId = w.nextId := by
  obtain ⟨h1, h2, h3, h4, h5⟩ := sendAll_spec ((P.swapChainTeardown schain).map Command.External)
    (w.emit (.deleteSwapChain schain))
  unfold deleteSwapChain
  refine ⟨?_, ?_, ?_, ?_, ?_⟩
  · rw [h1]; simp
  · rw [h2]; rfl
  · rw [h3]; rfl
  · rw [h4]; rfl
  · rw [h5]; rfl

theorem deleteRenderTarget_spec (P : Platform) (rt : Nat) (w : World) :
    (deleteRenderTarget P rt w).trace = w.trace ++ .deleteRenderTarget rt ::
        ((P.renderTargetTeardown rt).map Command.External).map Event.send ∧
    (deleteRenderTarget P rt w).device =
        { w.device with mQueue := { w.device.mQueue with
            pending := w.device.mQueue.pending ++
              (P.renderTargetTeardown rt).map Command.External } } ∧
    (deleteRenderTarget P rt w).shaders = w.shaders ∧
    (deleteRenderTarget P rt w).parseData = w.parseData ∧
    (deleteRenderTarget P rt w).nextId = w.nextId := by
  obtain ⟨h1, h2, h3, h4, h5⟩ := sendAll_spec ((P.renderTargetTeardown rt).map Command.External)
    (w.emit (.deleteRenderTarget rt))
  unfold deleteRenderTarget
  refine ⟨?_, ?_, ?_, ?_, ?_⟩
  · rw [h1]; simp
  · rw [h2]; rfl
  · rw [h3]; rfl
  · rw [h4]; rfl
  · rw [h5]; rfl

theorem deleteSwapChain_extends (P : Platform) (schain : Nat) (w : World) (tr : List Event)
    (h : Extends Event.isResourceWork tr w.trace) :
    Extends Event.isResourceWork tr (deleteSwapChain P schain w).trace := by
  rw [(deleteSwapChain_spec P schain w).1]
  refine extends_trans _ _ _ _ h ⟨_, rfl, ?_⟩
  intro e he
  simp only [List.mem_cons, List.mem_map, exists_exists_and_eq_and] at he
  rcases he with rfl | ⟨t, -, rfl⟩ <;> rfl

theorem deleteRenderTarget_extends (P : Platform) (rt : Nat) (w : World) (tr : List Event)
    (h : Extends Event.isResourceWork tr w.trace) :
    Extends Event.isResourceWork tr (deleteRenderTarget P rt w).trace := by
  rw [(deleteRenderTarget_spec P rt w).1]
  refine extends_trans _ _ _ _ h ⟨_, rfl, ?_⟩
  intro e he
  simp only [List.mem_cons, List.mem_map, exists_exists_and_eq_and] at he
  rcases he with rfl | ⟨t, -, rfl⟩ <;> rfl

/-- The tail of `init` extends the trace by work on swap chain and render target only. -/
theorem initResources_extends (P : Platform) (params : D3DPRESENT_PARAMETERS) (win : HWND)
    (w : World) :
    Extends Event.isResourceWork w.trace (D3DGLDevice.initResources P params win w).1.trace := by
  unfold D3DGLDevice.initResources
  simp only []
  split
  · apply deleteSwapChain_extends
    simp only [emit_trace]
    exact extends_snoc _ _ _ _ (extends_snoc _ _ _ _ (extends_refl _ _) rfl) rfl
  · split
    · split
      · simp only [emit_trace]
        exact extends_snoc _ _ _ _ (extends_snoc _ _ _ _ (extends_snoc _ _ _ _
          (extends_snoc _ _ _ _ (extends_refl _ _) rfl) rfl) rfl) rfl
      · simp only [emit_trace]
        exact extends_snoc _ _ _ _ (extends_snoc _ _ _ _ (extends_snoc _ _ _ _
          (extends_snoc _ _ _ _ (extends_refl _ _) rfl) rfl) rfl) rfl
    · simp only [emit_trace]
      exact extends_snoc _ _ _ _ (extends_snoc _ _ _ _ (extends_refl _ _) rfl) rfl



/-- The middle of `init`: only window-system calls are made; of the device only
`mGLContext` changes; and the window is reported exactly when a context was created. -/
theorem initContext_spec (P : Platform) (params : D3DPRESENT_PARAMETERS)
    (glattrs : List (Int × Int)) (w : World) :
    Extends Event.isWindowSetup w.trace (D3DGLDevice.initContext P params glattrs w).1.trace ∧
    (D3DGLDevice.initContext P params glattrs w).1.device =
      { w.device with mGLContext := (D3DGLDevice.initContext P params glattrs w).1.device.mGLContext } ∧
    (D3DGLDevice.initContext P params glattrs w).1.shaders = w.shaders ∧
    (D3DGLDevice.initContext P params glattrs w).1.parseData = w.parseData ∧
    (D3DGLDevice.initContext P params glattrs w).1.nextId = w.nextId ∧
    ((D3DGLDevice.initContext P params glattrs w).2 = none →
      (D3DGLDevice.initContext P params glattrs w).1.device.mGLContext = w.device.mGLContext ∨
      (D3DGLDevice.initContext P params glattrs w).1.device.mGLContext = 0) ∧
    (∀ win, (D3DGLDevice.initContext P params glattrs w).2 = some win →
      (D3DGLDevice.initContext P params glattrs w).1.device.mGLContext ≠ 0 ∧
      win = if params.Windowed = true ∧ params.hDeviceWindow = 0 then w.device.mWindow
            else params.hDeviceWindow) := by
  generalize hr : D3DGLDevice.initContext P params glattrs w = r
  unfold D3DGLDevice.initContext at hr
  simp only [] at hr
  split_ifs at hr with hwin h1 h2 h3 h4 h1 h2 h3 h4 <;> subst hr <;>
    (refine ⟨?_, rfl, rfl, rfl, rfl, ?_, ?_⟩ <;>
      [(simp only [emit_trace]
        repeat (first
          | exact extends_refl _ _
          | refine extends_snoc _ _ _ _ ?_ rfl));
       (intro h
        first
          | exact Or.inl rfl
          | exact Or.inr h4
          | cases h);
       (intro win h
        cases h <;>
          (refine ⟨h4, ?_⟩
           first
             | exact (if_pos hwin).symm
             | exact (if_neg hwin).symm))])

theorem initResources_mGLContext (P : Platform) (params : D3DPRESENT_PARAMETERS) (win : HWND)
    (w : World) :
    (D3DGLDevice.initResources P params win w).1.device.mGLContext = w.device.mGLContext ∧
    (D3DGLDevice.initResources P params win w).1.device.mQueue.state = w.device.mQueue.state := by
  unfold D3DGLDevice.initResources
  simp only []
  split
  · rw [(deleteSwapChain_spec P _ _).2.1]
    exact ⟨rfl, rfl⟩
  · split
    · split <;> exact ⟨rfl, rfl⟩
    · exact ⟨rfl, rfl⟩

/-- The three ways `D3DGLDevice::init` can go: it returns `false` before it reaches
`mQueue.init`; `mQueue.init` returns `false`; or `mQueue.init` returns `true`
and the swap chain and the depth-stencil are set up.  `mQueue.init` is called
with the window `win` and with the context just created, which is not null. -/
theorem init_cases (P : Platform) (params : D3DPRESENT_PARAMETERS) (w : World) :
    ((D3DGLDevice.init P params w).2.2 = false ∧
      Extends Event.isWindowSetup w.trace (D3DGLDevice.init P params w).1.trace ∧
      (D3DGLDevice.init P params w).1.device =
        { w.device with mGLContext := (D3DGLDevice.init P params w).1.device.mGLContext } ∧
      ((D3DGLDevice.init P params w).1.device.mGLContext = w.device.mGLContext ∨
        (D3DGLDevice.init P params w).1.device.mGLContext = 0)) ∨
    (∃ pre, Extends Event.isWindowSetup w.trace pre ∧
      (D3DGLDevice.init P params w).1.trace = pre ++
        [.queueInit (if params.Windowed = true ∧ params.hDeviceWindow = 0 then w.device.mWindow
                     else params.hDeviceWindow)
          (D3DGLDevice.init P params w).1.device.mGLContext false] ∧
      (D3DGLDevice.init P params w).1.device.mGLContext ≠ 0 ∧
      (D3DGLDevice.init P params w).2.2 = false ∧
      (D3DGLDevice.init P params w).1.device =
        { w.device with mGLContext := (D3DGLDevice.init P params w).1.device.mGLContext }) ∨
    (∃ pre, Extends Event.isWindowSetup w.trace pre ∧
      Extends Event.isResourceWork (pre ++
        [.queueInit (if params.Windowed = true ∧ params.hDeviceWindow = 0 then w.device.mWindow
                     else params.hDeviceWindow)
          (D3DGLDevice.init P params w).1.device.mGLContext true])
        (D3DGLDevice.init P params w).1.trace ∧
      (D3DGLDevice.init P params w).1.device.mGLContext ≠ 0 ∧
      w.device.mQueue.state = .Uninitialized ∧
      (D3DGLDevice.init P params w).1.device.mQueue.state = .Running) := by
  have early : ∀ p : D3DPRESENT_PARAMETERS,
      (((w, p, false) : World × D3DPRESENT_PARAMETERS × Bool).2.2 = false ∧
      Extends Event.isWindowSetup w.trace
        ((w, p, false) : World × D3DPRESENT_PARAMETERS × Bool).1.trace ∧
      ((w, p, false) : World × D3DPRESENT_PARAMETERS × Bool).1.device =
        { w.device with mGLContext :=
            ((w, p, false) : World × D3DPRESENT_PARAMETERS × Bool).1.device.mGLContext } ∧
      (((w, p, false) : World × D3DPRESENT_PARAMETERS × Bool).1.device.mGLContext
          = w.device.mGLContext ∨
        ((w, p, false) : World × D3DPRESENT_PARAMETERS × Bool).1.device.mGLContext = 0)) :=
    fun p => ⟨rfl, extends_refl _ _, rfl, Or.inl rfl⟩
  generalize hr : D3DGLDevice.init P params w = r
  unfold D3DGLDevice.init at hr
  simp only [] at hr
  split_ifs at hr
  all_goals first
    | (subst hr; exact Or.inl (early _))
    | skip
  all_goals
    (split at hr
     · rename_i w1 heq
       subst hr
       obtain ⟨hext, hdev, -, -, -, hnone, -⟩ := initContext_spec P params _ w
       rw [heq] at hext hdev hnone
       exact Or.inl ⟨rfl, hext, hdev, hnone rfl⟩
     · rename_i w1 win heq
       obtain ⟨hext, hdev, -, -, -, -, hsome⟩ := initContext_spec P params _ w
       rw [heq] at hext hdev hsome
       obtain ⟨hctx, hwin⟩ := hsome win rfl
       simp only at hext hdev hctx
       rw [← hwin]
       unfold CommandQueue.init at hr
       have hq : w1.device.mQueue = w.device.mQueue := by rw [hdev]
       by_cases h5 : w1.device.mQueue.state = .Uninitialized ∧
           P.contextThreadStarts w1.trace win w1.device.mGLContext = true
       · rw [if_pos h5] at hr
         simp only [Bool.not_true, Bool.false_eq_true, if_false] at hr
         obtain ⟨hm, hs⟩ := initResources_mGLContext P params win
           ((w1.setQueue { w1.device.mQueue with state := .Running }).emit
             (.queueInit win w1.device.mGLContext true))
         subst hr
         refine Or.inr (Or.inr ⟨w1.trace, hext, ?_, ?_, ?_, ?_⟩)
         · simp only [hm]
           exact initResources_extends P params win _
         · simp only [hm]
           exact hctx
         · rw [← hq]; exact h5.1
         · simp only [hs]
           rfl
       · rw [if_neg h5] at hr
         simp only [Bool.not_false, if_true] at hr
         subst hr
         exact Or.inr (Or.inl ⟨w1.trace, hext, rfl, hctx, rfl, hdev⟩))


/-! ## C8 -/

theorem not_windowSetup_queueInit (win : HWND) (ctx : HGLRC) (ret : Bool) :
    (Event.queueInit win ctx ret).isWindowSetup = false := rfl

theorem windowSetup_submitted (l : List Event) (win : HWND) (ctx : HGLRC)
    (h : ∀ e ∈ l, e.isWindowSetup = true ∨ e = .queueInit win ctx false) : submitted l = [] := by
  induction l with
  | nil => rfl
  | cons e es ih =>
      have he := h e (List.mem_cons_self _ _)
      have hes := ih (fun x hx => h x (List.mem_cons_of_mem _ hx))
      cases e <;> first
        | (simpa [submitted] using hes)
        | (exfalso
           rcases he with he | he
           · simp [Event.isWindowSetup] at he
           · cases he)

/-- C8: when the `mQueue.init` that `D3DGLDevice::init` calls returns `false`
(`new` being what the call of `init` adds to the trace), `init` returns `false`;
the list of swap chains, `mAutoDepthStencil`, `mDepthStencil` and the queue are
as before; and nothing happened but calls to the window system and that one
`mQueue.init`: no swap chain and no render target was created, and nothing was
submitted. -/
theorem C8_queue_init_failure_is_fatal (P : Platform) (params : D3DPRESENT_PARAMETERS)
    (w : World) (new : List Event) (win : HWND) (ctx : HGLRC)
    (htrace : (D3DGLDevice.init P params w).1.trace = w.trace ++ new)
    (hfail : Event.queueInit win ctx false ∈ new) :
    (D3DGLDevice.init P params w).2.2 = false ∧
    (D3DGLDevice.init P params w).1.device.mSwapchains = w.device.mSwapchains ∧
    (D3DGLDevice.init P params w).1.device.mAutoDepthStencil = w.device.mAutoDepthStencil ∧
    (D3DGLDevice.init P params w).1.device.mDepthStencil = w.device.mDepthStencil ∧
    (D3DGLDevice.init P params w).1.device.mQueue = w.device.mQueue ∧
    (∀ e ∈ new, e.isWindowSetup = true ∨ e = .queueInit win ctx false) ∧
    (∀ id, Event.newSwapChain id ∉ new) ∧
    (∀ id, Event.newRenderTarget id ∉ new) ∧
    submitted new = [] := by
  rcases init_cases P params w with ⟨-, ⟨n1, h1, hw1⟩, -, -⟩ |
    ⟨pre, ⟨n1, rfl, hw1⟩, htr, -, hret, hdev⟩ | ⟨pre, ⟨n1, rfl, hw1⟩, ⟨n2, h2, hw2⟩, -, -, -⟩
  · rw [h1] at htrace
    have := List.append_cancel_left htrace
    subst this
    have := hw1 _ hfail
    simp [Event.isWindowSetup] at this
  · rw [htr, List.append_assoc] at htrace
    have := List.append_cancel_left htrace
    subst this
    have hq : Event.queueInit win ctx false =
        Event.queueInit (if params.Windowed = true ∧ params.hDeviceWindow = 0 then w.device.mWindow
          else params.hDeviceWindow) (D3DGLDevice.init P params w).1.device.mGLContext false := by
      rcases List.mem_append.mp hfail with h | h
      · have := hw1 _ h
        simp [Event.isWindowSetup] at this
      · exact List.mem_singleton.mp h
    have hall : ∀ e ∈ n1 ++ [Event.queueInit (if params.Windowed = true ∧ params.hDeviceWindow = 0
          then w.device.mWindow else params.hDeviceWindow)
          (D3DGLDevice.init P params w).1.device.mGLContext false],
        e.isWindowSetup = true ∨ e = .queueInit win ctx false := by
      intro e he
      rcases List.mem_append.mp he with h | h
      · exact Or.inl (hw1 e h)
      · right
        rw [hq]
        exact List.mem_singleton.mp h
    refine ⟨hret, ?_, ?_, ?_, ?_, hall, ?_, ?_, ?_⟩
    · rw [hdev]
    · rw [hdev]
    · rw [hdev]
    · rw [hdev]
    · intro id hid
      rcases hall _ hid with h | h
      · simp [Event.isWindowSetup] at h
      · cases h
    · intro id hid
      rcases hall _ hid with h | h
      · simp [Event.isWindowSetup] at h
      · cases h
    · exact windowSetup_submitted _ win ctx hall
  · rw [h2, List.append_assoc, List.append_assoc] at htrace
    have := List.append_cancel_left htrace
    subst this
    rcases List.mem_append.mp hfail with h | h
    · have := hw1 _ h
      simp [Event.isWindowSetup] at this
    · rcases List.mem_append.mp h with h | h
      · have := List.mem_singleton.mp h
        cases this
      · have := hw2 _ h
        simp [Event.isResourceWork] at this

/-- C8, at a concrete input: a newly constructed device, parameters that pass
every check, and a platform on which the Context Thread cannot be started. -/
theorem C8_queue_init_failure_is_fatal_witness :
    (D3DGLDevice.init noThreadPlatform sampleParams sampleWorld).2.2 = false ∧
    (D3DGLDevice.init noThreadPlatform sampleParams sampleWorld).1.device.mSwapchains = [] ∧
    (D3DGLDevice.init noThreadPlatform sampleParams sampleWorld).1.device.mAutoDepthStencil
      = none ∧
    (D3DGLDevice.init noThreadPlatform sampleParams sampleWorld).1.device.mDepthStencil = none := by
  have h := C8_queue_init_failure_is_fatal noThreadPlatform sampleParams sampleWorld
    (D3DGLDevice.init noThreadPlatform sampleParams sampleWorld).1.trace 3 5 rfl (by decide)
  exact ⟨h.1, h.2.1, h.2.2.1, h.2.2.2.1⟩



/-! ## The destructor of the device -/

theorem deleteSwapChains_spec (P : Platform) (schains : List Nat) :
    ∀ w : World,
      (schains.foldl (fun w sc => deleteSwapChain P sc w) w).trace =
        w.trace ++ teardownEvents P schains none ∧
      (schains.foldl (fun w sc => deleteSwapChain P sc w) w).device =
        { w.device with mQueue := { w.device.mQueue with
            pending := w.device.mQueue.pending ++ teardownCommands P schains none } } ∧
      (schains.foldl (fun w sc => deleteSwapChain P sc w) w).shaders = w.shaders ∧
      (schains.foldl (fun w sc => deleteSwapChain P sc w) w).parseData = w.parseData ∧
      (schains.foldl (fun w sc => deleteSwapChain P sc w) w).nextId = w.nextId := by
  induction schains with
  | nil => intro w; simp [teardownEvents, teardownCommands]
  | cons sc rest ih =>
      intro w
      obtain ⟨h1, h2, h3, h4, h5⟩ := ih (deleteSwapChain P sc w)
      obtain ⟨d1, d2, d3, d4, d5⟩ := deleteSwapChain_spec P sc w
      simp only [List.foldl_cons]
      refine ⟨?_, ?_, ?_, ?_, ?_⟩
      · rw [h1, d1]; simp [teardownEvents]
      · rw [h2, d2]; simp [teardownCommands]
      · rw [h3, d3]
      · rw [h4, d4]
      · rw [h5, d5]

theorem teardownEvents_resourceWork (P : Platform) (schains : List Nat) (depth : Option Nat) :
    ∀ e ∈ teardownEvents P schains depth, e.isResourceWork = true := by
  intro e he
  simp only [teardownEvents, List.mem_append, List.mem_flatten, List.mem_map] at he
  rcases he with ⟨l, ⟨sc, -, rfl⟩, he⟩ | he
  · simp only [List.mem_cons, List.mem_map, exists_exists_and_eq_and] at he
    rcases he with rfl | ⟨t, -, rfl⟩ <;> rfl
  · cases depth with
    | none => simp at he
    | some rt =>
        simp only [List.mem_cons, List.mem_map, exists_exists_and_eq_and] at he
        rcases he with rfl | ⟨t, -, rfl⟩ <;> rfl

theorem teardownEvents_submitted (P : Platform) (schains : List Nat) (depth : Option Nat) :
    submitted (teardownEvents P schains depth) = teardownCommands P schains depth := by
  have hs : ∀ cs : List Command, submitted (cs.map Event.send) = cs := by
    intro cs
    induction cs with
    | nil => rfl
    | cons c rest ih => simp [submitted, ih]
  have hj : ∀ l : List Nat,
      submitted (l.map (fun sc => Event.deleteSwapChain sc ::
        ((P.swapChainTeardown sc).map Command.External).map Event.send)).flatten =
      (l.map (fun sc => (P.swapChainTeardown sc).map Command.External)).flatten := by
    intro l
    induction l with
    | nil => rfl
    | cons sc rest ih =>
        rw [List.map_cons, List.flatten_cons, List.cons_append, List.map_cons, List.flatten_cons]
        simp only [submitted]
        rw [submitted_append, hs, ih]
  unfold teardownEvents teardownCommands
  rw [submitted_append, hj]
  cases depth with
  | none => rfl
  | some rt => simp only [submitted, hs]

theorem external_live (w : World) (ts : List Nat) :
    ∀ c ∈ ts.map Command.External, c.live w := by
  intro c hc
  obtain ⟨t, -, rfl⟩ := List.mem_map.mp hc
  trivial



/-- The deletion of the device's resources: the trace grows by the deletions and the
submissions of the destructors, the commands they submit are appended to the
pending ones, and the two members are cleared. -/
theorem destroyResources_spec (P : Platform) (w : World) :
    (D3DGLDevice.destroyResources P w).trace =
      w.trace ++ teardownEvents P w.device.mSwapchains w.device.mAutoDepthStencil ∧
    (D3DGLDevice.destroyResources P w).device =
      { w.device with
        mSwapchains := []
        mAutoDepthStencil := none
        mQueue := { w.device.mQueue with
          pending := w.device.mQueue.pending ++
            teardownCommands P w.device.mSwapchains w.device.mAutoDepthStencil } } ∧
    (D3DGLDevice.destroyResources P w).shaders = w.shaders ∧
    (D3DGLDevice.destroyResources P w).parseData = w.parseData ∧
    (D3DGLDevice.destroyResources P w).nextId = w.nextId := by
  obtain ⟨s1, s2, s3, s4, s5⟩ := deleteSwapChains_spec P w.device.mSwapchains w
  unfold D3DGLDevice.destroyResources
  simp only []
  generalize (w.device.mSwapchains.foldl (fun w sc => deleteSwapChain P sc w) w) = w1 at *
  have hads : w1.device.mAutoDepthStencil = w.device.mAutoDepthStencil := by rw [s2]
  split
  · rename_i rt heq
    have hrt : w.device.mAutoDepthStencil = some rt := by rw [← hads]; exact heq
    obtain ⟨d1, d2, d3, d4, d5⟩ := deleteRenderTarget_spec P rt
      { w1 with device := { w1.device with mSwapchains := [] } }
    refine ⟨d1.trans ?_, ?_, d3.trans s3, d4.trans s4, d5.trans s5⟩
    · show w1.trace ++ _ = _
      rw [s1, hrt]
      simp [teardownEvents]
    · show ({ (deleteRenderTarget P rt
          { w1 with device := { w1.device with mSwapchains := [] } }).device with
          mAutoDepthStencil := none } : D3DGLDevice) = _
      rw [d2]
      show ({ ({ w1.device with mSwapchains := [] } : D3DGLDevice) with
        mQueue := { w1.device.mQueue with
          pending := w1.device.mQueue.pending ++
            (P.renderTargetTeardown rt).map Command.External }
        mAutoDepthStencil := none } : D3DGLDevice) = _
      rw [s2, hrt]
      simp [teardownCommands]
  · rename_i heq
    have hrt : w.device.mAutoDepthStencil = none := by rw [← hads]; exact heq
    refine ⟨?_, ?_, s3, s4, s5⟩
    · show w1.trace = _
      rw [s1, hrt]
    · show ({ ({ w1.device with mSwapchains := [] } : D3DGLDevice) with
        mAutoDepthStencil := none } : D3DGLDevice) = _
      rw [s2, hrt]

/-- On a queue that is not running `deinit()` changes nothing: only the call is recorded. -/
theorem deinit_not_running (S : Sizes) (P : Platform) (w : World)
    (h : w.device.mQueue.state ≠ .Running) :
    CommandQueue.deinit S P w = some (w.emit .queueDeinit) := by
  unfold CommandQueue.deinit
  exact if_neg h

/-- On a running queue `deinit()` executes everything that is pending and stops. -/
theorem deinit_running (S : Sizes) (P : Platform) (w w2 : World)
    (h : w.device.mQueue.state = .Running)
    (hrun : CommandQueue.runAll S P (w.emit .queueDeinit).device.mQueue.pending
      ((w.emit .queueDeinit).setQueue { (w.emit .queueDeinit).device.mQueue with pending := [] })
      = some w2) :
    CommandQueue.deinit S P w = some (w2.setQueue { w2.device.mQueue with state := .Stopped }) := by
  unfold CommandQueue.deinit
  have hs : (w.emit .queueDeinit).device.mQueue.state = .Running := h
  show (if (w.emit .queueDeinit).device.mQueue.state = .Running then
      (match CommandQueue.drain S P (w.emit .queueDeinit) with
        | some w => some (w.setQueue { w.device.mQueue with state := .Stopped })
        | none => none)
    else some (w.emit .queueDeinit)) = _
  rw [if_pos hs]
  unfold CommandQueue.drain
  rw [hrun]

/-- What the destructor of the device does, when the pointers of the backlog are live. -/
theorem destructor_spec (S : Sizes) (P : Platform) (w : World)
    (hlive : ∀ c ∈ w.device.mQueue.pending, c.live w) :
    ∃ w' drained,
      D3DGLDevice.destructor S P w = some w' ∧
      w'.trace = w.trace ++ teardownEvents P w.device.mSwapchains w.device.mAutoDepthStencil ++
        [.queueDeinit] ++ drained ++
        (if w.device.mGLContext ≠ 0 then [.gl (.wglDeleteContext w.device.mGLContext)] else []) ∧
      (∀ e ∈ drained, e.isContextWork = true) ∧
      (w.device.mQueue.state = .Running →
        executed drained = w.device.mQueue.pending ++
          teardownCommands P w.device.mSwapchains w.device.mAutoDepthStencil ∧
        w'.device.mQueue = { state := .Stopped, locked := w.device.mQueue.locked, pending := [] }) ∧
      (w.device.mQueue.state ≠ .Running →
        drained = [] ∧
        w'.device.mQueue = { w.device.mQueue with
          pending := w.device.mQueue.pending ++
            teardownCommands P w.device.mSwapchains w.device.mAutoDepthStencil }) ∧
      w'.device.mSwapchains = [] ∧ w'.device.mAutoDepthStencil = none ∧
      w'.device.mGLContext = 0 := by
  obtain ⟨r1, r2, r3, r4, r5⟩ := destroyResources_spec P w
  unfold D3DGLDevice.destructor
  simp only []
  generalize D3DGLDevice.destroyResources P w = w1 at *
  have hctx : w1.device.mGLContext = w.device.mGLContext := by rw [r2]
  have hstate : w1.device.mQueue.state = w.device.mQueue.state := by rw [r2]
  by_cases hrun : w.device.mQueue.state = .Running
  · have hl : ∀ c ∈ (w1.emit .queueDeinit).device.mQueue.pending,
        c.live ((w1.emit .queueDeinit).setQueue
          { (w1.emit .queueDeinit).device.mQueue with pending := [] }) := by
      intro c hc
      have hc' : c ∈ w.device.mQueue.pending ++
          teardownCommands P w.device.mSwapchains w.device.mAutoDepthStencil := by
        simpa [r2] using hc
      rcases List.mem_append.mp hc' with h | h
      · exact live_of_eq c w _ (fun a => by simp [r3]) (by simp [r4]) (hlive c h)
      · unfold teardownCommands at h
        rcases List.mem_append.mp h with h | h
        · obtain ⟨l, hl, hcl⟩ := List.mem_flatten.mp h
          obtain ⟨sc, -, rfl⟩ := List.mem_map.mp hl
          exact external_live _ _ c hcl
        · cases hd : w.device.mAutoDepthStencil with
          | none => rw [hd] at h; cases h
          | some rt => rw [hd] at h; exact external_live _ _ c h
    obtain ⟨w2, new, hrun2, htr2, hex2, hwork2, hdev2, -, -, -⟩ := runAll_live S P _ _ hl
    have hdeinit : CommandQueue.deinit S P w1 =
        some (w2.setQueue { w2.device.mQueue with state := .Stopped }) :=
      deinit_running S P w1 w2 (hstate.trans hrun) hrun2
    rw [hdeinit]
    have hctx2 : w2.device.mGLContext = w.device.mGLContext := by rw [hdev2]; exact hctx
    refine ⟨_, new, rfl, ?_, hwork2, ?_, ?_, ?_, ?_, rfl⟩
    · by_cases hc : w.device.mGLContext = 0
      · simp [hctx2, hc, htr2, r1, World.setQueue, World.emit]
      · simp [hctx2, hc, htr2, r1, World.setQueue, World.emit]
    · intro _
      refine ⟨?_, ?_⟩
      · rw [hex2]; simp [r2]
      · by_cases hc : w.device.mGLContext = 0 <;>
          simp [hctx2, hc, hdev2, r2, World.setQueue, World.emit]
    · intro h; exact absurd hrun h
    · by_cases hc : w.device.mGLContext = 0 <;>
        simp [hctx2, hc, hdev2, r2, World.setQueue, World.emit]
    · by_cases hc : w.device.mGLContext = 0 <;>
        simp [hctx2, hc, hdev2, r2, World.setQueue, World.emit]
  · have hdeinit : CommandQueue.deinit S P w1 = some (w1.emit .queueDeinit) :=
      deinit_not_running S P w1 (by rw [hstate]; exact hrun)
    rw [hdeinit]
    refine ⟨_, [], rfl, ?_, by simp, ?_, ?_, ?_, ?_, rfl⟩
    · by_cases hc : w.device.mGLContext = 0
      · simp [hctx, hc, r1, World.emit]
      · simp [hctx, hc, r1, World.emit]
    · intro h; exact absurd h hrun
    · intro _
      refine ⟨rfl, ?_⟩
      by_cases hc : w.device.mGLContext = 0 <;> simp [hctx, hc, r2, World.emit]
    · by_cases hc : w.device.mGLContext = 0 <;> simp [hctx, hc, r2, World.emit]
    · by_cases hc : w.device.mGLContext = 0 <;> simp [hctx, hc, r2, World.emit]


/-! ## C9 -/

/-- C9: the destructor of the device, when the pointers of the backlog are live.
It returns, and what it adds to the trace is, in this order: the deletions of
the swap chains and of the auto depth-stencil, each with the submissions of its
destructor and nothing else; the one call of `mQueue.deinit()`; the work of the
Context Thread draining the queue; and last, only when `mGLContext` is not
null, `wglDeleteContext(mGLContext)`.  On a running queue the drain executes
everything that was pending and every command the destructors submitted, in
the order of submission, and leaves nothing pending. -/
theorem C9_teardown_before_deinit (S : Sizes) (P : Platform) (w : World)
    (hlive : ∀ c ∈ w.device.mQueue.pending, c.live w) :
    ∃ w' drained,
      D3DGLDevice.destructor S P w = some w' ∧
      w'.trace = w.trace ++ teardownEvents P w.device.mSwapchains w.device.mAutoDepthStencil ++
        [Event.queueDeinit] ++ drained ++
        (if w.device.mGLContext ≠ 0 then [Event.gl (.wglDeleteContext w.device.mGLContext)] else []) ∧
      (∀ e ∈ teardownEvents P w.device.mSwapchains w.device.mAutoDepthStencil,
        e.isResourceWork = true) ∧
      submitted (teardownEvents P w.device.mSwapchains w.device.mAutoDepthStencil)
        = teardownCommands P w.device.mSwapchains w.device.mAutoDepthStencil ∧
      (∀ e ∈ drained, e.isContextWork = true) ∧
      (teardownEvents P w.device.mSwapchains w.device.mAutoDepthStencil ++
        [Event.queueDeinit] ++ drained ++
        (if w.device.mGLContext ≠ 0 then [Event.gl (.wglDeleteContext w.device.mGLContext)]
          else [])).count Event.queueDeinit = 1 ∧
      (w.device.mQueue.state = .Running →
        executed drained = w.device.mQueue.pending ++
          teardownCommands P w.device.mSwapchains w.device.mAutoDepthStencil ∧
        w'.device.mQueue.pending = [] ∧ w'.device.mQueue.state = .Stopped) := by
  obtain ⟨w', drained, hd, htr, hwork, hrunning, -, -, -, -⟩ := destructor_spec S P w hlive
  have hres := teardownEvents_resourceWork P w.device.mSwapchains w.device.mAutoDepthStencil
  refine ⟨w', drained, hd, htr, hres, teardownEvents_submitted P _ _, hwork, ?_, ?_⟩
  · have h1 : (teardownEvents P w.device.mSwapchains w.device.mAutoDepthStencil).count
        Event.queueDeinit = 0 := by
      apply List.count_eq_zero.mpr
      intro h
      have := hres _ h
      simp [Event.isResourceWork] at this
    have h2 : drained.count Event.queueDeinit = 0 := by
      apply List.count_eq_zero.mpr
      intro h
      have := hwork _ h
      simp [Event.isContextWork] at this
    have h3 : (if w.device.mGLContext ≠ 0 then [Event.gl (.wglDeleteContext w.device.mGLContext)]
        else []).count Event.queueDeinit = 0 := by
      split <;> simp
    simp only [List.count_append, h1, h2, h3]
    simp
  · intro hrun
    obtain ⟨h1, h2⟩ := hrunning hrun
    refine ⟨h1, ?_, ?_⟩ <;> rw [h2]

/-- C9, at a concrete input: a device after a successful `init`, with one command
pending.  The destructor returns, the queue is stopped and nothing is pending. -/
theorem C9_teardown_before_deinit_witness :
    ∃ w', D3DGLDevice.destructor sampleSizes samplePlatform busyWorld = some w' ∧
      w'.device.mQueue.pending = [] ∧ w'.device.mQueue.state = .Stopped := by
  have hl : ∀ c ∈ busyWorld.device.mQueue.pending, c.live busyWorld := by
    intro c hc
    have hp : busyWorld.device.mQueue.pending = [.StateEnable GL_DITHER true] := by decide
    rw [hp] at hc
    rw [List.mem_singleton.mp hc]
    trivial
  obtain ⟨w', drained, hd, -, -, -, -, -, hrun⟩ :=
    C9_teardown_before_deinit sampleSizes samplePlatform busyWorld hl
  exact ⟨w', hd, (hrun (by decide)).2⟩

/-! ## C10 -/

/-- C10: `deinit()` on a queue that is not running (never initialised, or already
deinitialised) changes nothing; only the call is recorded.  So the destructor
of a device that was only constructed, or whose `init` returned `false` without
reaching `mQueue.init` (`new` being what `init` added to the trace), adds to the
trace the call of `deinit()` and nothing else (no command is executed, no
driver call is made), and leaves the queue as it was constructed:
uninitialised, without a Context Thread. -/
theorem C10_deinit_is_noop (S : Sizes) (P : Platform) :
    (∀ w : World, w.device.mQueue.state ≠ .Running →
      CommandQueue.deinit S P w = some (w.emit .queueDeinit)) ∧
    (∀ (w : World) (adapter : D3DAdapter) (window : HWND) (flags : DWORD),
      ∃ w', D3DGLDevice.destructor S P
          { w with device := D3DGLDevice.constructor P adapter window flags } = some w' ∧
        w'.trace = w.trace ++ [.queueDeinit] ∧ w'.device.mQueue = CommandQueue.new) ∧
    (∀ (w : World) (adapter : D3DAdapter) (window : HWND) (flags : DWORD)
        (params : D3DPRESENT_PARAMETERS) (new : List Event),
      (D3DGLDevice.init P params
          { w with device := D3DGLDevice.constructor P adapter window flags }).1.trace
        = w.trace ++ new →
      (∀ win ctx ret, Event.queueInit win ctx ret ∉ new) →
      (D3DGLDevice.init P params
          { w with device := D3DGLDevice.constructor P adapter window flags }).2.2 = false ∧
      ∃ w', D3DGLDevice.destructor S P (D3DGLDevice.init P params
          { w with device := D3DGLDevice.constructor P adapter window flags }).1 = some w' ∧
        w'.trace = w.trace ++ new ++ [.queueDeinit] ∧ w'.device.mQueue = CommandQueue.new) := by
  refine ⟨deinit_not_running S P, ?_, ?_⟩
  · intro w adapter window flags
    obtain ⟨w', drained, hd, htr, -, -, hnot, -, -, -⟩ := destructor_spec S P
      { w with device := D3DGLDevice.constructor P adapter window flags }
      (fun c hc => absurd hc (List.not_mem_nil c))
    obtain ⟨h1, h2⟩ := hnot (by simp [D3DGLDevice.constructor, CommandQueue.new])
    subst h1
    refine ⟨w', hd, ?_, ?_⟩
    · rw [htr]
      simp [D3DGLDevice.constructor, teardownEvents]
    · rw [h2]
      simp [D3DGLDevice.constructor, teardownCommands, CommandQueue.new]
  · intro w adapter window flags params new htrace hno
    rcases init_cases P params
        { w with device := D3DGLDevice.constructor P adapter window flags } with
      ⟨hret, -, hdev, hctx⟩ | ⟨pre, ⟨n1, rfl, -⟩, htr, -⟩ | ⟨pre, ⟨n1, rfl, -⟩, ⟨n2, h2, -⟩, -⟩
    · refine ⟨hret, ?_⟩
      have hctx0 : (D3DGLDevice.init P params
          { w with device := D3DGLDevice.constructor P adapter window flags }).1.device.mGLContext
          = 0 := by
        rcases hctx with h | h
        · rw [h]; rfl
        · exact h
      rw [hctx0] at hdev
      obtain ⟨w', drained, hd, htr, -, -, hnot, -, -, -⟩ := destructor_spec S P
        (D3DGLDevice.init P params
          { w with device := D3DGLDevice.constructor P adapter window flags }).1
        (by
          intro c hc
          rw [hdev] at hc
          exact absurd hc (List.not_mem_nil c))
      obtain ⟨h1, h2⟩ := hnot (by rw [hdev]; simp [D3DGLDevice.constructor, CommandQueue.new])
      subst h1
      refine ⟨w', hd, ?_, ?_⟩
      · rw [htr, htrace, hdev]
        simp [D3DGLDevice.constructor, teardownEvents]
      · rw [h2, hdev]
        simp [D3DGLDevice.constructor, teardownCommands, CommandQueue.new]
    · exfalso
      rw [htr, List.append_assoc] at htrace
      have := List.append_cancel_left htrace
      subst this
      exact hno _ _ _ (List.mem_append_right _ (List.mem_singleton_self _))
    · exfalso
      rw [h2, List.append_assoc, List.append_assoc] at htrace
      have := List.append_cancel_left htrace
      subst this
      exact hno _ _ _ (List.mem_append_right _
        (List.mem_append_left _ (List.mem_singleton_self _)))

/-- C10, at a concrete input: a newly constructed device is destroyed; and one
whose `init` rejected the parameters (two back buffers) is destroyed. -/
theorem C10_deinit_is_noop_witness :
    (∃ w', D3DGLDevice.destructor sampleSizes samplePlatform sampleWorld = some w' ∧
      w'.trace = [.queueDeinit] ∧ w'.device.mQueue = CommandQueue.new) ∧
    (∃ w', D3DGLDevice.destructor sampleSizes samplePlatform
        (D3DGLDevice.init samplePlatform { sampleParams with BackBufferCount := 2 }
          sampleWorld).1 = some w' ∧
      w'.trace = [.queueDeinit] ∧ w'.device.mQueue = CommandQueue.new) := by
  have h := C10_deinit_is_noop sampleSizes samplePlatform
  refine ⟨h.2.1 sampleWorld sampleAdapter 3 0, ?_⟩
  exact (h.2.2 sampleWorld sampleAdapter 3 0 { sampleParams with BackBufferCount := 2 } [] rfl
    (fun _ _ _ hm => absurd hm (List.not_mem_nil _))).2



/-! ## C11 -/

/-- C11: the device methods that take the Queue Lock, called while it is free.
`SetMaterial` and `SetRenderState(D3DRS_DITHERENABLE, v)` call `lock()` once, then
`sendAndUnlock`, whose unlock is the one release; `GetMaterial` calls `lock()` once
and `unlock()` once; `SetRenderState` of any other state touches neither the
lock nor the queue.  Each of them returns, with the Queue Lock free. -/
theorem C11_queue_lock_discipline (w : World) (hfree : w.device.mQueue.locked = false) :
    (∀ material, ∃ w', D3DGLDevice.SetMaterial material w = some (w', D3D_OK) ∧
      w'.trace = w.trace ++ [.lock, .send (MaterialSet.new material), .unlock] ∧
      w'.device.mQueue.locked = false) ∧
    (∃ w', D3DGLDevice.GetMaterial w = some (w', w.device.mMaterial, E_NOTIMPL) ∧
      w'.trace = w.trace ++ [.lock, .unlock] ∧
      w'.device.mQueue.locked = false) ∧
    (∀ value, ∃ w', D3DGLDevice.SetRenderState D3DRS_DITHERENABLE value w = some (w', D3D_OK) ∧
      w'.trace = w.trace ++ [.lock, .send (StateEnable.new GL_DITHER (value != 0)), .unlock] ∧
      w'.device.mQueue.locked = false) ∧
    (∀ state value, state ≠ D3DRS_DITHERENABLE →
      D3DGLDevice.SetRenderState state value w = some (w, E_NOTIMPL)) := by
  refine ⟨?_, ?_, ?_, ?_⟩
  · intro material
    exact ⟨_, SetMaterial_eq material w hfree, rfl, rfl⟩
  · exact ⟨_, GetMaterial_eq w hfree, rfl, rfl⟩
  · intro value
    exact ⟨_, SetRenderState_dither value w hfree, rfl, rfl⟩
  · intro state value hne
    simp [D3DGLDevice.SetRenderState, hne]

/-- C11, at a concrete input: the three methods on a newly constructed device. -/
theorem C11_queue_lock_discipline_witness :
    sampleWorld.device.mQueue.locked = false ∧
    (∃ w', D3DGLDevice.SetMaterial sampleMaterial sampleWorld = some (w', D3D_OK) ∧
      w'.trace = [.lock, .send (MaterialSet.new sampleMaterial), .unlock] ∧
      w'.device.mQueue.locked = false) ∧
    (∃ w', D3DGLDevice.GetMaterial sampleWorld = some (w', sampleMaterial, E_NOTIMPL) ∧
      w'.trace = [.lock, .unlock] ∧ w'.device.mQueue.locked = false) ∧
    D3DGLDevice.SetRenderState D3DRS_ZENABLE 1 sampleWorld = some (sampleWorld, E_NOTIMPL) :=
  ⟨rfl, (C11_queue_lock_discipline sampleWorld rfl).1 sampleMaterial,
    (C11_queue_lock_discipline sampleWorld rfl).2.1,
    (C11_queue_lock_discipline sampleWorld rfl).2.2.2 D3DRS_ZENABLE 1 (by decide)⟩


/-! ## C16 -/

theorem lock_device (w w' : World) (h : CommandQueue.lock w = some w') :
    w' = (w.setQueue { w.device.mQueue with locked := true }).emit .lock := by
  unfold CommandQueue.lock at h
  split_ifs at h
  exact (Option.some.inj h).symm

theorem unlock_device (w w' : World) (h : CommandQueue.unlock w = some w') :
    w' = (w.setQueue { w.device.mQueue with locked := false }).emit .unlock := by
  unfold CommandQueue.unlock at h
  split_ifs at h
  exact (Option.some.inj h).symm

/-- No `execute()` touches the device object. -/
theorem execute_device (S : Sizes) (P : Platform) (c : Command) (w : World)
    (r : World × ULONG) (h : c.execute S P w = some r) : r.1.device = w.device := by
  cases c with
  | StateEnable s e =>
      cases e <;> (simp only [Command.execute] at h; cases h; rfl)
  | MaterialSet a b c d e =>
      simp only [Command.execute] at h; cases h; rfl
  | CompileVShaderCmd t s =>
      simp only [Command.execute] at h
      split at h
      · cases h; rfl
      · cases h
  | DeinitVShaderCmd p =>
      simp only [Command.execute] at h; cases h; rfl
  | External t =>
      simp only [Command.execute] at h; cases h; rfl


theorem lock_mInScene (w w' : World) (h : CommandQueue.lock w = some w') :
    w'.device.mInScene = w.device.mInScene := by
  rw [lock_device w w' h]; rfl

theorem unlock_mInScene (w w' : World) (h : CommandQueue.unlock w = some w') :
    w'.device.mInScene = w.device.mInScene := by
  rw [unlock_device w w' h]; rfl

theorem sendAndUnlock_mInScene (c : Command) (w w' : World)
    (h : CommandQueue.sendAndUnlock c w = some w') :
    w'.device.mInScene = w.device.mInScene := by
  unfold CommandQueue.sendAndUnlock at h
  rw [unlock_device _ _ h]; rfl

/-- The scene flag after a device call, from the scene flag before it. -/
theorem apply_mInScene (S : Sizes) (P : Platform) (c : DeviceCall) (w : World) :
    ∀ w', c.apply S P w = some w' →
      (c = .BeginScene → w'.device.mInScene = true) ∧
      (c = .EndScene → w'.device.mInScene = false) ∧
      (c ≠ .BeginScene → c ≠ .EndScene → w'.device.mInScene = w.device.mInScene) := by
  cases c with
  | SetRenderState state value =>
      intro w' h
      refine ⟨(fun hc => by cases hc), (fun hc => by cases hc), fun _ _ => ?_⟩
      simp only [DeviceCall.apply, D3DGLDevice.SetRenderState] at h
      split_ifs at h
      · cases hl : CommandQueue.lock w with
        | none => simp [hl] at h
        | some w1 =>
            simp only [hl] at h
            split at h
            · rename_i w2 hu
              simp only [Option.map_some', Option.some.injEq] at h
              subst h
              rw [sendAndUnlock_mInScene _ _ _ hu]
              exact lock_mInScene w w1 hl
            · simp at h
      · simp only [Option.map_some', Option.some.injEq] at h
        subst h
        rfl
  | GetRenderState state =>
      intro w' h
      refine ⟨(fun hc => by cases hc), (fun hc => by cases hc), fun _ _ => ?_⟩
      simp only [DeviceCall.apply, Option.some.injEq] at h
      subst h
      rfl
  | SetMaterial material =>
      intro w' h
      refine ⟨(fun hc => by cases hc), (fun hc => by cases hc), fun _ _ => ?_⟩
      simp only [DeviceCall.apply, D3DGLDevice.SetMaterial] at h
      cases hl : CommandQueue.lock w with
      | none => simp [hl] at h
      | some w1 =>
          simp only [hl] at h
          split at h
          · rename_i w2 hu
            simp only [Option.map_some', Option.some.injEq] at h
            subst h
            rw [sendAndUnlock_mInScene _ _ _ hu]
            exact lock_mInScene w w1 hl
          · simp at h
  | GetMaterial =>
      intro w' h
      refine ⟨(fun hc => by cases hc), (fun hc => by cases hc), fun _ _ => ?_⟩
      simp only [DeviceCall.apply, D3DGLDevice.GetMaterial] at h
      cases hl : CommandQueue.lock w with
      | none => simp [hl] at h
      | some w1 =>
          simp only [hl] at h
          split at h
          · rename_i w2 hu
            simp only [Option.map_some', Option.some.injEq] at h
            subst h
            rw [unlock_mInScene _ _ hu]
            exact lock_mInScene w w1 hl
          · simp at h
  | BeginScene =>
      intro w' h
      simp only [DeviceCall.apply, Option.some.injEq] at h
      subst h
      rw [BeginScene_fst]
      exact ⟨fun _ => rfl, (fun hc => by cases hc), fun hc => absurd rfl hc⟩
  | EndScene =>
      intro w' h
      simp only [DeviceCall.apply, Option.some.injEq] at h
      subst h
      rw [EndScene_fst]
      exact ⟨(fun hc => by cases hc), fun _ => rfl, fun _ hc => absurd rfl hc⟩
  | contextThread =>
      intro w' h
      refine ⟨(fun hc => by cases hc), (fun hc => by cases hc), fun _ _ => ?_⟩
      simp only [DeviceCall.apply, CommandQueue.runOne] at h
      split at h
      · cases h; rfl
      · rename_i c rest hp
        cases he : c.execute S P
            ((w.setQueue { w.device.mQueue with pending := rest }).emit (.execute c)) with
        | none => simp [he] at h
        | some r =>
            rw [he] at h
            simp only [Option.map_some', Option.some.injEq] at h
            subst h
            rw [execute_device S P c _ r he]
            rfl


theorem BeginScene_snd (w : World) :
    (D3DGLDevice.BeginScene w).2 = if w.device.mInScene = true then D3DERR_INVALIDCALL else D3D_OK := by
  unfold D3DGLDevice.BeginScene
  cases w.device.mInScene <;> rfl

theorem EndScene_snd (w : World) :
    (D3DGLDevice.EndScene w).2 = if w.device.mInScene = true then D3D_OK else D3DERR_INVALIDCALL := by
  unfold D3DGLDevice.EndScene
  cases w.device.mInScene <;> rfl

theorem alternates_nil (b : Bool) : Alternates b [] := by
  cases b <;> simp [Alternates]

theorem sceneSuccesses_alternates (S : Sizes) (P : Platform) (calls : List DeviceCall) :
    ∀ w : World, Alternates w.device.mInScene (sceneSuccesses S P calls w) := by
  induction calls with
  | nil => intro w; exact alternates_nil _
  | cons c rest ih =>
      intro w
      have hrec : ∀ b : Bool, (∀ w', c.apply S P w = some w' → w'.device.mInScene = b) →
          Alternates b (match c.apply S P w with
            | some w' => sceneSuccesses S P rest w'
            | none => []) := by
        intro b hb
        cases ha : c.apply S P w with
        | none => exact alternates_nil _
        | some w' =>
            have := ih w'
            rw [hb w' ha] at this
            exact this
      by_cases hb : c = .BeginScene
      · subst hb
        have h1 := hrec true (fun w' h => (apply_mInScene S P _ w w' h).1 rfl)
        simp only [sceneSuccesses, DeviceCall.sceneResult, BeginScene_snd]
        cases hs : w.device.mInScene
        · simpa [Alternates] using h1
        · simpa [Alternates, D3DERR_INVALIDCALL, D3D_OK] using h1
      · by_cases he : c = .EndScene
        · subst he
          have h1 := hrec false (fun w' h => (apply_mInScene S P _ w w' h).2.1 rfl)
          simp only [sceneSuccesses, DeviceCall.sceneResult, EndScene_snd]
          cases hs : w.device.mInScene
          · simpa [Alternates, D3DERR_INVALIDCALL, D3D_OK] using h1
          · simpa [Alternates] using h1
        · have h1 := hrec w.device.mInScene
            (fun w' h => (apply_mInScene S P _ w w' h).2.2 hb he)
          have hn : c.sceneResult w = none := by
            cases c <;> first | rfl | exact absurd rfl hb | exact absurd rfl he
          simp only [sceneSuccesses, hn]
          simpa using h1

/-- C16: the scene state machine.  `BeginScene` always leaves the device in a
scene and returns `D3D_OK` exactly when it was not in one (`D3DERR_INVALIDCALL`
otherwise); `EndScene` always leaves it out of a scene and returns `D3D_OK`
exactly when it was in one.  A call that fails changes nothing; a new device is
out of the scene; and in any sequence of device calls and turns of the Context
Thread, begun out of a scene, the scene calls that succeed alternate, beginning
with `BeginScene`. -/
theorem C16_scene_state_machine (S : Sizes) (P : Platform) :
    (∀ w : World,
      (D3DGLDevice.BeginScene w).1 = { w with device := { w.device with mInScene := true } } ∧
      ((D3DGLDevice.BeginScene w).2 = D3D_OK ↔ w.device.mInScene = false) ∧
      ((D3DGLDevice.BeginScene w).2 = D3DERR_INVALIDCALL ↔ w.device.mInScene = true) ∧
      ((D3DGLDevice.BeginScene w).2 ≠ D3D_OK → (D3DGLDevice.BeginScene w).1 = w)) ∧
    (∀ w : World,
      (D3DGLDevice.EndScene w).1 = { w with device := { w.device with mInScene := false } } ∧
      ((D3DGLDevice.EndScene w).2 = D3D_OK ↔ w.device.mInScene = true) ∧
      ((D3DGLDevice.EndScene w).2 = D3DERR_INVALIDCALL ↔ w.device.mInScene = false) ∧
      ((D3DGLDevice.EndScene w).2 ≠ D3D_OK → (D3DGLDevice.EndScene w).1 = w)) ∧
    (∀ adapter window flags, (D3DGLDevice.constructor P adapter window flags).mInScene = false) ∧
    (∀ (calls : List DeviceCall) (w : World), w.device.mInScene = false →
      Alternates false (sceneSuccesses S P calls w)) := by
  refine ⟨?_, ?_, fun _ _ _ => rfl, ?_⟩
  · intro w
    refine ⟨BeginScene_fst w, ?_, ?_, ?_⟩
    · rw [BeginScene_snd]
      cases w.device.mInScene <;> simp [D3DERR_INVALIDCALL, D3D_OK]
    · rw [BeginScene_snd]
      cases w.device.mInScene <;> simp [D3DERR_INVALIDCALL, D3D_OK]
    · rw [BeginScene_snd, BeginScene_fst]
      cases hs : w.device.mInScene
      · simp
      · intro _
        rw [← hs]
  · intro w
    refine ⟨EndScene_fst w, ?_, ?_, ?_⟩
    · rw [EndScene_snd]
      cases w.device.mInScene <;> simp [D3DERR_INVALIDCALL, D3D_OK]
    · rw [EndScene_snd]
      cases w.device.mInScene <;> simp [D3DERR_INVALIDCALL, D3D_OK]
    · rw [EndScene_snd, EndScene_fst]
      cases hs : w.device.mInScene
      · intro _
        rw [← hs]
      · simp
  · intro calls w hw
    have := sceneSuccesses_alternates S P calls w
    rw [hw] at this
    exact this


/-- C16, at a concrete input: on a new device, of the calls `BeginScene`, `BeginScene`,
`EndScene`, `EndScene`, `BeginScene` the first, the third and the fifth succeed. -/
theorem C16_scene_state_machine_witness :
    sceneSuccesses sampleSizes samplePlatform
      [.BeginScene, .BeginScene, .EndScene, .EndScene, .BeginScene] sampleWorld
      = [.BeginScene, .EndScene, .BeginScene] ∧
    Alternates false (sceneSuccesses sampleSizes samplePlatform
      [.BeginScene, .BeginScene, .EndScene, .EndScene, .BeginScene] sampleWorld) :=
  ⟨by decide, (C16_scene_state_machine sampleSizes samplePlatform).2.2.2
    [.BeginScene, .BeginScene, .EndScene, .EndScene, .BeginScene] sampleWorld rfl⟩

/-! ## C17 -/

/-- C17: on a newly constructed device, `SetMaterial(&sampleMaterial)` returns
`D3D_OK`; the `GetMaterial` that follows copies that material to `*material` and
returns `E_NOTIMPL`, which is not `D3D_OK`. -/
theorem C17_GetMaterial_returns_E_NOTIMPL :
    ∃ w1 w2,
      D3DGLDevice.SetMaterial sampleMaterial sampleWorld = some (w1, D3D_OK) ∧
      D3DGLDevice.GetMaterial w1 = some (w2, sampleMaterial, E_NOTIMPL) ∧
      E_NOTIMPL ≠ D3D_OK :=
  ⟨_, _, SetMaterial_eq sampleMaterial sampleWorld rfl, GetMaterial_eq _ rfl, by decide⟩

/-! ## C19 -/

theorem driverCalls_append (a b : List Event) :
    driverCalls (a ++ b) = driverCalls a ++ driverCalls b := by
  induction a with
  | nil => rfl
  | cons e es ih => cases e <;> simp [driverCalls, ih]

/-- C19: `execute()` of `MaterialSet(m)`, in any world: it makes five driver calls on
`GL_FRONT_AND_BACK` and nothing else, in this order: the shininess `m.Power`,
the diffuse, the ambient, the specular and the emission colour of `m`, each as
`(r, g, b, a)`.  The world is arbitrary, so the values are those of `m` whatever
the shadow material of the device holds when the command runs: when
`SetMaterial(&m)` is followed by `SetMaterial(&m2)` and then the Context Thread
executes the first command, the values uploaded are those of `m`, while the
shadow material is `m2`. -/
theorem C19_MaterialSet_uploads (S : Sizes) (P : Platform) (m : D3DMATERIAL9) :
    (∀ w : World,
      (MaterialSet.new m).execute S P w =
        some ({ w with trace := w.trace ++
                 [.gl (.glMaterialf GL_FRONT_AND_BACK GL_SHININESS m.Power),
                  .gl (.glMaterialfv GL_FRONT_AND_BACK GL_DIFFUSE
                    ⟨m.Diffuse.r, m.Diffuse.g, m.Diffuse.b, m.Diffuse.a⟩),
                  .gl (.glMaterialfv GL_FRONT_AND_BACK GL_AMBIENT
                    ⟨m.Ambient.r, m.Ambient.g, m.Ambient.b, m.Ambient.a⟩),
                  .gl (.glMaterialfv GL_FRONT_AND_BACK GL_SPECULAR
                    ⟨m.Specular.r, m.Specular.g, m.Specular.b, m.Specular.a⟩),
                  .gl (.glMaterialfv GL_FRONT_AND_BACK GL_EMISSION
                    ⟨m.Emissive.r, m.Emissive.g, m.Emissive.b, m.Emissive.a⟩)] },
              S.sizeof_MaterialSet)) ∧
    (∀ (w : World) (m2 : D3DMATERIAL9), w.device.mQueue.locked = false →
      w.device.mQueue.pending = [] →
      ∃ w', runCalls S P [.SetMaterial m, .SetMaterial m2, .contextThread] w = some w' ∧
        w'.device.mMaterial = m2 ∧
        driverCalls w'.trace = driverCalls w.trace ++
          [.glMaterialf GL_FRONT_AND_BACK GL_SHININESS m.Power,
           .glMaterialfv GL_FRONT_AND_BACK GL_DIFFUSE
             ⟨m.Diffuse.r, m.Diffuse.g, m.Diffuse.b, m.Diffuse.a⟩,
           .glMaterialfv GL_FRONT_AND_BACK GL_AMBIENT
             ⟨m.Ambient.r, m.Ambient.g, m.Ambient.b, m.Ambient.a⟩,
           .glMaterialfv GL_FRONT_AND_BACK GL_SPECULAR
             ⟨m.Specular.r, m.Specular.g, m.Specular.b, m.Specular.a⟩,
           .glMaterialfv GL_FRONT_AND_BACK GL_EMISSION
             ⟨m.Emissive.r, m.Emissive.g, m.Emissive.b, m.Emissive.a⟩]) := by
  refine ⟨?_, ?_⟩
  · intro w
    simp [MaterialSet.new, Command.execute, World.emit]
  · intro w m2 hfree hpend
    simp only [runCalls, DeviceCall.apply, SetMaterial_eq m w hfree, Option.map_some']
    rw [SetMaterial_eq m2 _ rfl]
    simp only [Option.map_some', CommandQueue.runOne, hpend, List.nil_append,
      List.singleton_append, List.cons_append, MaterialSet.new, Command.execute]
    refine ⟨_, rfl, rfl, ?_⟩
    simp [driverCalls_append, driverCalls, World.emit, World.setQueue]

/-- C19, at a concrete input: on a new device, `SetMaterial(&sampleMaterial)`, then
`SetMaterial` of a material that is `0` throughout, then one turn of the
Context Thread: the shininess uploaded is that of `sampleMaterial`. -/
theorem C19_MaterialSet_uploads_witness :
    ∃ w', runCalls sampleSizes samplePlatform
        [.SetMaterial sampleMaterial,
         .SetMaterial { Diffuse := ⟨0, 0, 0, 0⟩, Ambient := ⟨0, 0, 0, 0⟩,
                        Specular := ⟨0, 0, 0, 0⟩, Emissive := ⟨0, 0, 0, 0⟩, Power := 0 },
         .contextThread] sampleWorld = some w' ∧
      w'.device.mMaterial.Power = 0 ∧
      (driverCalls w'.trace).head? = some (.glMaterialf GL_FRONT_AND_BACK GL_SHININESS 17) := by
  obtain ⟨w', h, hm, hd⟩ := (C19_MaterialSet_uploads sampleSizes samplePlatform sampleMaterial).2
    sampleWorld { Diffuse := ⟨0, 0, 0, 0⟩, Ambient := ⟨0, 0, 0, 0⟩,
                  Specular := ⟨0, 0, 0, 0⟩, Emissive := ⟨0, 0, 0, 0⟩, Power := 0 } rfl rfl
  refine ⟨w', h, ?_, ?_⟩
  · rw [hm]
  · rw [hd]
    rfl

/-! ## C20 -/

/-- C20: `execute()` of `StateEnable(s, e)`, in any world: it makes one driver call,
`glEnable(s)` when `e` is `true` and `glDisable(s)` when it is `false`, and does
nothing else. -/
theorem C20_StateEnable_toggles_once (S : Sizes) (P : Platform) (s : GLenum) (e : Bool)
    (w : World) :
    (StateEnable.new s e).execute S P w =
      some ({ w with trace := w.trace ++ [.gl (if e = true then .glEnable s else .glDisable s)] },
            S.sizeof_StateEnable) ∧
    ∃ w', ((StateEnable.new s e).execute S P w).map Prod.fst = some w' ∧
      driverCalls w'.trace = driverCalls w.trace ++ [if e = true then .glEnable s else .glDisable s] := by
  cases e
  · exact ⟨rfl, _, rfl, by simp [driverCalls_append, driverCalls, World.emit]⟩
  · exact ⟨rfl, _, rfl, by simp [driverCalls_append, driverCalls, World.emit]⟩


/-! ## C18 -/

theorem and_not_autogen (usage : Nat) (hlt : usage < 2 ^ 32)
    (h : usage &&& D3DUSAGE_AUTOGENMIPMAP = 0) :
    usage &&& (D3DUSAGE_AUTOGENMIPMAP ^^^ 0xFFFFFFFF) = usage := by
  unfold D3DUSAGE_AUTOGENMIPMAP at h ⊢
  apply Nat.eq_of_testBit_eq
  intro i
  have h1 := congrArg (fun x => x.testBit i) h
  simp only [Nat.testBit_and, Nat.zero_testBit] at h1
  rw [Nat.testBit_and, Nat.testBit_xor]
  have h400 : (0x400 : Nat) = 2 ^ 10 := by norm_num
  have hF : (0xFFFFFFFF : Nat) = 2 ^ 32 - 1 := by norm_num
  rw [h400, Nat.testBit_two_pow] at h1 ⊢
  rw [hF, Nat.testBit_two_pow_sub_one]
  by_cases hi : i < 32
  · by_cases h10 : 10 = i
    · subst h10
      simp at h1
      simp [h1]
    · simp [h10, hi]
  · have : usage.testBit i = false := by
      apply Nat.testBit_lt_two_pow
      calc usage < 2 ^ 32 := hlt
        _ ≤ 2 ^ i := Nat.pow_le_pow_right (by norm_num) (by omega)
    simp [this]

theorem autogen_cleared (usage : Nat) :
    (usage &&& (D3DUSAGE_AUTOGENMIPMAP ^^^ 0xFFFFFFFF)) &&& D3DUSAGE_AUTOGENMIPMAP = 0 := by
  rw [Nat.and_assoc]
  have : (D3DUSAGE_AUTOGENMIPMAP ^^^ 0xFFFFFFFF) &&& D3DUSAGE_AUTOGENMIPMAP = 0 := by decide
  rw [this]
  simp

theorem and_mask_of_and (usage real m : Nat) (h : usage &&& real = usage) :
    (usage &&& m) &&& real = usage &&& m := by
  rw [Nat.and_assoc, Nat.and_comm m real, ← Nat.and_assoc, h]

/-- `CreateTexture` with a null `handle`, a non-null `texture` and a usage that
passes the tests, when the `init` of the texture succeeds. -/
theorem CreateTexture_created (P : Platform) (width height levels : UINT) (usage : DWORD)
    (format : D3DFORMAT) (pool : DWORD) (t : Nat) (w : World) (u : DWORD) (hr : HRESULT)
    (hc : D3DGLDevice.checkTextureUsage usage
      (w.device.mAdapter.getUsage D3DRTYPE_TEXTURE format) = some (u, hr))
    (hinit : ∀ desc, P.textureInit (w.trace ++ [.newTexture w.nextId]) w.nextId desc levels = true) :
    D3DGLDevice.CreateTexture P width height levels usage format pool (some t) none w =
      ({ w with
          nextId := w.nextId + 1
          trace := w.trace ++ [.newTexture w.nextId,
            .textureInit w.nextId
              { Format := format, Type_ := D3DRTYPE_TEXTURE, Usage := u, Pool := pool,
                MultiSampleType := D3DMULTISAMPLE_NONE, MultiSampleQuality := 0,
                Width := width, Height := height } levels true] },
        some w.nextId, hr) := by
  simp [D3DGLDevice.CreateTexture, hc, World.emit, hinit]

/-- C18: `CreateTexture` with a null `handle` and a non-null `texture`, when the
`init` of the texture succeeds; `real` is `mAdapter.getUsage(D3DRTYPE_TEXTURE, format)`
and `usage &&& real = usage` says that every bit of `usage` is a bit of `real`.
(1) When every bit of `usage` is in `real`, the texture is created with `usage`,
written to `*texture`, and the result is `D3D_OK`.  (2) Otherwise, when
`D3DUSAGE_AUTOGENMIPMAP` is requested and every other requested bit is in
`real`, the texture is created with the usage without that bit, written to
`*texture`, and the result is `D3DOK_NOAUTOGEN`.  (3) Otherwise the result is
`D3DERR_INVALIDCALL`, the world is unchanged (no texture is created, nothing is
written), and some requested bit other than `D3DUSAGE_AUTOGENMIPMAP` is not
in `real`. -/
theorem C18_CreateTexture_usage (P : Platform) (width height levels : UINT) (usage : DWORD)
    (format : D3DFORMAT) (pool : DWORD) (t : Nat) (w : World) (real : DWORD)
    (hreal : real = w.device.mAdapter.getUsage D3DRTYPE_TEXTURE format)
    (hlt : usage < 2 ^ 32)
    (hinit : ∀ desc, P.textureInit (w.trace ++ [.newTexture w.nextId]) w.nextId desc levels = true) :
    (usage &&& real = usage →
      D3DGLDevice.CreateTexture P width height levels usage format pool (some t) none w =
        ({ w with
            nextId := w.nextId + 1
            trace := w.trace ++ [.newTexture w.nextId,
              .textureInit w.nextId
                { Format := format, Type_ := D3DRTYPE_TEXTURE, Usage := usage, Pool := pool,
                  MultiSampleType := D3DMULTISAMPLE_NONE, MultiSampleQuality := 0,
                  Width := width, Height := height } levels true] },
          some w.nextId, D3D_OK)) ∧
    (usage &&& real ≠ usage → usage &&& D3DUSAGE_AUTOGENMIPMAP ≠ 0 →
      (usage &&& (D3DUSAGE_AUTOGENMIPMAP ^^^ 0xFFFFFFFF)) &&& real
        = usage &&& (D3DUSAGE_AUTOGENMIPMAP ^^^ 0xFFFFFFFF) →
      D3DGLDevice.CreateTexture P width height levels usage format pool (some t) none w =
        ({ w with
            nextId := w.nextId + 1
            trace := w.trace ++ [.newTexture w.nextId,
              .textureInit w.nextId
                { Format := format, Type_ := D3DRTYPE_TEXTURE,
                  Usage := usage &&& (D3DUSAGE_AUTOGENMIPMAP ^^^ 0xFFFFFFFF), Pool := pool,
                  MultiSampleType := D3DMULTISAMPLE_NONE, MultiSampleQuality := 0,
                  Width := width, Height := height } levels true] },
          some w.nextId, D3DOK_NOAUTOGEN) ∧
      (usage &&& (D3DUSAGE_AUTOGENMIPMAP ^^^ 0xFFFFFFFF)) &&& D3DUSAGE_AUTOGENMIPMAP = 0) ∧
    (usage &&& real ≠ usage →
      ¬ (usage &&& D3DUSAGE_AUTOGENMIPMAP ≠ 0 ∧
        (usage &&& (D3DUSAGE_AUTOGENMIPMAP ^^^ 0xFFFFFFFF)) &&& real
          = usage &&& (D3DUSAGE_AUTOGENMIPMAP ^^^ 0xFFFFFFFF)) →
      D3DGLDevice.CreateTexture P width height levels usage format pool (some t) none w =
        (w, none, D3DERR_INVALIDCALL) ∧
      (usage &&& (D3DUSAGE_AUTOGENMIPMAP ^^^ 0xFFFFFFFF)) &&& real
        ≠ usage &&& (D3DUSAGE_AUTOGENMIPMAP ^^^ 0xFFFFFFFF)) := by
  subst hreal
  refine ⟨?_, ?_, ?_⟩
  · intro h
    apply CreateTexture_created _ _ _ _ _ _ _ _ _ _ _ _ hinit
    simp [D3DGLDevice.checkTextureUsage, h]
  · intro h hauto hothers
    refine ⟨?_, autogen_cleared usage⟩
    apply CreateTexture_created _ _ _ _ _ _ _ _ _ _ _ _ hinit
    simp [D3DGLDevice.checkTextureUsage, h, hothers]
  · intro h hnot
    have hothers : (usage &&& (D3DUSAGE_AUTOGENMIPMAP ^^^ 0xFFFFFFFF)) &&&
        w.device.mAdapter.getUsage D3DRTYPE_TEXTURE format
        ≠ usage &&& (D3DUSAGE_AUTOGENMIPMAP ^^^ 0xFFFFFFFF) := by
      intro ho
      by_cases hauto : usage &&& D3DUSAGE_AUTOGENMIPMAP = 0
      · rw [and_not_autogen usage hlt hauto] at ho
        exact h ho
      · exact hnot ⟨hauto, ho⟩
    refine ⟨?_, hothers⟩
    simp [D3DGLDevice.CreateTexture, D3DGLDevice.checkTextureUsage, h, hothers]

/-- C18, at a concrete input: an adapter that supports usage `0x1` only.  A texture
requested with usage `0x401` is created with usage `0x1` and the result is
`D3DOK_NOAUTOGEN`. -/
theorem C18_CreateTexture_usage_witness :
    D3DGLDevice.CreateTexture samplePlatform 64 64 1 0x401 D3DFMT_X8R8G8B8 D3DPOOL_DEFAULT
        (some 0) none
        { sampleWorld with device := { sampleWorld.device with
            mAdapter := { pointsize_max := FLOAT_ONE, getUsage := fun _ _ => 1 } } } =
      ({ sampleWorld with
          device := { sampleWorld.device with
            mAdapter := { pointsize_max := FLOAT_ONE, getUsage := fun _ _ => 1 } }
          nextId := 1
          trace := [.newTexture 0,
            .textureInit 0
              { Format := D3DFMT_X8R8G8B8, Type_ := D3DRTYPE_TEXTURE, Usage := 1,
                Pool := D3DPOOL_DEFAULT, MultiSampleType := D3DMULTISAMPLE_NONE,
                MultiSampleQuality := 0, Width := 64, Height := 64 } 1 true] },
        some 0, D3DOK_NOAUTOGEN) :=
  ((C18_CreateTexture_usage samplePlatform 64 64 1 0x401 D3DFMT_X8R8G8B8 D3DPOOL_DEFAULT 0
    { sampleWorld with device := { sampleWorld.device with
        mAdapter := { pointsize_max := FLOAT_ONE, getUsage := fun _ _ => 1 } } } 1 rfl
    (by decide) (fun _ => rfl)).2.1 (by decide) (by decide) (by decide)).1


/-! ## The destructor of a vertex shader -/

/-- The count left by `--mRefCount` is 0 only when the count was 1. -/
theorem count_ne_zero (w : World) (h : ¬ LastReference w) :
    ¬ ((if w.device.mRefCount = 0 then 2 ^ 32 - 1 else w.device.mRefCount - 1) = 0) := by
  by_cases hc : w.device.mRefCount = 0
  · rw [if_pos hc]
    decide
  · rw [if_neg hc]
    intro h1
    exact h (Nat.le_antisymm (Nat.sub_eq_zero_iff_le.mp h1) (Nat.pos_of_ne_zero hc))

/-- With another reference left, `Release` only counts down. -/
theorem Release_of_other (S : Sizes) (P : Platform) (w : World) (h : ¬ LastReference w) :
    D3DGLDevice.Release S P w =
      some ({ w with device := { w.device with
                mRefCount := if w.device.mRefCount = 0 then 2 ^ 32 - 1
                             else w.device.mRefCount - 1 } },
            if w.device.mRefCount = 0 then 2 ^ 32 - 1 else w.device.mRefCount - 1) := by
  unfold D3DGLDevice.Release
  simp only []
  rw [if_neg (count_ne_zero w h)]

/-- With the last reference, `Release` runs the destructor of the device. -/
theorem Release_of_last (S : Sizes) (P : Platform) (w : World) (h : LastReference w) :
    D3DGLDevice.Release S P w =
      (D3DGLDevice.destructor S P { w with device := { w.device with mRefCount := 0 } }).map
        (fun w' => (w', 0)) := by
  unfold D3DGLDevice.Release
  have h1 : w.device.mRefCount = 1 := h
  simp only [h1, one_ne_zero, if_false, Nat.sub_self, if_true]
  cases D3DGLDevice.destructor S P { w with device := { w.device with mRefCount := 0 } } <;> rfl

/-- The destruction of a shader that does not hold the last reference to the device:
the submission, the count, then the end of the object. -/
theorem destructor_eq (S : Sizes) (P : Platform) (self : Nat) (w : World)
    (h : ¬ LastReference w) :
    D3DGLVertexShader.destructor S P self w =
      match w.shaders self with
      | some this =>
          some { (if this.mProgram ≠ 0 then
                    CommandQueue.send (DeinitVShaderCmd.new this.mProgram) w else w) with
                 shaders := Function.update
                   (if this.mProgram ≠ 0 then
                     CommandQueue.send (DeinitVShaderCmd.new this.mProgram) w else w).shaders
                   self none
                 device := { (if this.mProgram ≠ 0 then
                     CommandQueue.send (DeinitVShaderCmd.new this.mProgram) w else w).device with
                   mRefCount := if w.device.mRefCount = 0 then 2 ^ 32 - 1
                                else w.device.mRefCount - 1 } }
      | none => none := by
  have h0 := count_ne_zero w h
  unfold D3DGLVertexShader.destructor D3DGLVertexShader.destructorBody
  cases hs : w.shaders self with
  | none => rfl
  | some this =>
      by_cases hp : this.mProgram = 0
      · simp only [hp, ne_eq, not_true_eq_false, if_false]
        unfold D3DGLDevice.Release
        simp only [h0, if_false, Option.map_some', Function.update_idem]
      · simp only [hp, ne_eq, not_false_eq_true, if_true]
        unfold D3DGLDevice.Release
        simp only [CommandQueue.send, World.setQueue, World.emit, h0, if_false, Option.map_some',
          Function.update_idem]

/-- Commands that do not point to the shader at `self` leave it as it is. -/
theorem runAll_untargeted (S : Sizes) (P : Platform) (self : Nat) (cs : List Command) :
    ∀ w w', (∀ c ∈ cs, ∀ s, c ≠ .CompileVShaderCmd self s) →
      CommandQueue.runAll S P cs w = some w' → w'.shaders self = w.shaders self := by
  induction cs with
  | nil =>
      intro w w' _ h
      cases h
      rfl
  | cons c rest ih =>
      intro w w' hc h
      simp only [CommandQueue.runAll] at h
      cases he : c.execute S P (w.emit (.execute c)) with
      | none => rw [he] at h; cases h
      | some r =>
          rw [he] at h
          simp only at h
          rw [ih r.1 w' (fun c' hc' => hc c' (List.mem_cons_of_mem _ hc')) h]
          have hne := hc c (List.mem_cons_self _ _)
          cases c with
          | StateEnable s e =>
              cases e <;> (simp only [Command.execute] at he; cases he; rfl)
          | MaterialSet a b c d e =>
              simp only [Command.execute] at he; cases he; rfl
          | CompileVShaderCmd t s =>
              have hts : t ≠ self := fun ht => hne s (by rw [ht])
              simp only [Command.execute] at he
              split at he
              · cases he
                simp [Function.update_noteq (Ne.symm hts), World.emit]
              · cases he
          | DeinitVShaderCmd p =>
              simp only [Command.execute] at he; cases he; rfl
          | External t =>
              simp only [Command.execute] at he; cases he; rfl

/-- The commands the destructors of the device's resources submit point to no shader. -/
theorem teardownCommands_untargeted (P : Platform) (schains : List Nat) (depth : Option Nat)
    (self : Nat) : ∀ c ∈ teardownCommands P schains depth, ∀ s, c ≠ .CompileVShaderCmd self s := by
  intro c hc s hcs
  subst hcs
  unfold teardownCommands at hc
  rcases List.mem_append.mp hc with h | h
  · obtain ⟨l, hl, hcl⟩ := List.mem_flatten.mp h
    obtain ⟨sc, -, rfl⟩ := List.mem_map.mp hl
    obtain ⟨t, -, ht⟩ := List.mem_map.mp hcl
    cases ht
  · cases depth with
    | none => cases h
    | some rt =>
        obtain ⟨t, -, ht⟩ := List.mem_map.mp h
        cases ht

/-- The destructor of the device leaves a shader as it is when no pending command points
to it. -/
theorem device_destructor_untargeted (S : Sizes) (P : Platform) (self : Nat) (w w' : World)
    (hc : ∀ c ∈ w.device.mQueue.pending, ∀ s, c ≠ .CompileVShaderCmd self s)
    (h : D3DGLDevice.destructor S P w = some w') : w'.shaders self = w.shaders self := by
  obtain ⟨r1, r2, r3, r4, r5⟩ := destroyResources_spec P w
  unfold D3DGLDevice.destructor at h
  simp only [] at h
  generalize D3DGLDevice.destroyResources P w = w1 at *
  have hpend : ∀ c ∈ w1.device.mQueue.pending, ∀ s, c ≠ .CompileVShaderCmd self s := by
    intro c hm
    rw [r2] at hm
    rcases List.mem_append.mp hm with hm | hm
    · exact hc c hm
    · exact teardownCommands_untargeted P _ _ self c hm
  cases hd : CommandQueue.deinit S P w1 with
  | none => rw [hd] at h; cases h
  | some w2 =>
      rw [hd] at h
      simp only [Option.some.injEq] at h
      have h2 : w2.shaders self = w.shaders self := by
        unfold CommandQueue.deinit at hd
        simp only [] at hd
        split_ifs at hd
        · unfold CommandQueue.drain at hd
          cases hr : CommandQueue.runAll S P (w1.emit .queueDeinit).device.mQueue.pending
              ((w1.emit .queueDeinit).setQueue
                { (w1.emit .queueDeinit).device.mQueue with pending := [] }) with
          | none => rw [hr] at hd; cases hd
          | some w3 =>
              rw [hr] at hd
              cases hd
              have := runAll_untargeted S P self _ _ _ hpend hr
              simp only [setQueue_shaders, emit_shaders] at this ⊢
              rw [this, r3]
        · cases hd
          simp only [emit_shaders]
          rw [r3]
      rw [← h, ← h2]
      split_ifs <;> rfl

/-- The destructor of a shader that holds the last reference to the device is, after
the submission and `mProgram = 0`, the destructor of the device. -/
theorem destructorBody_last_head (S : Sizes) (P : Platform) (self : Nat) (w : World)
    (this : D3DGLVertexShader) (hthis : w.shaders self = some this) (hlast : LastReference w) :
    ∃ x : World,
      D3DGLVertexShader.destructorBody S P self w = D3DGLDevice.destructor S P x ∧
      x.trace = w.trace ++
        (if this.mProgram ≠ 0 then [.send (.DeinitVShaderCmd this.mProgram)] else []) ∧
      x.device.mQueue.pending = w.device.mQueue.pending ++
        (if this.mProgram ≠ 0 then [.DeinitVShaderCmd this.mProgram] else []) ∧
      x.device.mSwapchains = w.device.mSwapchains ∧
      x.device.mAutoDepthStencil = w.device.mAutoDepthStencil ∧
      x.device.mGLContext = w.device.mGLContext ∧
      x.device.mQueue.state = w.device.mQueue.state ∧
      x.shaders = Function.update w.shaders self (some { this with mProgram := 0 }) ∧
      x.parseData = w.parseData := by
  have hhead : ∃ x : World, x =
      { (if this.mProgram ≠ 0 then
            CommandQueue.send (DeinitVShaderCmd.new this.mProgram) w else w) with
        shaders := Function.update
          (if this.mProgram ≠ 0 then
            CommandQueue.send (DeinitVShaderCmd.new this.mProgram) w else w).shaders
          self (some { this with mProgram := 0 })
        device := { (if this.mProgram ≠ 0 then
            CommandQueue.send (DeinitVShaderCmd.new this.mProgram) w else w).device with
          mRefCount := 0 } } := ⟨_, rfl⟩
  obtain ⟨x, hx⟩ := hhead
  have hbody : D3DGLVertexShader.destructorBody S P self w = D3DGLDevice.destructor S P x := by
    unfold D3DGLVertexShader.destructorBody
    rw [hthis]
    simp only []
    rw [Release_of_last S P _ (by
      by_cases hp : this.mProgram = 0
      · simp only [hp, ne_eq, not_true_eq_false, if_false]
        exact hlast
      · simp only [hp, ne_eq, not_false_eq_true, if_true]
        exact hlast)]
    rw [hx]
    cases D3DGLDevice.destructor S P _ <;> rfl
  refine ⟨x, hbody, ?_, ?_, ?_, ?_, ?_, ?_, ?_, ?_⟩ <;>
    (rw [hx]
     by_cases hp : this.mProgram = 0
     · simp [hp]
     · simp [hp, CommandQueue.send, DeinitVShaderCmd.new, World.setQueue, World.emit])

/-- The destructor of a shader that holds the last reference to the device, when the
pointers of the backlog are live: after the submission, the device is destroyed. -/
theorem destructorBody_last (S : Sizes) (P : Platform) (self : Nat) (w : World)
    (this : D3DGLVertexShader) (hthis : w.shaders self = some this) (hlast : LastReference w)
    (hlive : ∀ c ∈ w.device.mQueue.pending, c.live w) :
    ∃ w' drained,
      D3DGLVertexShader.destructorBody S P self w = some w' ∧
      w'.trace = w.trace ++
        (if this.mProgram ≠ 0 then [.send (.DeinitVShaderCmd this.mProgram)] else []) ++
        teardownEvents P w.device.mSwapchains w.device.mAutoDepthStencil ++
        [.queueDeinit] ++ drained ++
        (if w.device.mGLContext ≠ 0 then [.gl (.wglDeleteContext w.device.mGLContext)] else []) ∧
      (∀ e ∈ drained, e.isContextWork = true) ∧
      (w.device.mQueue.state = .Running →
        executed drained = w.device.mQueue.pending ++
          (if this.mProgram ≠ 0 then [.DeinitVShaderCmd this.mProgram] else []) ++
          teardownCommands P w.device.mSwapchains w.device.mAutoDepthStencil ∧
        w'.device.mQueue.pending = [] ∧ w'.device.mQueue.state = .Stopped) ∧
      (w.device.mQueue.state ≠ .Running → drained = []) ∧
      ((∀ c ∈ w.device.mQueue.pending, ∀ s, c ≠ .CompileVShaderCmd self s) →
        w'.shaders self = some { this with mProgram := 0 }) := by
  obtain ⟨x, hbody, hxtr, hxpend, hsw, hads, hctx, hstate, hxsh, hxpd⟩ :=
    destructorBody_last_head S P self w this hthis hlast
  have hxlive : ∀ c ∈ x.device.mQueue.pending, c.live x := by
    intro c hc
    rw [hxpend] at hc
    rcases List.mem_append.mp hc with h | h
    · refine live_mono c w x ?_ ?_ (hlive c h)
      · intro a ha
        rw [hxsh]
        by_cases hs : a = self
        · subst hs; simp
        · simpa [Function.update_noteq hs] using ha
      · intro a ha
        rw [hxpd]; exact ha
    · by_cases hp : this.mProgram = 0
      · simp [hp] at h
      · simp only [hp, ne_eq, not_false_eq_true, if_true, List.mem_singleton] at h
        rw [h]
        trivial
  obtain ⟨w', drained, hd, htr, hwork, hrun, hnot, -, -, -⟩ := destructor_spec S P x hxlive
  rw [hsw, hads, hctx, hxtr] at htr
  refine ⟨w', drained, hbody.trans hd, htr, hwork, ?_, ?_, ?_⟩
  · intro hr
    obtain ⟨h1, h2⟩ := hrun (hstate.trans hr)
    rw [hxpend, hsw, hads] at h1
    refine ⟨h1, ?_, ?_⟩
    · rw [h2]
    · rw [h2]
  · intro hr
    exact (hnot (by rw [hstate]; exact hr)).1
  · intro hc
    have := device_destructor_untargeted S P self x w' (by
      intro c hm
      rw [hxpend] at hm
      rcases List.mem_append.mp hm with hm | hm
      · exact hc c hm
      · intro s hcs
        subst hcs
        by_cases hp : this.mProgram = 0
        · simp [hp] at hm
        · simp [hp] at hm) hd
    rw [this, hxsh]
    simp

/-- The destructor of a shader that does not hold the last reference to the device: the
submission, `mProgram = 0`, and the count. -/
theorem destructorBody_other (S : Sizes) (P : Platform) (self : Nat) (w : World)
    (this : D3DGLVertexShader) (hthis : w.shaders self = some this) (h : ¬ LastReference w) :
    ∃ w', D3DGLVertexShader.destructorBody S P self w = some w' ∧
      D3DGLVertexShader.destructor S P self w =
        some { w' with shaders := Function.update w'.shaders self none } ∧
      w'.trace = w.trace ++
        (if this.mProgram ≠ 0 then [.send (.DeinitVShaderCmd this.mProgram)] else []) ∧
      w'.device = { w.device with
        mRefCount := if w.device.mRefCount = 0 then 2 ^ 32 - 1 else w.device.mRefCount - 1
        mQueue := { w.device.mQueue with
          pending := w.device.mQueue.pending ++
            (if this.mProgram ≠ 0 then [.DeinitVShaderCmd this.mProgram] else []) } } ∧
      w'.shaders = Function.update w.shaders self (some { this with mProgram := 0 }) ∧
      w'.parseData = w.parseData ∧ w'.nextId = w.nextId := by
  have h0 := count_ne_zero w h
  unfold D3DGLVertexShader.destructor D3DGLVertexShader.destructorBody
  rw [hthis]
  by_cases hp : this.mProgram = 0
  · simp only [hp, ne_eq, not_true_eq_false, if_false]
    unfold D3DGLDevice.Release
    simp only [h0, if_false, Option.map_some']
    exact ⟨_, rfl, rfl, by simp, by simp, rfl, rfl, rfl⟩
  · simp only [hp, ne_eq, not_false_eq_true, if_true]
    unfold D3DGLDevice.Release
    simp only [CommandQueue.send, World.setQueue, World.emit, h0, if_false, Option.map_some',
      DeinitVShaderCmd.new]
    exact ⟨_, rfl, rfl, rfl, rfl, rfl, rfl, rfl⟩

/-- An event of the creation or deletion of a resource is no work of the Context Thread. -/
theorem resourceWork_not_context (e : Event) (h : e.isResourceWork = true) :
    e.isContextWork = false := by
  cases e <;> first
    | rfl
    | (simp [Event.isResourceWork] at h)

/-- Events of the creation or deletion of resources execute nothing and call no driver. -/
theorem resourceWork_quiet (l : List Event) (h : ∀ e ∈ l, e.isResourceWork = true) :
    executed l = [] ∧ driverCalls l = [] ∧ createdPrograms l = [] ∧ deletedPrograms l = [] := by
  induction l with
  | nil => exact ⟨rfl, rfl, rfl, rfl⟩
  | cons e es ih =>
      have he := h e (List.mem_cons_self _ _)
      have hes := ih (fun x hx => h x (List.mem_cons_of_mem _ hx))
      cases e <;> first
        | (simpa [executed, driverCalls, createdPrograms, deletedPrograms] using hes)
        | (simp [Event.isResourceWork] at he)

/-! ## C13 -/

theorem createdPrograms_append (a b : List Event) :
    createdPrograms (a ++ b) = createdPrograms a ++ createdPrograms b := by
  induction a with
  | nil => rfl
  | cons e es ih =>
      cases e with
      | gl c => cases c <;> simp [createdPrograms, ih]
      | _ => simp [createdPrograms, ih]

theorem deletedPrograms_append (a b : List Event) :
    deletedPrograms (a ++ b) = deletedPrograms a ++ deletedPrograms b := by
  induction a with
  | nil => rfl
  | cons e es ih =>
      cases e with
      | gl c => cases c <;> simp [deletedPrograms, ih]
      | _ => simp [deletedPrograms, ih]

theorem bindUniformBlock_programs (P : Platform) (mProgram : GLuint) (name : String)
    (binding : GLuint) (x : List Event) :
    createdPrograms (bindUniformBlock P mProgram name binding x) = createdPrograms x ∧
    deletedPrograms (bindUniformBlock P mProgram name binding x) = deletedPrograms x := by
  unfold bindUniformBlock
  simp only []
  split_ifs <;>
    simp [createdPrograms_append, deletedPrograms_append, createdPrograms, deletedPrograms]

theorem attributeLoop_programs (P : Platform) (mProgram : GLuint)
    (attrs : List MOJOSHADER_attribute) :
    ∀ (m : List (Nat × GLint)) (x : List Event),
      createdPrograms (attributeLoop P mProgram attrs m x).2 = createdPrograms x ∧
      deletedPrograms (attributeLoop P mProgram attrs m x).2 = deletedPrograms x := by
  induction attrs with
  | nil => intro m x; exact ⟨rfl, rfl⟩
  | cons a rest ih =>
      intro m x
      unfold attributeLoop
      obtain ⟨h1, h2⟩ := ih (mapAssign m ((a.usage <<< 8) ||| a.index)
        (P.glGetAttribLocation x mProgram a.name))
        (x ++ [.gl (.glGetAttribLocation mProgram a.name (P.glGetAttribLocation x mProgram a.name))])
      simp only [] at h1 h2 ⊢
      rw [h1, h2]
      simp [createdPrograms_append, deletedPrograms_append, createdPrograms, deletedPrograms]

theorem samplerLoop_programs (P : Platform) (mProgram : GLuint)
    (samplers : List MOJOSHADER_sampler) :
    ∀ (x : List Event),
      createdPrograms (samplerLoop P mProgram samplers x) = createdPrograms x ∧
      deletedPrograms (samplerLoop P mProgram samplers x) = deletedPrograms x := by
  induction samplers with
  | nil => intro x; exact ⟨rfl, rfl⟩
  | cons s rest ih =>
      intro x
      unfold samplerLoop
      obtain ⟨h1, h2⟩ := ih (x ++ [.gl (.glGetUniformLocation mProgram s.name
          (P.glGetUniformLocation x mProgram s.name)),
        .gl (.glProgramUniform1i mProgram (P.glGetUniformLocation x mProgram s.name)
          (s.index + P.MAX_FRAGMENT_SAMPLERS : Nat))])
      simp only [] at h1 h2 ⊢
      rw [h1, h2]
      simp [createdPrograms_append, deletedPrograms_append, createdPrograms, deletedPrograms]

/-- The programs `compileShaderGL` creates and deletes: it creates one, and deletes
it when it is not null and its link status is `GL_FALSE`. -/
theorem compileShaderGL_programs (P : Platform) (this : D3DGLVertexShader)
    (shader : MOJOSHADER_parseData) (tr : List Event) :
    createdPrograms (D3DGLVertexShader.compileShaderGL P this shader tr).2 =
      createdPrograms tr ++ [P.glCreateShaderProgramv tr GL_VERTEX_SHADER shader.output] ∧
    deletedPrograms (D3DGLVertexShader.compileShaderGL P this shader tr).2 =
      deletedPrograms tr ++
        (if P.glCreateShaderProgramv tr GL_VERTEX_SHADER shader.output ≠ 0 ∧
            P.linkStatus
              (tr ++ [.gl (.glCreateShaderProgramv GL_VERTEX_SHADER shader.output
                       (P.glCreateShaderProgramv tr GL_VERTEX_SHADER shader.output)),
                      .checkGLError])
              (P.glCreateShaderProgramv tr GL_VERTEX_SHADER shader.output) = GL_FALSE
          then [P.glCreateShaderProgramv tr GL_VERTEX_SHADER shader.output] else []) := by
  unfold D3DGLVertexShader.compileShaderGL
  by_cases hc : P.glCreateShaderProgramv tr GL_VERTEX_SHADER shader.output = 0
  · simp [hc, createdPrograms_append, deletedPrograms_append, createdPrograms, deletedPrograms]
  · simp only [hc, if_false, List.append_assoc, List.singleton_append, ne_eq, not_false_eq_true,
      true_and]
    split
    · rename_i hl
      simp [hl, createdPrograms_append, deletedPrograms_append, createdPrograms, deletedPrograms]
    · rename_i hl
      simp only [hl, if_false, List.append_nil]
      simp only [(samplerLoop_programs P _ _ _).1, (samplerLoop_programs P _ _ _).2,
        (attributeLoop_programs P _ _ _ _).1, (attributeLoop_programs P _ _ _ _).2,
        (bindUniformBlock_programs P _ _ _ _).1, (bindUniformBlock_programs P _ _ _ _).2,
        createdPrograms_append, deletedPrograms_append]
      split <;>
        simp [createdPrograms_append, deletedPrograms_append, createdPrograms, deletedPrograms]


/-- C13, as stated, fails: with a driver that creates program `7` and fails to link
it, `CompileVShaderCmd::execute` calls `glDeleteProgram(7)`. -/
theorem C13_counterexample : ¬ OnlyDeinitDeletes sampleSizes noLinkPlatform := by
  intro h
  obtain ⟨p, hp⟩ := h (.CompileVShaderCmd 0 0)
    { shaderWorld with parseData := fun _ => some sampleParseData } _ rfl (by decide)
  cases hp

/-- C13, amended: `glDeleteProgram` is called from two places, both inside an
`execute()`.  (1) `DeinitVShaderCmd::execute` deletes its `mProgram`.
(2) `CompileVShaderCmd::execute`, through `compileShaderGL`, deletes the program
it has just created when that program is not null and its link status is
`GL_FALSE`, and nothing otherwise; `mProgram` is then `0`.  (3) The `execute()` of
any other command deletes nothing.  (4) The destructor of the shader does not call
`glDeleteProgram` itself: it submits `DeinitVShaderCmd(mProgram)` when `mProgram` is
not `0`, and releases its reference to the device.  While the device has another
reference that is all, and no driver call is made.  (5) When the reference was the
last one, the destructor of the device runs inside it, the pointers of the backlog
being live: the resources are deleted, the queue is drained and `wglDeleteContext` is
called; every `glDeleteProgram` of the destruction is then made in the drain, the
work of the Context Thread on the pending commands. -/
theorem C13_glDeleteProgram_sites (S : Sizes) (P : Platform) :
    (∀ (p : GLuint) (w : World), ∃ r, (Command.DeinitVShaderCmd p).execute S P w = some r ∧
      deletedPrograms r.1.trace = deletedPrograms w.trace ++ [p]) ∧
    (∀ (t s : Nat) (w : World) (this : D3DGLVertexShader) (shader : MOJOSHADER_parseData),
      w.shaders t = some this → w.parseData s = some shader →
      ∃ r, (Command.CompileVShaderCmd t s).execute S P w = some r ∧
        deletedPrograms r.1.trace = deletedPrograms w.trace ++
          (if P.glCreateShaderProgramv w.trace GL_VERTEX_SHADER shader.output ≠ 0 ∧
              P.linkStatus
                (w.trace ++ [.gl (.glCreateShaderProgramv GL_VERTEX_SHADER shader.output
                         (P.glCreateShaderProgramv w.trace GL_VERTEX_SHADER shader.output)),
                        .checkGLError])
                (P.glCreateShaderProgramv w.trace GL_VERTEX_SHADER shader.output) = GL_FALSE
            then [P.glCreateShaderProgramv w.trace GL_VERTEX_SHADER shader.output] else []) ∧
        (deletedPrograms r.1.trace ≠ deletedPrograms w.trace →
          (r.1.shaders t).map (fun x => x.mProgram) = some 0)) ∧
    (∀ (c : Command) (w : World) (r : World × ULONG), c.execute S P w = some r →
      (∀ p, c ≠ .DeinitVShaderCmd p) → (∀ t s, c ≠ .CompileVShaderCmd t s) →
      deletedPrograms r.1.trace = deletedPrograms w.trace) ∧
    (∀ (self : Nat) (w : World) (this : D3DGLVertexShader), w.shaders self = some this →
      ¬ LastReference w →
      ∃ w', D3DGLVertexShader.destructor S P self w = some w' ∧
        w'.trace = w.trace ++
          (if this.mProgram ≠ 0 then [Event.send (.DeinitVShaderCmd this.mProgram)] else []) ∧
        driverCalls w'.trace = driverCalls w.trace ∧
        submitted w'.trace = submitted w.trace ++
          (if this.mProgram ≠ 0 then [Command.DeinitVShaderCmd this.mProgram] else []) ∧
        w'.shaders self = none) ∧
    (∀ (self : Nat) (w : World) (this : D3DGLVertexShader), w.shaders self = some this →
      LastReference w → (∀ c ∈ w.device.mQueue.pending, c.live w) →
      ∃ w' drained, D3DGLVertexShader.destructor S P self w = some w' ∧
        w'.trace = w.trace ++
          (if this.mProgram ≠ 0 then [Event.send (.DeinitVShaderCmd this.mProgram)] else []) ++
          teardownEvents P w.device.mSwapchains w.device.mAutoDepthStencil ++
          [Event.queueDeinit] ++ drained ++
          (if w.device.mGLContext ≠ 0 then [Event.gl (.wglDeleteContext w.device.mGLContext)]
           else []) ∧
        (∀ e ∈ drained, e.isContextWork = true) ∧
        deletedPrograms w'.trace = deletedPrograms w.trace ++ deletedPrograms drained ∧
        (w.device.mQueue.state = .Running →
          executed drained = w.device.mQueue.pending ++
            (if this.mProgram ≠ 0 then [Command.DeinitVShaderCmd this.mProgram] else []) ++
            teardownCommands P w.device.mSwapchains w.device.mAutoDepthStencil) ∧
        (w.device.mQueue.state ≠ .Running → drained = []) ∧
        w'.shaders self = none) := by
  refine ⟨?_, ?_, ?_, ?_, ?_⟩
  · intro p w
    exact ⟨_, rfl, by simp [deletedPrograms_append, deletedPrograms, World.emit]⟩
  · intro t s w this shader ht hs
    simp only [Command.execute, ht, hs]
    refine ⟨_, rfl, ?_, ?_⟩
    · exact (compileShaderGL_programs P this shader w.trace).2
    · intro hne
      simp only [Function.update_same, Option.map_some', Option.some.injEq]
      rw [compileShaderGL_mProgram]
      apply if_neg
      rintro ⟨h1, h2⟩
      apply hne
      simp only []
      rw [(compileShaderGL_programs P this shader w.trace).2, if_neg]
      · simp
      · rintro ⟨-, h3⟩
        exact h2 h3
  · intro c w r h hd hc
    cases c with
    | StateEnable s e =>
        cases e <;>
          (simp only [Command.execute] at h
           cases h
           simp [deletedPrograms_append, deletedPrograms, World.emit])
    | MaterialSet a b c d e =>
        simp only [Command.execute] at h
        cases h
        simp [deletedPrograms_append, deletedPrograms, World.emit]
    | CompileVShaderCmd t s => exact absurd rfl (hc t s)
    | DeinitVShaderCmd p => exact absurd rfl (hd p)
    | External t =>
        simp only [Command.execute] at h
        cases h
        simp [deletedPrograms_append, deletedPrograms, World.emit]
  · intro self w this hthis hother
    obtain ⟨w', -, hd, htr, -, -, -, -⟩ := destructorBody_other S P self w this hthis hother
    refine ⟨_, hd, htr, ?_, ?_, ?_⟩
    · show driverCalls w'.trace = _
      rw [htr, driverCalls_append]
      by_cases hp : this.mProgram = 0
      · simp [hp, driverCalls]
      · simp [hp, driverCalls]
    · show submitted w'.trace = _
      rw [htr, submitted_append]
      by_cases hp : this.mProgram = 0
      · simp [hp, submitted]
      · simp [hp, submitted]
    · simp
  · intro self w this hthis hlast hlive
    obtain ⟨w', drained, hb, htr, hwork, hrun, hnot, -⟩ :=
      destructorBody_last S P self w this hthis hlast hlive
    have hd : D3DGLVertexShader.destructor S P self w =
        some { w' with shaders := Function.update w'.shaders self none } := by
      unfold D3DGLVertexShader.destructor
      rw [hb]
    refine ⟨_, drained, hd, htr, hwork, ?_, fun h => (hrun h).1, hnot, ?_⟩
    · show deletedPrograms w'.trace = _
      rw [htr]
      simp only [deletedPrograms_append]
      rw [(resourceWork_quiet _ (teardownEvents_resourceWork P _ _)).2.2.2]
      by_cases hp : this.mProgram = 0 <;> by_cases hc : w.device.mGLContext = 0 <;>
        simp [hp, hc, deletedPrograms]
    · simp


/-- C13, at a concrete input: with a driver that creates program `7` and links it,
`CompileVShaderCmd::execute` deletes nothing; the destructor of a shader that
holds program `7` makes no driver call and submits `DeinitVShaderCmd(7)` while the
device has another reference; with the last reference, the program is deleted in the
drain. -/
theorem C13_glDeleteProgram_sites_witness :
    (∃ r, (Command.CompileVShaderCmd 0 0).execute sampleSizes samplePlatform
        { shaderWorld with parseData := fun _ => some sampleParseData } = some r ∧
      deletedPrograms r.1.trace = []) ∧
    (∃ w', D3DGLVertexShader.destructor sampleSizes samplePlatform 0 heldWorld = some w' ∧
      driverCalls w'.trace = [] ∧ submitted w'.trace = [Command.DeinitVShaderCmd 7]) ∧
    (∃ w' drained,
      D3DGLVertexShader.destructor sampleSizes samplePlatform 0 lastWorld = some w' ∧
      deletedPrograms w'.trace = deletedPrograms drained ∧
      executed drained = [Command.DeinitVShaderCmd 7, Command.External 1]) := by
  have h := C13_glDeleteProgram_sites sampleSizes samplePlatform
  refine ⟨?_, ?_, ?_⟩
  · obtain ⟨r, hr, hd, -⟩ := h.2.1 0 0
      { shaderWorld with parseData := fun _ => some sampleParseData }
      { mProgram := 0, mCode := [], mUsageMap := [] } sampleParseData rfl rfl
    exact ⟨r, hr, hd⟩
  · obtain ⟨w', hw, -, hdc, hs, -⟩ := h.2.2.2.1 0 heldWorld
      { mProgram := 7, mCode := [], mUsageMap := [] } rfl (by unfold LastReference; decide)
    exact ⟨w', hw, hdc, hs⟩
  · obtain ⟨w', drained, hw, -, -, hdel, hex, -, -⟩ := h.2.2.2.2 0 lastWorld
      { mProgram := 7, mCode := [], mUsageMap := [] } rfl rfl
      (fun c hc => absurd hc (List.not_mem_nil c))
    exact ⟨w', drained, hw, hdel, hex rfl⟩

/-! ## `D3DGLVertexShader::init`, path by path -/

theorem init_not_vertex (S : Sizes) (P : Platform) (self : Nat) (w : World)
    (this : D3DGLVertexShader) (first : DWORD) (rest : List DWORD)
    (hthis : w.shaders self = some this) (hversion : first >>> 16 ≠ 0xfffe) :
    D3DGLVertexShader.init S P self (first :: rest) w = some (w, false) := by
  simp [D3DGLVertexShader.init, hthis, hversion]

theorem init_parse_error (S : Sizes) (P : Platform) (self : Nat) (w : World)
    (this : D3DGLVertexShader) (first : DWORD) (rest : List DWORD)
    (hthis : w.shaders self = some this) (hversion : first >>> 16 = 0xfffe)
    (hparse : 0 < (P.MOJOSHADER_parse w.trace (first :: rest)).error_count) :
    D3DGLVertexShader.init S P self (first :: rest) w =
      some ({ w with
              trace := w.trace ++ [.parse w.nextId, .freeParseData w.nextId]
              parseData := Function.update
                (Function.update w.parseData w.nextId
                  (some (P.MOJOSHADER_parse w.trace (first :: rest)))) w.nextId none
              nextId := w.nextId + 1 }, false) := by
  simp [D3DGLVertexShader.init, hthis, hversion, hparse, MOJOSHADER_freeParseData, World.emit]

/-- The path of `init` that reaches `sendSync`: the backlog is executed, then the
command; the parse data is freed after that; nothing is left pending. -/
theorem init_compiles (S : Sizes) (P : Platform) (self : Nat) (w : World)
    (this : D3DGLVertexShader) (first : DWORD) (rest : List DWORD)
    (hthis : w.shaders self = some this)
    (hversion : first >>> 16 = 0xfffe)
    (hparse : (P.MOJOSHADER_parse w.trace (first :: rest)).error_count ≤ 0)
    (htokens : (P.MOJOSHADER_parse w.trace (first :: rest)).token_count ≤ (first :: rest).length)
    (hrun : w.device.mQueue.state = .Running)
    (hlive : ∀ c ∈ w.device.mQueue.pending, c.live w) :
    ∃ w' backlog before,
      D3DGLVertexShader.init S P self (first :: rest) w =
        some (w', (D3DGLVertexShader.compileShaderGL P before
          (P.MOJOSHADER_parse w.trace (first :: rest))
          (w.trace ++ [.parse w.nextId, .send (.CompileVShaderCmd self w.nextId)] ++ backlog ++
            [.execute (.CompileVShaderCmd self w.nextId)])).1.mProgram != 0) ∧
      executed backlog = w.device.mQueue.pending ∧
      (∀ e ∈ backlog, e.isContextWork = true) ∧
      w'.trace = (D3DGLVertexShader.compileShaderGL P before
          (P.MOJOSHADER_parse w.trace (first :: rest))
          (w.trace ++ [.parse w.nextId, .send (.CompileVShaderCmd self w.nextId)] ++ backlog ++
            [.execute (.CompileVShaderCmd self w.nextId)])).2 ++ [.freeParseData w.nextId] ∧
      w'.shaders self = some (D3DGLVertexShader.compileShaderGL P before
          (P.MOJOSHADER_parse w.trace (first :: rest))
          (w.trace ++ [.parse w.nextId, .send (.CompileVShaderCmd self w.nextId)] ++ backlog ++
            [.execute (.CompileVShaderCmd self w.nextId)])).1 ∧
      (∀ a, a ≠ self →
        (w'.shaders a).map (fun x => x.mCode) = (w.shaders a).map (fun x => x.mCode)) ∧
      w'.parseData = Function.update (Function.update w.parseData w.nextId
        (some (P.MOJOSHADER_parse w.trace (first :: rest)))) w.nextId none ∧
      w'.nextId = w.nextId + 1 ∧
      w'.device = { w.device with mQueue := { w.device.mQueue with pending := [] } } ∧
      before.mCode = this.mCode ++
        (first :: rest).take (P.MOJOSHADER_parse w.trace (first :: rest)).token_count := by
  generalize hparsed : P.MOJOSHADER_parse w.trace (first :: rest) = parsed at hparse htokens ⊢
  have hw2 : ∃ w2 : World, w2 =
      { ({ w with parseData := Function.update w.parseData w.nextId (some parsed),
                  nextId := w.nextId + 1 } : World).emit (.parse w.nextId) with
        shaders := Function.update w.shaders self
          (some { this with mCode := this.mCode ++ (first :: rest).take parsed.token_count }) } :=
    ⟨_, rfl⟩
  obtain ⟨w2, hw2⟩ := hw2
  have hrun2 : w2.device.mQueue.state = .Running := by rw [hw2]; exact hrun
  have hlive2 : ∀ c ∈ w2.device.mQueue.pending, c.live w2 := by
    intro c hc
    have hc' : c ∈ w.device.mQueue.pending := by rw [hw2] at hc; exact hc
    refine live_mono c w w2 ?_ ?_ (hlive c hc')
    · intro a ha
      rw [hw2]
      by_cases h : a = self
      · subst h; simp
      · simpa [Function.update_noteq h] using ha
    · intro a ha
      rw [hw2]
      by_cases h : a = w.nextId
      · subst h; simp
      · simpa [Function.update_noteq h] using ha
  have hs2 : w2.shaders self
      = some { this with mCode := this.mCode ++ (first :: rest).take parsed.token_count } := by
    rw [hw2]; simp
  have hp2 : w2.parseData w.nextId = some parsed := by
    rw [hw2]; simp
  obtain ⟨w3, backlog, before, hsend, hex, hwork, hcode, htr3, hsh3, hother, hpd3, hid3, hdev3⟩ :=
    sendSync_compile S P self w.nextId w2 _ parsed hrun2 hlive2 hs2 hp2
  have htr2 : w2.trace = w.trace ++ [.parse w.nextId] := by rw [hw2]; rfl
  have hpend2 : w2.device.mQueue.pending = w.device.mQueue.pending := by rw [hw2]; rfl
  have htrace : w2.trace ++ [.send (.CompileVShaderCmd self w.nextId)] ++ backlog ++
      [.execute (.CompileVShaderCmd self w.nextId)] =
      w.trace ++ [.parse w.nextId, .send (.CompileVShaderCmd self w.nextId)] ++ backlog ++
        [.execute (.CompileVShaderCmd self w.nextId)] := by
    rw [htr2]; simp
  rw [htrace] at htr3 hsh3
  have hmain : D3DGLVertexShader.init S P self (first :: rest) w =
      some (MOJOSHADER_freeParseData w.nextId w3,
        (D3DGLVertexShader.compileShaderGL P before parsed
          (w.trace ++ [.parse w.nextId, .send (.CompileVShaderCmd self w.nextId)] ++ backlog ++
            [.execute (.CompileVShaderCmd self w.nextId)])).1.mProgram != 0) := by
    unfold D3DGLVertexShader.init
    simp only [hthis, hversion, ne_eq, not_true_eq_false, if_false, hparsed,
      not_lt.mpr hparse, not_lt.mpr htokens, gt_iff_lt, CompileVShaderCmd.new]
    have key : ∀ x : World, x = w2 →
        (match CommandQueue.sendSync S P (.CompileVShaderCmd self w.nextId) x with
          | some w_1 =>
            match (MOJOSHADER_freeParseData w.nextId w_1).shaders self with
            | some this => some (MOJOSHADER_freeParseData w.nextId w_1, this.mProgram != 0)
            | none => none
          | none => none) =
        some (MOJOSHADER_freeParseData w.nextId w3,
          (D3DGLVertexShader.compileShaderGL P before parsed
            (w.trace ++ [.parse w.nextId, .send (.CompileVShaderCmd self w.nextId)] ++ backlog ++
              [.execute (.CompileVShaderCmd self w.nextId)])).1.mProgram != 0) := by
      intro x hx
      rw [hx, hsend]
      simp only [MOJOSHADER_freeParseData, emit_shaders, hsh3]
    exact key _ (by rw [hw2]; rfl)
  refine ⟨_, backlog, before, hmain, ?_, hwork, ?_, ?_, ?_, ?_, ?_, ?_, hcode⟩
  · rw [hex, hpend2]
  · simp only [MOJOSHADER_freeParseData, emit_trace, htr3]
  · simp only [MOJOSHADER_freeParseData, emit_shaders, hsh3]
  · intro a ha
    simp only [MOJOSHADER_freeParseData, emit_shaders]
    rw [hother a ha, hw2]
    simp [Function.update_noteq ha]
  · simp only [MOJOSHADER_freeParseData, emit_parseData, hpd3, hw2]
  · simp only [MOJOSHADER_freeParseData, emit_nextId, hid3, hw2]
  · simp only [MOJOSHADER_freeParseData, emit_device, hdev3, hw2]


/-! ## C12 -/

theorem contextWork_count_free (l : List Event) (a : Nat)
    (h : ∀ e ∈ l, e.isContextWork = true) : l.count (Event.freeParseData a) = 0 := by
  apply List.count_eq_zero.mpr
  intro hm
  have := h _ hm
  simp [Event.isContextWork] at this

/-- C12: `init` on a live shader object, path by path; `parsed` is what the parser
returns and `w.nextId` the address of the parse data.  (1) When the version
token is not that of a vertex shader, the parser is not reached and nothing
happens.  (2) When the parse has errors, the parse data is freed once and `init`
returns `false`.  (3) Otherwise, on a running queue with a live backlog, `init`
returns, and what it adds to the trace is, in this order: the parse, the
submission of the `CompileVShaderCmd`, the work of the Context Thread on the
backlog, the start of the command's `execute()`, the driver calls of the
`compileShaderGL` that this `execute()` runs on the parse data (`driver`), and
only then, once, `MOJOSHADER_freeParseData`.  The shader holds what that
`compileShaderGL` left, and `init` returns whether the `mProgram` it wrote is
not `0`. -/
theorem C12_sendSync_completion (S : Sizes) (P : Platform) (self : Nat)
    (data : List DWORD) (w : World) (this : D3DGLVertexShader) (first : DWORD)
    (rest : List DWORD) (parsed : MOJOSHADER_parseData)
    (hthis : w.shaders self = some this)
    (hdata : data = first :: rest)
    (hparsed : parsed = P.MOJOSHADER_parse w.trace data) :
    (first >>> 16 ≠ 0xfffe → D3DGLVertexShader.init S P self data w = some (w, false)) ∧
    (first >>> 16 = 0xfffe → 0 < parsed.error_count →
      ∃ w', D3DGLVertexShader.init S P self data w = some (w', false) ∧
        w'.trace = w.trace ++ [.parse w.nextId, .freeParseData w.nextId] ∧
        w'.parseData w.nextId = none) ∧
    (first >>> 16 = 0xfffe → parsed.error_count ≤ 0 → parsed.token_count ≤ data.length →
      w.device.mQueue.state = .Running → (∀ c ∈ w.device.mQueue.pending, c.live w) →
      ∃ w' b before backlog driver,
        D3DGLVertexShader.init S P self data w = some (w', b) ∧
        w'.trace = w.trace ++ [.parse w.nextId, .send (.CompileVShaderCmd self w.nextId)] ++
          backlog ++ [.execute (.CompileVShaderCmd self w.nextId)] ++ driver ++
          [.freeParseData w.nextId] ∧
        executed backlog = w.device.mQueue.pending ∧
        (∀ e ∈ backlog, e.isContextWork = true) ∧
        executed driver = [] ∧
        (∀ e ∈ driver, e.isContextWork = true) ∧
        (D3DGLVertexShader.compileShaderGL P before parsed
          (w.trace ++ [.parse w.nextId, .send (.CompileVShaderCmd self w.nextId)] ++
            backlog ++ [.execute (.CompileVShaderCmd self w.nextId)])).2 =
          w.trace ++ [.parse w.nextId, .send (.CompileVShaderCmd self w.nextId)] ++
            backlog ++ [.execute (.CompileVShaderCmd self w.nextId)] ++ driver ∧
        w'.shaders self = some (D3DGLVertexShader.compileShaderGL P before parsed
          (w.trace ++ [.parse w.nextId, .send (.CompileVShaderCmd self w.nextId)] ++
            backlog ++ [.execute (.CompileVShaderCmd self w.nextId)])).1 ∧
        b = ((D3DGLVertexShader.compileShaderGL P before parsed
          (w.trace ++ [.parse w.nextId, .send (.CompileVShaderCmd self w.nextId)] ++
            backlog ++ [.execute (.CompileVShaderCmd self w.nextId)])).1.mProgram != 0) ∧
        w'.parseData w.nextId = none ∧
        ([Event.parse w.nextId, Event.send (.CompileVShaderCmd self w.nextId)] ++
          backlog ++ [Event.execute (.CompileVShaderCmd self w.nextId)] ++ driver ++
          [Event.freeParseData w.nextId]).count (Event.freeParseData w.nextId) = 1) := by
  subst hdata hparsed
  refine ⟨?_, ?_, ?_⟩
  · intro hversion
    exact init_not_vertex S P self w this first rest hthis hversion
  · intro hversion hparse
    refine ⟨_, init_parse_error S P self w this first rest hthis hversion hparse, rfl, ?_⟩
    simp
  · intro hversion hparse htokens hrun hlive
    obtain ⟨w', backlog, before, hinit, hex, hwork, htr, hsh, -, hpd, -, -⟩ :=
      init_compiles S P self w this first rest hthis hversion hparse htokens hrun hlive
    obtain ⟨driver, hdriver, hexd, hworkd⟩ := (compileShaderGL_trace P before
      (P.MOJOSHADER_parse w.trace (first :: rest))
      (w.trace ++ [.parse w.nextId, .send (.CompileVShaderCmd self w.nextId)] ++ backlog ++
        [.execute (.CompileVShaderCmd self w.nextId)])).1
    refine ⟨w', _, before, backlog, driver, hinit, ?_, hex, hwork, hexd, hworkd, hdriver, hsh,
      rfl, ?_, ?_⟩
    · rw [htr, hdriver]
    · rw [hpd]; simp
    · simp only [List.count_append, contextWork_count_free backlog _ hwork,
        contextWork_count_free driver _ hworkd]
      simp


/-- C12, at a concrete input: a vertex shader on a running queue, with a driver that
creates program `7` and links it.  `init` returns `true`, the shader holds the
handle `7`, and the parse data at address `1` has been freed. -/
theorem C12_sendSync_completion_witness :
    ∃ w', D3DGLVertexShader.init sampleSizes samplePlatform 0 [0xfffe0300, 0x0000ffff]
        shaderWorld = some (w', true) ∧
      (w'.shaders 0).map (fun s => s.mProgram) = some 7 ∧
      w'.parseData 1 = none := by
  obtain ⟨w', b, before, backlog, driver, hinit, -, -, -, -, -, -, hsh, hb, hpd, -⟩ :=
    (C12_sendSync_completion sampleSizes samplePlatform 0 [0xfffe0300, 0x0000ffff]
      shaderWorld { mProgram := 0, mCode := [], mUsageMap := [] } 0xfffe0300 [0x0000ffff]
      sampleParseData rfl rfl rfl).2.2 (by decide) (by decide) (by decide) rfl
      (fun c hc => absurd hc (List.not_mem_nil c))
  rw [compileShaderGL_mProgram] at hb
  refine ⟨w', ?_, ?_, hpd⟩
  · rw [hinit, hb]; rfl
  · rw [hsh]
    simp only [Option.map_some', compileShaderGL_mProgram]
    rfl


/-! ## The life of a vertex shader -/

/-- The Context Thread works through a backlog whose pointers are live. -/
theorem drain_live (S : Sizes) (P : Platform) (w : World)
    (hlive : ∀ c ∈ w.device.mQueue.pending, c.live w) :
    ∃ w' new, CommandQueue.drain S P w = some w' ∧ w'.trace = w.trace ++ new ∧
      executed new = w.device.mQueue.pending ∧ (∀ e ∈ new, e.isContextWork = true) ∧
      w'.device = { w.device with mQueue := { w.device.mQueue with pending := [] } } ∧
      (∀ a, (w'.shaders a).map (fun s => s.mCode) = (w.shaders a).map (fun s => s.mCode)) ∧
      w'.parseData = w.parseData := by
  obtain ⟨w', new, h, htr, hex, hwork, hdev, hpd, -, hsh⟩ :=
    runAll_live S P w.device.mQueue.pending
      (w.setQueue { w.device.mQueue with pending := [] })
      (fun c hc => live_of_eq c w _ (fun _ => rfl) rfl (hlive c hc))
  exact ⟨w', new, h, htr, hex, hwork, hdev, hsh, hpd⟩

/-- The Context Thread executing commands of the destructors of the device's resources:
each is begun and makes its one call. -/
theorem runAll_externals (S : Sizes) (P : Platform) (ts : List Nat) :
    ∀ w : World, ∃ work,
      CommandQueue.runAll S P (ts.map Command.External) w =
        some { w with trace := w.trace ++ work } ∧
      executed work = ts.map Command.External ∧ submitted work = [] ∧
      createdPrograms work = [] ∧ deletedPrograms work = [] ∧
      (∀ e ∈ work, e.isContextWork = true) := by
  induction ts with
  | nil =>
      intro w
      exact ⟨[], by simp [CommandQueue.runAll], rfl, rfl, rfl, rfl, by simp⟩
  | cons t rest ih =>
      intro w
      obtain ⟨work, h, he, hs, hc, hd, hw⟩ :=
        ih ((w.emit (.execute (.External t))).emit (.gl (.external t)))
      refine ⟨[.execute (.External t), .gl (.external t)] ++ work, ?_, ?_, ?_, ?_, ?_, ?_⟩
      · simp only [List.map_cons, CommandQueue.runAll, Command.execute, h]
        simp [World.emit]
      · simp [executed, he]
      · simp [submitted, hs]
      · simp [createdPrograms, hc]
      · simp [deletedPrograms, hd]
      · intro e he'
        simp only [List.cons_append, List.nil_append, List.mem_cons] at he'
        rcases he' with rfl | rfl | he'
        · rfl
        · rfl
        · exact hw e he'

/-- The commands the destructors of the device's resources submit are of one kind. -/
theorem teardownCommands_external (P : Platform) (schains : List Nat) (depth : Option Nat) :
    ∃ ts : List Nat, teardownCommands P schains depth = ts.map Command.External := by
  refine ⟨(schains.map (fun sc => P.swapChainTeardown sc)).flatten ++
    (match depth with
      | some rt => P.renderTargetTeardown rt
      | none => []), ?_⟩
  unfold teardownCommands
  rw [List.map_append, List.map_flatten, List.map_map]
  cases depth <;> rfl

/-- The destructor of the device on a running queue whose backlog is `pend`, with live
pointers, followed by the `DeinitVShaderCmd` of program `p` when `p` is not 0: the drain
executes the backlog, then that command, then what the destructors of the resources
submitted. -/
theorem device_destructor_split (S : Sizes) (P : Platform) (x : World) (p : GLuint)
    (pend : List Command)
    (hrun : x.device.mQueue.state = .Running)
    (hpend : x.device.mQueue.pending =
      pend ++ (if p ≠ 0 then [Command.DeinitVShaderCmd p] else []))
    (hlive : ∀ c ∈ pend, c.live x) :
    ∃ w' backlog work,
      D3DGLDevice.destructor S P x = some w' ∧
      w'.trace = x.trace ++ teardownEvents P x.device.mSwapchains x.device.mAutoDepthStencil ++
        [.queueDeinit] ++ backlog ++
        (if p ≠ 0 then [.execute (.DeinitVShaderCmd p), .gl (.glDeleteProgram p)] else []) ++
        work ++
        (if x.device.mGLContext ≠ 0 then [.gl (.wglDeleteContext x.device.mGLContext)] else []) ∧
      executed backlog = pend ∧ (∀ e ∈ backlog, e.isContextWork = true) ∧
      (pend = [] → backlog = []) ∧
      executed work = teardownCommands P x.device.mSwapchains x.device.mAutoDepthStencil ∧
      submitted work = [] ∧ createdPrograms work = [] ∧ deletedPrograms work = [] ∧
      w'.device.mQueue.pending = [] ∧ w'.parseData = x.parseData ∧ w'.nextId = x.nextId := by
  obtain ⟨r1, r2, r3, r4, r5⟩ := destroyResources_spec P x
  obtain ⟨ts, hts⟩ := teardownCommands_external P x.device.mSwapchains x.device.mAutoDepthStencil
  unfold D3DGLDevice.destructor
  simp only []
  generalize D3DGLDevice.destroyResources P x = w1 at *
  have hctx : w1.device.mGLContext = x.device.mGLContext := by rw [r2]
  have hstate : w1.device.mQueue.state = x.device.mQueue.state := by rw [r2]
  have hl : ∀ c ∈ pend, c.live ((w1.emit .queueDeinit).setQueue
      { (w1.emit .queueDeinit).device.mQueue with pending := [] }) := by
    intro c hc
    exact live_of_eq c x _ (fun a => by simp [r3]) (by simp [r4]) (hlive c hc)
  obtain ⟨w2, backlog, hrun2, htr2, hex2, hwork2, hdev2, hpd2, hid2, -⟩ :=
    runAll_live S P pend _ hl
  have hnil : pend = [] → backlog = [] := by
    intro hp
    subst hp
    simp only [CommandQueue.runAll, Option.some.injEq] at hrun2
    rw [← hrun2] at htr2
    exact (List.self_eq_append_right.mp htr2)
  have hw3 : ∃ w3 : World,
      CommandQueue.runAll S P (if p ≠ 0 then [Command.DeinitVShaderCmd p] else []) w2 = some w3 ∧
      w3.trace = w2.trace ++
        (if p ≠ 0 then [.execute (.DeinitVShaderCmd p), .gl (.glDeleteProgram p)] else []) ∧
      w3.device = w2.device ∧ w3.parseData = w2.parseData ∧ w3.nextId = w2.nextId := by
    by_cases hp : p = 0
    · simp only [hp, ne_eq, not_true_eq_false, if_false, CommandQueue.runAll]
      exact ⟨w2, rfl, by simp, rfl, rfl, rfl⟩
    · simp only [hp, ne_eq, not_false_eq_true, if_true, CommandQueue.runAll, Command.execute]
      exact ⟨_, rfl, by simp [World.emit], rfl, rfl, rfl⟩
  obtain ⟨w3, hrun3, htr3, hdev3, hpd3, hid3⟩ := hw3
  obtain ⟨work, hrun4, hex4, hsub4, hc4, hd4, -⟩ := runAll_externals S P ts w3
  have hall : CommandQueue.runAll S P (w1.emit .queueDeinit).device.mQueue.pending
      ((w1.emit .queueDeinit).setQueue
        { (w1.emit .queueDeinit).device.mQueue with pending := [] })
      = some { w3 with trace := w3.trace ++ work } := by
    have hp1 : (w1.emit .queueDeinit).device.mQueue.pending =
        pend ++ ((if p ≠ 0 then [Command.DeinitVShaderCmd p] else []) ++
          ts.map Command.External) := by
      simp only [emit_device, r2, hpend, hts, List.append_assoc]
    rw [hp1, runAll_append, hrun2]
    simp only [Option.bind]
    rw [runAll_append, hrun3]
    simp only [Option.bind]
    exact hrun4
  have hdeinit := deinit_running S P w1 _ (hstate.trans hrun) hall
  rw [hdeinit]
  have hctx4 : w3.device.mGLContext = x.device.mGLContext := by
    rw [hdev3, hdev2]
    exact hctx
  refine ⟨_, backlog, work, rfl, ?_, hex2, hwork2, hnil, ?_, hsub4, hc4, hd4, ?_, ?_, ?_⟩
  · by_cases hc : x.device.mGLContext = 0
    · simp [hctx4, hctx, hc, htr3, htr2, r1, World.setQueue, World.emit]
    · simp [hctx4, hctx, hc, htr3, htr2, r1, World.setQueue, World.emit]
  · rw [hex4, hts]
  · by_cases hc : x.device.mGLContext = 0 <;>
      simp [hctx4, hctx, hc, hdev3, hdev2, World.setQueue, World.emit]
  · by_cases hc : x.device.mGLContext = 0 <;>
      simp [hctx4, hctx, hc, hpd3, hpd2, r4, World.setQueue, World.emit]
  · by_cases hc : x.device.mGLContext = 0 <;>
      simp [hctx4, hctx, hc, hid3, hid2, r5, World.setQueue, World.emit]

/-- The end of the life of a shader on a running queue: the destruction, followed by the
drain of what is pending.  Whether or not the shader held the last reference to the
device, what is added to the trace has one shape: the submission of the
`DeinitVShaderCmd`; calls of the producer `pre` (none while the device lives on, the
deletion of its resources and `deinit()` otherwise); the backlog; the `DeinitVShaderCmd`;
and `tail`, in which what `pre` submitted is executed. -/
theorem life_end (S : Sizes) (P : Platform) (self : Nat) (w : World)
    (this : D3DGLVertexShader) (hthis : w.shaders self = some this)
    (hrun : w.device.mQueue.state = .Running)
    (hlive : ∀ c ∈ w.device.mQueue.pending,
      c.live { w with shaders := Function.update w.shaders self none }) :
    ∃ w' pre backlog tail,
      (match D3DGLVertexShader.destructor S P self w with
        | some w => CommandQueue.drain S P w
        | none => none) = some w' ∧
      w'.trace = w.trace ++
        (if this.mProgram ≠ 0 then [.send (.DeinitVShaderCmd this.mProgram)] else []) ++
        pre ++ backlog ++
        (if this.mProgram ≠ 0 then
          [.execute (.DeinitVShaderCmd this.mProgram), .gl (.glDeleteProgram this.mProgram)]
         else []) ++ tail ∧
      (∀ e ∈ pre, e.isContextWork = false) ∧ executed pre = [] ∧
      createdPrograms pre = [] ∧ deletedPrograms pre = [] ∧
      executed backlog = w.device.mQueue.pending ∧ (∀ e ∈ backlog, e.isContextWork = true) ∧
      (w.device.mQueue.pending = [] → backlog = []) ∧
      executed tail = submitted pre ∧ submitted tail = [] ∧
      createdPrograms tail = [] ∧ deletedPrograms tail = [] ∧
      w'.device.mQueue.pending = [] ∧ w'.shaders self = none := by
  by_cases hlast : LastReference w
  · obtain ⟨x, hbody, hxtr, hxpend, hsw, hads, hctx, hstate, hxsh, hxpd⟩ :=
      destructorBody_last_head S P self w this hthis hlast
    have hxlive : ∀ c ∈ w.device.mQueue.pending, c.live x := by
      intro c hc
      refine live_mono c _ x ?_ ?_ (hlive c hc)
      · intro a ha
        rw [hxsh]
        by_cases hs : a = self
        · subst hs; simp
        · simpa [Function.update_noteq hs] using ha
      · intro a ha
        rw [hxpd]; exact ha
    obtain ⟨w1, backlog, work, hd, htr, hex, hwork, hnil, hexw, hsubw, hcw, hdw, hpend1, -, -⟩ :=
      device_destructor_split S P x this.mProgram w.device.mQueue.pending
        (hstate.trans hrun) hxpend hxlive
    have hres := teardownEvents_resourceWork P w.device.mSwapchains w.device.mAutoDepthStencil
    obtain ⟨q1, -, q3, q4⟩ := resourceWork_quiet _ hres
    refine ⟨(({ w1 with shaders := Function.update w1.shaders self none } : World).setQueue
        { w1.device.mQueue with pending := [] }),
      teardownEvents P w.device.mSwapchains w.device.mAutoDepthStencil ++ [.queueDeinit],
      backlog,
      work ++ (if w.device.mGLContext ≠ 0 then [.gl (.wglDeleteContext w.device.mGLContext)]
               else []), ?_, ?_, ?_, ?_, ?_, ?_, hex, hwork, hnil, ?_, ?_, ?_, ?_, rfl, ?_⟩
    · unfold D3DGLVertexShader.destructor
      rw [hbody, hd]
      simp only [CommandQueue.drain, hpend1, CommandQueue.runAll]
    · simp only [setQueue_trace]
      rw [htr, hxtr, hsw, hads, hctx]
      simp only [List.append_assoc]
    · intro e he
      rcases List.mem_append.mp he with h | h
      · exact resourceWork_not_context e (hres e h)
      · rw [List.mem_singleton.mp h]
        rfl
    · rw [executed_append, q1]
      rfl
    · rw [createdPrograms_append, q3]
      rfl
    · rw [deletedPrograms_append, q4]
      rfl
    · rw [executed_append, hexw, hsw, hads, submitted_append, teardownEvents_submitted]
      by_cases hc : w.device.mGLContext = 0 <;> simp [hc, executed, submitted]
    · rw [submitted_append, hsubw]
      by_cases hc : w.device.mGLContext = 0 <;> simp [hc, submitted]
    · rw [createdPrograms_append, hcw]
      by_cases hc : w.device.mGLContext = 0 <;> simp [hc, createdPrograms]
    · rw [deletedPrograms_append, hdw]
      by_cases hc : w.device.mGLContext = 0 <;> simp [hc, deletedPrograms]
    · simp
  · obtain ⟨w1, -, hd, htr, hdev, hsh, hpd, -⟩ :=
      destructorBody_other S P self w this hthis hlast
    have hpend1 : w1.device.mQueue.pending = w.device.mQueue.pending ++
        (if this.mProgram ≠ 0 then [.DeinitVShaderCmd this.mProgram] else []) := by
      rw [hdev]
    have hl : ∀ c ∈ w.device.mQueue.pending,
        c.live (({ w1 with shaders := Function.update w1.shaders self none } : World).setQueue
          { w1.device.mQueue with pending := [] }) := by
      intro c hc
      refine live_of_eq c _ _ ?_ ?_ (hlive c hc)
      · intro a
        simp only [setQueue_shaders, hsh, Function.update_idem]
      · simp only [setQueue_parseData, hpd]
    obtain ⟨w2, backlog, hrun2, htr2, hex2, hwork2, hdev2, -, -, hsh2⟩ :=
      runAll_live S P w.device.mQueue.pending _ hl
    have hnil : w.device.mQueue.pending = [] → backlog = [] := by
      intro hp
      rw [hp] at hrun2
      simp only [CommandQueue.runAll, Option.some.injEq] at hrun2
      rw [← hrun2] at htr2
      exact (List.self_eq_append_right.mp htr2)
    have hnone2 : w2.shaders self = none := by
      have := hsh2 self
      simp only [setQueue_shaders, Function.update_same, Option.map_none'] at this
      cases hw : w2.shaders self with
      | none => rfl
      | some y => rw [hw] at this; cases this
    have hw3 : ∃ w3 : World,
        CommandQueue.runAll S P
          (if this.mProgram ≠ 0 then [Command.DeinitVShaderCmd this.mProgram] else []) w2
          = some w3 ∧
        w3.trace = w2.trace ++
          (if this.mProgram ≠ 0 then
            [.execute (.DeinitVShaderCmd this.mProgram), .gl (.glDeleteProgram this.mProgram)]
           else []) ∧
        w3.device = w2.device ∧ w3.shaders = w2.shaders := by
      by_cases hp : this.mProgram = 0
      · simp only [hp, ne_eq, not_true_eq_false, if_false, CommandQueue.runAll]
        exact ⟨w2, rfl, by simp, rfl, rfl⟩
      · simp only [hp, ne_eq, not_false_eq_true, if_true, CommandQueue.runAll, Command.execute]
        exact ⟨_, rfl, by simp [World.emit], rfl, rfl⟩
    obtain ⟨w3, hrun3, htr3, hdev3, hsh3⟩ := hw3
    refine ⟨w3, [], backlog, [], ?_, ?_, by simp, rfl, rfl, rfl, hex2, hwork2, hnil, rfl, rfl,
      rfl, rfl, ?_, ?_⟩
    · rw [hd]
      simp only [CommandQueue.drain]
      have hp1 : ({ w1 with shaders := Function.update w1.shaders self none } :
          World).device.mQueue.pending = w.device.mQueue.pending ++
            (if this.mProgram ≠ 0 then [.DeinitVShaderCmd this.mProgram] else []) := hpend1
      rw [hp1, runAll_append]
      have hrun2b : CommandQueue.runAll S P w.device.mQueue.pending
          (({ w1 with shaders := Function.update w1.shaders self none } : World).setQueue
            { ({ w1 with shaders := Function.update w1.shaders self none } :
                World).device.mQueue with pending := [] }) = some w2 := hrun2
      rw [hrun2b]
      exact hrun3
    · rw [htr3, htr2]
      simp only [setQueue_trace, htr, List.append_assoc, List.append_nil, List.nil_append]
    · rw [hdev3, hdev2]
      rfl
    · rw [hsh3, hnone2]

/-- The programs created and deleted between the start of the `execute()` of a
`CompileVShaderCmd` and the end of the shader: one creation, and one deletion
of what was created when it is not null.  The calls `pre` and the work `tail` of the
destruction of the device, when there is one, create and delete no program. -/
theorem life_balance (c : GLuint) (link : GLint) (driver pre tail : List Event) (X : Command)
    (id : Nat)
    (hcd : createdPrograms driver = [c])
    (hdd : deletedPrograms driver = if c ≠ 0 ∧ link = GL_FALSE then [c] else [])
    (hexd : executed driver = []) (hsub : submitted driver = [])
    (hpe : executed pre = []) (hpc : createdPrograms pre = []) (hpd : deletedPrograms pre = [])
    (hte : executed tail = submitted pre) (hts : submitted tail = [])
    (htc : createdPrograms tail = []) (htd : deletedPrograms tail = []) :
    ∀ life, life = [Event.execute X] ++ driver ++ [Event.freeParseData id] ++
        (if (if c ≠ 0 ∧ link ≠ GL_FALSE then c else 0) ≠ 0 then
          [Event.send (.DeinitVShaderCmd (if c ≠ 0 ∧ link ≠ GL_FALSE then c else 0))]
         else []) ++ pre ++
        (if (if c ≠ 0 ∧ link ≠ GL_FALSE then c else 0) ≠ 0 then
          [Event.execute (.DeinitVShaderCmd (if c ≠ 0 ∧ link ≠ GL_FALSE then c else 0)),
           Event.gl (.glDeleteProgram (if c ≠ 0 ∧ link ≠ GL_FALSE then c else 0))]
         else []) ++ tail →
      executed life = X :: submitted life ∧ (createdPrograms life).length ≤ 1 ∧
      deletedPrograms life = (createdPrograms life).filter (fun p => p ≠ 0) := by
  intro life hl
  subst hl
  by_cases hc : c = 0
  · simp [hc, executed_append, submitted_append, createdPrograms_append, deletedPrograms_append,
      executed, submitted, createdPrograms, deletedPrograms, hcd, hdd, hexd, hsub, hpe, hpc, hpd,
      hte, hts, htc, htd]
  · by_cases hlink : link = GL_FALSE
    · simp [hc, hlink, executed_append, submitted_append, createdPrograms_append,
        deletedPrograms_append, executed, submitted, createdPrograms, deletedPrograms, hcd, hdd,
        hexd, hsub, hpe, hpc, hpd, hte, hts, htc, htd]
    · simp [hc, hlink, executed_append, submitted_append, createdPrograms_append,
        deletedPrograms_append, executed, submitted, createdPrograms, deletedPrograms, hcd, hdd,
        hexd, hsub, hpe, hpc, hpd, hte, hts, htc, htd]

/-- The life of a shader whose `init` reaches `sendSync`, from `init` on. -/
theorem lifetime_compiles (S : Sizes) (P : Platform) (self : Nat) (w : World)
    (this : D3DGLVertexShader) (first : DWORD) (rest : List DWORD)
    (hthis : w.shaders self = some this)
    (hversion : first >>> 16 = 0xfffe)
    (hparse : (P.MOJOSHADER_parse w.trace (first :: rest)).error_count ≤ 0)
    (htokens : (P.MOJOSHADER_parse w.trace (first :: rest)).token_count ≤ (first :: rest).length)
    (hrun : w.device.mQueue.state = .Running)
    (hlive : ∀ c ∈ w.device.mQueue.pending, c.live w) :
    ∃ w' backlog life,
      (match (D3DGLVertexShader.init S P self (first :: rest) w).map Prod.fst with
        | some w =>
            (match D3DGLVertexShader.destructor S P self w with
              | some w => CommandQueue.drain S P w
              | none => none)
        | none => none) = some w' ∧
      w'.trace = w.trace ++ [.parse w.nextId, .send (.CompileVShaderCmd self w.nextId)] ++
        backlog ++ life ∧
      executed backlog = w.device.mQueue.pending ∧
      (∀ e ∈ backlog, e.isContextWork = true) ∧
      executed life = .CompileVShaderCmd self w.nextId :: submitted life ∧
      (createdPrograms life).length ≤ 1 ∧
      deletedPrograms life = (createdPrograms life).filter (fun p => p ≠ 0) ∧
      w'.device.mQueue.pending = [] ∧ w'.shaders self = none := by
  obtain ⟨w3, backlog, before, hinit, hex, hwork, htr3, hsh3, -, -, -, hdev3, -⟩ :=
    init_compiles S P self w this first rest hthis hversion hparse htokens hrun hlive
  rw [hinit]
  simp only [Option.map_some']
  have hpend3 : w3.device.mQueue.pending = [] := by rw [hdev3]
  have hrun3 : w3.device.mQueue.state = .Running := by rw [hdev3]; exact hrun
  obtain ⟨w', pre, backlog2, tail, h, htr', hpw, hpe, hpc, hpd, -, -, hnil, hte, hts, htc, htd,
      hpend', hnone⟩ :=
    life_end S P self w3 _ hsh3 hrun3 (by
      intro c hc
      rw [hpend3] at hc
      cases hc)
  have hb2 := hnil hpend3
  subst hb2
  generalize htr : w.trace ++ [.parse w.nextId, .send (.CompileVShaderCmd self w.nextId)] ++
    backlog ++ [.execute (.CompileVShaderCmd self w.nextId)] = tr at htr3 hsh3 htr' h
  obtain ⟨driver, hdriver, hexd, hworkd⟩ := (compileShaderGL_trace P before
    (P.MOJOSHADER_parse w.trace (first :: rest)) tr).1
  have hprog := compileShaderGL_programs P before (P.MOJOSHADER_parse w.trace (first :: rest)) tr
  rw [hdriver, createdPrograms_append, deletedPrograms_append] at hprog
  have hcd := List.append_cancel_left hprog.1
  have hdd := List.append_cancel_left hprog.2
  rw [compileShaderGL_mProgram, htr3, hdriver] at htr'
  obtain ⟨h1, h2, h3⟩ := life_balance _ _ driver pre tail (.CompileVShaderCmd self w.nextId)
    w.nextId hcd hdd hexd (contextWork_submitted driver hworkd) hpe hpc hpd hte hts htc htd _ rfl
  refine ⟨w', backlog, _, h, ?_, hex, hwork, h1, h2, h3, hpend', hnone⟩
  rw [htr', ← htr]
  simp only [List.append_assoc, List.singleton_append, List.cons_append, List.nil_append,
    List.append_nil]


/-! ## C14 -/

/-- C14: the life of a vertex shader placed at a free address, on a running queue
whose backlog has live pointers: `shaderLifetime` returns, and what it adds to
the trace is `pre ++ backlog ++ life`, where `pre` is made of calls of the
producer, `backlog` is the work of the Context Thread on what was pending
before, and `life` executes exactly what the shader submitted.  In `life` at
most one program is created, and the programs deleted are exactly the non-null
programs created: each is deleted once, and no other handle is deleted.  In
the end nothing is pending and the shader is gone.  This holds whether the device
outlives the shader or the shader held the last reference to it, in which case its
destructor destroys the device and `deinit()` is what drains the queue. -/
theorem C14_no_leak_no_double_free (S : Sizes) (P : Platform) (self : Nat)
    (data : Option (List DWORD)) (w : World)
    (hself : w.shaders self = none)
    (hfresh : w.parseData w.nextId = none)
    (hrun : w.device.mQueue.state = .Running)
    (hlive : ∀ c ∈ w.device.mQueue.pending, c.live w)
    (hdata : ∀ d, data = some d →
      d ≠ [] ∧ (P.MOJOSHADER_parse w.trace d).token_count ≤ d.length) :
    ∃ w' pre backlog life,
      shaderLifetime S P self data w = some w' ∧
      w'.trace = w.trace ++ pre ++ backlog ++ life ∧
      (∀ e ∈ pre, e.isContextWork = false) ∧
      executed backlog = w.device.mQueue.pending ∧
      (∀ e ∈ backlog, e.isContextWork = true) ∧
      executed life = submitted (pre ++ life) ∧
      (createdPrograms life).length ≤ 1 ∧
      deletedPrograms life = (createdPrograms life).filter (fun p => p ≠ 0) ∧
      w'.device.mQueue.pending = [] ∧ w'.shaders self = none := by
  have hthis1 : (D3DGLVertexShader.constructor self w).shaders self =
      some { mProgram := 0, mCode := [], mUsageMap := [] } := by
    simp [D3DGLVertexShader.constructor, D3DGLDevice.AddRef]
  have hsh1 : ∀ a, a ≠ self → (D3DGLVertexShader.constructor self w).shaders a = w.shaders a := by
    intro a ha
    simp [D3DGLVertexShader.constructor, D3DGLDevice.AddRef, Function.update_noteq ha]
  -- the paths on which the shader holds no program when it is destroyed
  have idle : ∀ (w1 : World) (pre : List Event),
      w1.shaders self = some { mProgram := 0, mCode := [], mUsageMap := [] } →
      w1.trace = w.trace ++ pre → w1.device.mQueue = w.device.mQueue →
      (∀ a, a ≠ self → w1.shaders a = w.shaders a) →
      (∀ a, (w.parseData a).isSome = true → (w1.parseData a).isSome = true) →
      (∀ e ∈ pre, e.isContextWork = false) → submitted pre = [] →
      ∃ w' pre backlog life,
        (match D3DGLVertexShader.destructor S P self w1 with
          | some w => CommandQueue.drain S P w
          | none => none) = some w' ∧
        w'.trace = w.trace ++ pre ++ backlog ++ life ∧
        (∀ e ∈ pre, e.isContextWork = false) ∧
        executed backlog = w.device.mQueue.pending ∧
        (∀ e ∈ backlog, e.isContextWork = true) ∧
        executed life = submitted (pre ++ life) ∧
        (createdPrograms life).length ≤ 1 ∧
        deletedPrograms life = (createdPrograms life).filter (fun p => p ≠ 0) ∧
        w'.device.mQueue.pending = [] ∧ w'.shaders self = none := by
    intro w1 pre0 h1 h2 h3 h4 h5 h6 h7
    have hl : ∀ c ∈ w1.device.mQueue.pending,
        c.live { w1 with shaders := Function.update w1.shaders self none } := by
      intro c hc
      rw [h3] at hc
      refine live_mono c w _ ?_ h5 (hlive c hc)
      intro a ha
      by_cases h : a = self
      · subst h
        rw [hself] at ha
        cases ha
      · simpa [Function.update_noteq h, h4 a h] using ha
    obtain ⟨w', pre, backlog, tail, h, htr, hpw, -, -, -, hex, hwork, -, hte, hts, htc, htd,
        hpend, hnone⟩ :=
      life_end S P self w1 _ h1 (by rw [h3]; exact hrun) hl
    refine ⟨w', pre0 ++ pre, backlog, tail, h, ?_, ?_, ?_, hwork, ?_, ?_, ?_, hpend, hnone⟩
    · rw [htr, h2]
      simp
    · intro e he
      rcases List.mem_append.mp he with he | he
      · exact h6 e he
      · exact hpw e he
    · rw [hex, h3]
    · rw [hte]
      simp [submitted_append, h7, hts]
    · rw [htc]
      simp
    · rw [htc, htd]
      rfl
  cases data with
  | none =>
      exact idle _ [] hthis1 (by simp [D3DGLVertexShader.constructor, D3DGLDevice.AddRef]) rfl hsh1
        (fun _ h => h) (by simp) rfl
  | some d =>
      obtain ⟨hne, htokens⟩ := hdata d rfl
      cases d with
      | nil => exact absurd rfl hne
      | cons first rest =>
          have hlt : shaderLifetime S P self (some (first :: rest)) w =
              (match (D3DGLVertexShader.init S P self (first :: rest)
                  (D3DGLVertexShader.constructor self w)).map Prod.fst with
                | some w =>
                    (match D3DGLVertexShader.destructor S P self w with
                      | some w => CommandQueue.drain S P w
                      | none => none)
                | none => none) := rfl
          rw [hlt]
          by_cases hversion : first >>> 16 = 0xfffe
          · by_cases hparse : 0 < (P.MOJOSHADER_parse w.trace (first :: rest)).error_count
            · rw [init_parse_error S P self _ _ first rest hthis1 hversion hparse]
              simp only [Option.map_some']
              refine idle _ [.parse w.nextId, .freeParseData w.nextId] hthis1 rfl rfl hsh1 ?_ ?_ rfl
              · intro a ha
                by_cases h : a = w.nextId
                · subst h
                  rw [hfresh] at ha
                  cases ha
                · simpa [D3DGLVertexShader.constructor, D3DGLDevice.AddRef,
                    Function.update_noteq h] using ha
              · intro e he
                simp only [List.mem_cons, List.mem_singleton, List.not_mem_nil, or_false] at he
                rcases he with rfl | rfl <;> rfl
            · have hlive1 : ∀ c ∈ (D3DGLVertexShader.constructor self w).device.mQueue.pending,
                  c.live (D3DGLVertexShader.constructor self w) := by
                intro c hc
                refine live_mono c w _ ?_ (fun _ h => h) (hlive c hc)
                intro a ha
                by_cases h : a = self
                · subst h
                  rw [hself] at ha
                  cases ha
                · rw [hsh1 a h]; exact ha
              obtain ⟨w', backlog, life, h, htr, hex, hwork, h1, h2, h3, hpend, hnone⟩ :=
                lifetime_compiles S P self (D3DGLVertexShader.constructor self w) _ first rest
                  hthis1 hversion (not_lt.mp hparse) htokens hrun hlive1
              refine ⟨w', [.parse w.nextId, .send (.CompileVShaderCmd self w.nextId)], backlog,
                life, h, htr, ?_, hex, hwork, ?_, h2, h3, hpend, hnone⟩
              · intro e he
                simp only [List.mem_cons, List.mem_singleton, List.not_mem_nil, or_false] at he
                rcases he with rfl | rfl <;> rfl
              · rw [h1]
                simp [submitted_append, submitted]
                rfl
          · rw [init_not_vertex S P self _ _ first rest hthis1 hversion]
            simp only [Option.map_some']
            exact idle _ [] hthis1 (by simp [D3DGLVertexShader.constructor, D3DGLDevice.AddRef]) rfl hsh1
              (fun _ h => h) (by simp) rfl

/-- C14, at a concrete input: on a running queue with nothing pending, a vertex
shader is created at address `0`, initialised and destroyed; the driver can
create and link the program. -/
theorem C14_no_leak_no_double_free_witness :
    ∃ w' pre backlog life,
      shaderLifetime sampleSizes samplePlatform 0 (some [0xfffe0300, 0x0000ffff])
        { shaderWorld with shaders := fun _ => none } = some w' ∧
      w'.trace = pre ++ backlog ++ life ∧
      deletedPrograms life = (createdPrograms life).filter (fun p => p ≠ 0) ∧
      w'.device.mQueue.pending = [] ∧ w'.shaders 0 = none := by
  obtain ⟨w', pre, backlog, life, h, htr, -, -, -, -, -, hd, hp, hs⟩ :=
    C14_no_leak_no_double_free sampleSizes samplePlatform 0 (some [0xfffe0300, 0x0000ffff])
      { shaderWorld with shaders := fun _ => none } rfl rfl rfl
      (fun c hc => absurd hc (List.not_mem_nil c))
      (fun d hd => by
        cases hd
        exact ⟨by simp, by decide⟩)
  exact ⟨w', pre, backlog, life, h, by simpa using htr, hd, hp, hs⟩


/-! ## The queue in order -/

theorem contextWork_executed_submitted (tr new : List Event)
    (h : ∀ e ∈ new, e.isContextWork = true) :
    submitted (tr ++ new) = submitted tr := by
  rw [submitted_append, contextWork_submitted new h, List.append_nil]

/-- One operation of the queue keeps the queue in order. -/
theorem op_step (S : Sizes) (P : Platform) (w0 w : World) (op : QueueOp) (rest : List QueueOp)
    (hinv : FifoInv w0 w)
    (hlock : QueueOp.lockOk w.device.mQueue.locked (op :: rest) = true)
    (hops : ∀ c ∈ QueueOp.commands [op], c.live w0) :
    ∃ w1, op.apply S P w = some w1 ∧ FifoInv w0 w1 ∧
      submitted w1.trace = submitted w.trace ++ QueueOp.commands [op] ∧
      QueueOp.lockOk w1.device.mQueue.locked rest = true ∧
      (∀ c, op = .sendSync c → w1.device.mQueue.pending = []) := by
  obtain ⟨hfifo, hrun, hsh, hpd, hlive⟩ := hinv
  cases op with
  | lock =>
      simp only [QueueOp.lockOk, Bool.and_eq_true, Bool.not_eq_true'] at hlock
      refine ⟨(w.setQueue { w.device.mQueue with locked := true }).emit .lock, ?_,
        ⟨?_, hrun, hsh, hpd, hlive⟩, ?_, hlock.2, fun c hc => by cases hc⟩
      · simp [QueueOp.apply, CommandQueue.lock, hlock.1]
      · simpa [submitted_append, executed_append, submitted, executed] using hfifo
      · simp [submitted_append, submitted, QueueOp.commands]
  | unlock =>
      simp only [QueueOp.lockOk, Bool.and_eq_true] at hlock
      refine ⟨(w.setQueue { w.device.mQueue with locked := false }).emit .unlock, ?_,
        ⟨?_, hrun, hsh, hpd, hlive⟩, ?_, hlock.2, fun c hc => by cases hc⟩
      · simp [QueueOp.apply, CommandQueue.unlock, hlock.1]
      · simpa [submitted_append, executed_append, submitted, executed] using hfifo
      · simp [submitted_append, submitted, QueueOp.commands]
  | send c =>
      simp only [QueueOp.lockOk] at hlock
      refine ⟨CommandQueue.send c w, rfl, ⟨?_, hrun, hsh, hpd, ?_⟩, ?_, hlock,
        fun c hc => by cases hc⟩
      · simp [CommandQueue.send, submitted_append, executed_append, submitted, executed, hfifo]
      · intro c' hc'
        simp only [CommandQueue.send, emit_device, setQueue_queue, List.mem_append,
          List.mem_singleton] at hc'
        rcases hc' with h | h
        · exact hlive c' h
        · subst h
          exact hops c' (by simp [QueueOp.commands])
      · simp [CommandQueue.send, submitted_append, submitted, QueueOp.commands]
  | sendAndUnlock c =>
      simp only [QueueOp.lockOk, Bool.and_eq_true] at hlock
      refine ⟨((CommandQueue.send c w).setQueue
          { (CommandQueue.send c w).device.mQueue with locked := false }).emit .unlock, ?_,
        ⟨?_, hrun, hsh, hpd, ?_⟩, ?_, hlock.2, fun c hc => by cases hc⟩
      · simp [QueueOp.apply, CommandQueue.sendAndUnlock, CommandQueue.unlock, CommandQueue.send,
          hlock.1]
      · simp [CommandQueue.send, submitted_append, executed_append, submitted, executed, hfifo]
      · intro c' hc'
        simp only [CommandQueue.send, emit_device, setQueue_queue, List.mem_append,
          List.mem_singleton] at hc'
        rcases hc' with h | h
        · exact hlive c' h
        · subst h
          exact hops c' (by simp [QueueOp.commands])
      · simp [CommandQueue.send, submitted_append, submitted, QueueOp.commands]
  | sendSync c =>
      simp only [QueueOp.lockOk] at hlock
      have hl : ∀ c' ∈ (CommandQueue.send c w).device.mQueue.pending,
          c'.live (CommandQueue.send c w) := by
        intro c' hc'
        have hc'' : c' ∈ w.device.mQueue.pending ++ [c] := hc'
        refine live_of_eq c' w0 _ hsh hpd ?_
        rcases List.mem_append.mp hc'' with h | h
        · exact hlive c' h
        · rw [List.mem_singleton.mp h]
          exact hops c (by simp [QueueOp.commands])
      obtain ⟨w1, new, hd, htr, hex, hwork, hdev, hsh1, hpd1⟩ :=
        drain_live S P (CommandQueue.send c w) hl
      have hex' : executed new = w.device.mQueue.pending ++ [c] := hex
      refine ⟨w1, ?_, ⟨?_, ?_, ?_, ?_, ?_⟩, ?_, ?_, fun _ _ => by rw [hdev]⟩
      · simp only [QueueOp.apply, CommandQueue.sendSync, hrun, if_true]
        exact hd
      · rw [htr, contextWork_executed_submitted _ _ hwork, executed_append, hex', hdev]
        simp [CommandQueue.send, submitted_append, executed_append, submitted, executed, hfifo]
      · rw [hdev]; exact hrun
      · intro a
        rw [hsh1 a]
        exact hsh a
      · rw [hpd1]; exact hpd
      · intro c' hc'
        rw [hdev] at hc'
        cases hc'
      · rw [htr, contextWork_executed_submitted _ _ hwork]
        simp [CommandQueue.send, submitted_append, submitted, QueueOp.commands]
      · rw [hdev]; exact hlock
  | contextThread =>
      simp only [QueueOp.lockOk] at hlock
      cases hp : w.device.mQueue.pending with
      | nil =>
          refine ⟨w, ?_, ⟨hfifo, hrun, hsh, hpd, hlive⟩, by simp [QueueOp.commands], hlock,
            fun c hc => by cases hc⟩
          simp [QueueOp.apply, CommandQueue.runOne, hp]
      | cons c rest' =>
          have hc : c.live ((w.setQueue { w.device.mQueue with pending := rest' }).emit
              (.execute c)) :=
            live_of_eq c w0 _ hsh hpd (hlive c (by rw [hp]; exact List.mem_cons_self _ _))
          obtain ⟨r, hr, ⟨n1, htr, he1, hw1⟩, hdev, hpd1, -, hsh1⟩ := execute_live S P c _ hc
          refine ⟨r.1, ?_, ⟨?_, ?_, ?_, ?_, ?_⟩, ?_, ?_, fun c hc => by cases hc⟩
          · simp [QueueOp.apply, CommandQueue.runOne, hp, hr]
          · rw [htr, contextWork_executed_submitted _ _ hw1, executed_append, he1, hdev]
            simp [submitted_append, executed_append, submitted, executed, hfifo, hp]
          · rw [hdev]; exact hrun
          · intro a
            rw [hsh1 a]
            exact hsh a
          · rw [hpd1]; exact hpd
          · intro c' hc'
            rw [hdev] at hc'
            exact hlive c' (by rw [hp]; exact List.mem_cons_of_mem _ hc')
          · rw [htr, contextWork_executed_submitted _ _ hw1]
            simp [submitted_append, submitted, QueueOp.commands]
          · rw [hdev]; exact hlock


theorem commands_cons (op : QueueOp) (rest : List QueueOp) :
    QueueOp.commands (op :: rest) = QueueOp.commands [op] ++ QueueOp.commands rest := by
  cases op <;> simp [QueueOp.commands]

/-- Every sequence of operations that respects the Queue Lock is served, and keeps
the queue in order. -/
theorem runOps_fifo (S : Sizes) (P : Platform) (w0 : World) (ops : List QueueOp) :
    ∀ w, FifoInv w0 w → QueueOp.lockOk w.device.mQueue.locked ops = true →
      (∀ c ∈ QueueOp.commands ops, c.live w0) →
      ∃ w', runOps S P ops w = some w' ∧ FifoInv w0 w' ∧
        submitted w'.trace = submitted w.trace ++ QueueOp.commands ops ∧
        (∀ c, ops.getLast? = some (.sendSync c) → w'.device.mQueue.pending = []) := by
  induction ops with
  | nil =>
      intro w hinv _ _
      exact ⟨w, rfl, hinv, by simp [QueueOp.commands], fun c hc => by cases hc⟩
  | cons op rest ih =>
      intro w hinv hlock hops
      rw [commands_cons] at hops
      obtain ⟨w1, h1, hinv1, hsub1, hlock1, hsync1⟩ := op_step S P w0 w op rest hinv hlock
        (fun c hc => hops c (List.mem_append_left _ hc))
      obtain ⟨w', h2, hinv2, hsub2, hsync2⟩ := ih w1 hinv1 hlock1
        (fun c hc => hops c (List.mem_append_right _ hc))
      refine ⟨w', ?_, hinv2, ?_, ?_⟩
      · simp only [runOps, h1]
        exact h2
      · rw [hsub2, hsub1, commands_cons op rest, List.append_assoc]
      · intro c hc
        cases rest with
        | nil =>
            simp only [List.getLast?_singleton, Option.some.injEq] at hc
            simp only [runOps, Option.some.injEq] at h2
            rw [← h2]
            exact hsync1 c hc
        | cons op2 rest2 =>
            rw [List.getLast?_cons_cons] at hc
            exact hsync2 c hc


/-! ## C15 -/

/-- C15: first in, first out.  (1) Take a running queue that is in order (what was
submitted is what was executed followed by what is pending), and any sequence
of calls of `lock`, `unlock`, `send`, `sendAndUnlock` and `sendSync` by any
producers, interleaved with turns of the Context Thread, that respects the
Queue Lock, the commands pointing to live objects.  Every call is served; the
commands are submitted in the order of the calls; at the end the queue is in
order again: the commands executed are the first of those submitted, in the
order of submission; and when the last call is a `sendSync`, everything
submitted has been executed, its command last.  (2) At the call sites: when
the destructor of a shader that holds a program is followed by the `init` of
another shader, each of the two holding its reference to the device (the count
is 2 or more), the `DeinitVShaderCmd` of the first is executed after the
backlog and before the `CompileVShaderCmd` of the second. -/
theorem C15_fifo (S : Sizes) (P : Platform) :
    (∀ (ops : List QueueOp) (w : World),
      submitted w.trace = executed w.trace ++ w.device.mQueue.pending →
      w.device.mQueue.state = .Running →
      QueueOp.lockOk w.device.mQueue.locked ops = true →
      (∀ c ∈ w.device.mQueue.pending, c.live w) →
      (∀ c ∈ QueueOp.commands ops, c.live w) →
      ∃ w', runOps S P ops w = some w' ∧
        submitted w'.trace = submitted w.trace ++ QueueOp.commands ops ∧
        submitted w'.trace = executed w'.trace ++ w'.device.mQueue.pending ∧
        (∀ c, ops.getLast? = some (.sendSync c) →
          executed w'.trace = submitted w.trace ++ QueueOp.commands ops ∧
          w'.device.mQueue.pending = [])) ∧
    (∀ (a b : Nat) (w : World) (sa sb : D3DGLVertexShader) (first : DWORD) (rest : List DWORD),
      a ≠ b → w.shaders a = some sa → sa.mProgram ≠ 0 → w.shaders b = some sb →
      2 ≤ w.device.mRefCount →
      first >>> 16 = 0xfffe →
      (P.MOJOSHADER_parse (w.trace ++ [.send (.DeinitVShaderCmd sa.mProgram)])
        (first :: rest)).error_count ≤ 0 →
      (P.MOJOSHADER_parse (w.trace ++ [.send (.DeinitVShaderCmd sa.mProgram)])
        (first :: rest)).token_count ≤ (first :: rest).length →
      w.device.mQueue.state = .Running →
      (∀ c ∈ w.device.mQueue.pending,
        c.live { w with shaders := Function.update w.shaders a none }) →
      ∃ w1 w2 ok new,
        D3DGLVertexShader.destructor S P a w = some w1 ∧
        D3DGLVertexShader.init S P b (first :: rest) w1 = some (w2, ok) ∧
        w2.trace = w.trace ++ new ∧
        executed new = w.device.mQueue.pending ++
          [.DeinitVShaderCmd sa.mProgram, .CompileVShaderCmd b w.nextId]) := by
  refine ⟨?_, ?_⟩
  · intro ops w hfifo hrun hlock hpend hops
    obtain ⟨w', h, hinv, hsub, hsync⟩ := runOps_fifo S P w ops w
      ⟨hfifo, hrun, fun _ => rfl, rfl, hpend⟩ hlock hops
    refine ⟨w', h, hsub, hinv.1, ?_⟩
    intro c hc
    have hp := hsync c hc
    refine ⟨?_, hp⟩
    have := hinv.1
    rw [hp, List.append_nil] at this
    rw [← this, hsub]
  · intro a b w sa sb first rest hab hsa hp hsb hrefs hversion hparse htokens hrun hlive
    have hnot : ¬ LastReference w := by
      intro h1
      have h1 : w.device.mRefCount = 1 := h1
      rw [h1] at hrefs
      exact absurd hrefs (by decide)
    obtain ⟨w0, -, hd, htr0, hdev0, hsh0, hpd0, hid0⟩ :=
      destructorBody_other S P a w sa hsa hnot
    simp only [hp, ne_eq, not_false_eq_true, if_true] at htr0 hdev0
    have hW : ∃ W : World, W = { w0 with shaders := Function.update w0.shaders a none } :=
      ⟨_, rfl⟩
    obtain ⟨W, hWeq⟩ := hW
    rw [← hWeq] at hd
    have htrW : W.trace = w.trace ++ [.send (.DeinitVShaderCmd sa.mProgram)] := by
      rw [hWeq]; exact htr0
    have hidW : W.nextId = w.nextId := by
      rw [hWeq]; exact hid0
    have hpendW : W.device.mQueue.pending =
        w.device.mQueue.pending ++ [.DeinitVShaderCmd sa.mProgram] := by
      rw [hWeq]
      show w0.device.mQueue.pending = _
      rw [hdev0]
    have hrunW : W.device.mQueue.state = .Running := by
      rw [hWeq]
      show w0.device.mQueue.state = _
      rw [hdev0]
      exact hrun
    have hsb1 : W.shaders b = some sb := by
      rw [hWeq]
      simp [hsh0, Function.update_noteq (Ne.symm hab), hsb]
    have hlive1 : ∀ c ∈ W.device.mQueue.pending, c.live W := by
      intro c hc
      rw [hpendW] at hc
      rcases List.mem_append.mp hc with h | h
      · refine live_of_eq c _ _ ?_ ?_ (hlive c h)
        · intro x
          rw [hWeq]
          simp only [hsh0, Function.update_idem]
        · rw [hWeq]
          exact hpd0
      · rw [List.mem_singleton.mp h]
        trivial
    obtain ⟨w2, backlog, before, hinit, hex, hwork, htr, -⟩ :=
      init_compiles S P b W sb first rest hsb1 hversion (by rw [htrW]; exact hparse)
        (by rw [htrW]; exact htokens) hrunW hlive1
    rw [htrW, hidW] at hinit htr
    rw [hpendW] at hex
    obtain ⟨driver, hdriver, hexd, -⟩ := (compileShaderGL_trace P before
      (P.MOJOSHADER_parse (w.trace ++ [.send (.DeinitVShaderCmd sa.mProgram)]) (first :: rest))
      (w.trace ++ [.send (.DeinitVShaderCmd sa.mProgram)] ++
        [.parse w.nextId, .send (.CompileVShaderCmd b w.nextId)] ++ backlog ++
        [.execute (.CompileVShaderCmd b w.nextId)])).1
    refine ⟨W, w2, _, [.send (.DeinitVShaderCmd sa.mProgram)] ++
        [.parse w.nextId, .send (.CompileVShaderCmd b w.nextId)] ++ backlog ++
        [.execute (.CompileVShaderCmd b w.nextId)] ++ driver ++ [.freeParseData w.nextId],
      hd, hinit, ?_, ?_⟩
    · rw [htr, hdriver]
      simp only [List.append_assoc]
    · simp [executed_append, executed, hex, hexd]


/-- C15, at a concrete input: a `DeinitVShaderCmd` is sent, a `StateEnable` is sent
under the Queue Lock, and a `CompileVShaderCmd` is sent with `sendSync`.  When
the `sendSync` returns the three commands have been executed, in this order.  And
at the call sites: the shader at `0`, which holds program `7`, is destroyed, and the
shader at `1` is initialised. -/
theorem C15_fifo_witness :
    (∃ w', runOps sampleSizes samplePlatform
        [.send (.DeinitVShaderCmd 7), .lock, .sendAndUnlock (.StateEnable GL_DITHER true),
         .sendSync (.CompileVShaderCmd 0 0)]
        { shaderWorld with parseData := fun _ => some sampleParseData } = some w' ∧
      executed w'.trace =
        [.DeinitVShaderCmd 7, .StateEnable GL_DITHER true, .CompileVShaderCmd 0 0] ∧
      w'.device.mQueue.pending = []) ∧
    (∃ w1 w2 ok new,
      D3DGLVertexShader.destructor sampleSizes samplePlatform 0 twoShaderWorld = some w1 ∧
      D3DGLVertexShader.init sampleSizes samplePlatform 1 [0xfffe0300, 0x0000ffff] w1
        = some (w2, ok) ∧
      w2.trace = new ∧
      executed new = [.DeinitVShaderCmd 7, .CompileVShaderCmd 1 2]) := by
  refine ⟨?_, ?_⟩
  swap
  · obtain ⟨w1, w2, ok, new, h1, h2, h3, h4⟩ := (C15_fifo sampleSizes samplePlatform).2 0 1
      twoShaderWorld { mProgram := 7, mCode := [], mUsageMap := [] }
      { mProgram := 0, mCode := [], mUsageMap := [] } 0xfffe0300 [0x0000ffff]
      (by decide) rfl (by decide) rfl (by decide) (by decide) (by decide) (by decide) rfl
      (fun c hc => absurd hc (List.not_mem_nil c))
    exact ⟨w1, w2, ok, new, h1, h2, by simpa using h3, h4⟩
  obtain ⟨w', h, -, -, hsync⟩ := (C15_fifo sampleSizes samplePlatform).1
    [.send (.DeinitVShaderCmd 7), .lock, .sendAndUnlock (.StateEnable GL_DITHER true),
     .sendSync (.CompileVShaderCmd 0 0)]
    { shaderWorld with parseData := fun _ => some sampleParseData } rfl rfl (by decide)
    (fun c hc => absurd hc (List.not_mem_nil c))
    (by
      intro c hc
      simp only [QueueOp.commands, List.mem_cons, List.mem_singleton, List.not_mem_nil,
        or_false] at hc
      rcases hc with rfl | rfl | rfl
      · trivial
      · trivial
      · exact ⟨rfl, rfl⟩)
  obtain ⟨hex, hp⟩ := hsync (.CompileVShaderCmd 0 0) rfl
  exact ⟨w', h, hex, hp⟩


/-! ## C21 -/

theorem lock_mMaterial (w w' : World) (h : CommandQueue.lock w = some w') :
    w'.device.mMaterial = w.device.mMaterial := by
  rw [lock_device w w' h]; rfl

theorem unlock_mMaterial (w w' : World) (h : CommandQueue.unlock w = some w') :
    w'.device.mMaterial = w.device.mMaterial := by
  rw [unlock_device w w' h]; rfl

theorem sendAndUnlock_mMaterial (c : Command) (w w' : World)
    (h : CommandQueue.sendAndUnlock c w = some w') :
    w'.device.mMaterial = w.device.mMaterial := by
  unfold CommandQueue.sendAndUnlock at h
  rw [unlock_device _ _ h]; rfl

/-- The shadow material after a device call. -/
theorem apply_mMaterial (S : Sizes) (P : Platform) (c : DeviceCall) (w : World) :
    ∀ w', c.apply S P w = some w' →
      (∀ m, c = .SetMaterial m → w'.device.mMaterial = m) ∧
      ((∀ m, c ≠ .SetMaterial m) → w'.device.mMaterial = w.device.mMaterial) := by
  cases c with
  | SetRenderState state value =>
      intro w' h
      refine ⟨(fun m hc => by cases hc), fun _ => ?_⟩
      simp only [DeviceCall.apply, D3DGLDevice.SetRenderState] at h
      split_ifs at h
      · cases hl : CommandQueue.lock w with
        | none => simp [hl] at h
        | some w1 =>
            simp only [hl] at h
            split at h
            · rename_i w2 hu
              simp only [Option.map_some', Option.some.injEq] at h
              subst h
              rw [sendAndUnlock_mMaterial _ _ _ hu]
              exact lock_mMaterial w w1 hl
            · simp at h
      · simp only [Option.map_some', Option.some.injEq] at h
        subst h
        rfl
  | GetRenderState state =>
      intro w' h
      refine ⟨(fun m hc => by cases hc), fun _ => ?_⟩
      simp only [DeviceCall.apply, Option.some.injEq] at h
      subst h
      rfl
  | SetMaterial material =>
      intro w' h
      refine ⟨fun m hc => ?_, fun hc => absurd rfl (hc material)⟩
      cases hc
      simp only [DeviceCall.apply, D3DGLDevice.SetMaterial] at h
      cases hl : CommandQueue.lock w with
      | none => simp [hl] at h
      | some w1 =>
          simp only [hl] at h
          split at h
          · rename_i w2 hu
            simp only [Option.map_some', Option.some.injEq] at h
            subst h
            rw [sendAndUnlock_mMaterial _ _ _ hu]
          · simp at h
  | GetMaterial =>
      intro w' h
      refine ⟨(fun m hc => by cases hc), fun _ => ?_⟩
      simp only [DeviceCall.apply, D3DGLDevice.GetMaterial] at h
      cases hl : CommandQueue.lock w with
      | none => simp [hl] at h
      | some w1 =>
          simp only [hl] at h
          split at h
          · rename_i w2 hu
            simp only [Option.map_some', Option.some.injEq] at h
            subst h
            rw [unlock_mMaterial _ _ hu]
            exact lock_mMaterial w w1 hl
          · simp at h
  | BeginScene =>
      intro w' h
      refine ⟨(fun m hc => by cases hc), fun _ => ?_⟩
      simp only [DeviceCall.apply, Option.some.injEq] at h
      subst h
      rw [BeginScene_fst]
  | EndScene =>
      intro w' h
      refine ⟨(fun m hc => by cases hc), fun _ => ?_⟩
      simp only [DeviceCall.apply, Option.some.injEq] at h
      subst h
      rw [EndScene_fst]
  | contextThread =>
      intro w' h
      refine ⟨(fun m hc => by cases hc), fun _ => ?_⟩
      simp only [DeviceCall.apply, CommandQueue.runOne] at h
      split at h
      · cases h; rfl
      · rename_i c rest hp
        cases he : c.execute S P
            ((w.setQueue { w.device.mQueue with pending := rest }).emit (.execute c)) with
        | none => simp [he] at h
        | some r =>
            rw [he] at h
            simp only [Option.map_some', Option.some.injEq] at h
            subst h
            rw [execute_device S P c _ r he]
            rfl

/-- After a sequence of device calls the shadow material is that of the most recent
`SetMaterial`, or the one before the calls when there is none. -/
theorem runCalls_mMaterial (S : Sizes) (P : Platform) (calls : List DeviceCall) :
    ∀ w : World, ShadowInv w →
    ∃ w', runCalls S P calls w = some w' ∧ ShadowInv w' ∧
      (∀ m, lastSetMaterial calls = some m → w'.device.mMaterial = m) ∧
      (lastSetMaterial calls = none → w'.device.mMaterial = w.device.mMaterial) := by
  induction calls with
  | nil =>
      intro w h
      exact ⟨w, rfl, h, (fun m hm => by cases hm), fun _ => rfl⟩
  | cons c rest ih =>
      intro w h
      obtain ⟨w1, new, h1, -, hinv1, -, -⟩ := apply_ShadowInv S P c w h
      obtain ⟨w', h2, hinv2, hsome, hnone⟩ := ih w1 hinv1
      obtain ⟨hset, hkeep⟩ := apply_mMaterial S P c w w1 h1
      refine ⟨w', by simp only [runCalls, h1]; exact h2, hinv2, ?_, ?_⟩
      · intro m hm
        simp only [lastSetMaterial] at hm
        cases hl : lastSetMaterial rest with
        | some m' =>
            rw [hl] at hm
            cases hm
            exact hsome _ hl
        | none =>
            rw [hl] at hm
            rw [hnone hl]
            cases c <;> first | (cases hm; exact hset _ rfl) | cases hm
      · intro hn
        simp only [lastSetMaterial] at hn
        cases hl : lastSetMaterial rest with
        | some m' => rw [hl] at hn; cases hn
        | none =>
            rw [hl] at hn
            rw [hnone hl]
            apply hkeep
            intro m hc
            subst hc
            cases hn

/-- C21: the material round trip, with the Queue Lock free.  (1) After
`SetMaterial(&m)` has returned, `GetMaterial(&out)` returns having written `m`
to `out`; it submits nothing, leaves what is pending and leaves the shadow
material `m`.  (2) After any sequence of device calls and turns of the Context
Thread on a device on which nothing had been submitted, `GetMaterial` writes
the material of the most recent `SetMaterial` of the sequence. -/
theorem C21_material_round_trip (S : Sizes) (P : Platform) :
    (∀ (w : World) (m : D3DMATERIAL9), w.device.mQueue.locked = false →
      ∃ w1 w2 hr,
        D3DGLDevice.SetMaterial m w = some (w1, D3D_OK) ∧
        D3DGLDevice.GetMaterial w1 = some (w2, m, hr) ∧
        submitted w2.trace = submitted w1.trace ∧
        w2.device.mQueue.pending = w1.device.mQueue.pending ∧
        w2.device.mMaterial = m) ∧
    (∀ (calls : List DeviceCall) (w : World) (m : D3DMATERIAL9),
      w.device.mQueue.locked = false → w.device.mQueue.pending = [] →
      submitted w.trace = [] → lastSetMaterial calls = some m →
      ∃ w1 w2 hr,
        runCalls S P calls w = some w1 ∧
        D3DGLDevice.GetMaterial w1 = some (w2, m, hr) ∧
        submitted w2.trace = submitted w1.trace ∧
        w2.device.mQueue.pending = w1.device.mQueue.pending ∧
        w2.device.mMaterial = m) := by
  have get : ∀ (w1 : World) (m : D3DMATERIAL9), w1.device.mQueue.locked = false →
      w1.device.mMaterial = m →
      ∃ w2 hr, D3DGLDevice.GetMaterial w1 = some (w2, m, hr) ∧
        submitted w2.trace = submitted w1.trace ∧
        w2.device.mQueue.pending = w1.device.mQueue.pending ∧
        w2.device.mMaterial = m := by
    intro w1 m hfree hm
    have h := GetMaterial_eq w1 hfree
    rw [hm] at h
    refine ⟨_, _, h, ?_, rfl, hm⟩
    simp [submitted_append, submitted]
  refine ⟨?_, ?_⟩
  · intro w m hfree
    obtain ⟨w2, hr, h2, h3, h4, h5⟩ := get _ m
      (show ({ w with
        trace := w.trace ++ [.lock, .send (MaterialSet.new m), .unlock]
        device := { w.device with
          mMaterial := m
          mQueue := { w.device.mQueue with
            locked := false
            pending := w.device.mQueue.pending ++ [MaterialSet.new m] } } } :
        World).device.mQueue.locked = false from rfl) rfl
    exact ⟨_, w2, hr, SetMaterial_eq m w hfree, h2, h3, h4, h5⟩
  · intro calls w m hfree hpend hsub hlast
    have hinv : ShadowInv w := by
      refine ⟨hfree, ?_, ?_, ?_⟩
      · intro c hc
        rw [hpend] at hc
        cases hc
      · intro p hp
        rw [hsub] at hp
        cases hp
      · intro c hc
        rw [hsub] at hc
        cases hc
    obtain ⟨w1, h1, hinv1, hsome, -⟩ := runCalls_mMaterial S P calls w hinv
    obtain ⟨w2, hr, h2, h3, h4, h5⟩ := get w1 m hinv1.1 (hsome m hlast)
    exact ⟨w1, w2, hr, h1, h2, h3, h4, h5⟩

/-- C21, at a concrete input: on a new device, `SetMaterial(&sampleMaterial)`, a turn
of the Context Thread, then `GetMaterial`. -/
theorem C21_material_round_trip_witness :
    ∃ w1 w2 hr,
      runCalls sampleSizes samplePlatform [.SetMaterial sampleMaterial, .contextThread]
        sampleWorld = some w1 ∧
      D3DGLDevice.GetMaterial w1 = some (w2, sampleMaterial, hr) ∧
      w2.device.mMaterial = sampleMaterial := by
  obtain ⟨w1, w2, hr, h1, h2, -, -, h5⟩ := (C21_material_round_trip sampleSizes samplePlatform).2
    [.SetMaterial sampleMaterial, .contextThread] sampleWorld sampleMaterial rfl rfl rfl rfl
  exact ⟨w1, w2, hr, h1, h2, h5⟩


/-! ## C24 -/

/-- C24: `SetRenderState` of a state other than `D3DRS_DITHERENABLE` returns
`E_NOTIMPL` and leaves the world as it was: the shadow table, the Queue Lock,
the queue and the trace (no `lock()`, no submission).
`SetRenderState(D3DRS_DITHERENABLE, v)`, called with the Queue Lock free, changes
no entry of the shadow table other than that of `D3DRS_DITHERENABLE`. -/
theorem C24_SetRenderState_frame (w : World) :
    (∀ state value, state ≠ D3DRS_DITHERENABLE →
      D3DGLDevice.SetRenderState state value w = some (w, E_NOTIMPL)) ∧
    (∀ value, w.device.mQueue.locked = false →
      ∃ w', D3DGLDevice.SetRenderState D3DRS_DITHERENABLE value w = some (w', D3D_OK) ∧
        ∀ s, s ≠ D3DRS_DITHERENABLE → w'.device.mRenderState s = w.device.mRenderState s) := by
  refine ⟨?_, ?_⟩
  · intro state value hne
    simp [D3DGLDevice.SetRenderState, hne]
  · intro value hfree
    refine ⟨_, SetRenderState_dither value w hfree, ?_⟩
    intro s hs
    simp [Function.update_noteq hs]

/-- C24, at a concrete input: on a new device `SetRenderState(D3DRS_ZENABLE, 0)` changes
nothing, and `SetRenderState(D3DRS_DITHERENABLE, 1)` leaves the entry of
`D3DRS_ZENABLE`. -/
theorem C24_SetRenderState_frame_witness :
    D3DGLDevice.SetRenderState D3DRS_ZENABLE 0 sampleWorld = some (sampleWorld, E_NOTIMPL) ∧
    ∃ w', D3DGLDevice.SetRenderState D3DRS_DITHERENABLE 1 sampleWorld = some (w', D3D_OK) ∧
      w'.device.mRenderState D3DRS_ZENABLE = sampleWorld.device.mRenderState D3DRS_ZENABLE := by
  refine ⟨(C24_SetRenderState_frame sampleWorld).1 D3DRS_ZENABLE 0 (by decide), ?_⟩
  obtain ⟨w', h, hs⟩ := (C24_SetRenderState_frame sampleWorld).2 1 rfl
  exact ⟨w', h, hs D3DRS_ZENABLE (by decide)⟩

/-! ## C26 -/

/-- C26: `fmt_to_glattrs` returns `true` exactly for `D3DFMT_X8R8G8B8`, appending four
pairs, and for `D3DFMT_D24S8`, appending two; it appends nothing when it
returns `false`.  `init` returns `false` and leaves the world as it was (no
context, no queue, no swap chain, no call at all) when `BackBufferCount > 1`,
or `D3DPRESENTFLAG_LOCKABLE_BACKBUFFER` is set, or `BackBufferFormat` is not one
of the two formats, or `EnableAutoDepthStencil` is set and
`AutoDepthStencilFormat` is not one of them; `*params` is left as it was
except that a `BackBufferCount` above `1` is set to `1`. -/
theorem C26_init_rejects_parameters (P : Platform) (params : D3DPRESENT_PARAMETERS)
    (w : World) :
    (∀ fmt glattrs, (fmt_to_glattrs fmt glattrs).1 = true ↔
      (fmt = D3DFMT_X8R8G8B8 ∨ fmt = D3DFMT_D24S8)) ∧
    (∀ glattrs, fmt_to_glattrs D3DFMT_X8R8G8B8 glattrs =
      (true, glattrs ++ [(WGL_RED_BITS_ARB, 8), (WGL_GREEN_BITS_ARB, 8), (WGL_BLUE_BITS_ARB, 8),
                         (WGL_COLOR_BITS_ARB, 32)])) ∧
    (∀ glattrs, fmt_to_glattrs D3DFMT_D24S8 glattrs =
      (true, glattrs ++ [(WGL_DEPTH_BITS_ARB, 24), (WGL_STENCIL_BITS_ARB, 8)])) ∧
    (∀ fmt glattrs, (fmt_to_glattrs fmt glattrs).1 = false → (fmt_to_glattrs fmt glattrs).2 = glattrs) ∧
    ((params.BackBufferCount > 1 ∨
      params.Flags &&& D3DPRESENTFLAG_LOCKABLE_BACKBUFFER ≠ 0 ∨
      (params.BackBufferFormat ≠ D3DFMT_X8R8G8B8 ∧ params.BackBufferFormat ≠ D3DFMT_D24S8) ∨
      (params.EnableAutoDepthStencil = true ∧
        params.AutoDepthStencilFormat ≠ D3DFMT_X8R8G8B8 ∧
        params.AutoDepthStencilFormat ≠ D3DFMT_D24S8)) →
      D3DGLDevice.init P params w =
        (w, if params.BackBufferCount > 1 then { params with BackBufferCount := 1 } else params,
          false)) := by
  have hfmt : ∀ fmt glattrs, (fmt_to_glattrs fmt glattrs).1 = true ↔
      (fmt = D3DFMT_X8R8G8B8 ∨ fmt = D3DFMT_D24S8) := by
    intro fmt glattrs
    unfold fmt_to_glattrs
    split_ifs with h1 h2
    · simp [h1]
    · simp [h2]
    · simp [h1, h2]
  refine ⟨hfmt, ?_, ?_, ?_, ?_⟩
  · intro glattrs; rfl
  · intro glattrs; rfl
  · intro fmt glattrs h
    unfold fmt_to_glattrs at h ⊢
    split_ifs at h ⊢
    simp_all
  · intro h
    unfold D3DGLDevice.init
    by_cases h1 : params.BackBufferCount > 1
    · simp [h1]
    · simp only [h1, if_false]
      by_cases h2 : params.Flags &&& D3DPRESENTFLAG_LOCKABLE_BACKBUFFER ≠ 0
      · simp [h2]
      · simp only [h2, if_false]
        by_cases h3 : (fmt_to_glattrs params.BackBufferFormat
            [(WGL_DRAW_TO_WINDOW_ARB, GL_TRUE), (WGL_SUPPORT_OPENGL_ARB, GL_TRUE),
             (WGL_DOUBLE_BUFFER_ARB, GL_TRUE), (WGL_PIXEL_TYPE_ARB, WGL_TYPE_RGBA_ARB)]).1 = true
        · have h3' := (hfmt _ _).mp h3
          rcases h with h | h | h | ⟨he, ha1, ha2⟩
          · exact absurd h h1
          · exact absurd h h2
          · rcases h3' with h3' | h3'
            · exact absurd h3' h.1
            · exact absurd h3' h.2
          · have h4 : ∀ g, (fmt_to_glattrs params.AutoDepthStencilFormat g).1 = false := by
              intro g
              cases hb : (fmt_to_glattrs params.AutoDepthStencilFormat g).1 with
              | false => rfl
              | true =>
                  rcases (hfmt _ _).mp hb with h' | h'
                  · exact absurd h' ha1
                  · exact absurd h' ha2
            simp [h3, he, h4]
        · simp [h3]


/-- C26, at a concrete input: two back buffers are requested; an unknown back buffer
format is requested. -/
theorem C26_init_rejects_parameters_witness :
    D3DGLDevice.init samplePlatform { sampleParams with BackBufferCount := 2 } sampleWorld =
      (sampleWorld, sampleParams, false) ∧
    D3DGLDevice.init samplePlatform { sampleParams with BackBufferFormat := 0 } sampleWorld =
      (sampleWorld, { sampleParams with BackBufferFormat := 0 }, false) :=
  ⟨(C26_init_rejects_parameters samplePlatform { sampleParams with BackBufferCount := 2 }
      sampleWorld).2.2.2.2 (Or.inl (by decide)),
   (C26_init_rejects_parameters samplePlatform { sampleParams with BackBufferFormat := 0 }
      sampleWorld).2.2.2.2 (Or.inr (Or.inr (Or.inl ⟨by decide, by decide⟩)))⟩

/-! ## C28 -/

/-- C28: `init` on a live shader object.  When the upper 16 bits of the first token
are not `0xfffe`, it returns `false` and leaves the world as it was: the parser
is not called, no token is stored, nothing is submitted.  When the parser
reports an error, it returns `false` after the parse and the release of the
parse data and nothing else: the shader objects (so `mCode`) and the device
with its queue are as before, and nothing is submitted. -/
theorem C28_init_rejects_bytecode (S : Sizes) (P : Platform) (self : Nat) (data : List DWORD)
    (w : World) (this : D3DGLVertexShader) (first : DWORD) (rest : List DWORD)
    (hthis : w.shaders self = some this)
    (hdata : data = first :: rest) :
    (first >>> 16 ≠ 0xfffe → D3DGLVertexShader.init S P self data w = some (w, false)) ∧
    (first >>> 16 = 0xfffe → 0 < (P.MOJOSHADER_parse w.trace data).error_count →
      ∃ w', D3DGLVertexShader.init S P self data w = some (w', false) ∧
        w'.trace = w.trace ++ [.parse w.nextId, .freeParseData w.nextId] ∧
        w'.shaders = w.shaders ∧ w'.device = w.device ∧
        submitted w'.trace = submitted w.trace) := by
  subst hdata
  refine ⟨?_, ?_⟩
  · intro hversion
    exact init_not_vertex S P self w this first rest hthis hversion
  · intro hversion hparse
    refine ⟨_, init_parse_error S P self w this first rest hthis hversion hparse, rfl, rfl, rfl,
      ?_⟩
    simp [submitted_append, submitted]

/-- C28, at a concrete input: a pixel shader (`ps_3_0` version token) is given to `init`. -/
theorem C28_init_rejects_bytecode_witness :
    D3DGLVertexShader.init sampleSizes samplePlatform 0 [0xffff0300, 0x0000ffff] shaderWorld
      = some (shaderWorld, false) :=
  (C28_init_rejects_bytecode sampleSizes samplePlatform 0 [0xffff0300, 0x0000ffff] shaderWorld
    { mProgram := 0, mCode := [], mUsageMap := [] } 0xffff0300 [0x0000ffff] rfl rfl).1 (by decide)


/-! ## C25 -/

/-- No state is assigned twice in `GenerateDefaultRSValues`. -/
theorem defaultRSAssignments_nodup : (defaultRSAssignments.map Prod.fst).Nodup := by
  decide

/-- An array built by assignments to distinct indices holds, at each of them, the
value assigned. -/
theorem foldl_update_of_nodup (l : List (DWORD × DWORD)) :
    ∀ (init : Nat → DWORD), (l.map Prod.fst).Nodup →
      (∀ kv ∈ l, l.foldl (fun ret kv => Function.update ret kv.1 kv.2) init kv.1 = kv.2) ∧
      (∀ k, k ∉ l.map Prod.fst →
        l.foldl (fun ret kv => Function.update ret kv.1 kv.2) init k = init k) := by
  induction l with
  | nil =>
      intro init _
      exact ⟨(fun kv hkv => by cases hkv), fun _ _ => rfl⟩
  | cons a rest ih =>
      intro init hnd
      rw [List.map_cons, List.nodup_cons] at hnd
      obtain ⟨h1, h2⟩ := ih (Function.update init a.1 a.2) hnd.2
      refine ⟨?_, ?_⟩
      · intro kv hkv
        rcases List.mem_cons.mp hkv with h | h
        · subst h
          simp only [List.foldl_cons]
          rw [h2 _ hnd.1]
          simp
        · exact h1 kv h
      · intro k hk
        rw [List.map_cons, List.mem_cons, not_or] at hk
        simp only [List.foldl_cons]
        rw [h2 k hk.2]
        simp [Function.update_noteq hk.1]

/-- C25: `GetRenderState` returns `D3DERR_INVALIDCALL`, writing nothing, exactly when
the state is `210` or more; below `210` it returns `D3D_OK` and writes the
entry of the shadow table.  On a newly constructed device that entry is the
bit pattern of the adapter's `pointsize_max` for `D3DRS_POINTSIZE_MAX`, and for
any other state what `GenerateDefaultRSValues` left in its array; for each
state that function assigns, that is the value assigned. -/
theorem C25_GetRenderState (P : Platform) :
    (∀ (state : DWORD) (w : World),
      (D3DGLDevice.GetRenderState state w = (none, D3DERR_INVALIDCALL) ↔ 210 ≤ state) ∧
      ((D3DGLDevice.GetRenderState state w).2 = D3DERR_INVALIDCALL ↔ 210 ≤ state) ∧
      (state < 210 →
        D3DGLDevice.GetRenderState state w = (some (w.device.mRenderState state), D3D_OK))) ∧
    (∀ (adapter : D3DAdapter) (window : HWND) (flags : DWORD) (w : World) (state : DWORD),
      state < 210 →
      D3DGLDevice.GetRenderState state
          { w with device := D3DGLDevice.constructor P adapter window flags } =
        (some (if state = D3DRS_POINTSIZE_MAX then float_to_dword adapter.pointsize_max
               else GenerateDefaultRSValues P.uninitializedRS state), D3D_OK)) ∧
    (∀ kv ∈ defaultRSAssignments, kv.1 < 210 ∧
      GenerateDefaultRSValues P.uninitializedRS kv.1 = kv.2) := by
  refine ⟨?_, ?_, ?_⟩
  · intro state w
    unfold D3DGLDevice.GetRenderState
    by_cases h : state ≥ 210
    · simp [h, D3DERR_INVALIDCALL, D3D_OK]
    · simp [h, D3DERR_INVALIDCALL, D3D_OK]
  · intro adapter window flags w state hlt
    unfold D3DGLDevice.GetRenderState
    simp only [ge_iff_le, not_le.mpr hlt, if_false, D3DGLDevice.constructor, DefaultRSValues]
    by_cases hs : state = D3DRS_POINTSIZE_MAX
    · subst hs
      simp
    · simp [hs, Function.update_noteq hs]
  · intro kv hkv
    refine ⟨?_, (foldl_update_of_nodup defaultRSAssignments P.uninitializedRS
      defaultRSAssignments_nodup).1 kv hkv⟩
    revert kv
    decide


/-- C25, at a concrete input: on a new device the entry of `D3DRS_ZENABLE` is
`D3DZB_TRUE`, that of `D3DRS_POINTSIZE_MAX` is the adapter's limit, and the state
`210` is refused. -/
theorem C25_GetRenderState_witness :
    D3DGLDevice.GetRenderState D3DRS_ZENABLE sampleWorld = (some D3DZB_TRUE, D3D_OK) ∧
    D3DGLDevice.GetRenderState D3DRS_POINTSIZE_MAX sampleWorld = (some FLOAT_ONE, D3D_OK) ∧
    D3DGLDevice.GetRenderState 210 sampleWorld = (none, D3DERR_INVALIDCALL) := by
  have h := C25_GetRenderState samplePlatform
  refine ⟨?_, ?_, ?_⟩
  · exact (h.2.1 sampleAdapter 3 0 sampleWorld D3DRS_ZENABLE (by decide)).trans (by decide)
  · exact (h.2.1 sampleAdapter 3 0 sampleWorld D3DRS_POINTSIZE_MAX (by decide)).trans (by decide)
  · exact ((h.1 210 sampleWorld).1).mpr (by decide)


/-! ## C22 -/

/-- C22, as the claim states it, fails: a shader that holds program `7` and the last
reference to its device is destroyed.  Its destructor ends with `mParent->Release()`,
which destroys the device: the queue is drained, so that `glDeleteProgram(7)` is
called, the swap chain submits its own command, and `wglDeleteContext` is called. -/
theorem C22_counterexample : ¬ ReleaseIsSubmitted sampleSizes samplePlatform 0 lastWorld := by
  intro h
  have h1 := h { mProgram := 7, mCode := [], mUsageMap := [] } rfl
  revert h1
  decide

/-- C22, amended: the destructor of a live vertex shader whose program handle is `p`
submits one `DeinitVShaderCmd(p)` when `p` is not `0` and none when `p` is `0`, sets
`mProgram` to `0` and releases its reference to the device.  (1) While the device has
another reference, that is all: nothing else is added to the trace, no driver call is
made, and the handle is `0` afterwards.  (2) When the reference was the last one (the
pointers of the backlog being live), the destructor of the device runs inside the
destructor of the shader: after the submission the resources of the device are deleted,
their destructors submitting commands that are no `DeinitVShaderCmd`, `deinit()` drains
the queue, which executes the backlog, the `DeinitVShaderCmd` and these commands, and
`wglDeleteContext` is called when the context is not null; the handle is `0` afterwards
when no pending command points to the shader.  (3) The `execute()` of
`DeinitVShaderCmd(p)` makes one driver call, `glDeleteProgram(p)`. -/
theorem C22_release_is_submitted (S : Sizes) (P : Platform) (self : Nat) (w : World)
    (this : D3DGLVertexShader) (hthis : w.shaders self = some this) :
    (¬ LastReference w →
      ReleaseIsSubmitted S P self w ∧
      ∃ w', D3DGLVertexShader.destructorBody S P self w = some w' ∧
        w'.trace = w.trace ++
          (if this.mProgram ≠ 0 then [Event.send (.DeinitVShaderCmd this.mProgram)] else []) ∧
        driverCalls w'.trace = driverCalls w.trace ∧
        w'.device.mQueue.pending = w.device.mQueue.pending ++
          (if this.mProgram ≠ 0 then [Command.DeinitVShaderCmd this.mProgram] else []) ∧
        w'.shaders self = some { this with mProgram := 0 } ∧
        D3DGLVertexShader.destructor S P self w =
          some { w' with shaders := Function.update w'.shaders self none }) ∧
    (LastReference w → (∀ c ∈ w.device.mQueue.pending, c.live w) →
      ∃ w' drained, D3DGLVertexShader.destructorBody S P self w = some w' ∧
        w'.trace = w.trace ++
          (if this.mProgram ≠ 0 then [Event.send (.DeinitVShaderCmd this.mProgram)] else []) ++
          teardownEvents P w.device.mSwapchains w.device.mAutoDepthStencil ++
          [Event.queueDeinit] ++ drained ++
          (if w.device.mGLContext ≠ 0 then [Event.gl (.wglDeleteContext w.device.mGLContext)]
           else []) ∧
        (∀ e ∈ drained, e.isContextWork = true) ∧
        submitted w'.trace = submitted w.trace ++
          (if this.mProgram ≠ 0 then [Command.DeinitVShaderCmd this.mProgram] else []) ++
          teardownCommands P w.device.mSwapchains w.device.mAutoDepthStencil ∧
        (∀ q, Command.DeinitVShaderCmd q ∉
          teardownCommands P w.device.mSwapchains w.device.mAutoDepthStencil) ∧
        driverCalls w'.trace = driverCalls w.trace ++ driverCalls drained ++
          (if w.device.mGLContext ≠ 0 then [GLCall.wglDeleteContext w.device.mGLContext]
           else []) ∧
        (w.device.mQueue.state = .Running →
          executed drained = w.device.mQueue.pending ++
            (if this.mProgram ≠ 0 then [Command.DeinitVShaderCmd this.mProgram] else []) ++
            teardownCommands P w.device.mSwapchains w.device.mAutoDepthStencil ∧
          w'.device.mQueue.pending = []) ∧
        (w.device.mQueue.state ≠ .Running → drained = []) ∧
        ((∀ c ∈ w.device.mQueue.pending, ∀ s, c ≠ .CompileVShaderCmd self s) →
          w'.shaders self = some { this with mProgram := 0 }) ∧
        D3DGLVertexShader.destructor S P self w =
          some { w' with shaders := Function.update w'.shaders self none }) ∧
    (∀ (p : GLuint) (x : World), ∃ r,
      (Command.DeinitVShaderCmd p).execute S P x = some r ∧
      r.1.trace = x.trace ++ [Event.gl (.glDeleteProgram p)]) := by
  refine ⟨?_, ?_, ?_⟩
  · intro hother
    obtain ⟨w', hb, hd, htr, hdev, hsh, -, -⟩ :=
      destructorBody_other S P self w this hthis hother
    have hdc : driverCalls w'.trace = driverCalls w.trace := by
      rw [htr, driverCalls_append]
      by_cases hp : this.mProgram = 0 <;> simp [hp, driverCalls]
    have hsub : submitted w'.trace = submitted w.trace ++
        (if this.mProgram ≠ 0 then [Command.DeinitVShaderCmd this.mProgram] else []) := by
      rw [htr, submitted_append]
      by_cases hp : this.mProgram = 0 <;> simp [hp, submitted]
    have hself : w'.shaders self = some { this with mProgram := 0 } := by
      rw [hsh]
      simp
    refine ⟨?_, w', hb, htr, hdc, ?_, hself, hd⟩
    · intro this2 h2
      rw [hthis] at h2
      cases h2
      rw [hb]
      simp only [Option.map_some', hdc, hsub, hself]
    · rw [hdev]
  · intro hlast hlive
    obtain ⟨w', drained, hb, htr, hwork, hrun, hnot, hsh⟩ :=
      destructorBody_last S P self w this hthis hlast hlive
    have hres := teardownEvents_resourceWork P w.device.mSwapchains w.device.mAutoDepthStencil
    refine ⟨w', drained, hb, htr, hwork, ?_, ?_, ?_, ?_, hnot, hsh, ?_⟩
    · rw [htr]
      simp only [submitted_append, teardownEvents_submitted, contextWork_submitted drained hwork]
      by_cases hp : this.mProgram = 0 <;> by_cases hc : w.device.mGLContext = 0 <;>
        simp [hp, hc, submitted]
    · intro q hq
      obtain ⟨ts, hts⟩ :=
        teardownCommands_external P w.device.mSwapchains w.device.mAutoDepthStencil
      rw [hts] at hq
      obtain ⟨t, -, ht⟩ := List.mem_map.mp hq
      cases ht
    · rw [htr]
      simp only [driverCalls_append, (resourceWork_quiet _ hres).2.1]
      by_cases hp : this.mProgram = 0 <;> by_cases hc : w.device.mGLContext = 0 <;>
        simp [hp, hc, driverCalls]
    · intro hr
      exact ⟨(hrun hr).1, (hrun hr).2.1⟩
    · unfold D3DGLVertexShader.destructor
      rw [hb]
  · intro p x
    exact ⟨_, rfl, rfl⟩

/-- C22, at a concrete input: the destructor of a shader that holds program `7`, on a
device with another reference, and on a device whose last reference it holds. -/
theorem C22_release_is_submitted_witness :
    (∃ w', D3DGLVertexShader.destructorBody sampleSizes samplePlatform 0 heldWorld = some w' ∧
      w'.trace = [.send (.DeinitVShaderCmd 7)] ∧
      w'.shaders 0 = some { mProgram := 0, mCode := [], mUsageMap := [] }) ∧
    (∃ w' drained,
      D3DGLVertexShader.destructorBody sampleSizes samplePlatform 0 lastWorld = some w' ∧
      w'.trace = [.send (.DeinitVShaderCmd 7), .deleteSwapChain 4, .send (.External 1),
        .queueDeinit] ++ drained ++ [.gl (.wglDeleteContext 5)] ∧
      executed drained = [.DeinitVShaderCmd 7, .External 1]) := by
  refine ⟨?_, ?_⟩
  · obtain ⟨-, w', hb, htr, -, -, hs, -⟩ :=
      (C22_release_is_submitted sampleSizes samplePlatform 0 heldWorld
        { mProgram := 7, mCode := [], mUsageMap := [] } rfl).1
        (by unfold LastReference; decide)
    exact ⟨w', hb, htr, hs⟩
  · obtain ⟨w', drained, hb, htr, -, -, -, -, hex, -, -, -⟩ :=
      (C22_release_is_submitted sampleSizes samplePlatform 0 lastWorld
        { mProgram := 7, mCode := [], mUsageMap := [] } rfl).2.1 rfl
        (fun c hc => absurd hc (List.not_mem_nil c))
    exact ⟨w', drained, hb, htr, (hex rfl).1⟩


/-! ## C23 -/

theorem snoc_five (T : List Event) (a b c d e : Event) :
    ((((T ++ [a]) ++ [b]) ++ [c]) ++ [d]) ++ [e] = T ++ [a, b, c] ++ [d, e] := by
  simp

/-- When `initContext` succeeds, its last two calls are the creation of the context
and the release of the device context. -/
theorem initContext_tail (P : Platform) (params : D3DPRESENT_PARAMETERS)
    (glattrs : List (Int × Int)) (w : World) :
    ∀ win, (D3DGLDevice.initContext P params glattrs w).2 = some win →
      ∃ pre hdc, (D3DGLDevice.initContext P params glattrs w).1.trace = w.trace ++ pre ++
          [.wglCreateContextAttribsARB hdc
             (D3DGLDevice.initContext P params glattrs w).1.device.mGLContext,
           .ReleaseDC win hdc] ∧
        ∀ e ∈ pre, e.isWindowSetup = true := by
  generalize hr : D3DGLDevice.initContext P params glattrs w = r
  unfold D3DGLDevice.initContext at hr
  simp only [] at hr
  split_ifs at hr <;> subst hr <;> intro win h <;> first
    | (cases h; done)
    | (cases h
       simp only [emit_trace]
       refine ⟨_, _, snoc_five _ _ _ _ _ _, ?_⟩
       intro e he
       simp only [List.mem_cons, List.mem_singleton, List.not_mem_nil, or_false] at he
       rcases he with rfl | rfl | rfl <;> rfl)


theorem initContext_tail_eq (P : Platform) (params : D3DPRESENT_PARAMETERS)
    (glattrs : List (Int × Int)) (w w1 : World) (win : HWND)
    (h : D3DGLDevice.initContext P params glattrs w = (w1, some win)) :
    ∃ pre hdc, w1.trace = w.trace ++ pre ++
        [.wglCreateContextAttribsARB hdc w1.device.mGLContext, .ReleaseDC win hdc] ∧
      ∀ e ∈ pre, e.isWindowSetup = true := by
  have := initContext_tail P params glattrs w win
  rw [h] at this
  exact this rfl

/-- The calls `D3DGLDevice::init` makes, around `mQueue.init`: either it makes calls to
the window system only, or it creates a context that is not null, releases the
device context, calls `mQueue.init` with the window `win` and that context, and
goes on with the resources. -/
theorem init_queue_cases (P : Platform) (params : D3DPRESENT_PARAMETERS) (w : World) :
    (∃ new, (D3DGLDevice.init P params w).1.trace = w.trace ++ new ∧
      ∀ e ∈ new, e.isWindowSetup = true) ∨
    (∃ pre hdc ret post,
      (D3DGLDevice.init P params w).1.trace = w.trace ++ pre ++
        [.wglCreateContextAttribsARB hdc (D3DGLDevice.init P params w).1.device.mGLContext,
         .ReleaseDC (if params.Windowed = true ∧ params.hDeviceWindow = 0 then w.device.mWindow
                     else params.hDeviceWindow) hdc,
         .queueInit (if params.Windowed = true ∧ params.hDeviceWindow = 0 then w.device.mWindow
                     else params.hDeviceWindow)
           (D3DGLDevice.init P params w).1.device.mGLContext ret] ++ post ∧
      (∀ e ∈ pre, e.isWindowSetup = true) ∧
      (∀ e ∈ post, e.isResourceWork = true) ∧
      (D3DGLDevice.init P params w).1.device.mGLContext ≠ 0) := by
  generalize hr : D3DGLDevice.init P params w = r
  unfold D3DGLDevice.init at hr
  simp only [] at hr
  split_ifs at hr
  all_goals first
    | (subst hr
       exact Or.inl ⟨[], (List.append_nil _).symm, fun e he => absurd he (List.not_mem_nil e)⟩)
    | skip
  all_goals
    (split at hr
     · rename_i w1 heq
       subst hr
       obtain ⟨hext, -⟩ := initContext_spec P params _ w
       rw [heq] at hext
       obtain ⟨new, h1, h2⟩ := hext
       exact Or.inl ⟨new, h1, h2⟩
     · rename_i w1 win heq
       obtain ⟨-, -, -, -, -, -, hsome⟩ := initContext_spec P params _ w
       rw [heq] at hsome
       obtain ⟨hctx, hwin⟩ := hsome win rfl
       obtain ⟨pre, hdc, htr, hpre⟩ := initContext_tail_eq P params _ w w1 win heq
       simp only at hctx htr
       rw [← hwin]
       unfold CommandQueue.init at hr
       by_cases h5 : w1.device.mQueue.state = .Uninitialized ∧
           P.contextThreadStarts w1.trace win w1.device.mGLContext = true
       · rw [if_pos h5] at hr
         simp only [Bool.not_true, Bool.false_eq_true, if_false] at hr
         obtain ⟨hm, -⟩ := initResources_mGLContext P params win
           ((w1.setQueue { w1.device.mQueue with state := .Running }).emit
             (.queueInit win w1.device.mGLContext true))
         obtain ⟨post, hpost, hres⟩ := initResources_extends P params win
           ((w1.setQueue { w1.device.mQueue with state := .Running }).emit
             (.queueInit win w1.device.mGLContext true))
         subst hr
         refine Or.inr ⟨pre, hdc, true, post, ?_, hpre, hres, ?_⟩
         · simp only [hm]
           rw [hpost]
           simp only [emit_trace, setQueue_trace, htr, emit_device, World.setQueue,
             List.append_assoc, List.cons_append, List.nil_append]
         · simp only [hm]
           exact hctx
       · rw [if_neg h5] at hr
         simp only [Bool.not_false, if_true] at hr
         subst hr
         refine Or.inr ⟨pre, hdc, false, [], ?_, hpre, by simp, hctx⟩
         simp only [emit_trace, htr, emit_device, List.append_assoc, List.cons_append,
           List.nil_append, List.append_nil])


/-- C23, as stated, fails: for a full-screen device (`Windowed` is `FALSE`) with a null
`hDeviceWindow`, constructed with the focus window `3`, `mQueue.init` is called
with the null window, not with the focus window. -/
theorem C23_counterexample :
    ¬ QueueInitWithTargetWindow samplePlatform { sampleParams with Windowed := false }
        sampleWorld := by
  intro h
  have h1 := h 0 5 true (by decide)
  exact absurd h1.2 (by decide)

/-- C23, amended: `new` is what a call of `init` adds to the trace.  It holds at most
one call of `mQueue.init`.  Such a call comes right after the creation of a
context and the release of the device context; it is given that context, which
is not null and is the one left in `mGLContext`, and the window `win` of
`init`: the focus window `mWindow` when `Windowed` is set and `hDeviceWindow` is
null, and `hDeviceWindow` otherwise.  So the window is that of the
specification whenever `hDeviceWindow` is not null or `Windowed` is set. -/
theorem C23_queue_init_arguments (P : Platform) (params : D3DPRESENT_PARAMETERS) (w : World)
    (new : List Event)
    (htrace : (D3DGLDevice.init P params w).1.trace = w.trace ++ new) :
    new.countP Event.isQueueInit ≤ 1 ∧
    ∀ win ctx ret, Event.queueInit win ctx ret ∈ new →
      ctx ≠ 0 ∧ ctx = (D3DGLDevice.init P params w).1.device.mGLContext ∧
      win = (if params.Windowed = true ∧ params.hDeviceWindow = 0 then w.device.mWindow
             else params.hDeviceWindow) ∧
      (params.hDeviceWindow ≠ 0 ∨ params.Windowed = true → win = specTargetWindow params w) ∧
      ∃ pre hdc post,
        new = pre ++ [.wglCreateContextAttribsARB hdc ctx, .ReleaseDC win hdc,
                      .queueInit win ctx ret] ++ post ∧
        (∀ e ∈ pre, e.isWindowSetup = true) ∧ (∀ e ∈ post, e.isResourceWork = true) := by
  have hws : ∀ l : List Event, (∀ e ∈ l, e.isWindowSetup = true) →
      l.countP Event.isQueueInit = 0 ∧ ∀ win ctx ret, Event.queueInit win ctx ret ∉ l := by
    intro l hl
    refine ⟨List.countP_eq_zero.mpr ?_, ?_⟩
    · intro e he hq
      have := hl e he
      cases e <;> first
        | (simp [Event.isQueueInit] at hq; done)
        | simp [Event.isWindowSetup] at this
    · intro win ctx ret hm
      have := hl _ hm
      simp [Event.isWindowSetup] at this
  have hrw : ∀ l : List Event, (∀ e ∈ l, e.isResourceWork = true) →
      l.countP Event.isQueueInit = 0 ∧ ∀ win ctx ret, Event.queueInit win ctx ret ∉ l := by
    intro l hl
    refine ⟨List.countP_eq_zero.mpr ?_, ?_⟩
    · intro e he hq
      have := hl e he
      cases e <;> first
        | (simp [Event.isQueueInit] at hq; done)
        | simp [Event.isResourceWork] at this
    · intro win ctx ret hm
      have := hl _ hm
      simp [Event.isResourceWork] at this
  rcases init_queue_cases P params w with ⟨new', h1, h2⟩ | ⟨pre, hdc, ret', post, h1, hpre, hpost, hctx⟩
  · rw [h1] at htrace
    have := List.append_cancel_left htrace
    subst this
    exact ⟨by rw [(hws _ h2).1]; exact Nat.zero_le 1,
      fun win ctx ret hm => absurd hm ((hws _ h2).2 win ctx ret)⟩
  · rw [h1, List.append_assoc, List.append_assoc] at htrace
    have := List.append_cancel_left htrace
    subst this
    refine ⟨?_, ?_⟩
    · simp only [List.countP_append, (hws _ hpre).1, (hrw _ hpost).1]
      simp [List.countP_cons, Event.isQueueInit]
    · intro win ctx ret hm
      rcases List.mem_append.mp hm with hm | hm
      · exact absurd hm ((hws _ hpre).2 win ctx ret)
      · rcases List.mem_append.mp hm with hm | hm
        · simp only [List.mem_cons, List.mem_singleton, List.not_mem_nil, or_false,
            reduceCtorEq, false_or, Event.queueInit.injEq] at hm
          obtain ⟨rfl, rfl, rfl⟩ := hm
          refine ⟨hctx, rfl, rfl, ?_, pre, hdc, post, by simp, hpre, hpost⟩
          intro hcond
          unfold specTargetWindow
          by_cases hd : params.hDeviceWindow = 0
          · rcases hcond with hcond | hcond
            · exact absurd hd hcond
            · simp [hd, hcond]
          · simp [hd]
        · exact absurd hm ((hrw _ hpost).2 win ctx ret)

/-- C23, at a concrete input: a windowed device with a null `hDeviceWindow`, constructed
with the focus window `3`: `mQueue.init` is called once, with the window `3` and
the context `5`. -/
theorem C23_queue_init_arguments_witness :
    Event.queueInit 3 5 true ∈ (D3DGLDevice.init samplePlatform sampleParams sampleWorld).1.trace ∧
    (D3DGLDevice.init samplePlatform sampleParams sampleWorld).1.trace.countP Event.isQueueInit ≤ 1 ∧
    ∀ win ctx ret, Event.queueInit win ctx ret ∈
        (D3DGLDevice.init samplePlatform sampleParams sampleWorld).1.trace →
      ctx ≠ 0 ∧ win = 3 := by
  have h := C23_queue_init_arguments samplePlatform sampleParams sampleWorld
    (D3DGLDevice.init samplePlatform sampleParams sampleWorld).1.trace (by simp [sampleWorld])
  refine ⟨by decide, h.1, ?_⟩
  intro win ctx ret hm
  obtain ⟨h1, -, h3, -⟩ := h.2 win ctx ret hm
  exact ⟨h1, h3.trans (by decide)⟩



/-! ## C27 -/

/-- When the tail of `init` returns `true`, the new swap chain has been appended to the
list. -/
theorem initResources_swapchains (P : Platform) (params : D3DPRESENT_PARAMETERS) (win : HWND)
    (w : World) (h : (D3DGLDevice.initResources P params win w).2 = true) :
    (D3DGLDevice.initResources P params win w).1.device.mSwapchains =
      w.device.mSwapchains ++ [w.nextId] := by
  revert h
  unfold D3DGLDevice.initResources
  simp only []
  split
  · intro h
    cases h
  · split
    · split
      · intro h
        cases h
      · intro _
        rfl
    · intro _
      rfl

/-- When `D3DGLDevice::init` returns `true`, it has appended one swap chain to the list. -/
theorem init_swapchains (P : Platform) (params : D3DPRESENT_PARAMETERS) (w : World)
    (h : (D3DGLDevice.init P params w).2.2 = true) :
    (D3DGLDevice.init P params w).1.device.mSwapchains = w.device.mSwapchains ++ [w.nextId] := by
  revert h
  generalize hr : D3DGLDevice.init P params w = r
  unfold D3DGLDevice.init at hr
  simp only [] at hr
  split_ifs at hr
  all_goals first
    | (subst hr; intro h; cases h)
    | skip
  all_goals
    (split at hr
     · subst hr
       intro h
       cases h
     · rename_i w1 win heq
       obtain ⟨-, hdev, -, -, hid, -, -⟩ := initContext_spec P params _ w
       rw [heq] at hdev hid
       simp only at hdev hid
       unfold CommandQueue.init at hr
       by_cases h5 : w1.device.mQueue.state = .Uninitialized ∧
           P.contextThreadStarts w1.trace win w1.device.mGLContext = true
       · rw [if_pos h5] at hr
         simp only [Bool.not_true, Bool.false_eq_true, if_false] at hr
         subst hr
         intro h
         rw [initResources_swapchains P params win _ h]
         show w1.device.mSwapchains ++ [w1.nextId] = _
         rw [hid, hdev]
       · rw [if_neg h5] at hr
         simp only [Bool.not_false, if_true] at hr
         subst hr
         intro h
         cases h)

theorem lock_mSwapchains (w w' : World) (h : CommandQueue.lock w = some w') :
    w'.device.mSwapchains = w.device.mSwapchains := by
  rw [lock_device w w' h]; rfl

theorem unlock_mSwapchains (w w' : World) (h : CommandQueue.unlock w = some w') :
    w'.device.mSwapchains = w.device.mSwapchains := by
  rw [unlock_device w w' h]; rfl

theorem sendAndUnlock_mSwapchains (c : Command) (w w' : World)
    (h : CommandQueue.sendAndUnlock c w = some w') :
    w'.device.mSwapchains = w.device.mSwapchains := by
  unfold CommandQueue.sendAndUnlock at h
  rw [unlock_device _ _ h]; rfl

/-- No device call and no turn of the Context Thread changes the list of swap chains. -/
theorem apply_mSwapchains (S : Sizes) (P : Platform) (c : DeviceCall) (w : World) :
    ∀ w', c.apply S P w = some w' → w'.device.mSwapchains = w.device.mSwapchains := by
  cases c with
  | SetRenderState state value =>
      intro w' h
      simp only [DeviceCall.apply, D3DGLDevice.SetRenderState] at h
      split_ifs at h
      · cases hl : CommandQueue.lock w with
        | none => simp [hl] at h
        | some w1 =>
            simp only [hl] at h
            split at h
            · rename_i w2 hu
              simp only [Option.map_some', Option.some.injEq] at h
              subst h
              rw [sendAndUnlock_mSwapchains _ _ _ hu]
              exact lock_mSwapchains w w1 hl
            · simp at h
      · simp only [Option.map_some', Option.some.injEq] at h
        subst h
        rfl
  | GetRenderState state =>
      intro w' h
      simp only [DeviceCall.apply, Option.some.injEq] at h
      subst h
      rfl
  | SetMaterial material =>
      intro w' h
      simp only [DeviceCall.apply, D3DGLDevice.SetMaterial] at h
      cases hl : CommandQueue.lock w with
      | none => simp [hl] at h
      | some w1 =>
          simp only [hl] at h
          split at h
          · rename_i w2 hu
            simp only [Option.map_some', Option.some.injEq] at h
            subst h
            rw [sendAndUnlock_mSwapchains _ _ _ hu]
            exact lock_mSwapchains w w1 hl
          · simp at h
  | GetMaterial =>
      intro w' h
      simp only [DeviceCall.apply, D3DGLDevice.GetMaterial] at h
      cases hl : CommandQueue.lock w with
      | none => simp [hl] at h
      | some w1 =>
          simp only [hl] at h
          split at h
          · rename_i w2 hu
            simp only [Option.map_some', Option.some.injEq] at h
            subst h
            rw [unlock_mSwapchains _ _ hu]
            exact lock_mSwapchains w w1 hl
          · simp at h
  | BeginScene =>
      intro w' h
      simp only [DeviceCall.apply, Option.some.injEq] at h
      subst h
      rw [BeginScene_fst]
  | EndScene =>
      intro w' h
      simp only [DeviceCall.apply, Option.some.injEq] at h
      subst h
      rw [EndScene_fst]
  | contextThread =>
      intro w' h
      simp only [DeviceCall.apply, CommandQueue.runOne] at h
      split at h
      · cases h; rfl
      · rename_i c rest hp
        cases he : c.execute S P
            ((w.setQueue { w.device.mQueue with pending := rest }).emit (.execute c)) with
        | none => simp [he] at h
        | some r =>
            rw [he] at h
            simp only [Option.map_some', Option.some.injEq] at h
            subst h
            rw [execute_device S P c _ r he]
            rfl

/-- The method `CreateTexture` leaves the device object as it is. -/
theorem CreateTexture_device (P : Platform) (width height levels : UINT) (usage : DWORD)
    (format : D3DFORMAT) (pool : DWORD) (texture handle : Option Nat) (w : World) :
    (D3DGLDevice.CreateTexture P width height levels usage format pool texture handle w).1.device
      = w.device := by
  unfold D3DGLDevice.CreateTexture
  split_ifs
  · rfl
  · rfl
  · simp only []
    split
    · rfl
    · split_ifs <;> rfl

/-- An event added to the trace makes a different world. -/
theorem emit_ne (w : World) (e : Event) : w.emit e ≠ w := by
  intro h
  have := congrArg (fun x => x.trace.length) h
  simp [emit_trace] at this

/-- The four methods with an index, in terms of the length of the list. -/
theorem swapChainMethods_spec (P : Platform) (w : World) (swapchain : UINT) :
    (D3DGLDevice.GetNumberOfSwapChains w ≤ swapchain →
      D3DGLDevice.GetSwapChain swapchain w = some (none, D3DERR_INVALIDCALL) ∧
      D3DGLDevice.GetDisplayMode P swapchain w = some (w, D3DERR_INVALIDCALL) ∧
      (∀ backbuffer type,
        D3DGLDevice.GetBackBuffer P swapchain backbuffer type w = some (w, D3DERR_INVALIDCALL)) ∧
      D3DGLDevice.GetRasterStatus P swapchain w = some (w, D3DERR_INVALIDCALL)) ∧
    (swapchain < D3DGLDevice.GetNumberOfSwapChains w →
      ∃ schain, w.device.mSwapchains[swapchain]? = some schain ∧
        D3DGLDevice.GetSwapChain swapchain w = some (some schain, D3D_OK) ∧
        D3DGLDevice.GetDisplayMode P swapchain w =
          some (callSwapChain P schain .GetDisplayMode w) ∧
        (∀ backbuffer type,
          D3DGLDevice.GetBackBuffer P swapchain backbuffer type w =
            some (callSwapChain P schain (.GetBackBuffer backbuffer type) w)) ∧
        D3DGLDevice.GetRasterStatus P swapchain w =
          some (callSwapChain P schain .GetRasterStatus w)) := by
  refine ⟨?_, ?_⟩
  · intro h
    have h : swapchain ≥ w.device.mSwapchains.length := h
    refine ⟨?_, ?_, ?_, ?_⟩
    · unfold D3DGLDevice.GetSwapChain
      rw [if_pos h]
    · unfold D3DGLDevice.GetDisplayMode
      rw [if_pos h]
    · intro backbuffer type
      unfold D3DGLDevice.GetBackBuffer
      rw [if_pos h]
    · unfold D3DGLDevice.GetRasterStatus
      rw [if_pos h]
  · intro h
    have h : swapchain < w.device.mSwapchains.length := h
    have hn : ¬ swapchain ≥ w.device.mSwapchains.length := Nat.not_le.mpr h
    have hget : w.device.mSwapchains[swapchain]? = some (w.device.mSwapchains.get ⟨swapchain, h⟩) :=
      List.getElem?_eq_getElem h
    refine ⟨_, hget, ?_, ?_, ?_, ?_⟩
    · unfold D3DGLDevice.GetSwapChain
      rw [if_neg hn, hget]
    · unfold D3DGLDevice.GetDisplayMode
      rw [if_neg hn, hget]
    · intro backbuffer type
      unfold D3DGLDevice.GetBackBuffer
      rw [if_neg hn, hget]
    · unfold D3DGLDevice.GetRasterStatus
      rw [if_neg hn, hget]

/-- A call of a method of a swap chain leaves the device object as it is. -/
theorem callSwapChain_device (P : Platform) (schain : Nat) (method : SwapChainMethod)
    (w : World) : (callSwapChain P schain method w).1.device = w.device := rfl

/-- The methods that index the swap chains leave the device object as it is. -/
theorem swapChainMethods_device (P : Platform) (w : World) (r : World × HRESULT) :
    (∀ swapchain, D3DGLDevice.GetDisplayMode P swapchain w = some r → r.1.device = w.device) ∧
    (∀ swapchain backbuffer type,
      D3DGLDevice.GetBackBuffer P swapchain backbuffer type w = some r → r.1.device = w.device) ∧
    (∀ swapchain, D3DGLDevice.GetRasterStatus P swapchain w = some r → r.1.device = w.device) ∧
    (∀ dstWindowOverride,
      D3DGLDevice.Present P dstWindowOverride w = some r → r.1.device = w.device) := by
  refine ⟨?_, ?_, ?_, ?_⟩
  · intro swapchain h
    unfold D3DGLDevice.GetDisplayMode at h
    split_ifs at h
    · cases h; rfl
    · split at h
      · cases h; rfl
      · cases h
  · intro swapchain backbuffer type h
    unfold D3DGLDevice.GetBackBuffer at h
    split_ifs at h
    · cases h; rfl
    · split at h
      · cases h; rfl
      · cases h
  · intro swapchain h
    unfold D3DGLDevice.GetRasterStatus at h
    split_ifs at h
    · cases h; rfl
    · split at h
      · cases h; rfl
      · cases h
  · intro dstWindowOverride h
    unfold D3DGLDevice.Present at h
    split at h
    · cases h; rfl
    · cases h

/-- A reachable device has exactly the one swap chain that `init` made. -/
theorem reachable_swapchains (S : Sizes) (P : Platform) (w : World) (h : Reachable S P w) :
    ∃ schain, w.device.mSwapchains = [schain] := by
  induction h with
  | init adapter window flags params w hw hinit =>
      refine ⟨w.nextId, ?_⟩
      rw [init_swapchains P params w hinit, hw]
      rfl
  | call c w w' _ hc ih =>
      rw [apply_mSwapchains S P c w w' hc]
      exact ih
  | CreateTexture width height levels usage format pool texture handle w _ ih =>
      rw [CreateTexture_device]
      exact ih
  | GetDisplayMode swapchain w r _ hr ih =>
      rw [(swapChainMethods_device P w r).1 swapchain hr]
      exact ih
  | GetBackBuffer swapchain backbuffer type w r _ hr ih =>
      rw [(swapChainMethods_device P w r).2.1 swapchain backbuffer type hr]
      exact ih
  | GetRasterStatus swapchain w r _ hr ih =>
      rw [(swapChainMethods_device P w r).2.2.1 swapchain hr]
      exact ih
  | Present dstWindowOverride w r _ hr ih =>
      rw [(swapChainMethods_device P w r).2.2.2 dstWindowOverride hr]
      exact ih

/-- Before `init`, on the newly constructed device, the list of swap chains is empty
and `Present` reads `mSwapchains[0]` out of range: the methods are safe on reachable
devices only. -/
theorem Present_before_init : ¬ SwapChainAccessInRange samplePlatform sampleWorld := by
  intro h
  have h0 := h.2 0
  revert h0
  decide

/-- C27: on a reachable device `w` (`init` returned `true`, any calls followed), none of
`GetSwapChain`, `GetDisplayMode`, `GetBackBuffer`, `GetRasterStatus` and `Present` reads
`mSwapchains` out of range, whatever the arguments.  Each of the four methods with an
index returns `D3DERR_INVALIDCALL` without a call to a swap chain exactly when the index
is at least `GetNumberOfSwapChains()` (`GetSwapChain` then writes nothing); otherwise it
works on the swap chain at that index: `GetSwapChain` stores it and returns `D3D_OK`,
the other three call the method of that swap chain and return its result, so that
their result is `D3DERR_INVALIDCALL` exactly when the index is out of range or that is
the swap chain's own answer.  `Present` calls `Present` of swap chain 0, the only one,
with flags 0 and returns its result. -/
theorem C27_swap_chain_indexing (S : Sizes) (P : Platform) (w : World)
    (hreach : Reachable S P w) :
    SwapChainAccessInRange P w ∧
    (∀ swapchain : UINT,
      ((∃ out, D3DGLDevice.GetSwapChain swapchain w = some (out, D3DERR_INVALIDCALL)) ↔
        D3DGLDevice.GetNumberOfSwapChains w ≤ swapchain) ∧
      (D3DGLDevice.GetNumberOfSwapChains w ≤ swapchain →
        D3DGLDevice.GetSwapChain swapchain w = some (none, D3DERR_INVALIDCALL)) ∧
      (D3DGLDevice.GetDisplayMode P swapchain w = some (w, D3DERR_INVALIDCALL) ↔
        D3DGLDevice.GetNumberOfSwapChains w ≤ swapchain) ∧
      (∀ backbuffer type,
        D3DGLDevice.GetBackBuffer P swapchain backbuffer type w = some (w, D3DERR_INVALIDCALL) ↔
          D3DGLDevice.GetNumberOfSwapChains w ≤ swapchain) ∧
      (D3DGLDevice.GetRasterStatus P swapchain w = some (w, D3DERR_INVALIDCALL) ↔
        D3DGLDevice.GetNumberOfSwapChains w ≤ swapchain)) ∧
    (∀ swapchain : UINT, swapchain < D3DGLDevice.GetNumberOfSwapChains w →
      ∃ schain, w.device.mSwapchains[swapchain]? = some schain ∧
        D3DGLDevice.GetSwapChain swapchain w = some (some schain, D3D_OK) ∧
        D3DGLDevice.GetDisplayMode P swapchain w =
          some (w.emit (.swapChainCall schain .GetDisplayMode
                  (P.swapChainMethod w.trace schain .GetDisplayMode)),
                P.swapChainMethod w.trace schain .GetDisplayMode) ∧
        (∀ backbuffer type,
          D3DGLDevice.GetBackBuffer P swapchain backbuffer type w =
            some (w.emit (.swapChainCall schain (.GetBackBuffer backbuffer type)
                    (P.swapChainMethod w.trace schain (.GetBackBuffer backbuffer type))),
                  P.swapChainMethod w.trace schain (.GetBackBuffer backbuffer type))) ∧
        D3DGLDevice.GetRasterStatus P swapchain w =
          some (w.emit (.swapChainCall schain .GetRasterStatus
                  (P.swapChainMethod w.trace schain .GetRasterStatus)),
                P.swapChainMethod w.trace schain .GetRasterStatus)) ∧
    (∀ (swapchain : UINT) (r : World × HRESULT),
      (D3DGLDevice.GetDisplayMode P swapchain w = some r →
        (r.2 = D3DERR_INVALIDCALL ↔ D3DGLDevice.GetNumberOfSwapChains w ≤ swapchain ∨
          ∃ schain, w.device.mSwapchains[swapchain]? = some schain ∧
            P.swapChainMethod w.trace schain .GetDisplayMode = D3DERR_INVALIDCALL)) ∧
      (∀ backbuffer type, D3DGLDevice.GetBackBuffer P swapchain backbuffer type w = some r →
        (r.2 = D3DERR_INVALIDCALL ↔ D3DGLDevice.GetNumberOfSwapChains w ≤ swapchain ∨
          ∃ schain, w.device.mSwapchains[swapchain]? = some schain ∧
            P.swapChainMethod w.trace schain (.GetBackBuffer backbuffer type)
              = D3DERR_INVALIDCALL)) ∧
      (D3DGLDevice.GetRasterStatus P swapchain w = some r →
        (r.2 = D3DERR_INVALIDCALL ↔ D3DGLDevice.GetNumberOfSwapChains w ≤ swapchain ∨
          ∃ schain, w.device.mSwapchains[swapchain]? = some schain ∧
            P.swapChainMethod w.trace schain .GetRasterStatus = D3DERR_INVALIDCALL))) ∧
    (∃ schain, w.device.mSwapchains = [schain] ∧
      D3DGLDevice.GetNumberOfSwapChains w = 1 ∧
      ∀ dstWindowOverride,
        D3DGLDevice.Present P dstWindowOverride w =
          some (w.emit (.swapChainCall schain (.Present dstWindowOverride 0)
                  (P.swapChainMethod w.trace schain (.Present dstWindowOverride 0))),
                P.swapChainMethod w.trace schain (.Present dstWindowOverride 0))) := by
  obtain ⟨schain, hs⟩ := reachable_swapchains S P w hreach
  have hpresent : ∀ dstWindowOverride,
      D3DGLDevice.Present P dstWindowOverride w =
        some (callSwapChain P schain (.Present dstWindowOverride 0) w) := by
    intro dstWindowOverride
    unfold D3DGLDevice.Present
    rw [hs, List.getElem?_cons_zero]
  refine ⟨⟨?_, ?_⟩, ?_, ?_, ?_, ⟨schain, hs, ?_, hpresent⟩⟩
  · intro swapchain
    rcases Nat.lt_or_ge swapchain (D3DGLDevice.GetNumberOfSwapChains w) with h | h
    · obtain ⟨sc, -, h1, h2, h3, h4⟩ := (swapChainMethods_spec P w swapchain).2 h
      refine ⟨?_, ?_, ?_, ?_⟩
      · rw [h1]; rfl
      · rw [h2]; rfl
      · intro backbuffer type
        rw [h3]; rfl
      · rw [h4]; rfl
    · obtain ⟨h1, h2, h3, h4⟩ := (swapChainMethods_spec P w swapchain).1 h
      refine ⟨?_, ?_, ?_, ?_⟩
      · rw [h1]; rfl
      · rw [h2]; rfl
      · intro backbuffer type
        rw [h3]; rfl
      · rw [h4]; rfl
  · intro dstWindowOverride
    rw [hpresent]
    rfl
  · intro swapchain
    rcases Nat.lt_or_ge swapchain (D3DGLDevice.GetNumberOfSwapChains w) with h | h
    · obtain ⟨sc, -, h1, h2, h3, h4⟩ := (swapChainMethods_spec P w swapchain).2 h
      have hn : ¬ D3DGLDevice.GetNumberOfSwapChains w ≤ swapchain := Nat.not_le.mpr h
      refine ⟨?_, fun hc => absurd hc hn, ?_, ?_, ?_⟩
      · rw [h1]
        constructor
        · rintro ⟨out, ho⟩
          cases ho
        · intro hc
          exact absurd hc hn
      · rw [h2]
        constructor
        · intro hc
          exact absurd (congrArg Prod.fst (Option.some.inj hc)) (emit_ne w _)
        · intro hc
          exact absurd hc hn
      · intro backbuffer type
        rw [h3]
        constructor
        · intro hc
          exact absurd (congrArg Prod.fst (Option.some.inj hc)) (emit_ne w _)
        · intro hc
          exact absurd hc hn
      · rw [h4]
        constructor
        · intro hc
          exact absurd (congrArg Prod.fst (Option.some.inj hc)) (emit_ne w _)
        · intro hc
          exact absurd hc hn
    · obtain ⟨h1, h2, h3, h4⟩ := (swapChainMethods_spec P w swapchain).1 h
      exact ⟨⟨fun _ => h, fun _ => ⟨none, h1⟩⟩, fun _ => h1, ⟨fun _ => h, fun _ => h2⟩,
        fun backbuffer type => ⟨fun _ => h, fun _ => h3 backbuffer type⟩,
        ⟨fun _ => h, fun _ => h4⟩⟩
  · intro swapchain h
    obtain ⟨sc, hget, h1, h2, h3, h4⟩ := (swapChainMethods_spec P w swapchain).2 h
    exact ⟨sc, hget, h1, h2, h3, h4⟩
  · intro swapchain r
    rcases Nat.lt_or_ge swapchain (D3DGLDevice.GetNumberOfSwapChains w) with h | h
    · obtain ⟨sc, hget, -, h2, h3, h4⟩ := (swapChainMethods_spec P w swapchain).2 h
      have hn : ¬ D3DGLDevice.GetNumberOfSwapChains w ≤ swapchain := Nat.not_le.mpr h
      refine ⟨?_, ?_, ?_⟩
      · intro hr
        rw [h2] at hr
        cases hr
        constructor
        · intro hc
          exact Or.inr ⟨sc, hget, hc⟩
        · rintro (hc | ⟨sc2, hg2, hc⟩)
          · exact absurd hc hn
          · rw [hget] at hg2
            cases hg2
            exact hc
      · intro backbuffer type hr
        rw [h3] at hr
        cases hr
        constructor
        · intro hc
          exact Or.inr ⟨sc, hget, hc⟩
        · rintro (hc | ⟨sc2, hg2, hc⟩)
          · exact absurd hc hn
          · rw [hget] at hg2
            cases hg2
            exact hc
      · intro hr
        rw [h4] at hr
        cases hr
        constructor
        · intro hc
          exact Or.inr ⟨sc, hget, hc⟩
        · rintro (hc | ⟨sc2, hg2, hc⟩)
          · exact absurd hc hn
          · rw [hget] at hg2
            cases hg2
            exact hc
    · obtain ⟨-, h2, h3, h4⟩ := (swapChainMethods_spec P w swapchain).1 h
      refine ⟨?_, ?_, ?_⟩
      · intro hr
        rw [h2] at hr
        cases hr
        exact ⟨fun _ => Or.inl h, fun _ => rfl⟩
      · intro backbuffer type hr
        rw [h3] at hr
        cases hr
        exact ⟨fun _ => Or.inl h, fun _ => rfl⟩
      · intro hr
        rw [h4] at hr
        cases hr
        exact ⟨fun _ => Or.inl h, fun _ => rfl⟩
  · unfold D3DGLDevice.GetNumberOfSwapChains
    rw [hs]
    rfl

/-- C27 at the sample device after a successful `init`: it is reachable, and no method
reads the list of swap chains out of range. -/
theorem C27_swap_chain_indexing_witness :
    Reachable sampleSizes samplePlatform
      (D3DGLDevice.init samplePlatform sampleParams sampleWorld).1 ∧
    SwapChainAccessInRange samplePlatform
      (D3DGLDevice.init samplePlatform sampleParams sampleWorld).1 :=
  ⟨Reachable.init sampleAdapter 3 0 sampleParams sampleWorld rfl (by decide),
   (C27_swap_chain_indexing sampleSizes samplePlatform
      (D3DGLDevice.init samplePlatform sampleParams sampleWorld).1
      (Reachable.init sampleAdapter 3 0 sampleParams sampleWorld rfl (by decide))).1⟩


/-! ## C29 -/

/-- After one `init(data)` on a newly constructed shader that parsed to `n` tokens, the
stored code is the first `n` tokens of `data`, and `GetFunction` reports them, with
the size `4 * n` as a `UINT`. -/
theorem init_then_GetFunction (S : Sizes) (P : Platform) (self : Nat) (w : World)
    (this : D3DGLVertexShader) (first : DWORD) (rest : List DWORD)
    (hthis : w.shaders self = some this) (hfresh : this.mCode = [])
    (hversion : first >>> 16 = 0xfffe)
    (hparse : (P.MOJOSHADER_parse w.trace (first :: rest)).error_count ≤ 0)
    (htokens : (P.MOJOSHADER_parse w.trace (first :: rest)).token_count ≤ (first :: rest).length)
    (hrun : w.device.mQueue.state = .Running)
    (hlive : ∀ c ∈ w.device.mQueue.pending, c.live w) :
    ∃ w' ok stored,
      D3DGLVertexShader.init S P self (first :: rest) w = some (w', ok) ∧
      w'.shaders self = some stored ∧
      stored.mCode =
        (first :: rest).take (P.MOJOSHADER_parse w.trace (first :: rest)).token_count ∧
      stored.mCode.length = (P.MOJOSHADER_parse w.trace (first :: rest)).token_count ∧
      D3DGLVertexShader.GetFunction self true w' =
        some (w',
          some ((first :: rest).take (P.MOJOSHADER_parse w.trace (first :: rest)).token_count),
          (4 * (P.MOJOSHADER_parse w.trace (first :: rest)).token_count) % 2 ^ 32, D3D_OK) ∧
      D3DGLVertexShader.GetFunction self false w' =
        some (w', none,
          (4 * (P.MOJOSHADER_parse w.trace (first :: rest)).token_count) % 2 ^ 32, D3D_OK) ∧
      (4 * (P.MOJOSHADER_parse w.trace (first :: rest)).token_count < 2 ^ 32 →
        ∀ data, (D3DGLVertexShader.GetFunction self data w').map (fun r => r.2.2.1) =
          some (4 * (P.MOJOSHADER_parse w.trace (first :: rest)).token_count)) := by
  obtain ⟨w', backlog, before, hinit, -, -, -, hsh, -, -, -, -, hcode⟩ :=
    init_compiles S P self w this first rest hthis hversion hparse htokens hrun hlive
  have hstored := (compileShaderGL_trace P before (P.MOJOSHADER_parse w.trace (first :: rest))
    (w.trace ++ [.parse w.nextId, .send (.CompileVShaderCmd self w.nextId)] ++ backlog ++
      [.execute (.CompileVShaderCmd self w.nextId)])).2
  rw [hcode, hfresh, List.nil_append] at hstored
  have hlen : ((first :: rest).take
      (P.MOJOSHADER_parse w.trace (first :: rest)).token_count).length =
      (P.MOJOSHADER_parse w.trace (first :: rest)).token_count := by
    rw [List.length_take]
    exact Nat.min_eq_left htokens
  have hmul : (P.MOJOSHADER_parse w.trace (first :: rest)).token_count * 4 =
      4 * (P.MOJOSHADER_parse w.trace (first :: rest)).token_count := Nat.mul_comm _ _
  refine ⟨w', _, _, hinit, hsh, hstored, ?_, ?_, ?_, ?_⟩
  · rw [hstored, hlen]
  · unfold D3DGLVertexShader.GetFunction
    rw [hsh]
    simp only [hstored, hlen, hmul, if_true]
  · unfold D3DGLVertexShader.GetFunction
    rw [hsh]
    simp only [hstored, hlen, hmul]
    rfl
  · intro hsmall data
    unfold D3DGLVertexShader.GetFunction
    rw [hsh]
    simp only [hstored, hlen, hmul, Option.map_some', Nat.mod_eq_of_lt hsmall]

/-- C29, as the claim states it, fails: `GetFunction` writes the size to a `UINT`.  After
`init` on a shader of `2^30` tokens the size reported is 0, not `4 * 2^30`. -/
theorem C29_counterexample :
    ¬ ReportsFourTimesTokens sampleSizes hugePlatform 0 hugeData shaderWorld := by
  intro h
  have hlen : (hugePlatform.MOJOSHADER_parse shaderWorld.trace hugeData).token_count ≤
      hugeData.length := by
    show 2 ^ 30 ≤ (0xfffe0300 :: List.replicate (2 ^ 30 - 1) 0).length
    rw [List.length_cons, List.length_replicate]
    decide
  obtain ⟨w', ok, stored, hinit, -, -, -, hgf, -, -⟩ :=
    init_then_GetFunction sampleSizes hugePlatform 0 shaderWorld
      { mProgram := 0, mCode := [], mUsageMap := [] } 0xfffe0300 (List.replicate (2 ^ 30 - 1) 0)
      rfl rfl (by decide) (by decide) hlen rfl (fun c hc => absurd hc (List.not_mem_nil c))
  have h1 := h w' ok hinit true
  rw [hgf] at h1
  have hn : (hugePlatform.MOJOSHADER_parse shaderWorld.trace hugeData).token_count = 2 ^ 30 :=
    rfl
  have hn2 : (hugePlatform.MOJOSHADER_parse shaderWorld.trace
      (0xfffe0300 :: List.replicate (2 ^ 30 - 1) 0)).token_count = 2 ^ 30 := rfl
  simp only [Option.map_some', hn, hn2, Option.some.injEq] at h1
  exact absurd h1 (by decide)

/-- C29, amended: let `init(data)` be called once on a newly constructed shader (`mCode`
empty), with a running queue, `data` carrying the version of a vertex shader and
parsing without an error to `n` tokens, all of them readable.  Then `init` returns,
with the first `n` tokens of `data` stored in their order; `GetFunction` with a buffer
copies exactly these tokens, and without a buffer writes nothing but the size; the
size written is `4 * n` truncated to the `UINT` it is written to, `(4 * n) mod 2^32`,
which is `4 * n` when that is below `2^32`.  On any shader, `GetFunction` returns
`D3D_OK` and leaves the world, the stored code with it, as it was. -/
theorem C29_bytecode_round_trip (S : Sizes) (P : Platform) (self : Nat) (w : World)
    (this : D3DGLVertexShader) (first : DWORD) (rest : List DWORD)
    (hthis : w.shaders self = some this) (hfresh : this.mCode = [])
    (hversion : first >>> 16 = 0xfffe)
    (hparse : (P.MOJOSHADER_parse w.trace (first :: rest)).error_count ≤ 0)
    (htokens : (P.MOJOSHADER_parse w.trace (first :: rest)).token_count ≤ (first :: rest).length)
    (hrun : w.device.mQueue.state = .Running)
    (hlive : ∀ c ∈ w.device.mQueue.pending, c.live w) :
    (∃ w' ok stored,
      D3DGLVertexShader.init S P self (first :: rest) w = some (w', ok) ∧
      w'.shaders self = some stored ∧
      stored.mCode =
        (first :: rest).take (P.MOJOSHADER_parse w.trace (first :: rest)).token_count ∧
      stored.mCode.length = (P.MOJOSHADER_parse w.trace (first :: rest)).token_count ∧
      D3DGLVertexShader.GetFunction self true w' =
        some (w',
          some ((first :: rest).take (P.MOJOSHADER_parse w.trace (first :: rest)).token_count),
          (4 * (P.MOJOSHADER_parse w.trace (first :: rest)).token_count) % 2 ^ 32, D3D_OK) ∧
      D3DGLVertexShader.GetFunction self false w' =
        some (w', none,
          (4 * (P.MOJOSHADER_parse w.trace (first :: rest)).token_count) % 2 ^ 32, D3D_OK) ∧
      (4 * (P.MOJOSHADER_parse w.trace (first :: rest)).token_count < 2 ^ 32 →
        ∀ data, (D3DGLVertexShader.GetFunction self data w').map (fun r => r.2.2.1) =
          some (4 * (P.MOJOSHADER_parse w.trace (first :: rest)).token_count))) ∧
    (∀ (x : World) (a : Nat) (data : Bool),
      ((D3DGLVertexShader.GetFunction a data x).isSome = (x.shaders a).isSome) ∧
      ∀ r, D3DGLVertexShader.GetFunction a data x = some r →
        r.1 = x ∧ r.2.2.2 = D3D_OK ∧ (data = false → r.2.1 = none) ∧
        (data = true → r.2.1 = (x.shaders a).map (fun sh => sh.mCode))) :=
  ⟨init_then_GetFunction S P self w this first rest hthis hfresh hversion hparse htokens hrun
      hlive, by
    intro x a data
    unfold D3DGLVertexShader.GetFunction
    cases hx : x.shaders a with
    | none =>
        refine ⟨rfl, ?_⟩
        intro r hr
        cases hr
    | some sh =>
        refine ⟨rfl, ?_⟩
        intro r hr
        simp only [Option.some.injEq] at hr
        subst hr
        refine ⟨rfl, rfl, ?_, ?_⟩
        · intro hd
          simp [hd]
        · intro hd
          simp [hd]⟩

/-- C29 on a shader of two tokens: `GetFunction` reports 8 bytes and copies both. -/
theorem C29_bytecode_round_trip_witness :
    ∃ w' ok,
      D3DGLVertexShader.init sampleSizes samplePlatform 0 [0xfffe0300, 0x0000ffff] shaderWorld
        = some (w', ok) ∧
      D3DGLVertexShader.GetFunction 0 true w' =
        some (w', some [0xfffe0300, 0x0000ffff], 8, D3D_OK) ∧
      D3DGLVertexShader.GetFunction 0 false w' = some (w', none, 8, D3D_OK) := by
  obtain ⟨w', ok, stored, hinit, -, -, -, h1, h2, -⟩ :=
    (C29_bytecode_round_trip sampleSizes samplePlatform 0 shaderWorld
      { mProgram := 0, mCode := [], mUsageMap := [] } 0xfffe0300 [0x0000ffff] rfl rfl
      (by decide) (by decide) (by decide) rfl
      (fun c hc => absurd hc (List.not_mem_nil c))).1
  exact ⟨w', ok, hinit, h1, h2⟩


/-! ## C7 -/

/-- C7, as stated, fails: a `CompileVShaderCmd` holds two pointers, and what its
`execute()` does depends on what they point to when it runs.  Here the same
command, in two worlds that differ only in the parse data at address `0`, makes
different driver calls. -/
theorem C7_counterexample :
    ¬ (CompileVShaderCmd.new 0 0).selfContained sampleSizes samplePlatform := by
  intro h
  have h1 := h { shaderWorld with parseData := fun _ => some sampleParseData }
    (fun _ => some { mProgram := 0, mCode := [], mUsageMap := [] })
    (fun _ => some { sampleParseData with output := "" })
  revert h1
  decide

/-- C7, amended: `StateEnable`, `MaterialSet` and `DeinitVShaderCmd` hold only
values; what their `execute()` does is independent of the memory of the
producers.  `CompileVShaderCmd` holds two pointers and copies nothing: its
`execute()` is defined exactly when both point to live objects, and depends on
the memory of the producers through these two objects only.  `D3DGLVertexShader::init`
constructs it with `this` and the parse data it has just obtained and submits it with
`sendSync`: when `init` returns, on a running queue whose backlog has live pointers,
the `execute()` has run, after the backlog; the parse data is freed after that, as
the last step; nothing is pending and the shader is alive. -/
theorem C7_payloads (S : Sizes) (P : Platform) :
    (∀ mState mEnable, (Command.StateEnable mState mEnable).selfContained S P) ∧
    (∀ mShininess mDiffuse mAmbient mSpecular mEmission,
      (Command.MaterialSet mShininess mDiffuse mAmbient mSpecular mEmission).selfContained S P) ∧
    (∀ mProgram, (Command.DeinitVShaderCmd mProgram).selfContained S P) ∧
    (∀ mTarget mShader (w : World),
      ((Command.CompileVShaderCmd mTarget mShader).execute S P w).isSome = true ↔
        ((w.shaders mTarget).isSome = true ∧ (w.parseData mShader).isSome = true)) ∧
    (∀ mTarget mShader (w w' : World), w'.trace = w.trace →
      w'.shaders mTarget = w.shaders mTarget → w'.parseData mShader = w.parseData mShader →
      ((Command.CompileVShaderCmd mTarget mShader).execute S P w').map
          (fun r => (r.1.trace, r.2, r.1.shaders mTarget))
        = ((Command.CompileVShaderCmd mTarget mShader).execute S P w).map
          (fun r => (r.1.trace, r.2, r.1.shaders mTarget))) ∧
    (∀ (self : Nat) (w : World) (this : D3DGLVertexShader) (first : DWORD) (rest : List DWORD),
      w.shaders self = some this → first >>> 16 = 0xfffe →
      (P.MOJOSHADER_parse w.trace (first :: rest)).error_count ≤ 0 →
      (P.MOJOSHADER_parse w.trace (first :: rest)).token_count ≤ (first :: rest).length →
      w.device.mQueue.state = .Running →
      (∀ c ∈ w.device.mQueue.pending, c.live w) →
      ∃ w' ok backlog driver,
        D3DGLVertexShader.init S P self (first :: rest) w = some (w', ok) ∧
        w'.trace = w.trace ++
          [Event.parse w.nextId, Event.send (.CompileVShaderCmd self w.nextId)] ++ backlog ++
          [Event.execute (.CompileVShaderCmd self w.nextId)] ++ driver ++
          [Event.freeParseData w.nextId] ∧
        executed backlog = w.device.mQueue.pending ∧
        (∀ e ∈ backlog, e.isContextWork = true) ∧
        executed driver = [] ∧ (∀ e ∈ driver, e.isContextWork = true) ∧
        w'.device.mQueue.pending = [] ∧
        (w'.shaders self).isSome = true ∧ w'.parseData w.nextId = none) := by
  refine ⟨?_, ?_, ?_, ?_, ?_, ?_⟩
  · intro s e w sh pd
    cases e <;> rfl
  · intro a b c d e w sh pd
    rfl
  · intro p w sh pd
    rfl
  · intro t s w
    cases ht : w.shaders t <;> cases hs : w.parseData s <;> simp [Command.execute, ht, hs]
  · intro t s w w' htr ht hs
    cases h1 : w.shaders t <;> cases h2 : w.parseData s <;>
      simp [Command.execute, ht, hs, h1, h2, htr]
  · intro self w this first rest hthis hversion hparse htokens hrun hlive
    obtain ⟨w', backlog, before, hinit, hex, hwork, htr, hsh, -, hpd, -, hdev, -⟩ :=
      init_compiles S P self w this first rest hthis hversion hparse htokens hrun hlive
    obtain ⟨driver, hdriver, hexd, hworkd⟩ := (compileShaderGL_trace P before
      (P.MOJOSHADER_parse w.trace (first :: rest))
      (w.trace ++ [.parse w.nextId, .send (.CompileVShaderCmd self w.nextId)] ++ backlog ++
        [.execute (.CompileVShaderCmd self w.nextId)])).1
    refine ⟨w', _, backlog, driver, hinit, ?_, hex, hwork, hexd, hworkd, ?_, ?_, ?_⟩
    · rw [htr, hdriver]
    · rw [hdev]
    · rw [hsh]
      rfl
    · rw [hpd]
      simp

/-- C7, at a concrete input: `init` on a shader of two tokens, with a driver that creates
and links the program: the command is executed before the parse data is freed. -/
theorem C7_payloads_witness :
    ∃ w' ok backlog driver,
      D3DGLVertexShader.init sampleSizes samplePlatform 0 [0xfffe0300, 0x0000ffff] shaderWorld
        = some (w', ok) ∧
      w'.trace = [Event.parse 1, Event.send (.CompileVShaderCmd 0 1)] ++ backlog ++
        [Event.execute (.CompileVShaderCmd 0 1)] ++ driver ++ [Event.freeParseData 1] ∧
      w'.parseData 1 = none := by
  obtain ⟨w', ok, backlog, driver, hinit, htr, -, -, -, -, -, -, hpd⟩ :=
    (C7_payloads sampleSizes samplePlatform).2.2.2.2.2 0 shaderWorld
      { mProgram := 0, mCode := [], mUsageMap := [] } 0xfffe0300 [0x0000ffff] rfl
      (by decide) (by decide) (by decide) rfl (fun c hc => absurd hc (List.not_mem_nil c))
  exact ⟨w', ok, backlog, driver, hinit, by simpa using htr, hpd⟩



end D3DGL
